import Mathlib

/-!
OmniCapture: a shallow embedding of the capture core.

The definitions below follow the C++ sources of the OmniCapture plugin
(`OmniCaptureTypes.h`, `OmniCaptureEquirectConverter.cpp`, `OmniCaptureMuxer.cpp`,
`OmniCaptureNVENCEncoder.cpp`, `OmniCaptureSubsystem.cpp`).

Conventions of the embedding

* `int32` values are `Int`; products the source computes in `int32` go through
  `mulI32`, which wraps to the two's-complement range.
* `double`/`float` values are `ℚ`: the arithmetic is exact, rounding is outside the model.
  The one store of a `double` in a `float` that is read back as a result (`OutLatitude`)
  goes through the engine operation `ToFloat`, the identity in exact arithmetic.
* Engine objects (render targets, pooled textures, fences) are handles; what an engine
  call returned is an explicit input of the function that makes the call.
* A nullable pointer is an `Option`.
-/

namespace OmniCapture

/-! ## Machine integers -/

/-- Largest `int32`. -/
def maxI32 : Int := 2147483647

/-- Two's-complement wrap of an integer to the `int32` range. -/
def wrapI32 (x : Int) : Int := (x + 2147483648) % 4294967296 - 2147483648

/-- The `int32` product. -/
def mulI32 (a b : Int) : Int := wrapI32 (a * b)

/-! ## OmniCaptureTypes.h -/

inductive EOmniCaptureMode where
  | Mono
  | Stereo
  deriving DecidableEq, Repr

inductive EOmniCaptureStereoLayout where
  | TopBottom
  | SideBySide
  deriving DecidableEq, Repr

inductive EOmniOutputFormat where
  | PNGSequence
  | NVENCHardware
  deriving DecidableEq, Repr

inductive EOmniCaptureGamma where
  | SRGB
  | Linear
  deriving DecidableEq, Repr

inductive EOmniCaptureColorSpace where
  | BT709
  | BT2020
  | HDR10
  deriving DecidableEq, Repr

inductive EOmniCaptureCodec where
  | H264
  | HEVC
  deriving DecidableEq, Repr

inductive EOmniCaptureColorFormat where
  | NV12
  | P010
  | BGRA
  deriving DecidableEq, Repr

inductive EOmniCaptureState where
  | Idle
  | Recording
  | Paused
  | DroppedFrames
  | Finalizing
  deriving DecidableEq, Repr

inductive EOmniCaptureRingBufferPolicy where
  | DropOldest
  | BlockProducer
  deriving DecidableEq, Repr

structure FOmniCaptureQuality where
  TargetBitrateKbps : Int := 60000
  MaxBitrateKbps : Int := 80000
  GOPLength : Int := 60
  BFrames : Int := 2
  bLowLatency : Bool := false
  deriving DecidableEq, Repr

/-- The capture settings (fields of `FOmniCaptureSettings` the core reads, with the
defaults of the header). -/
structure FOmniCaptureSettings where
  Mode : EOmniCaptureMode := .Mono
  StereoLayout : EOmniCaptureStereoLayout := .TopBottom
  Resolution : Int := 4096
  TargetFrameRate : ℚ := 60
  Gamma : EOmniCaptureGamma := .SRGB
  bEnablePreviewWindow : Bool := true
  PreviewFrameRate : ℚ := 30
  bRecordAudio : Bool := true
  SegmentDurationSeconds : ℚ := 0
  SegmentSizeLimitMB : Int := 0
  bCreateSegmentSubfolders : Bool := true
  OutputFormat : EOmniOutputFormat := .PNGSequence
  OutputDirectory : String := ""
  OutputFileName : String := "OmniCapture"
  ColorSpace : EOmniCaptureColorSpace := .BT709
  bForceConstantFrameRate : Bool := true
  bAllowNVENCFallback : Bool := true
  MinimumFreeDiskSpaceGB : Int := 2
  LowFrameRateWarningRatio : ℚ := 17 / 20
  PreferredFFmpegPath : String := ""
  SeamBlend : ℚ := 1 / 4
  PolarDampening : ℚ := 1 / 2
  Quality : FOmniCaptureQuality := {}
  Codec : EOmniCaptureCodec := .HEVC
  NVENCColorFormat : EOmniCaptureColorFormat := .NV12
  bZeroCopy : Bool := true
  RingBufferCapacity : Int := 6
  RingBufferPolicy : EOmniCaptureRingBufferPolicy := .DropOldest
  bOpenPreviewOnFinalize : Bool := false
  deriving DecidableEq, Repr

structure FOmniCaptureFrameMetadata where
  FrameIndex : Int := 0
  Timecode : ℚ := 0
  bKeyFrame : Bool := false
  deriving DecidableEq, Repr

structure FOmniAudioPacket where
  Timestamp : ℚ := 0
  SampleRate : Int := 48000
  NumChannels : Int := 2
  PCM16 : List Int := []
  deriving DecidableEq, Repr

structure FOmniCaptureRingBufferStats where
  PendingFrames : Int := 0
  DroppedFrames : Int := 0
  BlockedPushes : Int := 0
  deriving DecidableEq, Repr

structure FOmniAudioSyncStats where
  LatestVideoTimestamp : ℚ := 0
  LatestAudioTimestamp : ℚ := 0
  DriftMilliseconds : ℚ := 0
  MaxObservedDriftMilliseconds : ℚ := 0
  PendingPackets : Int := 0
  bInError : Bool := false
  deriving DecidableEq, Repr

/-! ## Engine values -/

/-- An engine resource (texture, pooled render target, fence), named by a number. -/
abbrev Handle := Nat

/-- One `FFloat16Color` / `FLinearColor` sample: four channels. -/
structure FLinearColor where
  R : ℚ
  G : ℚ
  B : ℚ
  A : ℚ
  deriving DecidableEq, Repr

/-- One 8-bit `FColor`. -/
structure FColor where
  R : Nat
  G : Nat
  B : Nat
  A : Nat
  deriving DecidableEq, Repr

/-- The `FImagePixelData` a result owns: half-float pixels (linear gamma) or 8-bit
pixels (sRGB gamma), with the image size. -/
inductive FImagePixelData where
  | Float16 (Size : Int × Int) (Pixels : List FLinearColor)
  | Color8 (Size : Int × Int) (Pixels : List FColor)
  deriving DecidableEq, Repr

/-- A `UTextureRenderTarget2D` as the converter sees it: whether the game thread can get
its resource, its size, what `ReadFloat16Pixels` delivers (`none` when the read fails) and
the texture of the resource. -/
structure UTextureRenderTarget2D where
  bHasResource : Bool
  SizeX : Int
  SizeY : Int
  ReadFloat16Pixels : Option (List FLinearColor)
  Texture : Option Handle
  deriving DecidableEq, Repr

structure FOmniCaptureFaceResources where
  RenderTarget : Option UTextureRenderTarget2D := none
  deriving DecidableEq, Repr

/-- Six faces per eye, in the order +X, -X, +Y, -Y, +Z, -Z. -/
structure FOmniEyeCapture where
  Faces : Fin 6 → FOmniCaptureFaceResources

/-! ## OmniCaptureEquirectConverter -/

structure FOmniCaptureEquirectResult where
  PixelData : Option FImagePixelData := none
  PreviewPixels : List FColor := []
  Size : Int × Int := (0, 0)
  bIsLinear : Bool := false
  bUsedCPUFallback : Bool := false
  OutputTarget : Option Handle := none
  Texture : Option Handle := none
  ReadyFence : Option Handle := none
  EncoderPlanes : List Handle := []
  deriving DecidableEq, Repr

structure FCPUFaceData where
  Resolution : Int := 0
  Pixels : List FLinearColor := []
  deriving DecidableEq, Repr

/-- `FCPUFaceData::IsValid`. -/
def FCPUFaceData.IsValid (f : FCPUFaceData) : Bool :=
  decide (f.Resolution > 0) && decide ((f.Pixels.length : Int) = mulI32 f.Resolution f.Resolution)

structure FCPUCubemap where
  Faces : Fin 6 → FCPUFaceData

/-- `FCPUCubemap::IsValid`. -/
def FCPUCubemap.IsValid (c : FCPUCubemap) : Bool :=
  (List.finRange 6).all fun i => (c.Faces i).IsValid

/-- `ReadFaceData`: the face read from a render target, `none` where the source
returns false. -/
def ReadFaceData (RenderTarget : Option UTextureRenderTarget2D) : Option FCPUFaceData :=
  match RenderTarget with
  | none => none
  | some rt =>
    if !rt.bHasResource then none
    else if rt.SizeX ≤ 0 ∨ rt.SizeY ≤ 0 ∨ rt.SizeX ≠ rt.SizeY then none
    else
      match rt.ReadFloat16Pixels with
      | none => none
      | some px =>
        let OutFace : FCPUFaceData := { Resolution := rt.SizeX, Pixels := px }
        if OutFace.IsValid then some OutFace else none

/-- The loop of `BuildCPUCubemap` over the faces `Index..5`, stopping at the first
face that fails to read. -/
def BuildCPUCubemapLoop (Eye : FOmniEyeCapture) : List (Fin 6) → FCPUCubemap → Option FCPUCubemap
  | [], Out => some Out
  | i :: rest, Out =>
    match ReadFaceData (Eye.Faces i).RenderTarget with
    | none => none
    | some f => BuildCPUCubemapLoop Eye rest { Faces := Function.update Out.Faces i f }

/-- `BuildCPUCubemap`. -/
def BuildCPUCubemap (Eye : FOmniEyeCapture) : Option FCPUCubemap :=
  match BuildCPUCubemapLoop Eye (List.finRange 6) { Faces := fun _ => {} } with
  | none => none
  | some c => if c.IsValid then some c else none

/-- `FVector`, with the `double` components as exact rationals. -/
structure FVector where
  X : ℚ
  Y : ℚ
  Z : ℚ
  deriving DecidableEq, Repr

/-- `FVector2D`. -/
structure FVector2D where
  X : ℚ
  Y : ℚ
  deriving DecidableEq, Repr

/-- `FVector::GetAbs`. -/
def FVector.GetAbs (v : FVector) : FVector := ⟨|v.X|, |v.Y|, |v.Z|⟩

/-- `FMath::Clamp(X, Min, Max)`: `X < Min ? Min : (X < Max ? X : Max)`. -/
def Clamp {α : Type} [LT α] [DecidableRel (fun a b : α => a < b)] (X Min Max : α) : α :=
  if X < Min then Min else if X < Max then X else Max

/-- `FMath::Lerp(A, B, Alpha)`: `A + Alpha * (B - A)`. -/
def Lerp (A B Alpha : ℚ) : ℚ := A + Alpha * (B - A)

/-- `static_cast<int32>` of a floating-point value: the fraction is discarded (rounding
toward zero). -/
def TruncToInt32 (x : ℚ) : Int := if 0 ≤ x then ⌊x⌋ else ⌈x⌉

/-- What the engine supplies to the CPU path: the colour conversions
`FLinearColor::ToFColor(true)` and `FFloat16Color(FLinearColor)`, the constant `PI`, and
the floating-point functions `FMath::Cos`, `FMath::Sin`, `FVector::GetSafeNormal` and
`FVector::Normalize` (the vector after the in-place call). `ToFloat` is the value a
`double` has after it is stored in a `float`; in exact arithmetic it is the identity. -/
structure FPixelOps where
  ToFColor : FLinearColor → FColor
  ToFloat16 : FLinearColor → FLinearColor
  PI : ℚ
  Cos : ℚ → ℚ
  Sin : ℚ → ℚ
  GetSafeNormal : FVector → FVector
  Normalize : FVector → FVector
  ToFloat : ℚ → ℚ := fun q => q

/-- `DirectionFromEquirectPixelCPU`: the direction and `OutLatitude`. `OutLatitude` is a
`float&`: the latitude is stored as a `float`, and the cosine and sine of the latitude
are taken of the stored value. -/
def DirectionFromEquirectPixelCPU (ops : FPixelOps) (Pixel EyeResolution : Int × Int) :
    FVector × ℚ :=
  let UV : FVector2D :=
    ⟨((Pixel.1 : ℚ) + 1/2) / EyeResolution.1, ((Pixel.2 : ℚ) + 1/2) / EyeResolution.2⟩
  let Longitude := (UV.X * 2 - 1) * ops.PI
  let OutLatitude := ops.ToFloat ((1/2 - UV.Y) * ops.PI)
  let CosLat := ops.Cos OutLatitude
  let SinLat := ops.Sin OutLatitude
  let CosLon := ops.Cos Longitude
  let SinLon := ops.Sin Longitude
  (ops.GetSafeNormal ⟨CosLat * CosLon, SinLat, CosLat * SinLon⟩, OutLatitude)

/-- The face selection of `DirectionToFaceUVCPU` (the branches up to the remapping):
the face index and the two other components divided by the dominant absolute value. -/
def SelectFace (Direction : FVector) : Fin 6 × FVector2D :=
  let AbsDir := Direction.GetAbs
  if AbsDir.X ≥ AbsDir.Y ∧ AbsDir.X ≥ AbsDir.Z then
    if Direction.X > 0 then (0, ⟨-Direction.Z / AbsDir.X, Direction.Y / AbsDir.X⟩)
    else (1, ⟨Direction.Z / AbsDir.X, Direction.Y / AbsDir.X⟩)
  else if AbsDir.Y ≥ AbsDir.X ∧ AbsDir.Y ≥ AbsDir.Z then
    if Direction.Y > 0 then (2, ⟨Direction.X / AbsDir.Y, -Direction.Z / AbsDir.Y⟩)
    else (3, ⟨Direction.X / AbsDir.Y, Direction.Z / AbsDir.Y⟩)
  else
    if Direction.Z > 0 then (4, ⟨Direction.X / AbsDir.Z, Direction.Y / AbsDir.Z⟩)
    else (5, ⟨-Direction.X / AbsDir.Z, Direction.Y / AbsDir.Z⟩)

/-- `DirectionToFaceUVCPU` up to `OutUV = (OutUV + FVector2D::OneVector) * 0.5f`: the
face index and the face coordinates before the seam adjustment. -/
def FaceUVBeforeSeam (Direction : FVector) : Fin 6 × FVector2D :=
  let sel := SelectFace Direction
  (sel.1, ⟨(sel.2.X + 1) * (1/2), (sel.2.Y + 1) * (1/2)⟩)

/-- The seam adjustment that ends `DirectionToFaceUVCPU`, for one coordinate: scale,
bias and clamp. -/
def SeamAdjust (FaceResolution : Int) (SeamStrength : ℚ) (u : ℚ) : ℚ :=
  let Resolution : ℚ := ((max 1 FaceResolution : Int) : ℚ)
  let Scale := Lerp 1 ((Resolution - 1) / Resolution) SeamStrength
  let Bias := (1/2 / Resolution) * SeamStrength
  Clamp (u * Scale + Bias) 0 1

/-- `DirectionToFaceUVCPU`: `OutFaceIndex` and `OutUV`. -/
def DirectionToFaceUVCPU (Direction : FVector) (FaceResolution : Int) (SeamStrength : ℚ) :
    Fin 6 × FVector2D :=
  let pre := FaceUVBeforeSeam Direction
  (pre.1, ⟨SeamAdjust FaceResolution SeamStrength pre.2.X,
    SeamAdjust FaceResolution SeamStrength pre.2.Y⟩)

/-- `FLinearColor::Black`. -/
def FLinearColor.Black : FLinearColor := ⟨0, 0, 0, 1⟩

/-- The texel position `SampleCubemapCPU` computes on the selected face: the face index,
`SampleX`, `SampleY` and `SampleIndex`. -/
def SampleTexel (Cubemap : FCPUCubemap) (Direction : FVector) (FaceResolution : Int)
    (SeamStrength : ℚ) : Fin 6 × Int × Int × Int :=
  let fu := DirectionToFaceUVCPU Direction FaceResolution SeamStrength
  let Face := Cubemap.Faces fu.1
  let SampleX := Clamp (TruncToInt32 (fu.2.X * ((Face.Resolution - 1 : Int) : ℚ))) 0
    (Face.Resolution - 1)
  let SampleY := Clamp (TruncToInt32 (fu.2.Y * ((Face.Resolution - 1 : Int) : ℚ))) 0
    (Face.Resolution - 1)
  let SampleIndex := wrapI32 (mulI32 SampleY Face.Resolution + SampleX)
  (fu.1, SampleX, SampleY, SampleIndex)

/-- `SampleCubemapCPU`. -/
def SampleCubemapCPU (Cubemap : FCPUCubemap) (Direction : FVector) (FaceResolution : Int)
    (SeamStrength : ℚ) : FLinearColor :=
  let t := SampleTexel Cubemap Direction FaceResolution SeamStrength
  let Face := Cubemap.Faces t.1
  let SampleIndex := t.2.2.2
  if 0 ≤ SampleIndex ∧ SampleIndex < (Face.Pixels.length : Int) then
    Face.Pixels.getD SampleIndex.toNat FLinearColor.Black
  else FLinearColor.Black

/-- `ApplyPolarMitigation`: the direction after the call. `FMath::Pow(PoleFactor, 4.0)`
is the exact fourth power. -/
def ApplyPolarMitigation (ops : FPixelOps) (PolarStrength Latitude : ℚ)
    (Direction : FVector) : FVector :=
  if PolarStrength ≤ 0 then Direction
  else
    let PoleFactor := Clamp (|Latitude| / (ops.PI * (1/2))) 0 1
    let PoleFactor := PoleFactor ^ 4
    let Blend := PoleFactor * PolarStrength
    if Blend ≤ 0 then Direction
    else
      let PoleVector : FVector := ⟨0, if Latitude ≥ 0 then 1 else -1, 0⟩
      ops.Normalize ⟨Lerp Direction.X PoleVector.X Blend, Lerp Direction.Y PoleVector.Y Blend,
        Lerp Direction.Z PoleVector.Z Blend⟩

/-- The sampling chain of one output pixel inside the `ProcessPixel` loop of
`ConvertOnCPU`: `DirectionFromEquirectPixelCPU`, `ApplyPolarMitigation` with
`Settings.PolarDampening`, `SampleCubemapCPU` with `Settings.SeamBlend`. -/
def FPixelOps.SamplePixel (ops : FPixelOps) (Settings : FOmniCaptureSettings)
    (Cubemap : FCPUCubemap) (EyePixel EyeResolution : Int × Int) (FaceResolution : Int) :
    FLinearColor :=
  let dl := DirectionFromEquirectPixelCPU ops EyePixel EyeResolution
  let Latitude := dl.2
  let Direction := ApplyPolarMitigation ops Settings.PolarDampening Latitude dl.1
  SampleCubemapCPU Cubemap Direction FaceResolution Settings.SeamBlend

/-- The body of the `ProcessPixel` loop of `ConvertOnCPU` for the output pixel `(X, Y)`:
the eye the pixel belongs to, its pixel and resolution inside that eye, and the sample. -/
def ProcessPixelAt (ops : FPixelOps) (Settings : FOmniCaptureSettings)
    (LeftCubemap RightCubemap : FCPUCubemap) (bStereo bSideBySide : Bool)
    (FaceResolution OutputWidth OutputHeight : Int) (X Y : Int) : FLinearColor :=
  let routed : Bool × (Int × Int) × (Int × Int) :=
    if bStereo then
      if bSideBySide then
        let EyeWidth := Int.tdiv OutputWidth 2
        (decide (X ≥ EyeWidth), (Int.tmod X EyeWidth, Y), (EyeWidth, OutputHeight))
      else
        let EyeHeight := Int.tdiv OutputHeight 2
        (decide (Y ≥ EyeHeight), (X, Int.tmod Y EyeHeight), (OutputWidth, EyeHeight))
    else (false, (X, Y), (OutputWidth, OutputHeight))
  let bRightEye := routed.1
  ops.SamplePixel Settings (if bStereo && bRightEye then RightCubemap else LeftCubemap)
    routed.2.1 routed.2.2 FaceResolution

/-- The linear samples of the `ProcessPixel` loop in index order `Y * OutputWidth + X`. -/
def ProcessPixel (ops : FPixelOps) (Settings : FOmniCaptureSettings)
    (LeftCubemap RightCubemap : FCPUCubemap) (bStereo bSideBySide : Bool)
    (FaceResolution OutputWidth OutputHeight : Int) : List FLinearColor :=
  (List.range OutputHeight.toNat).flatMap fun Y =>
    (List.range OutputWidth.toNat).map fun X =>
      ProcessPixelAt ops Settings LeftCubemap RightCubemap bStereo bSideBySide
        FaceResolution OutputWidth OutputHeight X Y

/-- The linear sample `ConvertOnCPU` computes for the output pixel `(X, Y)` from the two
built cubemaps: the layout values `bStereo`, `bSideBySide`, `FaceResolution`,
`OutputWidth`, `OutputHeight` and then the loop body. -/
def CPUSample (ops : FPixelOps) (Settings : FOmniCaptureSettings)
    (LeftCubemap RightCubemap : FCPUCubemap) (X Y : Int) : FLinearColor :=
  let bStereo := decide (Settings.Mode = .Stereo)
  let bSideBySide := decide (Settings.StereoLayout = .SideBySide)
  let FaceResolution := (LeftCubemap.Faces 0).Resolution
  let OutputWidth :=
    if bStereo && bSideBySide then mulI32 FaceResolution 4 else mulI32 FaceResolution 2
  let OutputHeight :=
    if bStereo && !bSideBySide then mulI32 FaceResolution 2 else FaceResolution
  ProcessPixelAt ops Settings LeftCubemap RightCubemap bStereo bSideBySide
    FaceResolution OutputWidth OutputHeight X Y

/-- `ConvertOnCPU`: the result after the call, given the result before it. -/
def ConvertOnCPU (ops : FPixelOps) (Settings : FOmniCaptureSettings)
    (LeftEye RightEye : FOmniEyeCapture) (OutResult : FOmniCaptureEquirectResult) :
    FOmniCaptureEquirectResult :=
  match BuildCPUCubemap LeftEye with
  | none => OutResult
  | some LeftCubemap =>
    let RightBuilt : Option FCPUCubemap :=
      if Settings.Mode = .Stereo then BuildCPUCubemap RightEye
      else some { Faces := fun _ => {} }
    match RightBuilt with
    | none => OutResult
    | some RightCubemap =>
      let bStereo := decide (Settings.Mode = .Stereo)
      let bSideBySide := decide (Settings.StereoLayout = .SideBySide)
      let FaceResolution := (LeftCubemap.Faces 0).Resolution
      let OutputWidth :=
        if bStereo && bSideBySide then mulI32 FaceResolution 4 else mulI32 FaceResolution 2
      let OutputHeight :=
        if bStereo && !bSideBySide then mulI32 FaceResolution 2 else FaceResolution
      let bIsLinear := decide (Settings.Gamma = .Linear)
      let Samples := ProcessPixel ops Settings LeftCubemap RightCubemap bStereo bSideBySide
        FaceResolution OutputWidth OutputHeight
      { Size := (OutputWidth, OutputHeight)
        bIsLinear := bIsLinear
        bUsedCPUFallback := true
        OutputTarget := none
        Texture := none
        ReadyFence := none
        EncoderPlanes := []
        PreviewPixels := Samples.map ops.ToFColor
        PixelData :=
          if bIsLinear then
            some (.Float16 (OutputWidth, OutputHeight) (Samples.map ops.ToFloat16))
          else
            some (.Color8 (OutputWidth, OutputHeight) (Samples.map ops.ToFColor)) }

/-- What the engine returned to one run of `ConvertOnRenderThread`: the pooled targets
extracted after `GraphBuilder.Execute()` (`none` where the pointer is not valid), the
textures behind them, the fence, and the locked readback memory (`none` where `Lock`
returned null). -/
structure FRenderThreadEngine where
  ExtractedOutput : Option Handle
  OutputTexture2D : Option Handle
  bOutputTextureRHI : Bool
  ExtractedLuma : Option Handle
  ExtractedChroma : Option Handle
  ExtractedBGRA : Option Handle
  BGRATexture2D : Option Handle
  Fence : Option Handle
  ReadbackLock : Option (Nat → FLinearColor)

/-- `BuildFaceArray` returns a texture exactly when it is given at least one face. -/
def BuildFaceArray (Faces : List (Option Handle)) : Bool := decide (Faces.length ≠ 0)

/-- `ConvertOnRenderThread`: the result after the call, given the result before it. -/
def ConvertOnRenderThread (ops : FPixelOps) (eng : FRenderThreadEngine)
    (Settings : FOmniCaptureSettings) (LeftFaces RightFaces : List (Option Handle))
    (OutResult : FOmniCaptureEquirectResult) : FOmniCaptureEquirectResult :=
  let FaceResolution := Settings.Resolution
  let bStereo := decide (Settings.Mode = .Stereo)
  let bSideBySide := bStereo && decide (Settings.StereoLayout = .SideBySide)
  let OutputWidth :=
    if bStereo && bSideBySide then mulI32 FaceResolution 4 else mulI32 FaceResolution 2
  let OutputHeight :=
    if bStereo && !bSideBySide then mulI32 FaceResolution 2 else FaceResolution
  let bUseLinear := decide (Settings.Gamma = .Linear)
  let LeftArray := BuildFaceArray LeftFaces
  let _RightArray := if bStereo then BuildFaceArray RightFaces else LeftArray
  if !LeftArray then OutResult
  else
    let bNVENC := decide (Settings.OutputFormat = .NVENCHardware)
    let bBGRA := decide (Settings.NVENCColorFormat = .BGRA)
    let ExtractedLuma := if bNVENC && !bBGRA then eng.ExtractedLuma else none
    let ExtractedChroma := if bNVENC && !bBGRA then eng.ExtractedChroma else none
    let ExtractedBGRA := if bNVENC && bBGRA then eng.ExtractedBGRA else none
    match eng.ExtractedOutput with
    | none => OutResult
    | some Output =>
      let Planes := OutResult.EncoderPlanes ++ ExtractedLuma.toList ++ ExtractedChroma.toList
        ++ ExtractedBGRA.toList
      let Texture :=
        match ExtractedBGRA, eng.BGRATexture2D with
        | some _, some t => some t
        | _, _ => eng.OutputTexture2D
      let ReadyFence :=
        if Texture.isSome then
          match eng.Fence with
          | some f => some f
          | none => OutResult.ReadyFence
        else OutResult.ReadyFence
      let r1 : FOmniCaptureEquirectResult :=
        { OutResult with
          bUsedCPUFallback := false
          OutputTarget := some Output
          Texture := Texture
          Size := (OutputWidth, OutputHeight)
          bIsLinear := bUseLinear
          EncoderPlanes := Planes
          ReadyFence := ReadyFence }
      if !eng.bOutputTextureRHI then r1
      else
        let PixelCount : Nat := ((OutputWidth * OutputHeight) % 4294967296).toNat
        match eng.ReadbackLock with
        | none => r1
        | some RawData =>
          let SourcePixels := (List.range PixelCount).map RawData
          if bUseLinear then
            { r1 with
              PixelData := some (.Float16 (OutputWidth, OutputHeight) SourcePixels)
              PreviewPixels := SourcePixels.map ops.ToFColor }
          else
            { r1 with
              PixelData := some (.Color8 (OutputWidth, OutputHeight) (SourcePixels.map ops.ToFColor))
              PreviewPixels := SourcePixels.map ops.ToFColor }

/-- The textures `ConvertToEquirectangular` collects for one eye: one entry per face
whose render target exists and has a resource. -/
def CollectFaces (Eye : FOmniEyeCapture) : List (Option Handle) :=
  (List.finRange 6).filterMap fun i =>
    match (Eye.Faces i).RenderTarget with
    | none => none
    | some rt => if rt.bHasResource then some rt.Texture else none

/-- `FOmniCaptureEquirectConverter::ConvertToEquirectangular`. `bSupportsCompute` is
`GDynamicRHI != nullptr && GRHISupportsComputeShaders`; the render command is run to
completion before the caller continues. -/
def ConvertToEquirectangular (ops : FPixelOps) (eng : FRenderThreadEngine)
    (bSupportsCompute : Bool) (Settings : FOmniCaptureSettings)
    (LeftEye RightEye : FOmniEyeCapture) : FOmniCaptureEquirectResult :=
  let Result : FOmniCaptureEquirectResult := {}
  if Settings.Resolution ≤ 0 then Result
  else
    let LeftFaces := CollectFaces LeftEye
    let RightFaces := if Settings.Mode = .Stereo then CollectFaces RightEye else []
    if LeftFaces.length ≠ 6 then Result
    else if Settings.Mode = .Stereo ∧ RightFaces.length ≠ 6 then Result
    else if !bSupportsCompute then ConvertOnCPU ops Settings LeftEye RightEye Result
    else
      let Result := ConvertOnRenderThread ops eng Settings LeftFaces RightFaces Result
      if !Result.PixelData.isSome && (!Result.Texture.isSome || !Result.OutputTarget.isSome) then
        ConvertOnCPU ops Settings LeftEye RightEye Result
      else Result

/-! ## OmniCaptureMuxer: the audio sync tracker -/

/-- One ring-buffer entry (`FOmniCaptureFrame`). -/
structure FOmniCaptureFrame where
  Metadata : FOmniCaptureFrameMetadata := {}
  PixelData : Option FImagePixelData := none
  GPUSource : Option Handle := none
  Texture : Option Handle := none
  ReadyFence : Option Handle := none
  bLinearColor : Bool := false
  bUsedCPUFallback : Bool := false
  AudioPackets : List FOmniAudioPacket := []
  EncoderTextures : List Handle := []
  deriving DecidableEq, Repr

/-- The members of `FOmniCaptureMuxer` the tracker uses. -/
structure FOmniCaptureMuxer where
  AudioStats : FOmniAudioSyncStats := {}
  LastVideoTimestamp : ℚ := 0
  LastAudioTimestamp : ℚ := 0
  DriftWarningThresholdMs : ℚ := 0
  bRealtimeSessionActive : Bool := false
  OutputDirectory : String := ""
  BaseFileName : String := ""
  CachedFFmpegPath : String := ""
  deriving DecidableEq, Repr

/-- `FOmniCaptureMuxer::BeginRealtimeSession`. -/
def FOmniCaptureMuxer.BeginRealtimeSession (m : FOmniCaptureMuxer)
    (Settings : FOmniCaptureSettings) : FOmniCaptureMuxer :=
  { m with
    AudioStats := {}
    LastVideoTimestamp := 0
    LastAudioTimestamp := 0
    DriftWarningThresholdMs := if Settings.bForceConstantFrameRate then 20 else 35
    bRealtimeSessionActive := true }

/-- `FOmniCaptureMuxer::EndRealtimeSession`. -/
def FOmniCaptureMuxer.EndRealtimeSession (m : FOmniCaptureMuxer) : FOmniCaptureMuxer :=
  { m with
    bRealtimeSessionActive := false
    AudioStats := {}
    LastVideoTimestamp := 0
    LastAudioTimestamp := 0 }

/-- The `Duration` of one packet in the loop of `PushFrame`. -/
def PacketDuration (Packet : FOmniAudioPacket) : ℚ :=
  if Packet.SampleRate > 0 ∧ Packet.NumChannels > 0 then
    (Packet.PCM16.length : ℚ) / ((Packet.SampleRate : ℚ) * ((max Packet.NumChannels 1 : Int) : ℚ))
  else 0

/-- The packet loop of `PushFrame`: the running `LatestAudioTime` and `PacketCount`. -/
def PushFrameLoop : List FOmniAudioPacket → ℚ × Int → ℚ × Int
  | [], acc => acc
  | Packet :: rest, (LatestAudioTime, PacketCount) =>
    PushFrameLoop rest
      (max LatestAudioTime (Packet.Timestamp + PacketDuration Packet), PacketCount + 1)

/-- `FOmniCaptureMuxer::PushFrame`. -/
def FOmniCaptureMuxer.PushFrame (m : FOmniCaptureMuxer) (Frame : FOmniCaptureFrame) :
    FOmniCaptureMuxer :=
  if !m.bRealtimeSessionActive then m
  else
    let LastVideoTimestamp := Frame.Metadata.Timecode
    let loop := PushFrameLoop Frame.AudioPackets (m.LastAudioTimestamp, 0)
    let LastAudioTimestamp := loop.1
    let DriftMilliseconds := (LastAudioTimestamp - LastVideoTimestamp) * 1000
    { m with
      LastVideoTimestamp := LastVideoTimestamp
      LastAudioTimestamp := LastAudioTimestamp
      AudioStats :=
        { LatestVideoTimestamp := LastVideoTimestamp
          LatestAudioTimestamp := LastAudioTimestamp
          PendingPackets := loop.2
          DriftMilliseconds := DriftMilliseconds
          MaxObservedDriftMilliseconds :=
            max m.AudioStats.MaxObservedDriftMilliseconds |DriftMilliseconds|
          bInError := decide (|DriftMilliseconds| > m.DriftWarningThresholdMs) } }

/-- Pushing a sequence of frames, one `PushFrame` per frame. -/
def FOmniCaptureMuxer.PushFrames (m : FOmniCaptureMuxer) (Frames : List FOmniCaptureFrame) :
    FOmniCaptureMuxer :=
  Frames.foldl FOmniCaptureMuxer.PushFrame m

/-! ## OmniCaptureNVENCEncoder: the static capability queries -/

inductive ERHIInterfaceType where
  | D3D11
  | D3D12
  | Vulkan
  | Metal
  | OpenGL
  | Null
  deriving DecidableEq, Repr

/-- The build and the machine the plugin runs on: the two preprocessor switches, whether
`PF_P010` is defined, the `Supported` entries of `GPixelFormats` the code reads, the RHI
(`none` when `GDynamicRHI` is null), and the strings and probes `ValidateEnvironment` asks
the platform for. -/
structure FHost where
  bWithOmniNVENC : Bool
  bPlatformWindows : Bool
  bDefinedPF_P010 : Bool
  bNV12Supported : Bool
  bP010Supported : Bool
  bBGRASupported : Bool
  RHIInterfaceType : Option ERHIInterfaceType
  GpuBrand : String
  DriverVersion : String
  EnvFFmpeg : String
  bFFmpegFileExists : Bool
  DiskFreeBytes : Option Nat
  deriving DecidableEq, Repr

structure FOmniNVENCCapabilities where
  bHardwareAvailable : Bool := false
  bSupportsNV12 : Bool := false
  bSupportsP010 : Bool := false
  bSupportsHEVC : Bool := false
  bSupports10Bit : Bool := false
  AdapterName : String := ""
  DriverVersion : String := ""
  deriving DecidableEq, Repr

/-- `FOmniCaptureNVENCEncoder::IsNVENCAvailable`. -/
def IsNVENCAvailable (host : FHost) : Bool :=
  host.bWithOmniNVENC && host.bPlatformWindows

/-- `FOmniCaptureNVENCEncoder::SupportsColorFormat`. -/
def SupportsColorFormat (host : FHost) (Format : EOmniCaptureColorFormat) : Bool :=
  if host.bWithOmniNVENC && host.bPlatformWindows then
    match Format with
    | .NV12 => host.bNV12Supported
    | .P010 => if host.bDefinedPF_P010 then host.bP010Supported else false
    | .BGRA => host.bBGRASupported
  else decide (Format = .BGRA)

/-- `FOmniCaptureNVENCEncoder::QueryCapabilities`. -/
def QueryCapabilities (host : FHost) : FOmniNVENCCapabilities :=
  let Caps : FOmniNVENCCapabilities := {}
  let Caps : FOmniNVENCCapabilities :=
    if host.bWithOmniNVENC && host.bPlatformWindows then
      let bHardwareAvailable := IsNVENCAvailable host
      let bSupportsP010 := SupportsColorFormat host .P010
      { Caps with
        bHardwareAvailable := bHardwareAvailable
        bSupportsNV12 := SupportsColorFormat host .NV12
        bSupportsP010 := bSupportsP010
        bSupportsHEVC := bHardwareAvailable
        bSupports10Bit := bSupportsP010 }
    else { Caps with bHardwareAvailable := false }
  { Caps with
    AdapterName := host.GpuBrand
    DriverVersion := if host.bPlatformWindows then host.DriverVersion else Caps.DriverVersion }

/-- `AVEncoder::FVideoEncoderInput::FCreateParameters` as `Initialize` fills it (the
pixel format and the debug name apart). -/
structure FCreateParameters where
  Width : Int
  Height : Int
  MaxBufferDimensions : Int × Int
  bAutoCopy : Bool
  deriving DecidableEq, Repr

/-- `AVEncoder::FVideoEncoder::FLayerConfig` as `Initialize` fills it. -/
structure FLayerConfig where
  Width : Int
  Height : Int
  MaxFramerate : Int
  TargetBitrate : Int
  MaxBitrate : Int
  MinQp : Int
  MaxQp : Int
  deriving DecidableEq, Repr

/-- The members of `FOmniCaptureNVENCEncoder`, with the parameters `Initialize` handed to
`CreateForRHI` (`none` before that call) and the layer configuration (`none` until it is
set). -/
structure FOmniCaptureNVENCEncoder where
  OutputFilePath : String := ""
  bInitialized : Bool := false
  ColorFormat : EOmniCaptureColorFormat := .NV12
  bZeroCopyRequested : Bool := true
  RequestedCodec : EOmniCaptureCodec := .HEVC
  CreateParameters : Option FCreateParameters := none
  LayerConfig : Option FLayerConfig := none
  deriving DecidableEq, Repr

/-- What the platform answers during `FOmniCaptureNVENCEncoder::Initialize`: the host, the
path helpers, and whether `CreateForRHI` and `FVideoEncoderFactory::Create` return a valid
object. -/
structure FEncoderHost where
  Host : FHost
  ProjectSavedDir : String
  ConvertRelativePathToFull : String → String
  PathCombine : String → String → String
  bEncoderInputValid : Bool
  bVideoEncoderValid : Bool

/-- `FOmniCaptureNVENCEncoder::Initialize`. -/
def FOmniCaptureNVENCEncoder.Initialize (e : FOmniCaptureNVENCEncoder) (h : FEncoderHost)
    (Settings : FOmniCaptureSettings) (OutputDirectory : String) : FOmniCaptureNVENCEncoder :=
  let Directory :=
    if OutputDirectory = "" then h.PathCombine h.ProjectSavedDir "OmniCaptures"
    else OutputDirectory
  let Directory := h.ConvertRelativePathToFull Directory
  let bUseHEVC := decide (Settings.Codec = .HEVC)
  let e := { e with
    RequestedCodec := Settings.Codec
    OutputFilePath :=
      h.PathCombine Directory (Settings.OutputFileName ++ (if bUseHEVC then ".h265" else ".h264"))
    ColorFormat := Settings.NVENCColorFormat
    bZeroCopyRequested := Settings.bZeroCopy }
  if h.Host.bWithOmniNVENC && h.Host.bPlatformWindows then
    let OutputWidth := mulI32 Settings.Resolution 2
    let OutputHeight :=
      if Settings.Mode = .Stereo then mulI32 Settings.Resolution 2 else Settings.Resolution
    let e := { e with
      CreateParameters := some
        { Width := OutputWidth
          Height := OutputHeight
          MaxBufferDimensions := (OutputWidth, OutputHeight)
          bAutoCopy := !e.bZeroCopyRequested } }
    if !h.bEncoderInputValid then e
    else
      let TargetBitrate := mulI32 Settings.Quality.TargetBitrateKbps 1000
      let e := { e with
        LayerConfig := some
          { Width := OutputWidth
            Height := OutputHeight
            MaxFramerate := 120
            TargetBitrate := TargetBitrate
            MaxBitrate := max TargetBitrate (mulI32 Settings.Quality.MaxBitrateKbps 1000)
            MinQp := 0
            MaxQp := 51 } }
      if !h.bVideoEncoderValid then e
      else { e with bInitialized := true }
  else e

/-! ## The frame ring buffer -/

/-- Modelled from the spec: the class `FOmniCaptureRingBuffer` (`OmniCaptureRingBuffer.h`
and its implementation) is not among the sources. The state is the bounded FIFO that
section 4.2 describes: the configured capacity and overflow policy, the pending frames in
enqueue order (head first), and the cumulative dropped and blocked counters. -/
structure FOmniCaptureRingBuffer where
  Capacity : Int := 0
  Policy : EOmniCaptureRingBufferPolicy := .DropOldest
  Pending : List FOmniCaptureFrame := []
  DroppedFrames : Int := 0
  BlockedPushes : Int := 0
  deriving DecidableEq, Repr

/-- Modelled from the spec: `FOmniCaptureRingBuffer::Initialize` is not among the sources.
Section 4.2: the capacity and the policy come from the settings, the queue starts empty
and the counters start at zero. -/
def FOmniCaptureRingBuffer.Initialize (Settings : FOmniCaptureSettings) :
    FOmniCaptureRingBuffer :=
  { Capacity := Settings.RingBufferCapacity
    Policy := Settings.RingBufferPolicy
    Pending := []
    DroppedFrames := 0
    BlockedPushes := 0 }

/-- Modelled from the spec: `FOmniCaptureRingBuffer::Enqueue` is not among the sources.
Section 4.2, with no consume happening during the call: while there is room the frame is
appended; a full buffer under drop-oldest evicts the head to admit the new frame and
counts one dropped frame; a full buffer under block-producer counts one blocked push and
the producer waits, so the frame is not admitted by this step. -/
def FOmniCaptureRingBuffer.Enqueue (rb : FOmniCaptureRingBuffer) (Frame : FOmniCaptureFrame) :
    FOmniCaptureRingBuffer :=
  if (rb.Pending.length : Int) < rb.Capacity then
    { rb with Pending := rb.Pending ++ [Frame] }
  else
    match rb.Policy with
    | .DropOldest =>
      { rb with
        Pending := rb.Pending.tail ++ [Frame]
        DroppedFrames := rb.DroppedFrames + 1 }
    | .BlockProducer => { rb with BlockedPushes := rb.BlockedPushes + 1 }

/-- Modelled from the spec: `FOmniCaptureRingBuffer::GetStats` is not among the sources.
Section 4.2: a snapshot of the pending count and the two cumulative counters. -/
def FOmniCaptureRingBuffer.GetStats (rb : FOmniCaptureRingBuffer) : FOmniCaptureRingBufferStats :=
  { PendingFrames := rb.Pending.length
    DroppedFrames := rb.DroppedFrames
    BlockedPushes := rb.BlockedPushes }

/-- Modelled from the spec: `FOmniCaptureRingBuffer::Flush` is not among the sources.
Section 4.2: the pending frames are drained and the queue is reset; the cumulative
counters stay. The drained frames, in FIFO order, are what the consumer processes. -/
def FOmniCaptureRingBuffer.Flush (rb : FOmniCaptureRingBuffer) :
    List FOmniCaptureFrame × FOmniCaptureRingBuffer :=
  (rb.Pending, { rb with Pending := [] })

/-- Enqueuing a sequence of frames with no consume in between. -/
def FOmniCaptureRingBuffer.EnqueueAll (rb : FOmniCaptureRingBuffer)
    (Frames : List FOmniCaptureFrame) : FOmniCaptureRingBuffer :=
  Frames.foldl FOmniCaptureRingBuffer.Enqueue rb

/-! ## OmniCaptureSubsystem: the capture orchestrator -/

structure FOmniCaptureSegmentRecord where
  SegmentIndex : Int := 0
  Directory : String := ""
  BaseFileName : String := ""
  AudioPath : String := ""
  VideoPath : String := ""
  Frames : List FOmniCaptureFrameMetadata := []
  deriving DecidableEq, Repr

/-- The members of `UOmniCaptureSubsystem`. A weak actor pointer is the flag "valid"; an
owned writer, recorder or encoder is the flag "non-null". -/
structure UOmniCaptureSubsystem where
  ActiveSettings : FOmniCaptureSettings := {}
  OriginalSettings : FOmniCaptureSettings := {}
  bIsCapturing : Bool := false
  bIsPaused : Bool := false
  bDroppedFrames : Bool := false
  DroppedFrameCount : Int := 0
  FrameCounter : Int := 0
  CaptureStartTime : ℚ := 0
  LastPreviewUpdateTime : ℚ := 0
  PreviewFrameInterval : ℚ := 0
  CurrentCaptureFPS : ℚ := 0
  LastFpsSampleTime : ℚ := 0
  FramesSinceLastFpsSample : Int := 0
  LastRuntimeWarningCheckTime : ℚ := 0
  LastSegmentSizeCheckTime : ℚ := 0
  CurrentSegmentStartTime : ℚ := 0
  CurrentSegmentIndex : Int := 0
  RigActor : Bool := false
  TickActor : Bool := false
  PreviewActor : Bool := false
  RingBuffer : Option FOmniCaptureRingBuffer := none
  PNGWriter : Bool := false
  AudioRecorder : Bool := false
  NVENCEncoder : Bool := false
  OutputMuxer : Option FOmniCaptureMuxer := none
  CapturedFrameMetadata : List FOmniCaptureFrameMetadata := []
  CompletedSegments : List FOmniCaptureSegmentRecord := []
  RecordedAudioPath : String := ""
  RecordedVideoPath : String := ""
  LastFinalizedOutput : String := ""
  LastStillImagePath : String := ""
  BaseOutputDirectory : String := ""
  BaseOutputFileName : String := ""
  ActiveWarnings : List String := []
  LatestRingBufferStats : FOmniCaptureRingBufferStats := {}
  AudioStats : FOmniAudioSyncStats := {}
  State : EOmniCaptureState := .Idle
  deriving DecidableEq, Repr

/-- What the engine and the collaborators answer during one operation of the subsystem:
the host, the successive readings of `FPlatformTime::Seconds()` (numbered from 0 in call
order), whether `GetWorld()` is non-null, whether each actor spawns, the outcome of the
audio recorder and encoder initialisation, the paths they report, the measured size of the
active segment, and the path and formatting helpers of the engine. -/
structure FEngine where
  Host : FHost
  Seconds : Nat → ℚ
  bWorld : Bool
  bSpawnRig : Bool
  bSpawnDirector : Bool
  bSpawnPreview : Bool
  bAudioRecorderInitialize : Bool
  AudioOutputFilePath : String
  AudioPendingPacketCount : Int
  bEncoderInitialized : Bool
  EncoderOutputFilePath : String
  ActiveSegmentSizeBytes : Int
  ProjectSavedDir : String
  ConvertRelativePathToFull : String → String
  PathCombine : String → String → String
  Printf02d : Int → String

namespace UOmniCaptureSubsystem

def WarningLowDisk : String := "Storage space is low for OmniCapture output"

def WarningFrameDrop : String := "Frame drops detected - rendering slower than encode path"

def WarningLowFps : String := "Capture frame rate is below the configured target"

/-- `TArray::Add` on the warning list. -/
def AddWarning (s : UOmniCaptureSubsystem) (Warning : String) : UOmniCaptureSubsystem :=
  { s with ActiveWarnings := s.ActiveWarnings ++ [Warning] }

/-- `UOmniCaptureSubsystem::AddWarningUnique`. -/
def AddWarningUnique (s : UOmniCaptureSubsystem) (Warning : String) : UOmniCaptureSubsystem :=
  if Warning ≠ "" then
    if Warning ∈ s.ActiveWarnings then s else { s with ActiveWarnings := s.ActiveWarnings ++ [Warning] }
  else s

/-- `UOmniCaptureSubsystem::RemoveWarning`. -/
def RemoveWarning (s : UOmniCaptureSubsystem) (Warning : String) : UOmniCaptureSubsystem :=
  if Warning ≠ "" then
    { s with ActiveWarnings := s.ActiveWarnings.filter fun w => w ≠ Warning }
  else s

/-- `UOmniCaptureSubsystem::ResetDynamicWarnings`. -/
def ResetDynamicWarnings (s : UOmniCaptureSubsystem) : UOmniCaptureSubsystem :=
  ((s.RemoveWarning WarningLowDisk).RemoveWarning WarningFrameDrop).RemoveWarning WarningLowFps

/-- `UOmniCaptureSubsystem::BuildOutputDirectory`. -/
def BuildOutputDirectory (eng : FEngine) (s : UOmniCaptureSubsystem) : String :=
  if s.ActiveSettings.OutputDirectory ≠ "" then
    eng.ConvertRelativePathToFull s.ActiveSettings.OutputDirectory
  else eng.ConvertRelativePathToFull (eng.PathCombine eng.ProjectSavedDir "OmniCaptures")

/-- `UOmniCaptureSubsystem::HandleDroppedFrame`. -/
def HandleDroppedFrame (s : UOmniCaptureSubsystem) : UOmniCaptureSubsystem :=
  let s := { s with
    bDroppedFrames := true
    State := .DroppedFrames
    DroppedFrameCount := s.DroppedFrameCount + 1 }
  s.AddWarningUnique WarningFrameDrop

/-- `FOmniCaptureMuxer::ResolveFFmpegBinary`. -/
def ResolveFFmpegBinary (host : FHost) (Settings : FOmniCaptureSettings) : String :=
  if Settings.PreferredFFmpegPath ≠ "" then Settings.PreferredFFmpegPath
  else if host.EnvFFmpeg ≠ "" then host.EnvFFmpeg
  else "ffmpeg"

/-- `FString::Equals(Other, ESearchCase::IgnoreCase)`: equality of the lower-cased
character sequences. -/
def EqualsIgnoreCase (a b : String) : Bool :=
  decide (String.mk (a.data.map Char.toLower) = String.mk (b.data.map Char.toLower))

/-- `FOmniCaptureMuxer::IsFFmpegAvailable`. -/
def IsFFmpegAvailable (host : FHost) (Settings : FOmniCaptureSettings) : Bool :=
  let Resolved := ResolveFFmpegBinary host Settings
  if Resolved = "" then false
  else if EqualsIgnoreCase Resolved "ffmpeg" then true
  else host.bFFmpegFileExists

/-- Whether the RHI is neither D3D11 nor D3D12 (or absent). -/
def RHINotD3D (host : FHost) : Bool :=
  match host.RHIInterfaceType with
  | none => true
  | some t => decide (t ≠ .D3D11 ∧ t ≠ .D3D12)

/-- A failed check of `ValidateEnvironment`: when `c` holds, the warning is added and
`bResult` becomes false. -/
def FailIf (c : Bool) (w : String) (acc : Bool × UOmniCaptureSubsystem) :
    Bool × UOmniCaptureSubsystem :=
  if c then (false, acc.2.AddWarning w) else acc

/-- A note of `ValidateEnvironment`: when `c` holds, the warning is added; `bResult` is
kept. -/
def NoteIf (c : Bool) (w : String) (acc : Bool × UOmniCaptureSubsystem) :
    Bool × UOmniCaptureSubsystem :=
  if c then (acc.1, acc.2.AddWarning w) else acc

/-- The RHI block of `ValidateEnvironment` (`#if PLATFORM_WINDOWS ... #else ... #endif`).
`Settings` is `ActiveSettings`, which the validation reads and never writes. -/
def ValidateRHI (host : FHost) (Settings : FOmniCaptureSettings)
    (acc : Bool × UOmniCaptureSubsystem) : Bool × UOmniCaptureSubsystem :=
  if host.bPlatformWindows then
    match host.RHIInterfaceType with
    | some t =>
      FailIf (decide (t ≠ .D3D11 ∧ t ≠ .D3D12))
        "OmniCapture requires D3D11 or D3D12 for GPU capture. Current RHI is unsupported." acc
    | none =>
      FailIf true "Unable to resolve active RHI interface. Zero-copy NVENC will be disabled." acc
  else
    let acc := NoteIf true
      "OmniCapture NVENC pipeline is Windows-only; PNG sequence mode is recommended." acc
    if Settings.OutputFormat = .NVENCHardware then (false, acc.2) else acc

/-- The part of `ValidateEnvironment` guarded by
`ActiveSettings.OutputFormat == NVENCHardware`. -/
def ValidateNVENC (host : FHost) (Settings : FOmniCaptureSettings)
    (acc : Bool × UOmniCaptureSubsystem) : Bool × UOmniCaptureSubsystem :=
  let Caps := QueryCapabilities host
  let bPixelFormatSupported :=
    match Settings.NVENCColorFormat with
    | .NV12 => host.bNV12Supported
    | .P010 => host.bP010Supported
    | .BGRA => host.bBGRASupported
  let acc := NoteIf (decide (Caps.AdapterName ≠ "")) ("Adapter: " ++ Caps.AdapterName) acc
  let acc := NoteIf (decide (Caps.DriverVersion ≠ "")) ("Driver: " ++ Caps.DriverVersion) acc
  let acc := FailIf (!Caps.bHardwareAvailable) "NVENC hardware encoder unavailable" acc
  let acc := FailIf (decide (Settings.Codec = .HEVC) && !Caps.bSupportsHEVC)
    "HEVC codec unsupported by detected NVENC hardware" acc
  let acc := FailIf (decide (Settings.NVENCColorFormat = .P010) && !Caps.bSupports10Bit)
    "P010 / Main10 NVENC path unavailable on this GPU" acc
  let acc := FailIf (decide (Settings.NVENCColorFormat = .NV12) && !Caps.bSupportsNV12)
    "NV12 NVENC path unavailable on this GPU" acc
  let acc := FailIf (!bPixelFormatSupported)
    "Requested NVENC pixel format is not supported by the active RHI" acc
  if Settings.bZeroCopy then
    if host.bPlatformWindows then
      FailIf (RHINotD3D host)
        "Zero-copy NVENC requires D3D11 or D3D12; zero-copy will be disabled." acc
    else
      FailIf true
        "Zero-copy NVENC is only available on Windows/D3D; zero-copy will be disabled." acc
  else acc

/-- The FFmpeg block of `ValidateEnvironment`. -/
def ValidateFFmpeg (host : FHost) (Settings : FOmniCaptureSettings)
    (acc : Bool × UOmniCaptureSubsystem) : Bool × UOmniCaptureSubsystem :=
  let Resolved := ResolveFFmpegBinary host Settings
  if !IsFFmpegAvailable host Settings then
    NoteIf true "FFmpeg not detected - automatic muxing disabled" acc
  else
    NoteIf (decide (Resolved ≠ "") && !EqualsIgnoreCase Resolved "ffmpeg") ("FFmpeg: " ++ Resolved) acc

/-- The disk-space block of `ValidateEnvironment`. -/
def ValidateDisk (host : FHost) (Settings : FOmniCaptureSettings)
    (acc : Bool × UOmniCaptureSubsystem) : Bool × UOmniCaptureSubsystem :=
  match host.DiskFreeBytes with
  | some FreeBytes =>
    let MinFreeBytes : Int := max 0 Settings.MinimumFreeDiskSpaceGB * 1024 * 1024 * 1024
    if MinFreeBytes > 0 ∧ (FreeBytes : Int) < MinFreeBytes then
      (acc.1, acc.2.AddWarningUnique WarningLowDisk)
    else acc
  | none => (acc.1, acc.2.AddWarningUnique "Unable to query disk space for capture output")

/-- `UOmniCaptureSubsystem::ValidateEnvironment`: the returned flag and the state with the
warnings recorded. -/
def ValidateEnvironment (eng : FEngine) (s : UOmniCaptureSubsystem) :
    Bool × UOmniCaptureSubsystem :=
  let host := eng.Host
  let Settings := s.ActiveSettings
  let acc := NoteIf (decide (host.GpuBrand ≠ "")) ("GPU: " ++ host.GpuBrand) (true, s)
  let acc := ValidateRHI host Settings acc
  let acc := if Settings.OutputFormat = .NVENCHardware then ValidateNVENC host Settings acc else acc
  let acc := ValidateFFmpeg host Settings acc
  ValidateDisk host Settings acc

/-- Assignment to `ActiveSettings.Codec`. -/
def SetCodec (s : UOmniCaptureSubsystem) (c : EOmniCaptureCodec) : UOmniCaptureSubsystem :=
  { s with ActiveSettings := { s.ActiveSettings with Codec := c } }

/-- Assignment to `ActiveSettings.NVENCColorFormat`. -/
def SetColorFormat (s : UOmniCaptureSubsystem) (f : EOmniCaptureColorFormat) :
    UOmniCaptureSubsystem :=
  { s with ActiveSettings := { s.ActiveSettings with NVENCColorFormat := f } }

/-- Assignment to `ActiveSettings.OutputFormat`. -/
def SetOutputFormat (s : UOmniCaptureSubsystem) (f : EOmniOutputFormat) : UOmniCaptureSubsystem :=
  { s with ActiveSettings := { s.ActiveSettings with OutputFormat := f } }

/-- Assignment to `ActiveSettings.bZeroCopy`. -/
def SetZeroCopy (s : UOmniCaptureSubsystem) (b : Bool) : UOmniCaptureSubsystem :=
  { s with ActiveSettings := { s.ActiveSettings with bZeroCopy := b } }

/-- `UOmniCaptureSubsystem::ApplyFallbacks`: the returned flag and the state after it. -/
def ApplyFallbacks (eng : FEngine) (s : UOmniCaptureSubsystem) : Bool × UOmniCaptureSubsystem :=
  let host := eng.Host
  if s.ActiveSettings.OutputFormat = .NVENCHardware ∧ IsNVENCAvailable host = false then
    if s.ActiveSettings.bAllowNVENCFallback then
      (true, (s.AddWarning "Falling back to PNG sequence because NVENC is unavailable").SetOutputFormat
        .PNGSequence)
    else (false, s.AddWarning "NVENC required but unavailable")
  else if s.ActiveSettings.OutputFormat = .NVENCHardware then
    if !host.bPlatformWindows then
      (true, (s.AddWarning
        "NVENC output is not supported on this platform; switching to PNG sequence.").SetOutputFormat
        .PNGSequence)
    else
      let Caps := QueryCapabilities host
      let s :=
        if s.ActiveSettings.Codec = .HEVC ∧ Caps.bSupportsHEVC = false then
          (s.AddWarning "HEVC unsupported - falling back to H.264").SetCodec .H264
        else s
      let s :=
        if s.ActiveSettings.NVENCColorFormat = .P010 ∧ Caps.bSupports10Bit = false then
          (s.AddWarning "P010 unsupported - switching to NV12").SetColorFormat .NV12
        else s
      let s :=
        if s.ActiveSettings.NVENCColorFormat = .NV12 ∧ Caps.bSupportsNV12 = false then
          (s.AddWarning "NV12 unsupported - switching to BGRA").SetColorFormat .BGRA
        else s
      let s :=
        if SupportsColorFormat host s.ActiveSettings.NVENCColorFormat = false then
          (s.AddWarning "Requested NVENC color format unavailable - switching to BGRA").SetColorFormat
            .BGRA
        else s
      let s :=
        if s.ActiveSettings.bZeroCopy then
          if host.bPlatformWindows then
            if RHINotD3D host then
              (s.AddWarning "Zero-copy not supported on this RHI - disabling zero-copy").SetZeroCopy false
            else s
          else (s.AddWarning "Zero-copy NVENC disabled on this platform").SetZeroCopy false
        else s
      (true, s)
  else (true, s)

/-- `FOmniCaptureMuxer::Initialize` (the members the model keeps). -/
def MuxerInitialize (eng : FEngine) (m : FOmniCaptureMuxer) (Settings : FOmniCaptureSettings)
    (InOutputDirectory : String) : FOmniCaptureMuxer :=
  let Dir :=
    if InOutputDirectory = "" then eng.PathCombine eng.ProjectSavedDir "OmniCaptures"
    else InOutputDirectory
  { m with
    OutputDirectory := eng.ConvertRelativePathToFull Dir
    BaseFileName := if Settings.OutputFileName = "" then "OmniCapture" else Settings.OutputFileName
    CachedFFmpegPath := ResolveFFmpegBinary eng.Host Settings }

end UOmniCaptureSubsystem

/-- What the file system, the JSON serializer and the process layer answer during one
`FinalizeCapture`. -/
structure FMuxerHost where
  Host : FHost
  PathCombine : String → String → String
  bSerialize : Bool
  bSaveStringToFile : Bool
  FileExists : String → Bool
  bProcHandleValid : Bool
  ReturnCode : Int

/-- The outward effects of `FinalizeCapture`, in the order they happen: the call of
`FFileHelper::SaveStringToFile` on the manifest path (with its result) and the call of
`FPlatformProcess::CreateProc` on the FFmpeg binary. -/
inductive FMuxEvent where
  | SaveStringToFile (Path : String) (bSaved : Bool)
  | CreateProc (Binary : String)
  deriving DecidableEq, Repr

/-- `FOmniCaptureMuxer::WriteManifest`: the return value and the effects. The JSON text
itself is not modelled. -/
def FOmniCaptureMuxer.WriteManifest (m : FOmniCaptureMuxer) (h : FMuxerHost) : Bool × List FMuxEvent :=
  if !h.bSerialize then (false, [])
  else
    let OutManifestPath := h.PathCombine m.OutputDirectory (m.BaseFileName ++ "_Manifest.json")
    (h.bSaveStringToFile, [.SaveStringToFile OutManifestPath h.bSaveStringToFile])

/-- `FOmniCaptureMuxer::TryInvokeFFmpeg`: the return value, the effects and the muxer
(the member `CachedFFmpegPath` is `mutable`). The text of the command line, the only
place `AudioPath` enters, is not modelled. -/
def FOmniCaptureMuxer.TryInvokeFFmpeg (m : FOmniCaptureMuxer) (h : FMuxerHost)
    (Settings : FOmniCaptureSettings)
    (Frames : List FOmniCaptureFrameMetadata) (VideoPath : String) :
    Bool × List FMuxEvent × FOmniCaptureMuxer :=
  if Frames.length = 0 then (false, [], m)
  else
    let m :=
      if m.CachedFFmpegPath = "" then
        { m with CachedFFmpegPath := UOmniCaptureSubsystem.ResolveFFmpegBinary h.Host {} }
      else m
    let Binary := m.CachedFFmpegPath
    if Binary = "" then (false, [], m)
    else if !UOmniCaptureSubsystem.EqualsIgnoreCase Binary "ffmpeg" && !h.FileExists Binary then (false, [], m)
    else
      let bHaveInput : Bool :=
        if Settings.OutputFormat = .PNGSequence then true
        else if Settings.OutputFormat = .NVENCHardware then
          let BitstreamPath :=
            if VideoPath ≠ "" then VideoPath
            else h.PathCombine m.OutputDirectory (m.BaseFileName ++ ".h264")
          h.FileExists BitstreamPath
        else false
      if !bHaveInput then (false, [], m)
      else if !h.bProcHandleValid then (false, [.CreateProc Binary], m)
      else if h.ReturnCode ≠ 0 then (false, [.CreateProc Binary], m)
      else (true, [.CreateProc Binary], m)

/-- `FOmniCaptureMuxer::FinalizeCapture`: the return value, the effects in order, and
the muxer afterwards. -/
def FOmniCaptureMuxer.FinalizeCapture (m : FOmniCaptureMuxer) (h : FMuxerHost)
    (Settings : FOmniCaptureSettings)
    (Frames : List FOmniCaptureFrameMetadata) (VideoPath : String) :
    Bool × List FMuxEvent × FOmniCaptureMuxer :=
  let w := m.WriteManifest h
  if !w.1 then (false, w.2, m)
  else
    let r := m.TryInvokeFFmpeg h Settings Frames VideoPath
    (true, w.2 ++ r.2.1, r.2.2)

namespace UOmniCaptureSubsystem

/-- `UOmniCaptureSubsystem::ConfigureActiveSegment`; `Now` is the clock reading it takes. -/
def ConfigureActiveSegment (eng : FEngine) (Now : ℚ) (s : UOmniCaptureSubsystem) :
    UOmniCaptureSubsystem :=
  let SegmentSuffix :=
    if s.CurrentSegmentIndex = 0 then "" else "_seg" ++ eng.Printf02d s.CurrentSegmentIndex
  let SegmentDirectory :=
    if s.ActiveSettings.bCreateSegmentSubfolders then
      eng.PathCombine s.BaseOutputDirectory ("Segment_" ++ eng.Printf02d s.CurrentSegmentIndex)
    else s.BaseOutputDirectory
  { s with
    ActiveSettings :=
      { s.ActiveSettings with
        OutputDirectory := SegmentDirectory
        OutputFileName := s.BaseOutputFileName ++ SegmentSuffix }
    CapturedFrameMetadata := []
    RecordedAudioPath := ""
    RecordedVideoPath := ""
    CurrentSegmentStartTime := Now
    LastSegmentSizeCheckTime := Now }

/-- `UOmniCaptureSubsystem::InitializeOutputWriters`. -/
def InitializeOutputWriters (eng : FEngine) (s : UOmniCaptureSubsystem) : UOmniCaptureSubsystem :=
  let s := { s with RecordedVideoPath := "" }
  match s.ActiveSettings.OutputFormat with
  | .PNGSequence => { s with PNGWriter := true }
  | .NVENCHardware =>
    let s := { s with NVENCEncoder := true }
    if eng.bEncoderInitialized then { s with RecordedVideoPath := eng.EncoderOutputFilePath } else s

/-- `UOmniCaptureSubsystem::ShutdownOutputWriters`. -/
def ShutdownOutputWriters (s : UOmniCaptureSubsystem) (_bFinalizeOutputs : Bool) :
    UOmniCaptureSubsystem :=
  { s with PNGWriter := false, NVENCEncoder := false }

/-- `UOmniCaptureSubsystem::InitializeAudioRecording`. -/
def InitializeAudioRecording (eng : FEngine) (s : UOmniCaptureSubsystem) : UOmniCaptureSubsystem :=
  if !s.ActiveSettings.bRecordAudio then s
  else if !eng.bWorld then s
  else { s with AudioRecorder := eng.bAudioRecorderInitialize }

/-- `UOmniCaptureSubsystem::ShutdownAudioRecording`. -/
def ShutdownAudioRecording (eng : FEngine) (s : UOmniCaptureSubsystem) : UOmniCaptureSubsystem :=
  if !s.AudioRecorder then s
  else { s with RecordedAudioPath := eng.AudioOutputFilePath, AudioRecorder := false }

/-- The consumer callback `BeginCapture` hands to `RingBuffer->Initialize`, run on one
frame. -/
def OnConsume (eng : FEngine) (s : UOmniCaptureSubsystem) (Frame : FOmniCaptureFrame) :
    UOmniCaptureSubsystem :=
  let s :=
    match s.OutputMuxer with
    | some m =>
      let m := m.PushFrame Frame
      let Stats := m.AudioStats
      let Stats :=
        if s.AudioRecorder then
          { Stats with PendingPackets := Stats.PendingPackets + eng.AudioPendingPacketCount }
        else Stats
      { s with OutputMuxer := some m, AudioStats := Stats }
    | none => s
  match s.RingBuffer with
  | some rb =>
    let s := { s with LatestRingBufferStats := rb.GetStats }
    if s.LatestRingBufferStats.DroppedFrames > s.DroppedFrameCount then
      HandleDroppedFrame { s with DroppedFrameCount := s.LatestRingBufferStats.DroppedFrames }
    else s
  | none => s

/-- The drain of `RingBuffer->Flush()`: the consumer callback runs once per pending frame,
in FIFO order; the buffer holds the frames not yet consumed. -/
def DrainRingBuffer (eng : FEngine) : List FOmniCaptureFrame → UOmniCaptureSubsystem →
    UOmniCaptureSubsystem
  | [], s => s
  | Frame :: rest, s =>
    let s := { s with RingBuffer := s.RingBuffer.map fun rb => { rb with Pending := rest } }
    DrainRingBuffer eng rest (OnConsume eng s Frame)

/-- `if (RingBuffer) { RingBuffer->Flush(); }`. -/
def FlushRingBuffer (eng : FEngine) (s : UOmniCaptureSubsystem) : UOmniCaptureSubsystem :=
  match s.RingBuffer with
  | some rb => DrainRingBuffer eng rb.Flush.1 s
  | none => s

/-- `UOmniCaptureSubsystem::CompleteActiveSegment`. -/
def CompleteActiveSegment (s : UOmniCaptureSubsystem) (bStoreResults : Bool) :
    UOmniCaptureSubsystem :=
  if !bStoreResults then
    { s with CapturedFrameMetadata := [], RecordedAudioPath := "", RecordedVideoPath := "" }
  else if s.CapturedFrameMetadata.length = 0 then
    { s with CapturedFrameMetadata := [], RecordedAudioPath := "", RecordedVideoPath := "" }
  else
    let SegmentRecord : FOmniCaptureSegmentRecord :=
      { SegmentIndex := s.CurrentSegmentIndex
        Directory := s.ActiveSettings.OutputDirectory
        BaseFileName := s.ActiveSettings.OutputFileName
        AudioPath := s.RecordedAudioPath
        VideoPath := s.RecordedVideoPath
        Frames := s.CapturedFrameMetadata }
    { s with
      CompletedSegments := s.CompletedSegments ++ [SegmentRecord]
      CapturedFrameMetadata := []
      RecordedAudioPath := ""
      RecordedVideoPath := "" }

/-- `UOmniCaptureSubsystem::FinalizeOutputs`: the segments handed to
`FOmniCaptureMuxer::FinalizeCapture`, in call order, and the state after it. -/
def FinalizeOutputs (eng : FEngine) (s : UOmniCaptureSubsystem) (bFinalizeOutputs : Bool) :
    List FOmniCaptureSegmentRecord × UOmniCaptureSubsystem :=
  if !bFinalizeOutputs then
    ([], { s with
      CapturedFrameMetadata := []
      CompletedSegments := []
      RecordedAudioPath := ""
      RecordedVideoPath := ""
      LastFinalizedOutput := ""
      LastStillImagePath := ""
      OutputMuxer := none })
  else
    let s := if s.CapturedFrameMetadata.length > 0 then CompleteActiveSegment s true else s
    if s.CompletedSegments.length = 0 then
      ([], { s with
        OutputMuxer := none
        RecordedAudioPath := ""
        RecordedVideoPath := ""
        LastFinalizedOutput := ""
        LastStillImagePath := "" })
    else
      let Last :=
        s.CompletedSegments.foldl
          (fun _ Segment => eng.PathCombine Segment.Directory (Segment.BaseFileName ++ ".mp4")) ""
      (s.CompletedSegments, { s with
        LastFinalizedOutput := Last
        CompletedSegments := []
        CapturedFrameMetadata := []
        RecordedAudioPath := ""
        RecordedVideoPath := ""
        OutputMuxer := none })

/-- The first part of `BeginCapture`, from `OriginalSettings = InSettings` to the reset
of the timers, before the environment is validated. -/
def BeginCaptureReset (eng : FEngine) (s : UOmniCaptureSubsystem)
    (InSettings : FOmniCaptureSettings) : UOmniCaptureSubsystem :=
  let s := { s with OriginalSettings := InSettings, ActiveSettings := InSettings }
  let s := { s with
    ActiveSettings := { s.ActiveSettings with OutputDirectory := BuildOutputDirectory eng s } }
  let s := { s with
    BaseOutputDirectory := s.ActiveSettings.OutputDirectory
    BaseOutputFileName :=
      if s.ActiveSettings.OutputFileName = "" then "OmniCapture" else s.ActiveSettings.OutputFileName
    CurrentSegmentIndex := 0
    CapturedFrameMetadata := []
    CompletedSegments := []
    RecordedAudioPath := ""
    RecordedVideoPath := ""
    LastFinalizedOutput := ""
    LastStillImagePath := ""
    OutputMuxer := none
    ActiveWarnings := []
    LatestRingBufferStats := {}
    AudioStats := {} }
  let s := ResetDynamicWarnings s
  { s with
    bIsPaused := false
    bDroppedFrames := false
    DroppedFrameCount := 0
    CurrentCaptureFPS := 0
    LastFpsSampleTime := 0
    FramesSinceLastFpsSample := 0
    LastRuntimeWarningCheckTime := eng.Seconds 0
    LastSegmentSizeCheckTime := eng.Seconds 0 }

/-- The last part of `BeginCapture`, from `ConfigureActiveSegment()` on, after the
fallbacks were applied. -/
def BeginCaptureStart (eng : FEngine) (s : UOmniCaptureSubsystem) : UOmniCaptureSubsystem :=
  let s := ConfigureActiveSegment eng (eng.Seconds 1) s
  if !eng.bWorld then s
  else
    let s := { s with RigActor := eng.bSpawnRig }
    if !s.RigActor then s
    else
      let s := { s with TickActor := eng.bSpawnDirector }
      if !s.TickActor then { s with RigActor := false }
      else
        let s := { s with
          PreviewActor := s.ActiveSettings.bEnablePreviewWindow && eng.bSpawnPreview }
        let s := InitializeOutputWriters eng s
        let m : FOmniCaptureMuxer := {}
        let m := MuxerInitialize eng m s.ActiveSettings s.ActiveSettings.OutputDirectory
        let s := { s with OutputMuxer := some (m.BeginRealtimeSession s.ActiveSettings) }
        let s := { s with RingBuffer := some (FOmniCaptureRingBuffer.Initialize s.ActiveSettings) }
        let s := InitializeAudioRecording eng s
        { s with
          bIsCapturing := true
          bDroppedFrames := false
          DroppedFrameCount := 0
          FrameCounter := 0
          CaptureStartTime := eng.Seconds 2
          CurrentSegmentStartTime := eng.Seconds 2
          LastSegmentSizeCheckTime := eng.Seconds 2
          LastRuntimeWarningCheckTime := eng.Seconds 2
          PreviewFrameInterval :=
            if s.ActiveSettings.bEnablePreviewWindow ∧ s.ActiveSettings.PreviewFrameRate > 0 then
              1 / max 1 s.ActiveSettings.PreviewFrameRate
            else 0
          LastPreviewUpdateTime := eng.Seconds 2
          State := .Recording }

/-- `UOmniCaptureSubsystem::BeginCapture`. -/
def BeginCapture (eng : FEngine) (s : UOmniCaptureSubsystem) (InSettings : FOmniCaptureSettings) :
    UOmniCaptureSubsystem :=
  if s.bIsCapturing then s
  else if InSettings.Resolution ≤ 0 then s
  else
    let s := BeginCaptureReset eng s InSettings
    let s := (ValidateEnvironment eng s).2
    let fb := ApplyFallbacks eng s
    if !fb.1 then fb.2 else BeginCaptureStart eng fb.2

/-- `UOmniCaptureSubsystem::EndCapture`. -/
def EndCapture (eng : FEngine) (s : UOmniCaptureSubsystem) (bFinalize : Bool) :
    UOmniCaptureSubsystem :=
  if !s.bIsCapturing then s
  else
    let s := { s with bIsCapturing := false, bIsPaused := false, State := .Finalizing }
    let s := { s with TickActor := false, PreviewActor := false, RigActor := false }
    let s := ShutdownAudioRecording eng s
    let s :=
      match s.RingBuffer with
      | some _ => { FlushRingBuffer eng s with RingBuffer := none }
      | none => s
    let s := ShutdownOutputWriters s bFinalize
    let s := { s with OutputMuxer := s.OutputMuxer.map FOmniCaptureMuxer.EndRealtimeSession }
    let s := (FinalizeOutputs eng s bFinalize).2
    { s with State := .Idle, LatestRingBufferStats := {}, AudioStats := {} }

/-- `UOmniCaptureSubsystem::PauseCapture`. -/
def PauseCapture (eng : FEngine) (s : UOmniCaptureSubsystem) : UOmniCaptureSubsystem :=
  if !s.bIsCapturing || s.bIsPaused then s
  else
    let s := { s with bIsPaused := true, State := .Paused }
    let s := FlushRingBuffer eng s
    { s with OutputMuxer := s.OutputMuxer.map FOmniCaptureMuxer.EndRealtimeSession }

/-- `UOmniCaptureSubsystem::ResumeCapture`. -/
def ResumeCapture (s : UOmniCaptureSubsystem) : UOmniCaptureSubsystem :=
  if !s.bIsCapturing || !s.bIsPaused then s
  else
    { s with
      bIsPaused := false
      State := if s.bDroppedFrames then .DroppedFrames else .Recording
      LastFpsSampleTime := 0
      FramesSinceLastFpsSample := 0
      OutputMuxer := s.OutputMuxer.map fun m => m.BeginRealtimeSession s.ActiveSettings }

/-- The decision of `RotateSegmentIfNeeded`: the flag `bShouldRotate` and the state after
the size check; `Now` is the first clock reading. -/
def ShouldRotate (eng : FEngine) (s : UOmniCaptureSubsystem) : Bool × UOmniCaptureSubsystem :=
  let Now := eng.Seconds 0
  let bShouldRotate : Bool :=
    if s.ActiveSettings.SegmentDurationSeconds > 0 then
      decide (Now - s.CurrentSegmentStartTime ≥ s.ActiveSettings.SegmentDurationSeconds)
    else false
  if !bShouldRotate && decide (s.ActiveSettings.SegmentSizeLimitMB > 0) then
    if Now - s.LastSegmentSizeCheckTime ≥ 1 then
      let s := { s with LastSegmentSizeCheckTime := Now }
      let LimitBytes : Int := s.ActiveSettings.SegmentSizeLimitMB * 1024 * 1024
      if LimitBytes > 0 ∧ eng.ActiveSegmentSizeBytes ≥ LimitBytes then (true, s) else (bShouldRotate, s)
    else (bShouldRotate, s)
  else (bShouldRotate, s)

/-- `UOmniCaptureSubsystem::RotateSegmentIfNeeded`. -/
def RotateSegmentIfNeeded (eng : FEngine) (s : UOmniCaptureSubsystem) : UOmniCaptureSubsystem :=
  if !s.bIsCapturing then s
  else
    let d := ShouldRotate eng s
    let s := d.2
    if !d.1 || decide (s.CapturedFrameMetadata.length = 0) then s
    else
      let s := FlushRingBuffer eng s
      let s := { s with OutputMuxer := s.OutputMuxer.map FOmniCaptureMuxer.EndRealtimeSession }
      let s := ShutdownAudioRecording eng s
      let s := ShutdownOutputWriters s true
      let s := CompleteActiveSegment s true
      let s := { s with CurrentSegmentIndex := s.CurrentSegmentIndex + 1 }
      let s := ConfigureActiveSegment eng (eng.Seconds 1) s
      let s := InitializeOutputWriters eng s
      let m : FOmniCaptureMuxer := s.OutputMuxer.getD {}
      let m := MuxerInitialize eng m s.ActiveSettings s.ActiveSettings.OutputDirectory
      let s := { s with
        OutputMuxer := some (m.BeginRealtimeSession s.ActiveSettings)
        AudioStats := {} }
      let s := InitializeAudioRecording eng s
      { s with
        CurrentSegmentStartTime := eng.Seconds 2
        LastSegmentSizeCheckTime := eng.Seconds 2
        LastFpsSampleTime := 0
        FramesSinceLastFpsSample := 0 }

/-- What the rig, the converter and the audio recorder deliver to one `CaptureFrame`:
the two eye captures of `RigActor->Capture`, the engine behind
`ConvertToEquirectangular`, the 2D texture behind each encoder plane (`none` where a
pointer on the way is null), and the packets `GatherAudio` appends. -/
structure FFrameInput where
  ops : FPixelOps
  gpu : FRenderThreadEngine
  bSupportsCompute : Bool
  LeftEye : FOmniEyeCapture
  RightEye : FOmniEyeCapture
  PlaneTexture : Handle → Option Handle
  AudioPackets : List FOmniAudioPacket

/-- The frame `CaptureFrame` builds from a usable conversion result. -/
def BuildFrame (inp : FFrameInput) (s : UOmniCaptureSubsystem)
    (ConversionResult : FOmniCaptureEquirectResult) (Timecode : ℚ) : FOmniCaptureFrame :=
  let FrameIndex := s.FrameCounter
  let PlaneTextures := ConversionResult.EncoderPlanes.filterMap inp.PlaneTexture
  { Metadata :=
      { FrameIndex := FrameIndex
        Timecode := Timecode
        bKeyFrame := decide (Int.tmod FrameIndex s.ActiveSettings.Quality.GOPLength = 0) }
    PixelData := ConversionResult.PixelData
    GPUSource := ConversionResult.OutputTarget
    Texture := ConversionResult.Texture
    ReadyFence := ConversionResult.ReadyFence
    bLinearColor := ConversionResult.bIsLinear
    bUsedCPUFallback := ConversionResult.bUsedCPUFallback
    EncoderTextures :=
      if PlaneTextures.length = 0 then
        match ConversionResult.Texture with
        | some t => [t]
        | none => []
      else PlaneTextures
    AudioPackets := if s.AudioRecorder then inp.AudioPackets else [] }

/-- The frame-rate sample of `CaptureFrame`; `NowSeconds` is the clock reading. -/
def SampleFps (NowSeconds : ℚ) (s : UOmniCaptureSubsystem) : UOmniCaptureSubsystem :=
  let s := { s with FramesSinceLastFpsSample := s.FramesSinceLastFpsSample + 1 }
  let s := if s.LastFpsSampleTime ≤ 0 then { s with LastFpsSampleTime := NowSeconds } else s
  let SampleElapsed := NowSeconds - s.LastFpsSampleTime
  if SampleElapsed ≥ 1 then
    let SafeElapsed := max SampleElapsed (1 / 10000)
    { s with
      CurrentCaptureFPS := (s.FramesSinceLastFpsSample : ℚ) / SafeElapsed
      FramesSinceLastFpsSample := 0
      LastFpsSampleTime := NowSeconds }
  else s

/-- The part of `CaptureFrame` after the conversion result was found usable: the frame is
built, its metadata recorded, the frame enqueued (no consume happens during the call) and
the preview time updated. The clock readings are `Seconds 3` (timecode), `Seconds 4`
(frame-rate sample) and `Seconds 5` (preview). -/
def CaptureFrameAccept (eng : FEngine) (inp : FFrameInput) (s : UOmniCaptureSubsystem)
    (ConversionResult : FOmniCaptureEquirectResult) : UOmniCaptureSubsystem :=
  let Frame := BuildFrame inp s ConversionResult (eng.Seconds 3 - s.CaptureStartTime)
  let s := { s with FrameCounter := s.FrameCounter + 1 }
  let s := SampleFps (eng.Seconds 4) s
  let s := { s with CapturedFrameMetadata := s.CapturedFrameMetadata ++ [Frame.Metadata] }
  let s := { s with RingBuffer := s.RingBuffer.map fun (rb : FOmniCaptureRingBuffer) => rb.Enqueue Frame }
  let s :=
    match s.RingBuffer with
    | some rb => { s with LatestRingBufferStats := rb.GetStats }
    | none => s
  if s.PreviewActor then
    let Now := eng.Seconds 5
    if s.PreviewFrameInterval ≤ 0 ∨ Now - s.LastPreviewUpdateTime ≥ s.PreviewFrameInterval then
      { s with LastPreviewUpdateTime := Now }
    else s
  else s

/-- `UOmniCaptureSubsystem::CaptureFrame`. The result is `none` where the source divides
by a zero `GOPLength` (`FrameIndex % GOPLength`). -/
def CaptureFrame (eng : FEngine) (inp : FFrameInput) (s : UOmniCaptureSubsystem) :
    Option UOmniCaptureSubsystem :=
  if !s.RigActor || s.RingBuffer.isNone then some (HandleDroppedFrame s)
  else
    let ConversionResult := ConvertToEquirectangular inp.ops inp.gpu inp.bSupportsCompute
      s.ActiveSettings inp.LeftEye inp.RightEye
    let bRequiresGPU := decide (s.ActiveSettings.OutputFormat = .NVENCHardware)
    if ConversionResult.PixelData.isNone then some (HandleDroppedFrame s)
    else if bRequiresGPU && ConversionResult.Texture.isNone then some (HandleDroppedFrame s)
    else if s.ActiveSettings.Quality.GOPLength = 0 then none
    else some (CaptureFrameAccept eng inp s ConversionResult)

/-- The disk-space block of `UpdateRuntimeWarnings`. -/
def UpdateDiskWarning (eng : FEngine) (s : UOmniCaptureSubsystem) : UOmniCaptureSubsystem :=
  if s.ActiveSettings.MinimumFreeDiskSpaceGB > 0 then
    let ThresholdBytes : Int :=
      (s.ActiveSettings.MinimumFreeDiskSpaceGB * 1024 * 1024 * 1024) % 2 ^ 64
    match eng.Host.DiskFreeBytes with
    | some FreeBytes =>
      if ThresholdBytes > 0 then
        if (FreeBytes : Int) < ThresholdBytes then s.AddWarningUnique WarningLowDisk
        else s.RemoveWarning WarningLowDisk
      else s
    | none => s
  else s

/-- The frame-rate block of `UpdateRuntimeWarnings`. -/
def UpdateFpsWarning (s : UOmniCaptureSubsystem) : UOmniCaptureSubsystem :=
  if s.ActiveSettings.TargetFrameRate > 0 then
    let ThresholdFps :=
      s.ActiveSettings.TargetFrameRate * Clamp s.ActiveSettings.LowFrameRateWarningRatio (1 / 10) 1
    if !s.bIsPaused ∧ s.CurrentCaptureFPS > 0 ∧ s.CurrentCaptureFPS < ThresholdFps then
      s.AddWarningUnique WarningLowFps
    else
      let s := s.RemoveWarning WarningLowFps
      if !s.bDroppedFrames then s.RemoveWarning WarningFrameDrop else s
  else s

/-- `UOmniCaptureSubsystem::UpdateRuntimeWarnings`; the clock reading is `Seconds 6`. -/
def UpdateRuntimeWarnings (eng : FEngine) (s : UOmniCaptureSubsystem) : UOmniCaptureSubsystem :=
  let Now := eng.Seconds 6
  if Now - s.LastRuntimeWarningCheckTime < 1 then s
  else
    let s := { s with LastRuntimeWarningCheckTime := Now }
    UpdateFpsWarning (UpdateDiskWarning eng s)

/-- `UOmniCaptureSubsystem::TickCapture`; `none` where `CaptureFrame` is. -/
def TickCapture (eng : FEngine) (inp : FFrameInput) (s : UOmniCaptureSubsystem) :
    Option UOmniCaptureSubsystem :=
  if !s.bIsCapturing then some s
  else
    let r : Option UOmniCaptureSubsystem :=
      if !s.bIsPaused then CaptureFrame eng inp (RotateSegmentIfNeeded eng s) else some s
    r.map (UpdateRuntimeWarnings eng)

end UOmniCaptureSubsystem

/-! ## Concrete inputs used by the closed statements -/

/-- Engine operations for the closed statements, where the pixel values play no part:
every preview colour is opaque black, the half-float conversion is exact, and the
floating-point functions are coarse rational stand-ins. -/
def ops0 : FPixelOps :=
  { ToFColor := fun _ => ⟨0, 0, 0, 255⟩
    ToFloat16 := fun c => c
    PI := 355 / 113
    Cos := fun _ => 1
    Sin := fun _ => 0
    GetSafeNormal := fun v => v
    Normalize := fun v => v }

/-- A readable 1 x 1 render target. -/
def rt1 : UTextureRenderTarget2D :=
  { bHasResource := true, SizeX := 1, SizeY := 1
    ReadFloat16Pixels := some [⟨1, 0, 0, 1⟩], Texture := some 7 }

/-- An eye whose six faces are the readable 1 x 1 target. -/
def eye1 : FOmniEyeCapture := { Faces := fun _ => { RenderTarget := some rt1 } }

/-- An eye whose six faces are a 2 x 1 target: it has a resource but is not square. -/
def eyeNotSquare : FOmniEyeCapture :=
  { Faces := fun _ => { RenderTarget := some { rt1 with SizeX := 2 } } }

/-- An eye with no render target on any face. -/
def eyeEmpty : FOmniEyeCapture := { Faces := fun _ => {} }

/-- A render-thread run in which nothing could be extracted. -/
def engNothing : FRenderThreadEngine :=
  { ExtractedOutput := none, OutputTexture2D := none, bOutputTextureRHI := false
    ExtractedLuma := none, ExtractedChroma := none, ExtractedBGRA := none
    BGRATexture2D := none, Fence := none, ReadbackLock := none }

/-- A render-thread run that produced the output target and its texture but whose
readback could not be locked. -/
def engNoReadback : FRenderThreadEngine :=
  { engNothing with
    ExtractedOutput := some 1, OutputTexture2D := some 2, bOutputTextureRHI := true
    Fence := some 3 }

/-- Whether `ConvertToEquirectangular` finds a render-target resource on a face: the
render target is non-null and `GameThread_GetRenderTargetResource()` is non-null. -/
def FaceHasResource (f : FOmniCaptureFaceResources) : Bool :=
  match f.RenderTarget with
  | none => false
  | some rt => rt.bHasResource

/-- The number of faces of an eye that have a render-target resource. -/
def FacesWithResource (Eye : FOmniEyeCapture) : Nat :=
  ((List.finRange 6).filter fun i => FaceHasResource (Eye.Faces i)).length

/-- Stereo side-by-side settings at face resolution 1. -/
def sSideBySide1 : FOmniCaptureSettings :=
  { Mode := .Stereo, StereoLayout := .SideBySide, Resolution := 1 }

/-- Mono settings at face resolution 1. -/
def sMono1 : FOmniCaptureSettings := { Mode := .Mono, Resolution := 1 }

/-- Stereo top-bottom settings at face resolution 1. -/
def sStereo1 : FOmniCaptureSettings := { Mode := .Stereo, Resolution := 1 }

/-- The end time of a packet in the words of the specification:
`timestamp + sampleCount / (sampleRate * channels)`. -/
def PacketEnd (Packet : FOmniAudioPacket) : ℚ :=
  Packet.Timestamp + (Packet.PCM16.length : ℚ) / ((Packet.SampleRate : ℚ) * (Packet.NumChannels : ℚ))

/-- A packet of 9600 samples at 48 kHz, two channels, starting at `t`: it covers 0.1 s. -/
def packetAt (t : ℚ) : FOmniAudioPacket :=
  { Timestamp := t, SampleRate := 48000, NumChannels := 2, PCM16 := List.replicate 9600 0 }

/-- A frame with timecode `tc` carrying one packet that starts at `t`. -/
def frameAt (tc t : ℚ) : FOmniCaptureFrame :=
  { Metadata := { Timecode := tc }, AudioPackets := [packetAt t] }

/-- A tracker whose realtime session was just begun with variable frame rate allowed
(threshold 35 ms). -/
def muxer35 : FOmniCaptureMuxer :=
  FOmniCaptureMuxer.BeginRealtimeSession {} { bForceConstantFrameRate := false }

/-- A Windows machine with the NVENC build: NV12 and BGRA are supported pixel formats,
P010 is not; the RHI is D3D12. -/
def hostWindows : FHost :=
  { bWithOmniNVENC := true, bPlatformWindows := true, bDefinedPF_P010 := true
    bNV12Supported := true, bP010Supported := false, bBGRASupported := true
    RHIInterfaceType := some .D3D12, GpuBrand := "NVIDIA", DriverVersion := "551.23"
    EnvFFmpeg := "", bFFmpegFileExists := false, DiskFreeBytes := some 1000000000000 }

/-- The same machine with a build that has no NVENC support. -/
def hostNoNVENC : FHost := { hostWindows with bWithOmniNVENC := false }

/-- An engine on `host` in which every actor spawns and every collaborator initialises;
the clock reads 0, 1, 2, ... seconds. -/
def engineOn (host : FHost) : FEngine :=
  { Host := host, Seconds := fun n => n, bWorld := true, bSpawnRig := true
    bSpawnDirector := true, bSpawnPreview := true, bAudioRecorderInitialize := true
    AudioOutputFilePath := "audio.wav", AudioPendingPacketCount := 0
    bEncoderInitialized := true, EncoderOutputFilePath := "video.h265"
    ActiveSegmentSizeBytes := 0, ProjectSavedDir := "Saved"
    ConvertRelativePathToFull := fun p => p
    PathCombine := fun a b => a ++ "/" ++ b
    Printf02d := fun n => if n < 10 then "0" ++ toString n else toString n }

/-- Settings requesting HEVC, P010 and hardware-encoded output. -/
def sHEVCP010 : FOmniCaptureSettings :=
  { Resolution := 1024, OutputFormat := .NVENCHardware, Codec := .HEVC, NVENCColorFormat := .P010 }

/-- The members that recording a warning leaves alone: the active settings, the capturing
flag and the state label of `a` are those of `b`. -/
def UOmniCaptureSubsystem.KeepsCore (a b : UOmniCaptureSubsystem) : Prop :=
  a.ActiveSettings = b.ActiveSettings ∧ a.bIsCapturing = b.bIsCapturing ∧ a.State = b.State

/-- An engine on the Windows host whose clock reads `t` at every call. -/
def engineClock (t : ℚ) : FEngine := { engineOn hostWindows with Seconds := fun _ => t }

/-- A recording subsystem whose active segment started at time 0, with a segment duration
of 10 s, the size limit disabled and `n` captured frames in the active segment. -/
def recordingWithFrames (n : Nat) : UOmniCaptureSubsystem :=
  { ActiveSettings := { SegmentDurationSeconds := 10, SegmentSizeLimitMB := 0 }
    bIsCapturing := true
    State := .Recording
    CurrentSegmentStartTime := 0
    CurrentSegmentIndex := 0
    CapturedFrameMetadata := List.replicate n {} }

/-- The frame with index `i` and nothing else. -/
def frameIdx (i : Int) : FOmniCaptureFrame := { Metadata := { FrameIndex := i } }

/-- A paused subsystem with two frames pending in its ring buffer, a running audio
tracker and published statistics. -/
def pausedBusy : UOmniCaptureSubsystem :=
  { ActiveSettings := { RingBufferCapacity := 2 }
    bIsCapturing := true
    bIsPaused := true
    State := .Paused
    RingBuffer := some { Capacity := 2, Pending := [frameIdx 3, frameIdx 4], DroppedFrames := 3 }
    OutputMuxer := some muxer35
    CapturedFrameMetadata := [{ FrameIndex := 3 }, { FrameIndex := 4 }]
    LatestRingBufferStats := { PendingFrames := 2, DroppedFrames := 3 }
    AudioStats := { DriftMilliseconds := 50, bInError := true } }

/-- A valid cubemap of 2 x 2 faces whose texel at index `k` of every face has red
value `k`. -/
def cubemapTwo : FCPUCubemap :=
  { Faces := fun _ =>
      { Resolution := 2
        Pixels := [⟨0, 0, 0, 1⟩, ⟨1, 0, 0, 1⟩, ⟨2, 0, 0, 1⟩, ⟨3, 0, 0, 1⟩] } }

/-- A direction through face 0 (+X) at face coordinates `(3/4, 1/4)`. -/
def dirThreeQuarter : FVector := ⟨1, -1/2, -1/2⟩

/-- A second valid cubemap of 2 x 2 faces, with red values `10 + k`: the right eye. -/
def cubemapTwoRight : FCPUCubemap :=
  { Faces := fun _ =>
      { Resolution := 2
        Pixels := [⟨10, 0, 0, 1⟩, ⟨11, 0, 0, 1⟩, ⟨12, 0, 0, 1⟩, ⟨13, 0, 0, 1⟩] } }

/-- A machine on which the manifest can be saved and every file exists, but the FFmpeg
process exits with code 1. -/
def muxHostExitOne : FMuxerHost :=
  { Host := hostWindows, PathCombine := fun a b => a ++ "/" ++ b, bSerialize := true
    bSaveStringToFile := true, FileExists := fun _ => true, bProcHandleValid := true
    ReturnCode := 1 }

/-- A muxer initialised for the directory `out` with the default base name and FFmpeg
found on the search path. -/
def muxerOut : FOmniCaptureMuxer :=
  { OutputDirectory := "out", BaseFileName := "OmniCapture", CachedFFmpegPath := "ffmpeg" }

/-- A recording subsystem in its second segment: one completed segment on record and one
captured frame in the active segment. -/
def recordingSecondSegment : UOmniCaptureSubsystem :=
  { ActiveSettings := { OutputDirectory := "out/seg01", OutputFileName := "OmniCapture_seg01" }
    bIsCapturing := true
    State := .Recording
    CurrentSegmentIndex := 1
    CompletedSegments :=
      [{ SegmentIndex := 0, Directory := "out", BaseFileName := "OmniCapture", AudioPath := ""
         VideoPath := "", Frames := [{ FrameIndex := 0 }] }]
    CapturedFrameMetadata := [{ FrameIndex := 1 }] }

/-- A recording subsystem with a live rig and a ring buffer holding one frame, two frames
captured so far. -/
def recordingLive : UOmniCaptureSubsystem :=
  { ActiveSettings := { Resolution := 1 }
    bIsCapturing := true
    State := .Recording
    FrameCounter := 2
    RigActor := true
    RingBuffer := some { Capacity := 2, Pending := [frameIdx 1] }
    CapturedFrameMetadata := [{ FrameIndex := 0 }, { FrameIndex := 1 }] }

/-- A frame for which the rig delivered no render targets and the render thread
extracted nothing. -/
def inputNothing : UOmniCaptureSubsystem.FFrameInput :=
  { ops := ops0, gpu := engNothing, bSupportsCompute := false, LeftEye := eyeEmpty
    RightEye := eyeEmpty, PlaneTexture := fun _ => none, AudioPackets := [] }

/-- A paused capture in which a frame drop was recorded before the pause. -/
def droppedPaused : UOmniCaptureSubsystem :=
  { pausedBusy with bDroppedFrames := true, DroppedFrameCount := 1 }

/-- Engine operations for the pole example: as `ops0`, but `Normalize` divides a vector
of length 5 by 5; every other vector is returned as it is, which is what normalisation
does to a unit vector. -/
def opsPole : FPixelOps :=
  { ops0 with
    Normalize := fun v =>
      if v.X ^ 2 + v.Y ^ 2 + v.Z ^ 2 = 25 then ⟨v.X / 5, v.Y / 5, v.Z / 5⟩ else v }

/-- A Windows machine on which the encoder input and the video encoder are created. -/
def encoderHostWindows : FEncoderHost :=
  { Host := hostWindows, ProjectSavedDir := "Saved", ConvertRelativePathToFull := fun p => p
    PathCombine := fun a b => a ++ "/" ++ b, bEncoderInputValid := true
    bVideoEncoderValid := true }

/-- Stereo side-by-side settings at face resolution 1024 with hardware-encoded output. -/
def sSideBySideNVENC : FOmniCaptureSettings :=
  { Mode := .Stereo, StereoLayout := .SideBySide, Resolution := 1024
    OutputFormat := .NVENCHardware }

/-- The members a helper of the capture loop leaves alone: `a` has the active settings,
the flags, the frame counter, the segment lists, the segment index and the base names of
`b`, and the state label of `b` unless a frame drop was marked on the way. -/
structure UOmniCaptureSubsystem.KeepsRun (a b : UOmniCaptureSubsystem) : Prop where
  settings : a.ActiveSettings = b.ActiveSettings
  capturing : a.bIsCapturing = b.bIsCapturing
  paused : a.bIsPaused = b.bIsPaused
  counter : a.FrameCounter = b.FrameCounter
  completed : a.CompletedSegments = b.CompletedSegments
  captured : a.CapturedFrameMetadata = b.CapturedFrameMetadata
  index : a.CurrentSegmentIndex = b.CurrentSegmentIndex
  baseName : a.BaseOutputFileName = b.BaseOutputFileName
  baseDir : a.BaseOutputDirectory = b.BaseOutputDirectory
  state : a.State = b.State ∨ a.State = .DroppedFrames

/-- The metadata of every frame captured in the session so far, in capture order: the
frames of the completed segments followed by those of the active segment. -/
def UOmniCaptureSubsystem.SessionFrames (s : UOmniCaptureSubsystem) :
    List FOmniCaptureFrameMetadata :=
  s.CompletedSegments.flatMap (fun Segment => Segment.Frames) ++ s.CapturedFrameMetadata

/-- The numbering the specification asks of a session's frames: the `k`-th frame
(counted from 0) has index `k`, and is a key frame exactly when `k mod G = 0`. -/
def FramesNumbered (G : Int) (Frames : List FOmniCaptureFrameMetadata) : Prop :=
  ∀ (k : Nat) (h : k < Frames.length),
    (Frames.get ⟨k, h⟩).FrameIndex = (k : Int) ∧
    ((Frames.get ⟨k, h⟩).bKeyFrame = true ↔ (k : Int) % G = 0)

/-- The consistency of flags and state label the specification asks of the subsystem
between calls. -/
def UOmniCaptureSubsystem.Consistent (s : UOmniCaptureSubsystem) : Prop :=
  (s.bIsPaused = true → s.bIsCapturing = true) ∧
  (s.State = .Idle ↔ s.bIsCapturing = false) ∧
  (s.State = .Paused → s.bIsPaused = true) ∧
  s.State ≠ .Finalizing

/-- One call of the public interface of the subsystem, with what the engine answers
during it. -/
inductive FCall where
  | BeginCapture (eng : FEngine) (InSettings : FOmniCaptureSettings)
  | TickCapture (eng : FEngine) (inp : UOmniCaptureSubsystem.FFrameInput)
  | PauseCapture (eng : FEngine)
  | ResumeCapture
  | EndCapture (eng : FEngine) (bFinalize : Bool)

/-- The state after one call; `none` where `TickCapture` is. -/
def UOmniCaptureSubsystem.Step (s : UOmniCaptureSubsystem) :
    FCall → Option UOmniCaptureSubsystem
  | .BeginCapture eng InSettings => some (BeginCapture eng s InSettings)
  | .TickCapture eng inp => TickCapture eng inp s
  | .PauseCapture eng => some (PauseCapture eng s)
  | .ResumeCapture => some (ResumeCapture s)
  | .EndCapture eng bFinalize => some (EndCapture eng s bFinalize)

/-- The state after a sequence of calls, observed between calls. -/
def UOmniCaptureSubsystem.Run : List FCall → UOmniCaptureSubsystem →
    Option UOmniCaptureSubsystem
  | [], s => some s
  | c :: rest, s =>
    match s.Step c with
    | some t => UOmniCaptureSubsystem.Run rest t
    | none => none

/-- A recording subsystem in its first segment (index 0, started at time 0, segment
duration 10 s, size limit disabled) with two captured frames and the base name `Take`. -/
def recordingDue : UOmniCaptureSubsystem :=
  { ActiveSettings :=
      { SegmentDurationSeconds := 10, SegmentSizeLimitMB := 0
        OutputDirectory := "out/Segment_00", OutputFileName := "Take" }
    bIsCapturing := true
    State := .Recording
    FrameCounter := 2
    CurrentSegmentStartTime := 0
    CurrentSegmentIndex := 0
    BaseOutputDirectory := "out"
    BaseOutputFileName := "Take"
    CapturedFrameMetadata := [{ FrameIndex := 0, bKeyFrame := true }, { FrameIndex := 1 }] }

/-- The members validation, the fallbacks and the writers leave alone: `a` has the
flags, the state label, the frame counter, the segment lists and the quality settings
of `b`. -/
structure UOmniCaptureSubsystem.KeepsSession (a b : UOmniCaptureSubsystem) : Prop where
  capturing : a.bIsCapturing = b.bIsCapturing
  paused : a.bIsPaused = b.bIsPaused
  state : a.State = b.State
  counter : a.FrameCounter = b.FrameCounter
  completed : a.CompletedSegments = b.CompletedSegments
  captured : a.CapturedFrameMetadata = b.CapturedFrameMetadata
  quality : a.ActiveSettings.Quality = b.ActiveSettings.Quality

/-- The numbering of a running session: while capturing with a positive `GOPLength`, the
frame counter is the number of frames captured so far and these frames are numbered. -/
def UOmniCaptureSubsystem.Numbered (s : UOmniCaptureSubsystem) : Prop :=
  s.bIsCapturing = true → 0 < s.ActiveSettings.Quality.GOPLength →
    s.FrameCounter = ((s.SessionFrames).length : Int) ∧
    FramesNumbered s.ActiveSettings.Quality.GOPLength s.SessionFrames

/-- Settings that differ from the defaults in the face resolution (1) and in
`Quality.GOPLength` (0). -/
def sZeroGOP : FOmniCaptureSettings := { Resolution := 1, Quality := { GOPLength := 0 } }

/-- Mono settings at face resolution 1 with a key frame every second frame and segments
of 10 s. -/
def sGOPTwo : FOmniCaptureSettings :=
  { Resolution := 1, SegmentDurationSeconds := 10, Quality := { GOPLength := 2 } }

/-- A frame for which the rig delivered readable 1 x 1 faces for both eyes; the render
thread extracts nothing, so the conversion runs on the CPU. -/
def inputOne : UOmniCaptureSubsystem.FFrameInput :=
  { ops := ops0, gpu := engNothing, bSupportsCompute := false, LeftEye := eye1
    RightEye := eye1, PlaneTexture := fun _ => none, AudioPackets := [] }

/-- A session of three frames: begin (the segment starts at time 2), one tick, a tick
at time 12 that rotates the segment before it captures, a pause, a resume and a third
tick. -/
def callsThreeFrames : List FCall :=
  [.BeginCapture (engineOn hostWindows) sGOPTwo,
   .TickCapture (engineOn hostWindows) inputOne,
   .TickCapture (engineClock 12) inputOne,
   .PauseCapture (engineOn hostWindows),
   .ResumeCapture,
   .TickCapture (engineOn hostWindows) inputOne]

/-- A session that is paused after one frame, and the same session ended afterwards. -/
def callsPaused : List FCall :=
  [.BeginCapture (engineOn hostWindows) sGOPTwo,
   .TickCapture (engineOn hostWindows) inputOne,
   .PauseCapture (engineOn hostWindows)]

end OmniCapture

/-! # Theorems -/

namespace OmniCapture

theorem wrapI32_eq (x : Int) (h0 : -2147483648 ≤ x) (h1 : x ≤ maxI32) : wrapI32 x = x := by
  unfold wrapI32
  unfold maxI32 at h1
  omega

theorem mulI32_eq (a b : Int) (h0 : 0 ≤ a * b) (h1 : a * b ≤ maxI32) : mulI32 a b = a * b :=
  wrapI32_eq _ (by omega) h1

end OmniCapture

namespace OmniCapture

/-- A cubemap `BuildCPUCubemap` returns passed `FCPUCubemap::IsValid`. -/
theorem BuildCPUCubemap_valid {Eye : FOmniEyeCapture} {c : FCPUCubemap}
    (h : BuildCPUCubemap Eye = some c) : c.IsValid = true := by
  unfold BuildCPUCubemap at h
  split at h
  · exact absurd h (by simp)
  · split at h
    · rename_i hv
      simp only [Option.some.injEq] at h
      subst h
      exact hv
    · exact absurd h (by simp)

/-- Every face of a valid cubemap has a positive resolution. -/
theorem FCPUCubemap.resolution_pos {c : FCPUCubemap} (h : c.IsValid = true) (i : Fin 6) :
    0 < (c.Faces i).Resolution := by
  unfold FCPUCubemap.IsValid at h
  rw [List.all_eq_true] at h
  have hi := h i (List.mem_finRange i)
  unfold FCPUFaceData.IsValid at hi
  simp only [Bool.and_eq_true, decide_eq_true_eq] at hi
  exact hi.1

/-- The size `ConvertOnCPU` stores when both required cubemaps build. -/
theorem ConvertOnCPU_size (ops : FPixelOps) (Settings : FOmniCaptureSettings)
    (LeftEye RightEye : FOmniEyeCapture) (Out : FOmniCaptureEquirectResult)
    (LeftCubemap : FCPUCubemap) (hL : BuildCPUCubemap LeftEye = some LeftCubemap)
    (hR : Settings.Mode = .Stereo → (BuildCPUCubemap RightEye).isSome = true) :
    (ConvertOnCPU ops Settings LeftEye RightEye Out).Size =
      (if decide (Settings.Mode = .Stereo) && decide (Settings.StereoLayout = .SideBySide) then
          mulI32 (LeftCubemap.Faces 0).Resolution 4
        else mulI32 (LeftCubemap.Faces 0).Resolution 2,
       if decide (Settings.Mode = .Stereo) && !decide (Settings.StereoLayout = .SideBySide) then
          mulI32 (LeftCubemap.Faces 0).Resolution 2
        else (LeftCubemap.Faces 0).Resolution) := by
  unfold ConvertOnCPU
  rw [hL]
  by_cases hm : Settings.Mode = .Stereo
  · obtain ⟨rc, hrc⟩ := Option.isSome_iff_exists.mp (hR hm)
    simp [hm, hrc]
  · simp [hm]

/-- The size `ConvertOnRenderThread` stores when it has faces and the output target was
extracted. -/
theorem ConvertOnRenderThread_size (ops : FPixelOps) (eng : FRenderThreadEngine)
    (Settings : FOmniCaptureSettings) (LeftFaces RightFaces : List (Option Handle))
    (Out : FOmniCaptureEquirectResult) (hFaces : LeftFaces.length ≠ 0)
    (hOut : eng.ExtractedOutput.isSome = true) :
    (ConvertOnRenderThread ops eng Settings LeftFaces RightFaces Out).Size =
      (if decide (Settings.Mode = .Stereo) &&
            (decide (Settings.Mode = .Stereo) && decide (Settings.StereoLayout = .SideBySide)) then
          mulI32 Settings.Resolution 4
        else mulI32 Settings.Resolution 2,
       if decide (Settings.Mode = .Stereo) &&
            !(decide (Settings.Mode = .Stereo) && decide (Settings.StereoLayout = .SideBySide)) then
          mulI32 Settings.Resolution 2
        else Settings.Resolution) := by
  obtain ⟨o, ho⟩ := Option.isSome_iff_exists.mp hOut
  unfold ConvertOnRenderThread
  simp only [BuildFaceArray, ho, hFaces, ne_eq, not_false_eq_true, decide_True, Bool.not_true]
  cases eng.ReadbackLock <;> cases eng.bOutputTextureRHI <;>
    cases hg : Settings.Gamma <;> simp

/-- C1: for a face resolution `R > 0` the equirectangular result has `Size = (2R, R)` in
mono mode whatever the stereo layout, `(4R, R)` in stereo side-by-side and `(2R, 2R)` in
stereo top-bottom. This holds for the size `ConvertOnCPU` stores, with `R` the resolution
of the first face of the left cubemap (which is positive for every cubemap that builds),
and for the size `ConvertOnRenderThread` stores, with `R = Settings.Resolution`. `Size` is
a pair of `int32`, so each equation is stated for the `R` whose claimed width is an
`int32`. -/
theorem C1_equirect_output_size (ops : FPixelOps) (eng : FRenderThreadEngine)
    (Settings : FOmniCaptureSettings) (LeftEye RightEye : FOmniEyeCapture)
    (LeftFaces RightFaces : List (Option Handle)) (Out : FOmniCaptureEquirectResult)
    (LeftCubemap : FCPUCubemap) (hL : BuildCPUCubemap LeftEye = some LeftCubemap)
    (hR : Settings.Mode = .Stereo → (BuildCPUCubemap RightEye).isSome = true)
    (hRes : 0 < Settings.Resolution) (hFaces : LeftFaces.length = 6)
    (hOut : eng.ExtractedOutput.isSome = true) :
    0 < (LeftCubemap.Faces 0).Resolution ∧
    (Settings.Mode = .Mono →
      (2 * (LeftCubemap.Faces 0).Resolution ≤ maxI32 →
        (ConvertOnCPU ops Settings LeftEye RightEye Out).Size =
          (2 * (LeftCubemap.Faces 0).Resolution, (LeftCubemap.Faces 0).Resolution)) ∧
      (2 * Settings.Resolution ≤ maxI32 →
        (ConvertOnRenderThread ops eng Settings LeftFaces RightFaces Out).Size =
          (2 * Settings.Resolution, Settings.Resolution))) ∧
    (Settings.Mode = .Stereo → Settings.StereoLayout = .SideBySide →
      (4 * (LeftCubemap.Faces 0).Resolution ≤ maxI32 →
        (ConvertOnCPU ops Settings LeftEye RightEye Out).Size =
          (4 * (LeftCubemap.Faces 0).Resolution, (LeftCubemap.Faces 0).Resolution)) ∧
      (4 * Settings.Resolution ≤ maxI32 →
        (ConvertOnRenderThread ops eng Settings LeftFaces RightFaces Out).Size =
          (4 * Settings.Resolution, Settings.Resolution))) ∧
    (Settings.Mode = .Stereo → Settings.StereoLayout = .TopBottom →
      (2 * (LeftCubemap.Faces 0).Resolution ≤ maxI32 →
        (ConvertOnCPU ops Settings LeftEye RightEye Out).Size =
          (2 * (LeftCubemap.Faces 0).Resolution, 2 * (LeftCubemap.Faces 0).Resolution)) ∧
      (2 * Settings.Resolution ≤ maxI32 →
        (ConvertOnRenderThread ops eng Settings LeftFaces RightFaces Out).Size =
          (2 * Settings.Resolution, 2 * Settings.Resolution))) := by
  have hpos := FCPUCubemap.resolution_pos (BuildCPUCubemap_valid hL) 0
  have hc := ConvertOnCPU_size ops Settings LeftEye RightEye Out LeftCubemap hL hR
  have hg := ConvertOnRenderThread_size ops eng Settings LeftFaces RightFaces Out
    (by omega) hOut
  refine ⟨hpos, ?_, ?_, ?_⟩
  · intro hm
    refine ⟨fun hfit => ?_, fun hfit => ?_⟩
    · have e := mulI32_eq (LeftCubemap.Faces 0).Resolution 2 (by omega) (by omega)
      simp [hc, hm, e, mul_comm]
    · have e := mulI32_eq Settings.Resolution 2 (by omega) (by omega)
      simp [hg, hm, e, mul_comm]
  · intro hm hl
    refine ⟨fun hfit => ?_, fun hfit => ?_⟩
    · have e := mulI32_eq (LeftCubemap.Faces 0).Resolution 4 (by omega) (by omega)
      simp [hc, hm, hl, e, mul_comm]
    · have e := mulI32_eq Settings.Resolution 4 (by omega) (by omega)
      simp [hg, hm, hl, e, mul_comm]
  · intro hm hl
    refine ⟨fun hfit => ?_, fun hfit => ?_⟩
    · have e := mulI32_eq (LeftCubemap.Faces 0).Resolution 2 (by omega) (by omega)
      simp [hc, hm, hl, e, mul_comm]
    · have e := mulI32_eq Settings.Resolution 2 (by omega) (by omega)
      simp [hg, hm, hl, e, mul_comm]

end OmniCapture

namespace OmniCapture

/-- C1 at a concrete input: stereo side-by-side at face resolution 1 gives a 4 x 1 image
on both paths. -/
theorem C1_equirect_output_size_witness :
    (0 < sSideBySide1.Resolution ∧ (CollectFaces eye1).length = 6) ∧
    (ConvertOnCPU ops0 sSideBySide1 eye1 eye1 {}).Size = (4, 1) ∧
    (ConvertOnRenderThread ops0 engNoReadback sSideBySide1 (CollectFaces eye1)
      (CollectFaces eye1) {}).Size = (4, 1) := by
  have h := C1_equirect_output_size ops0 engNoReadback sSideBySide1 eye1 eye1
    (CollectFaces eye1) (CollectFaces eye1) {}
    ((BuildCPUCubemap eye1).get (by decide)) (by simp) (fun _ => by decide) (by decide)
    (by decide) (by decide)
  have h3 := h.2.2.1 rfl rfl
  exact ⟨⟨by decide, by decide⟩, (h3.1 (by decide)).trans (by decide),
    (h3.2 (by decide)).trans (by decide)⟩

/-- The number of entries `filterMap` keeps. -/
theorem length_filterMap_eq_length_filter {α β : Type} (f : α → Option β) (l : List α) :
    (l.filterMap f).length = (l.filter fun a => (f a).isSome).length := by
  induction l with
  | nil => rfl
  | cons a l ih =>
    cases h : f a <;> simp [List.filterMap_cons, List.filter_cons, h, ih]

/-- `CollectFaces` keeps one entry per face that has a resource. -/
theorem CollectFaces_length (Eye : FOmniEyeCapture) :
    (CollectFaces Eye).length = FacesWithResource Eye := by
  unfold CollectFaces FacesWithResource
  rw [length_filterMap_eq_length_filter]
  congr 1
  apply List.filter_congr
  intro i _
  unfold FaceHasResource
  cases (Eye.Faces i).RenderTarget with
  | none => rfl
  | some rt => cases hb : rt.bHasResource <;> simp [hb]

/-- The face loop stops with failure at a face that does not read. -/
theorem BuildCPUCubemapLoop_none (Eye : FOmniEyeCapture) (i : Fin 6)
    (hi : ReadFaceData (Eye.Faces i).RenderTarget = none) :
    ∀ (l : List (Fin 6)) (Out : FCPUCubemap), i ∈ l → BuildCPUCubemapLoop Eye l Out = none := by
  intro l
  induction l with
  | nil => intro _ h; exact absurd h (List.not_mem_nil i)
  | cons j rest ih =>
    intro Out h
    unfold BuildCPUCubemapLoop
    by_cases hj : j = i
    · subst hj
      rw [hi]
    · have hmem : i ∈ rest := by
        rcases List.mem_cons.mp h with h | h
        · exact absurd h.symm hj
        · exact h
      cases ReadFaceData (Eye.Faces j).RenderTarget with
      | none => rfl
      | some f => exact ih _ hmem

/-- A cubemap does not build when one of its faces does not read. -/
theorem BuildCPUCubemap_none (Eye : FOmniEyeCapture) (i : Fin 6)
    (hi : ReadFaceData (Eye.Faces i).RenderTarget = none) : BuildCPUCubemap Eye = none := by
  unfold BuildCPUCubemap
  rw [BuildCPUCubemapLoop_none Eye i hi _ _ (List.mem_finRange i)]

/-- A render target that is not square does not read. -/
theorem ReadFaceData_not_square (rt : UTextureRenderTarget2D) (h : rt.SizeX ≠ rt.SizeY) :
    ReadFaceData (some rt) = none := by
  unfold ReadFaceData
  cases hb : rt.bHasResource <;> simp [h]

/-- C2: `ConvertToEquirectangular` answers a violated precondition with the empty default
result (no pixel data, size (0,0), no preview pixels, no texture): when
`Settings.Resolution <= 0`, when fewer than six left-eye faces have a render-target
resource, and when the mode is stereo and fewer than six right-eye faces have one.
Likewise `ConvertOnCPU` returns the result it was given when a face of the left cubemap, or
in stereo a face of the right cubemap, does not read; a face that is not square does not
read. -/
theorem C2_precondition_violation_gives_empty_result (ops : FPixelOps)
    (eng : FRenderThreadEngine) (bSupportsCompute : Bool) (Settings : FOmniCaptureSettings)
    (LeftEye RightEye : FOmniEyeCapture) (Out : FOmniCaptureEquirectResult) :
    ((({} : FOmniCaptureEquirectResult).PixelData = none ∧
      ({} : FOmniCaptureEquirectResult).Size = (0, 0) ∧
      ({} : FOmniCaptureEquirectResult).PreviewPixels = [] ∧
      ({} : FOmniCaptureEquirectResult).Texture = none)) ∧
    (Settings.Resolution ≤ 0 →
      ConvertToEquirectangular ops eng bSupportsCompute Settings LeftEye RightEye = {}) ∧
    (FacesWithResource LeftEye < 6 →
      ConvertToEquirectangular ops eng bSupportsCompute Settings LeftEye RightEye = {}) ∧
    (Settings.Mode = .Stereo → FacesWithResource RightEye < 6 →
      ConvertToEquirectangular ops eng bSupportsCompute Settings LeftEye RightEye = {}) ∧
    ((∃ i, ReadFaceData (LeftEye.Faces i).RenderTarget = none) →
      ConvertOnCPU ops Settings LeftEye RightEye Out = Out) ∧
    (Settings.Mode = .Stereo → (∃ i, ReadFaceData (RightEye.Faces i).RenderTarget = none) →
      ConvertOnCPU ops Settings LeftEye RightEye Out = Out) ∧
    (∀ rt : UTextureRenderTarget2D, rt.SizeX ≠ rt.SizeY → ReadFaceData (some rt) = none) := by
  refine ⟨⟨rfl, rfl, rfl, rfl⟩, ?_, ?_, ?_, ?_, ?_, ReadFaceData_not_square⟩
  · intro h
    unfold ConvertToEquirectangular
    simp [h]
  · intro h
    unfold ConvertToEquirectangular
    have hl : (CollectFaces LeftEye).length ≠ 6 := by rw [CollectFaces_length]; omega
    simp [hl]
  · intro hm h
    unfold ConvertToEquirectangular
    have hr : (CollectFaces RightEye).length ≠ 6 := by rw [CollectFaces_length]; omega
    simp [hm, hr]
  · rintro ⟨i, hi⟩
    unfold ConvertOnCPU
    rw [BuildCPUCubemap_none LeftEye i hi]
  · rintro hm ⟨i, hi⟩
    unfold ConvertOnCPU
    cases BuildCPUCubemap LeftEye with
    | none => rfl
    | some c => simp [hm, BuildCPUCubemap_none RightEye i hi]

/-- C2 at concrete inputs: resolution 0, an eye without render targets, and an eye whose
faces are not square. -/
theorem C2_precondition_violation_gives_empty_result_witness :
    ConvertToEquirectangular ops0 engNoReadback true { sMono1 with Resolution := 0 } eye1 eye1
      = {} ∧
    ConvertToEquirectangular ops0 engNoReadback true sMono1 eyeEmpty eye1 = {} ∧
    ConvertToEquirectangular ops0 engNoReadback true sStereo1 eye1 eyeEmpty = {} ∧
    ConvertOnCPU ops0 sMono1 eyeNotSquare eye1 { Size := (3, 3) } = { Size := (3, 3) } ∧
    ConvertOnCPU ops0 sStereo1 eye1 eyeNotSquare { Size := (3, 3) } = { Size := (3, 3) } := by
  have hns : ReadFaceData (eyeNotSquare.Faces 0).RenderTarget = none :=
    (C2_precondition_violation_gives_empty_result ops0 engNoReadback true sMono1 eye1 eye1
      {}).2.2.2.2.2.2 _ (by decide)
  exact ⟨(C2_precondition_violation_gives_empty_result ops0 engNoReadback true
      { sMono1 with Resolution := 0 } eye1 eye1 {}).2.1 (by decide),
    (C2_precondition_violation_gives_empty_result ops0 engNoReadback true sMono1 eyeEmpty eye1
      {}).2.2.1 (by decide),
    (C2_precondition_violation_gives_empty_result ops0 engNoReadback true sStereo1 eye1 eyeEmpty
      {}).2.2.2.1 rfl (by decide),
    (C2_precondition_violation_gives_empty_result ops0 engNoReadback true sMono1 eyeNotSquare
      eye1 { Size := (3, 3) }).2.2.2.2.1 ⟨0, hns⟩,
    (C2_precondition_violation_gives_empty_result ops0 engNoReadback true sStereo1 eye1
      eyeNotSquare { Size := (3, 3) }).2.2.2.2.2.1 rfl ⟨0, hns⟩⟩

end OmniCapture

namespace OmniCapture

/-- When the required cubemaps build, `ConvertOnCPU` overwrites every field: its result
does not depend on the result it was given. -/
theorem ConvertOnCPU_overwrites (ops : FPixelOps) (Settings : FOmniCaptureSettings)
    (LeftEye RightEye : FOmniEyeCapture) (r r' : FOmniCaptureEquirectResult)
    (hL : (BuildCPUCubemap LeftEye).isSome = true)
    (hR : Settings.Mode = .Stereo → (BuildCPUCubemap RightEye).isSome = true) :
    ConvertOnCPU ops Settings LeftEye RightEye r = ConvertOnCPU ops Settings LeftEye RightEye r' := by
  obtain ⟨lc, hlc⟩ := Option.isSome_iff_exists.mp hL
  unfold ConvertOnCPU
  rw [hlc]
  by_cases hm : Settings.Mode = .Stereo
  · obtain ⟨rc, hrc⟩ := Option.isSome_iff_exists.mp (hR hm)
    simp [hm, hrc]
  · simp [hm]

/-- `ConvertOnRenderThread` returns the result it was given when the output target could
not be extracted. -/
theorem ConvertOnRenderThread_nothing (ops : FPixelOps) (eng : FRenderThreadEngine)
    (Settings : FOmniCaptureSettings) (LeftFaces RightFaces : List (Option Handle))
    (Out : FOmniCaptureEquirectResult) (h : eng.ExtractedOutput = none) :
    ConvertOnRenderThread ops eng Settings LeftFaces RightFaces Out = Out := by
  unfold ConvertOnRenderThread
  simp only [h]
  split <;> rfl

/-- C3, the claim as stated fails: the render thread extracted the output target and its
texture but the readback could not be locked, so the result carries no pixel data after
`ConvertOnRenderThread`; `ConvertToEquirectangular` returns that result as it is (no pixel
data, not marked as CPU fallback), although `ConvertOnCPU` on the same settings and faces
produces pixel data. -/
theorem C3_counterexample :
    (ConvertOnRenderThread ops0 engNoReadback sMono1 (CollectFaces eye1) [] {}).PixelData = none ∧
    ConvertToEquirectangular ops0 engNoReadback true sMono1 eye1 eye1 =
      ConvertOnRenderThread ops0 engNoReadback sMono1 (CollectFaces eye1) [] {} ∧
    (ConvertToEquirectangular ops0 engNoReadback true sMono1 eye1 eye1).PixelData = none ∧
    (ConvertToEquirectangular ops0 engNoReadback true sMono1 eye1 eye1).bUsedCPUFallback = false ∧
    (ConvertOnCPU ops0 sMono1 eye1 eye1
      (ConvertOnRenderThread ops0 engNoReadback sMono1 (CollectFaces eye1) [] {})).PixelData.isSome
        = true ∧
    ConvertToEquirectangular ops0 engNoReadback true sMono1 eye1 eye1 ≠
      ConvertOnCPU ops0 sMono1 eye1 eye1
        (ConvertOnRenderThread ops0 engNoReadback sMono1 (CollectFaces eye1) [] {}) := by
  decide

/-- C3, amended: with the preconditions met and compute shaders supported, let `g` be the
result after `ConvertOnRenderThread`. When `g` carries no pixel data and lacks a valid
texture or a valid output target, `ConvertToEquirectangular` runs the CPU path on `g`; in
particular, when the output target could not be extracted, it returns `ConvertOnCPU` of the
untouched default result. When the required faces read, what `ConvertOnCPU` returns does
not depend on the result it was given, so the returned result is the one `ConvertOnCPU`
produces for the same settings and faces. When `g` carries no pixel data but has both a
valid texture and a valid output target, or when it carries pixel data, `g` is returned and
the CPU path is not run. -/
theorem C3_cpu_fallback_when_gpu_left_nothing_usable (ops : FPixelOps)
    (eng : FRenderThreadEngine) (Settings : FOmniCaptureSettings)
    (LeftEye RightEye : FOmniEyeCapture) (hRes : 0 < Settings.Resolution)
    (hL : FacesWithResource LeftEye = 6)
    (hR : Settings.Mode = .Stereo → FacesWithResource RightEye = 6) :
    (((ConvertOnRenderThread ops eng Settings (CollectFaces LeftEye)
          (if Settings.Mode = .Stereo then CollectFaces RightEye else []) {}).PixelData = none ∧
        ((ConvertOnRenderThread ops eng Settings (CollectFaces LeftEye)
          (if Settings.Mode = .Stereo then CollectFaces RightEye else []) {}).Texture = none ∨
         (ConvertOnRenderThread ops eng Settings (CollectFaces LeftEye)
          (if Settings.Mode = .Stereo then CollectFaces RightEye else []) {}).OutputTarget = none)) →
      ConvertToEquirectangular ops eng true Settings LeftEye RightEye =
        ConvertOnCPU ops Settings LeftEye RightEye
          (ConvertOnRenderThread ops eng Settings (CollectFaces LeftEye)
            (if Settings.Mode = .Stereo then CollectFaces RightEye else []) {})) ∧
    (eng.ExtractedOutput = none →
      ConvertToEquirectangular ops eng true Settings LeftEye RightEye =
        ConvertOnCPU ops Settings LeftEye RightEye {}) ∧
    ((BuildCPUCubemap LeftEye).isSome = true →
      (Settings.Mode = .Stereo → (BuildCPUCubemap RightEye).isSome = true) →
      ∀ r r' : FOmniCaptureEquirectResult,
        ConvertOnCPU ops Settings LeftEye RightEye r = ConvertOnCPU ops Settings LeftEye RightEye r') ∧
    ((((ConvertOnRenderThread ops eng Settings (CollectFaces LeftEye)
          (if Settings.Mode = .Stereo then CollectFaces RightEye else []) {}).Texture.isSome = true ∧
        (ConvertOnRenderThread ops eng Settings (CollectFaces LeftEye)
          (if Settings.Mode = .Stereo then CollectFaces RightEye else []) {}).OutputTarget.isSome
            = true) ∨
       (ConvertOnRenderThread ops eng Settings (CollectFaces LeftEye)
          (if Settings.Mode = .Stereo then CollectFaces RightEye else []) {}).PixelData.isSome
            = true) →
      ConvertToEquirectangular ops eng true Settings LeftEye RightEye =
        ConvertOnRenderThread ops eng Settings (CollectFaces LeftEye)
          (if Settings.Mode = .Stereo then CollectFaces RightEye else []) {}) := by
  have hl : (CollectFaces LeftEye).length = 6 := by rw [CollectFaces_length]; exact hL
  have hr : Settings.Mode = .Stereo → (CollectFaces RightEye).length = 6 := fun hm => by
    rw [CollectFaces_length]; exact hR hm
  have hres : ¬ Settings.Resolution ≤ 0 := by omega
  have hguard : ¬ (Settings.Mode = .Stereo ∧
      (if Settings.Mode = .Stereo then CollectFaces RightEye else []).length ≠ 6) := by
    rintro ⟨hm, hne⟩
    rw [if_pos hm] at hne
    exact hne (hr hm)
  have hcte : ∀ g : FOmniCaptureEquirectResult,
      ConvertOnRenderThread ops eng Settings (CollectFaces LeftEye)
        (if Settings.Mode = .Stereo then CollectFaces RightEye else []) {} = g →
      ConvertToEquirectangular ops eng true Settings LeftEye RightEye =
        if (!g.PixelData.isSome && (!g.Texture.isSome || !g.OutputTarget.isSome)) = true then
          ConvertOnCPU ops Settings LeftEye RightEye g
        else g := by
    intro g hg
    unfold ConvertToEquirectangular
    simp only [hres, hl, hguard, if_false, ne_eq, not_true_eq_false, Bool.not_true,
      Bool.false_eq_true]
    rw [hg]
  refine ⟨?_, ?_, ?_, ?_⟩
  · rintro ⟨hp, ht⟩
    rw [hcte _ rfl]
    rcases ht with ht | ht <;> rw [if_pos] <;>
      simp only [hp, ht, Option.isSome_none, Bool.not_false, Bool.or_true, Bool.true_or,
        Bool.and_true, Bool.true_and]
  · intro hn
    rw [hcte _ rfl, ConvertOnRenderThread_nothing ops eng Settings _ _ _ hn]
    rfl
  · intro h1 h2 r r'
    exact ConvertOnCPU_overwrites ops Settings LeftEye RightEye r r' h1 h2
  · intro h
    rw [hcte _ rfl]
    rcases h with ⟨ht, ho⟩ | hp <;> rw [if_neg]
    · simp only [ht, ho, Bool.not_true, Bool.or_false, Bool.and_false, Bool.false_eq_true,
        not_false_eq_true]
    · simp only [hp, Bool.not_true, Bool.false_and, Bool.false_eq_true, not_false_eq_true]

/-- C3 amended, at concrete inputs: nothing extracted on the render thread gives the CPU
result (marked as CPU fallback, with pixel data); a texture and output target without
readback gives the GPU result without pixel data. -/
theorem C3_cpu_fallback_when_gpu_left_nothing_usable_witness :
    (0 < sMono1.Resolution ∧ FacesWithResource eye1 = 6) ∧
    ConvertToEquirectangular ops0 engNothing true sMono1 eye1 eye1 =
      ConvertOnCPU ops0 sMono1 eye1 eye1 {} ∧
    (ConvertToEquirectangular ops0 engNothing true sMono1 eye1 eye1).bUsedCPUFallback = true ∧
    ConvertToEquirectangular ops0 engNoReadback true sMono1 eye1 eye1 =
      ConvertOnRenderThread ops0 engNoReadback sMono1 (CollectFaces eye1) [] {} := by
  have h1 := C3_cpu_fallback_when_gpu_left_nothing_usable ops0 engNothing sMono1 eye1 eye1
    (by decide) (by decide) (fun h => absurd h (by decide))
  have h2 := C3_cpu_fallback_when_gpu_left_nothing_usable ops0 engNoReadback sMono1 eye1 eye1
    (by decide) (by decide) (fun h => absurd h (by decide))
  refine ⟨⟨by decide, by decide⟩, h1.2.1 rfl, ?_, ?_⟩
  · rw [h1.2.1 rfl]
    decide
  · exact h2.2.2.2 (Or.inl (by decide))

end OmniCapture

namespace OmniCapture

/-- For a packet with positive sample rate and channel count, the duration the loop
computes gives the packet end of the specification. -/
theorem PacketDuration_end (p : FOmniAudioPacket) (hr : 0 < p.SampleRate) (hc : 0 < p.NumChannels) :
    p.Timestamp + PacketDuration p = PacketEnd p := by
  unfold PacketDuration PacketEnd
  rw [if_pos ⟨hr, hc⟩, max_eq_left (by omega : (1 : Int) ≤ p.NumChannels)]

/-- The packet of the closed statements covers 0.1 s. -/
theorem PacketEnd_packetAt (t : ℚ) :
    PacketEnd (packetAt t) = t + 1 / 10 ∧
    (packetAt t).Timestamp + PacketDuration (packetAt t) = t + 1 / 10 := by
  have he : PacketEnd (packetAt t) = t + 1 / 10 := by
    unfold PacketEnd packetAt
    simp only [List.length_replicate]
    norm_num
  exact ⟨he, (PacketDuration_end _ (by show (0 : Int) < 48000; decide)
    (by show (0 : Int) < 2; decide)).trans he⟩

/-- The running maximum never falls below its start. -/
theorem PushFrameLoop_ge_init (l : List FOmniAudioPacket) :
    ∀ (a : ℚ) (n : Int), a ≤ (PushFrameLoop l (a, n)).1 := by
  induction l with
  | nil => intro a n; exact le_refl a
  | cons p rest ih =>
    intro a n
    unfold PushFrameLoop
    exact le_trans (le_max_left _ _) (ih _ _)

/-- The running maximum is at least every packet end of the loop. -/
theorem PushFrameLoop_ge_packet (l : List FOmniAudioPacket) :
    ∀ (a : ℚ) (n : Int), ∀ p ∈ l, p.Timestamp + PacketDuration p ≤ (PushFrameLoop l (a, n)).1 := by
  induction l with
  | nil => intro a n p hp; exact absurd hp (List.not_mem_nil p)
  | cons q rest ih =>
    intro a n p hp
    unfold PushFrameLoop
    rcases List.mem_cons.mp hp with h | h
    · subst h
      exact le_trans (le_max_right _ _) (PushFrameLoop_ge_init rest _ _)
    · exact ih _ _ p h

/-- The running maximum is its start or one of the packet ends. -/
theorem PushFrameLoop_attained (l : List FOmniAudioPacket) :
    ∀ (a : ℚ) (n : Int), (PushFrameLoop l (a, n)).1 = a ∨
      ∃ p ∈ l, (PushFrameLoop l (a, n)).1 = p.Timestamp + PacketDuration p := by
  induction l with
  | nil => intro a n; exact Or.inl rfl
  | cons q rest ih =>
    intro a n
    unfold PushFrameLoop
    rcases ih (max a (q.Timestamp + PacketDuration q)) (n + 1) with h | ⟨p, hp, h⟩
    · rcases max_choice a (q.Timestamp + PacketDuration q) with hm | hm
      · exact Or.inl (by rw [h, hm])
      · exact Or.inr ⟨q, List.mem_cons_self q rest, by rw [h, hm]⟩
    · exact Or.inr ⟨p, List.mem_cons_of_mem q hp, h⟩

/-- The fields `PushFrame` writes while a session is active. -/
theorem PushFrame_active (m : FOmniCaptureMuxer) (F : FOmniCaptureFrame)
    (h : m.bRealtimeSessionActive = true) :
    (m.PushFrame F).AudioStats.LatestVideoTimestamp = F.Metadata.Timecode ∧
    (m.PushFrame F).AudioStats.LatestAudioTimestamp =
      (PushFrameLoop F.AudioPackets (m.LastAudioTimestamp, 0)).1 ∧
    (m.PushFrame F).LastAudioTimestamp =
      (PushFrameLoop F.AudioPackets (m.LastAudioTimestamp, 0)).1 ∧
    (m.PushFrame F).AudioStats.DriftMilliseconds =
      ((PushFrameLoop F.AudioPackets (m.LastAudioTimestamp, 0)).1 - F.Metadata.Timecode) * 1000 ∧
    (m.PushFrame F).AudioStats.bInError =
      decide (|((PushFrameLoop F.AudioPackets (m.LastAudioTimestamp, 0)).1 - F.Metadata.Timecode)
        * 1000| > m.DriftWarningThresholdMs) ∧
    (m.PushFrame F).DriftWarningThresholdMs = m.DriftWarningThresholdMs ∧
    (m.PushFrame F).bRealtimeSessionActive = true := by
  unfold FOmniCaptureMuxer.PushFrame
  simp [h]

/-- The tracker after a fresh session and one frame with one packet. -/
theorem PushFrame_fresh_single (S : FOmniCaptureSettings) (m : FOmniCaptureMuxer) (tc t : ℚ) :
    ((m.BeginRealtimeSession S).PushFrame (frameAt tc t)).LastAudioTimestamp = max 0 (t + 1 / 10) ∧
    ((m.BeginRealtimeSession S).PushFrame (frameAt tc t)).AudioStats.LatestAudioTimestamp
      = max 0 (t + 1 / 10) ∧
    ((m.BeginRealtimeSession S).PushFrame (frameAt tc t)).bRealtimeSessionActive = true := by
  have hd := (PacketEnd_packetAt t).2
  have ha := PushFrame_active (m.BeginRealtimeSession S) (frameAt tc t) rfl
  refine ⟨?_, ?_, ha.2.2.2.2.2.2⟩
  · rw [ha.2.2.1]
    show max (0 : ℚ) ((packetAt t).Timestamp + PacketDuration (packetAt t)) = _
    rw [hd]
  · rw [ha.2.1]
    show max (0 : ℚ) ((packetAt t).Timestamp + PacketDuration (packetAt t)) = _
    rw [hd]

/-- C4, the claim as stated fails: in one realtime session, after a frame whose packet ends
at 2.0 s, a frame (timecode 2 s) whose only packet starts at 1.4 s and ends at 1.5 s leaves
the latest-audio timestamp at 2.0 s, not at 1.5 s, the maximum over that frame's packets;
the drift is 0 ms, not -500 ms. -/
theorem C4_counterexample :
    (frameAt 2 (14 / 10)).AudioPackets = [packetAt (14 / 10)] ∧
    PacketEnd (packetAt (14 / 10)) = 3 / 2 ∧
    ((muxer35.PushFrame (frameAt 1 (19 / 10))).PushFrame
      (frameAt 2 (14 / 10))).AudioStats.LatestAudioTimestamp = 2 ∧
    ((muxer35.PushFrame (frameAt 1 (19 / 10))).PushFrame
      (frameAt 2 (14 / 10))).AudioStats.LatestAudioTimestamp ≠ PacketEnd (packetAt (14 / 10)) ∧
    ((muxer35.PushFrame (frameAt 1 (19 / 10))).PushFrame
      (frameAt 2 (14 / 10))).AudioStats.DriftMilliseconds = 0 := by
  have he : PacketEnd (packetAt (14 / 10)) = 3 / 2 := by
    rw [(PacketEnd_packetAt _).1]
    norm_num
  have hd : (packetAt (14 / 10)).Timestamp + PacketDuration (packetAt (14 / 10)) = 3 / 2 := by
    rw [(PacketEnd_packetAt _).2]
    norm_num
  have h1 := PushFrame_fresh_single { bForceConstantFrameRate := false } {} 1 (19 / 10)
  have hl : (muxer35.PushFrame (frameAt 1 (19 / 10))).LastAudioTimestamp = 2 := by
    unfold muxer35
    rw [h1.1]
    norm_num
  have h2 := PushFrame_active (muxer35.PushFrame (frameAt 1 (19 / 10))) (frameAt 2 (14 / 10))
    (by unfold muxer35; exact h1.2.2)
  have hloop : (PushFrameLoop (frameAt 2 (14 / 10)).AudioPackets
      ((muxer35.PushFrame (frameAt 1 (19 / 10))).LastAudioTimestamp, 0)).1 = 2 := by
    show max (muxer35.PushFrame (frameAt 1 (19 / 10))).LastAudioTimestamp
      ((packetAt (14 / 10)).Timestamp + PacketDuration (packetAt (14 / 10))) = 2
    rw [hl, hd]
    norm_num
  refine ⟨rfl, he, ?_, ?_, ?_⟩
  · rw [h2.2.1, hloop]
  · rw [h2.2.1, hloop, he]
    norm_num
  · rw [h2.2.2.2.1, hloop]
    show ((2 : ℚ) - 2) * 1000 = 0
    norm_num

/-- C4, amended: for every frame pushed while a realtime session is active whose audio
packets all have a positive sample rate and channel count,
`PushFrame` sets the latest-video timestamp to the frame's timecode, sets the latest-audio
timestamp to the maximum of the previous latest-audio timestamp and the frame's packet ends
`Timestamp + sampleCount / (SampleRate * NumChannels)` (so to the maximum over the frame's
packets whenever some packet ends at or after the previous latest-audio timestamp), and
sets `DriftMilliseconds = (latestAudio - latestVideo) * 1000`. -/
theorem C4_push_frame_updates_sync_stats (m : FOmniCaptureMuxer) (F : FOmniCaptureFrame)
    (hact : m.bRealtimeSessionActive = true)
    (hpos : ∀ p ∈ F.AudioPackets, 0 < p.SampleRate ∧ 0 < p.NumChannels) :
    (m.PushFrame F).AudioStats.LatestVideoTimestamp = F.Metadata.Timecode ∧
    m.LastAudioTimestamp ≤ (m.PushFrame F).AudioStats.LatestAudioTimestamp ∧
    (∀ p ∈ F.AudioPackets, PacketEnd p ≤ (m.PushFrame F).AudioStats.LatestAudioTimestamp) ∧
    ((m.PushFrame F).AudioStats.LatestAudioTimestamp = m.LastAudioTimestamp ∨
      ∃ p ∈ F.AudioPackets, (m.PushFrame F).AudioStats.LatestAudioTimestamp = PacketEnd p) ∧
    ((∃ p ∈ F.AudioPackets, m.LastAudioTimestamp ≤ PacketEnd p) →
      ∃ p ∈ F.AudioPackets, (m.PushFrame F).AudioStats.LatestAudioTimestamp = PacketEnd p) ∧
    (m.PushFrame F).AudioStats.DriftMilliseconds =
      ((m.PushFrame F).AudioStats.LatestAudioTimestamp -
        (m.PushFrame F).AudioStats.LatestVideoTimestamp) * 1000 := by
  have ha := PushFrame_active m F hact
  have hend : ∀ p ∈ F.AudioPackets, p.Timestamp + PacketDuration p = PacketEnd p :=
    fun p hp => PacketDuration_end p (hpos p hp).1 (hpos p hp).2
  have hge : ∀ p ∈ F.AudioPackets, PacketEnd p ≤ (m.PushFrame F).AudioStats.LatestAudioTimestamp := by
    intro p hp
    rw [ha.2.1, ← hend p hp]
    exact PushFrameLoop_ge_packet _ _ _ p hp
  have hatt : (m.PushFrame F).AudioStats.LatestAudioTimestamp = m.LastAudioTimestamp ∨
      ∃ p ∈ F.AudioPackets, (m.PushFrame F).AudioStats.LatestAudioTimestamp = PacketEnd p := by
    rw [ha.2.1]
    rcases PushFrameLoop_attained F.AudioPackets m.LastAudioTimestamp 0 with h | ⟨p, hp, h⟩
    · exact Or.inl h
    · exact Or.inr ⟨p, hp, by rw [h, hend p hp]⟩
  refine ⟨ha.1, ?_, hge, hatt, ?_, ?_⟩
  · rw [ha.2.1]
    exact PushFrameLoop_ge_init _ _ _
  · rintro ⟨q, hq, hle⟩
    rcases hatt with h | h
    · exact ⟨q, hq, le_antisymm (h ▸ hle) (hge q hq)⟩
    · exact h
  · rw [ha.2.2.2.1, ha.2.1, ha.1]

/-- C4 amended, at the input of the specification: video timecode 1.000 s and one packet at
0.950 s holding 9600 samples at 48000 Hz, two channels, pushed to a fresh session, give
latest audio 1.050 s and drift 50 ms. -/
theorem C4_push_frame_updates_sync_stats_witness :
    (muxer35.PushFrame (frameAt 1 (19 / 20))).AudioStats.LatestVideoTimestamp = 1 ∧
    (muxer35.PushFrame (frameAt 1 (19 / 20))).AudioStats.LatestAudioTimestamp = 21 / 20 ∧
    (muxer35.PushFrame (frameAt 1 (19 / 20))).AudioStats.DriftMilliseconds = 50 := by
  have h := C4_push_frame_updates_sync_stats muxer35 (frameAt 1 (19 / 20)) rfl
    (by intro p hp; simp only [frameAt, List.mem_singleton] at hp; subst hp; decide)
  have he : PacketEnd (packetAt (19 / 20)) = 21 / 20 := by
    rw [(PacketEnd_packetAt _).1]
    norm_num
  have hl : muxer35.LastAudioTimestamp = 0 := rfl
  obtain ⟨p, hp, hpe⟩ := h.2.2.2.2.1
    ⟨packetAt (19 / 20), by simp [frameAt], by rw [hl, he]; norm_num⟩
  simp only [frameAt, List.mem_singleton] at hp
  subst hp
  have hA : (muxer35.PushFrame (frameAt 1 (19 / 20))).AudioStats.LatestAudioTimestamp = 21 / 20 :=
    hpe.trans he
  refine ⟨h.1, hA, ?_⟩
  rw [h.2.2.2.2.2, hA, h.1]
  show ((21 : ℚ) / 20 - 1) * 1000 = 50
  norm_num

/-- A session keeps its threshold and stays active while frames are pushed. -/
theorem PushFrames_session (Frames : List FOmniCaptureFrame) :
    ∀ m : FOmniCaptureMuxer, m.bRealtimeSessionActive = true →
      (m.PushFrames Frames).bRealtimeSessionActive = true ∧
      (m.PushFrames Frames).DriftWarningThresholdMs = m.DriftWarningThresholdMs := by
  induction Frames with
  | nil => intro m h; exact ⟨h, rfl⟩
  | cons F rest ih =>
    intro m h
    have ha := PushFrame_active m F h
    have hr := ih (m.PushFrame F) ha.2.2.2.2.2.2
    exact ⟨hr.1, hr.2.trans ha.2.2.2.2.2.1⟩

/-- C5: in a realtime session begun with settings `S`, after every `PushFrame` (whatever
frames were pushed before it) the in-error flag is true exactly when
`|DriftMilliseconds| > T`, with `T = 20` when `S.bForceConstantFrameRate` is set and
`T = 35` otherwise. -/
theorem C5_in_error_iff_drift_exceeds_threshold (m : FOmniCaptureMuxer)
    (S : FOmniCaptureSettings) (Frames : List FOmniCaptureFrame) (F : FOmniCaptureFrame) :
    (((m.BeginRealtimeSession S).PushFrames Frames).PushFrame F).AudioStats.bInError = true ↔
      |(((m.BeginRealtimeSession S).PushFrames Frames).PushFrame F).AudioStats.DriftMilliseconds|
        > (if S.bForceConstantFrameRate = true then (20 : ℚ) else 35) := by
  have hs := PushFrames_session Frames (m.BeginRealtimeSession S) rfl
  have ha := PushFrame_active ((m.BeginRealtimeSession S).PushFrames Frames) F hs.1
  rw [ha.2.2.2.2.1, ha.2.2.2.1, hs.2, decide_eq_true_eq]
  rfl

/-- C5 at the two drifts the claim names: under the 35 ms threshold a drift of 50 ms is
in error and a drift of exactly 35 ms is not. -/
theorem C5_threshold_examples :
    (muxer35.PushFrame (frameAt 1 (19 / 20))).AudioStats.DriftMilliseconds = 50 ∧
    (muxer35.PushFrame (frameAt 1 (19 / 20))).AudioStats.bInError = true ∧
    (muxer35.PushFrame (frameAt 1 (187 / 200))).AudioStats.DriftMilliseconds = 35 ∧
    (muxer35.PushFrame (frameAt 1 (187 / 200))).AudioStats.bInError = false := by
  have hd : ∀ t : ℚ, 0 ≤ t + 1 / 10 →
      (muxer35.PushFrame (frameAt 1 t)).AudioStats.DriftMilliseconds = (t + 1 / 10 - 1) * 1000 ∧
      (muxer35.PushFrame (frameAt 1 t)).AudioStats.bInError =
        decide (|(t + 1 / 10 - 1) * 1000| > 35) := by
    intro t ht
    have ha := PushFrame_active muxer35 (frameAt 1 t) rfl
    have h1 := (PushFrame_fresh_single { bForceConstantFrameRate := false } {} 1 t).2.1
    have hloop : (PushFrameLoop (frameAt 1 t).AudioPackets (muxer35.LastAudioTimestamp, 0)).1
        = t + 1 / 10 := by
      rw [← ha.2.1]
      unfold muxer35
      rw [h1, max_eq_right ht]
    rw [ha.2.2.2.1, ha.2.2.2.2.1, hloop]
    exact ⟨rfl, rfl⟩
  have h50 := hd (19 / 20) (by norm_num)
  have h35 := hd (187 / 200) (by norm_num)
  refine ⟨?_, ?_, ?_, ?_⟩
  · rw [h50.1]; norm_num
  · rw [h50.2, decide_eq_true_eq]; norm_num [abs_of_pos]
  · rw [h35.1]; norm_num
  · rw [h35.2, decide_eq_false_iff_not]; norm_num [abs_of_pos]

end OmniCapture

namespace OmniCapture

namespace UOmniCaptureSubsystem

theorem KeepsCore.refl (a : UOmniCaptureSubsystem) : KeepsCore a a := ⟨rfl, rfl, rfl⟩

theorem KeepsCore.trans {a b c : UOmniCaptureSubsystem} (h1 : KeepsCore a b)
    (h2 : KeepsCore b c) : KeepsCore a c :=
  ⟨h1.1.trans h2.1, h1.2.1.trans h2.2.1, h1.2.2.trans h2.2.2⟩

theorem AddWarning_keeps (s : UOmniCaptureSubsystem) (w : String) :
    KeepsCore (s.AddWarning w) s := ⟨rfl, rfl, rfl⟩

theorem AddWarningUnique_keeps (s : UOmniCaptureSubsystem) (w : String) :
    KeepsCore (s.AddWarningUnique w) s := by
  unfold AddWarningUnique
  split_ifs <;> exact ⟨rfl, rfl, rfl⟩

theorem FailIf_keeps (c : Bool) (w : String) (acc : Bool × UOmniCaptureSubsystem) :
    KeepsCore (FailIf c w acc).2 acc.2 := by
  unfold FailIf
  split_ifs
  · exact AddWarning_keeps _ _
  · exact KeepsCore.refl _

theorem NoteIf_keeps (c : Bool) (w : String) (acc : Bool × UOmniCaptureSubsystem) :
    KeepsCore (NoteIf c w acc).2 acc.2 := by
  unfold NoteIf
  split_ifs
  · exact AddWarning_keeps _ _
  · exact KeepsCore.refl _

theorem ValidateRHI_keeps (host : FHost) (S : FOmniCaptureSettings)
    (acc : Bool × UOmniCaptureSubsystem) : KeepsCore (ValidateRHI host S acc).2 acc.2 := by
  unfold ValidateRHI
  split_ifs
  · split <;> exact FailIf_keeps _ _ _
  · exact NoteIf_keeps _ _ _
  · exact NoteIf_keeps _ _ _

theorem ValidateNVENC_keeps (host : FHost) (S : FOmniCaptureSettings)
    (acc : Bool × UOmniCaptureSubsystem) : KeepsCore (ValidateNVENC host S acc).2 acc.2 := by
  unfold ValidateNVENC
  have h7 := fun (a : Bool × UOmniCaptureSubsystem) c1 w1 c2 w2 c3 w3 c4 w4 c5 w5 c6 w6 c7 w7 =>
    (FailIf_keeps c7 w7 _).trans ((FailIf_keeps c6 w6 _).trans ((FailIf_keeps c5 w5 _).trans
      ((FailIf_keeps c4 w4 _).trans ((FailIf_keeps c3 w3 _).trans
        ((NoteIf_keeps c2 w2 _).trans (NoteIf_keeps c1 w1 a))))))
  simp only []
  split_ifs
  · exact (FailIf_keeps _ _ _).trans (h7 acc _ _ _ _ _ _ _ _ _ _ _ _ _ _)
  · exact (FailIf_keeps _ _ _).trans (h7 acc _ _ _ _ _ _ _ _ _ _ _ _ _ _)
  · exact h7 acc _ _ _ _ _ _ _ _ _ _ _ _ _ _

theorem ValidateFFmpeg_keeps (host : FHost) (S : FOmniCaptureSettings)
    (acc : Bool × UOmniCaptureSubsystem) : KeepsCore (ValidateFFmpeg host S acc).2 acc.2 := by
  unfold ValidateFFmpeg
  simp only []
  split_ifs <;> exact NoteIf_keeps _ _ _

theorem ValidateDisk_keeps (host : FHost) (S : FOmniCaptureSettings)
    (acc : Bool × UOmniCaptureSubsystem) : KeepsCore (ValidateDisk host S acc).2 acc.2 := by
  unfold ValidateDisk
  split
  · simp only []
    split_ifs
    · exact AddWarningUnique_keeps _ _
    · exact KeepsCore.refl _
  · exact AddWarningUnique_keeps _ _

/-- `ValidateEnvironment` only records warnings: the settings, the capturing flag and the
state label are as before. -/
theorem ValidateEnvironment_keeps (eng : FEngine) (s : UOmniCaptureSubsystem) :
    KeepsCore (ValidateEnvironment eng s).2 s := by
  unfold ValidateEnvironment
  simp only []
  refine (ValidateDisk_keeps _ _ _).trans ((ValidateFFmpeg_keeps _ _ _).trans ?_)
  split_ifs
  · exact (ValidateNVENC_keeps _ _ _).trans ((ValidateRHI_keeps _ _ _).trans (NoteIf_keeps _ _ _))
  · exact (ValidateRHI_keeps _ _ _).trans (NoteIf_keeps _ _ _)

/-- The state `BeginCapture` validates has the requested settings but for the output
directory, and keeps the capturing flag and the state label. -/
theorem BeginCaptureReset_fields (eng : FEngine) (s : UOmniCaptureSubsystem)
    (In : FOmniCaptureSettings) :
    (BeginCaptureReset eng s In).ActiveSettings.OutputFormat = In.OutputFormat ∧
    (BeginCaptureReset eng s In).ActiveSettings.Codec = In.Codec ∧
    (BeginCaptureReset eng s In).ActiveSettings.NVENCColorFormat = In.NVENCColorFormat ∧
    (BeginCaptureReset eng s In).ActiveSettings.bAllowNVENCFallback = In.bAllowNVENCFallback ∧
    (BeginCaptureReset eng s In).bIsCapturing = s.bIsCapturing ∧
    (BeginCaptureReset eng s In).State = s.State :=
  ⟨rfl, rfl, rfl, rfl, rfl, rfl⟩

theorem InitializeOutputWriters_fields (eng : FEngine) (s : UOmniCaptureSubsystem) :
    (InitializeOutputWriters eng s).ActiveWarnings = s.ActiveWarnings ∧
    (InitializeOutputWriters eng s).ActiveSettings = s.ActiveSettings := by
  unfold InitializeOutputWriters
  simp only []
  split
  · exact ⟨rfl, rfl⟩
  · split_ifs <;> exact ⟨rfl, rfl⟩

theorem InitializeAudioRecording_fields (eng : FEngine) (s : UOmniCaptureSubsystem) :
    (InitializeAudioRecording eng s).ActiveWarnings = s.ActiveWarnings ∧
    (InitializeAudioRecording eng s).ActiveSettings = s.ActiveSettings := by
  unfold InitializeAudioRecording
  split_ifs <;> exact ⟨rfl, rfl⟩

/-- The last part of `BeginCapture` keeps the warnings and leaves the settings as
`ConfigureActiveSegment` made them. -/
theorem BeginCaptureStart_warnings_settings (eng : FEngine) (s : UOmniCaptureSubsystem) :
    (BeginCaptureStart eng s).ActiveWarnings = s.ActiveWarnings ∧
    (BeginCaptureStart eng s).ActiveSettings =
      (ConfigureActiveSegment eng (eng.Seconds 1) s).ActiveSettings := by
  unfold BeginCaptureStart
  lift_lets
  intro s1 s2 s3 s4 s5 m0 m1 s6 s7 s8
  split_ifs <;>
    first
    | exact ⟨rfl, rfl⟩
    | exact ⟨(InitializeAudioRecording_fields eng s7).1.trans
          ((InitializeOutputWriters_fields eng s4).1.trans rfl),
        (InitializeAudioRecording_fields eng s7).2.trans
          ((InitializeOutputWriters_fields eng s4).2.trans rfl)⟩

/-- The last part of `BeginCapture` keeps the warnings, and of the settings changes the
output directory and file name only. -/
theorem BeginCaptureStart_fields (eng : FEngine) (s : UOmniCaptureSubsystem) :
    (BeginCaptureStart eng s).ActiveWarnings = s.ActiveWarnings ∧
    (BeginCaptureStart eng s).ActiveSettings.OutputFormat = s.ActiveSettings.OutputFormat ∧
    (BeginCaptureStart eng s).ActiveSettings.Codec = s.ActiveSettings.Codec ∧
    (BeginCaptureStart eng s).ActiveSettings.NVENCColorFormat = s.ActiveSettings.NVENCColorFormat := by
  have h := BeginCaptureStart_warnings_settings eng s
  refine ⟨h.1, ?_, ?_, ?_⟩ <;> rw [h.2] <;> rfl

/-- What `QueryCapabilities` reports on a host whose hardware encoder is available: the
two switches are on, HEVC is reported as supported, and the colour formats are those of
`SupportsColorFormat`. -/
theorem QueryCapabilities_available (host : FHost)
    (h : (QueryCapabilities host).bHardwareAvailable = true) :
    IsNVENCAvailable host = true ∧ host.bPlatformWindows = true ∧
    (QueryCapabilities host).bSupportsHEVC = true ∧
    (QueryCapabilities host).bSupports10Bit = SupportsColorFormat host .P010 ∧
    (QueryCapabilities host).bSupportsNV12 = SupportsColorFormat host .NV12 := by
  unfold QueryCapabilities IsNVENCAvailable at *
  cases h1 : host.bWithOmniNVENC <;> cases h2 : host.bPlatformWindows <;>
    simp_all

/-- The zero-copy step of `ApplyFallbacks` keeps the codec, the colour format, the output
format and every recorded warning. -/
theorem ZeroCopy_step (host : FHost) (s : UOmniCaptureSubsystem) (w1 w2 : String) :
    ((if s.ActiveSettings.bZeroCopy = true then
        if host.bPlatformWindows = true then
          if RHINotD3D host = true then (s.AddWarning w1).SetZeroCopy false else s
        else (s.AddWarning w2).SetZeroCopy false
      else s).ActiveSettings.Codec = s.ActiveSettings.Codec) ∧
    ((if s.ActiveSettings.bZeroCopy = true then
        if host.bPlatformWindows = true then
          if RHINotD3D host = true then (s.AddWarning w1).SetZeroCopy false else s
        else (s.AddWarning w2).SetZeroCopy false
      else s).ActiveSettings.NVENCColorFormat = s.ActiveSettings.NVENCColorFormat) ∧
    ((if s.ActiveSettings.bZeroCopy = true then
        if host.bPlatformWindows = true then
          if RHINotD3D host = true then (s.AddWarning w1).SetZeroCopy false else s
        else (s.AddWarning w2).SetZeroCopy false
      else s).ActiveSettings.OutputFormat = s.ActiveSettings.OutputFormat) ∧
    (∀ w ∈ s.ActiveWarnings,
      w ∈ (if s.ActiveSettings.bZeroCopy = true then
        if host.bPlatformWindows = true then
          if RHINotD3D host = true then (s.AddWarning w1).SetZeroCopy false else s
        else (s.AddWarning w2).SetZeroCopy false
      else s).ActiveWarnings) := by
  split_ifs
  · exact ⟨rfl, rfl, rfl, fun w hw => List.mem_append_left _ hw⟩
  · exact ⟨rfl, rfl, rfl, fun w hw => hw⟩
  · exact ⟨rfl, rfl, rfl, fun w hw => List.mem_append_left _ hw⟩
  · exact ⟨rfl, rfl, rfl, fun w hw => hw⟩

/-- `ApplyFallbacks` on a state that requests HEVC, P010 and hardware-encoded output, on a
host whose encoder is available, reports no 10-bit support and supports NV12. -/
theorem ApplyFallbacks_hevc_p010 (eng : FEngine) (t : UOmniCaptureSubsystem)
    (hout : t.ActiveSettings.OutputFormat = .NVENCHardware)
    (hcodec : t.ActiveSettings.Codec = .HEVC)
    (hfmt : t.ActiveSettings.NVENCColorFormat = .P010)
    (havail : (QueryCapabilities eng.Host).bHardwareAvailable = true)
    (h10 : (QueryCapabilities eng.Host).bSupports10Bit = false)
    (hnv12 : (QueryCapabilities eng.Host).bSupportsNV12 = true) :
    (ApplyFallbacks eng t).1 = true ∧
    (ApplyFallbacks eng t).2.ActiveSettings.Codec = .HEVC ∧
    (ApplyFallbacks eng t).2.ActiveSettings.NVENCColorFormat = .NV12 ∧
    (ApplyFallbacks eng t).2.ActiveSettings.OutputFormat = .NVENCHardware ∧
    "P010 unsupported - switching to NV12" ∈ (ApplyFallbacks eng t).2.ActiveWarnings := by
  obtain ⟨hav, hwin, hhevc, hq10, hqnv⟩ := QueryCapabilities_available eng.Host havail
  have hsup : SupportsColorFormat eng.Host .NV12 = true := hqnv ▸ hnv12
  unfold ApplyFallbacks
  lift_lets
  intro host Caps s1 s2 s3 s4 s5
  have hs1 : s1 = t := if_neg (fun h => absurd (hhevc.symm.trans h.2) (by decide))
  have hs2 : s2 = (s1.AddWarning "P010 unsupported - switching to NV12").SetColorFormat .NV12 :=
    if_pos ⟨hs1 ▸ hfmt, h10⟩
  have hs3 : s3 = s2 := if_neg (fun h => absurd (hnv12.symm.trans h.2) (by decide))
  have h3f : s3.ActiveSettings.NVENCColorFormat = .NV12 := by rw [hs3, hs2]; rfl
  have hs4 : s4 = s3 := if_neg (fun h => by
    rw [h3f] at h
    exact absurd (hsup.symm.trans h) (by decide))
  have hz := ZeroCopy_step host s4 "Zero-copy not supported on this RHI - disabling zero-copy"
    "Zero-copy NVENC disabled on this platform"
  have hc4 : s4.ActiveSettings.Codec = .HEVC := by rw [hs4, hs3, hs2, hs1]; exact hcodec
  have hf4 : s4.ActiveSettings.NVENCColorFormat = .NV12 := by rw [hs4]; exact h3f
  have ho4 : s4.ActiveSettings.OutputFormat = .NVENCHardware := by
    rw [hs4, hs3, hs2, hs1]; exact hout
  have hw4 : "P010 unsupported - switching to NV12" ∈ s4.ActiveWarnings := by
    rw [hs4, hs3, hs2]
    exact List.mem_append_right _ (List.mem_singleton_self _)
  have hfirst : ¬ (t.ActiveSettings.OutputFormat = .NVENCHardware ∧ IsNVENCAvailable host = false) :=
    fun h => absurd (hav.symm.trans h.2) (by decide)
  rw [if_neg hfirst, if_pos hout, if_neg (by rw [hwin]; decide)]
  exact ⟨rfl, hz.1.trans hc4, hz.2.1.trans hf4, hz.2.2.1.trans ho4, hz.2.2.2 _ hw4⟩

/-- `BeginCapture` from a state that is not capturing, for a positive resolution. -/
theorem BeginCapture_eq (eng : FEngine) (s : UOmniCaptureSubsystem) (In : FOmniCaptureSettings)
    (hs : s.bIsCapturing = false) (hres : 0 < In.Resolution) :
    BeginCapture eng s In =
      if (ApplyFallbacks eng (ValidateEnvironment eng (BeginCaptureReset eng s In)).2).1 = true then
        BeginCaptureStart eng
          (ApplyFallbacks eng (ValidateEnvironment eng (BeginCaptureReset eng s In)).2).2
      else (ApplyFallbacks eng (ValidateEnvironment eng (BeginCaptureReset eng s In)).2).2 := by
  unfold BeginCapture
  rw [if_neg (by rw [hs]; decide), if_neg (by omega)]
  lift_lets
  intro s1 s2 fb
  cases h : fb.1 <;> simp [h]

end UOmniCaptureSubsystem

open UOmniCaptureSubsystem in
/-- A host whose hardware encoder is available always reports HEVC support. When
`BeginCapture` is given, in a state that is not capturing, settings requesting HEVC, P010
and hardware-encoded output on a host where the hardware encoder is available, reports no
10-bit support and supports NV12, the active configuration after validation and fallback
has `Codec = HEVC` (unchanged), `NVENCColorFormat = NV12` and output still
hardware-encoded, and the warning of the colour-format substitution is recorded in the
active warnings. -/
theorem BeginCapture_hevc_p010 (eng : FEngine) (s : UOmniCaptureSubsystem)
    (In : FOmniCaptureSettings) (hs : s.bIsCapturing = false) (hres : 0 < In.Resolution)
    (hcodec : In.Codec = .HEVC) (hfmt : In.NVENCColorFormat = .P010)
    (hout : In.OutputFormat = .NVENCHardware)
    (havail : (QueryCapabilities eng.Host).bHardwareAvailable = true)
    (h10 : (QueryCapabilities eng.Host).bSupports10Bit = false)
    (hnv12 : (QueryCapabilities eng.Host).bSupportsNV12 = true) :
    (QueryCapabilities eng.Host).bSupportsHEVC = true ∧
    (BeginCapture eng s In).ActiveSettings.Codec = .HEVC ∧
    (BeginCapture eng s In).ActiveSettings.NVENCColorFormat = .NV12 ∧
    (BeginCapture eng s In).ActiveSettings.OutputFormat = .NVENCHardware ∧
    "P010 unsupported - switching to NV12" ∈ (BeginCapture eng s In).ActiveWarnings := by
  have hr := BeginCaptureReset_fields eng s In
  have hv := ValidateEnvironment_keeps eng (BeginCaptureReset eng s In)
  have hf := ApplyFallbacks_hevc_p010 eng (ValidateEnvironment eng (BeginCaptureReset eng s In)).2
    (by rw [hv.1, hr.1, hout]) (by rw [hv.1, hr.2.1, hcodec]) (by rw [hv.1, hr.2.2.1, hfmt])
    havail h10 hnv12
  have hb := BeginCaptureStart_fields eng
    (ApplyFallbacks eng (ValidateEnvironment eng (BeginCaptureReset eng s In)).2).2
  rw [BeginCapture_eq eng s In hs hres, if_pos hf.1]
  exact ⟨(QueryCapabilities_available eng.Host havail).2.2.1, hb.2.2.1.trans hf.2.1,
    hb.2.2.2.trans hf.2.2.1, hb.2.1.trans hf.2.2.2.1, hb.1 ▸ hf.2.2.2.2⟩

open UOmniCaptureSubsystem in
/-- C7: when hardware-encoded output is requested and the hardware encoder is unavailable,
`ApplyFallbacks` (on any state, and on the state `BeginCapture` hands it) succeeds and makes
the active output format `PNGSequence` if `bAllowNVENCFallback` is set; if it is not set,
`ApplyFallbacks` fails and `BeginCapture`, called in the idle state, aborts: `bIsCapturing`
is false and `State` is `Idle` afterwards. -/
theorem C7_nvenc_unavailable_fallback_or_abort (eng : FEngine) (s t : UOmniCaptureSubsystem)
    (In : FOmniCaptureSettings) (hs : s.bIsCapturing = false) (hidle : s.State = .Idle)
    (hres : 0 < In.Resolution) (hout : In.OutputFormat = .NVENCHardware)
    (htout : t.ActiveSettings.OutputFormat = .NVENCHardware)
    (hun : IsNVENCAvailable eng.Host = false) :
    (t.ActiveSettings.bAllowNVENCFallback = true →
      (ApplyFallbacks eng t).1 = true ∧
      (ApplyFallbacks eng t).2.ActiveSettings.OutputFormat = .PNGSequence) ∧
    (t.ActiveSettings.bAllowNVENCFallback = false → (ApplyFallbacks eng t).1 = false) ∧
    (In.bAllowNVENCFallback = true →
      (ApplyFallbacks eng (ValidateEnvironment eng (BeginCaptureReset eng s In)).2).1 = true ∧
      (BeginCapture eng s In).ActiveSettings.OutputFormat = .PNGSequence) ∧
    (In.bAllowNVENCFallback = false →
      (ApplyFallbacks eng (ValidateEnvironment eng (BeginCaptureReset eng s In)).2).1 = false ∧
      (BeginCapture eng s In).bIsCapturing = false ∧
      (BeginCapture eng s In).State = .Idle) := by
  have key : ∀ u : UOmniCaptureSubsystem, u.ActiveSettings.OutputFormat = .NVENCHardware →
      (u.ActiveSettings.bAllowNVENCFallback = true →
        ApplyFallbacks eng u = (true, (u.AddWarning
          "Falling back to PNG sequence because NVENC is unavailable").SetOutputFormat
            .PNGSequence)) ∧
      (u.ActiveSettings.bAllowNVENCFallback = false →
        ApplyFallbacks eng u = (false, u.AddWarning "NVENC required but unavailable")) := by
    intro u hu
    constructor
    · intro hb
      unfold ApplyFallbacks
      lift_lets
      intro host Caps s1 s2 s3 s4 s5
      rw [if_pos ⟨hu, hun⟩, if_pos hb]
    · intro hb
      unfold ApplyFallbacks
      lift_lets
      intro host Caps s1 s2 s3 s4 s5
      rw [if_pos ⟨hu, hun⟩, if_neg (by rw [hb]; decide)]
  have hr := BeginCaptureReset_fields eng s In
  have hv := ValidateEnvironment_keeps eng (BeginCaptureReset eng s In)
  have hu := key (ValidateEnvironment eng (BeginCaptureReset eng s In)).2
    (by rw [hv.1, hr.1, hout])
  refine ⟨fun hb => ?_, fun hb => ?_, fun hb => ?_, fun hb => ?_⟩
  · rw [(key t htout).1 hb]
    exact ⟨rfl, rfl⟩
  · rw [(key t htout).2 hb]
  · have e := hu.1 (by rw [hv.1, hr.2.2.2.1, hb])
    have hb' := BeginCaptureStart_fields eng
      (ApplyFallbacks eng (ValidateEnvironment eng (BeginCaptureReset eng s In)).2).2
    refine ⟨by rw [e], ?_⟩
    rw [BeginCapture_eq eng s In hs hres, if_pos (by rw [e]), hb'.2.1, e]
    rfl
  · have e := hu.2 (by rw [hv.1, hr.2.2.2.1, hb])
    refine ⟨by rw [e], ?_, ?_⟩
    · rw [BeginCapture_eq eng s In hs hres, if_neg (by rw [e]; exact Bool.false_ne_true), e]
      exact hv.2.1.trans (hr.2.2.2.2.1.trans hs)
    · rw [BeginCapture_eq eng s In hs hres, if_neg (by rw [e]; exact Bool.false_ne_true), e]
      exact hv.2.2.trans (hr.2.2.2.2.2.trans hidle)

open UOmniCaptureSubsystem in
/-- C7 at concrete inputs: a build without NVENC support, with the fallback allowed and
with the fallback forbidden. -/
theorem C7_nvenc_unavailable_fallback_or_abort_witness :
    (BeginCapture (engineOn hostNoNVENC) {} sHEVCP010).ActiveSettings.OutputFormat
      = .PNGSequence ∧
    (BeginCapture (engineOn hostNoNVENC) {}
      { sHEVCP010 with bAllowNVENCFallback := false }).bIsCapturing = false ∧
    (BeginCapture (engineOn hostNoNVENC) {}
      { sHEVCP010 with bAllowNVENCFallback := false }).State = .Idle :=
  ⟨((C7_nvenc_unavailable_fallback_or_abort (engineOn hostNoNVENC) {}
      { ActiveSettings := sHEVCP010 } sHEVCP010 rfl rfl (by decide) rfl rfl rfl).2.2.1 rfl).2,
    ((C7_nvenc_unavailable_fallback_or_abort (engineOn hostNoNVENC) {}
      { ActiveSettings := sHEVCP010 } { sHEVCP010 with bAllowNVENCFallback := false } rfl rfl
      (by decide) rfl rfl rfl).2.2.2 rfl).2⟩

end OmniCapture

namespace OmniCapture

namespace UOmniCaptureSubsystem

/-- The consumer callback leaves the lifecycle flags and the segment index alone. -/
theorem OnConsume_fields (eng : FEngine) (s : UOmniCaptureSubsystem) (F : FOmniCaptureFrame) :
    (OnConsume eng s F).bIsCapturing = s.bIsCapturing ∧
    (OnConsume eng s F).bIsPaused = s.bIsPaused ∧
    (OnConsume eng s F).CurrentSegmentIndex = s.CurrentSegmentIndex := by
  unfold OnConsume
  lift_lets
  intro s1
  have h1 : s1.bIsCapturing = s.bIsCapturing ∧ s1.bIsPaused = s.bIsPaused ∧
      s1.CurrentSegmentIndex = s.CurrentSegmentIndex := by
    unfold s1
    cases s.OutputMuxer with
    | none => exact ⟨rfl, rfl, rfl⟩
    | some m => exact ⟨rfl, rfl, rfl⟩
  cases hrb : s1.RingBuffer with
  | none => exact h1
  | some rb =>
    simp only []
    split_ifs
    · unfold HandleDroppedFrame AddWarningUnique
      lift_lets
      intro s2
      split_ifs <;> exact h1
    · exact h1

/-- Draining the ring buffer leaves the lifecycle flags and the segment index alone. -/
theorem DrainRingBuffer_fields (eng : FEngine) (Frames : List FOmniCaptureFrame) :
    ∀ s : UOmniCaptureSubsystem,
      (DrainRingBuffer eng Frames s).bIsCapturing = s.bIsCapturing ∧
      (DrainRingBuffer eng Frames s).bIsPaused = s.bIsPaused ∧
      (DrainRingBuffer eng Frames s).CurrentSegmentIndex = s.CurrentSegmentIndex := by
  induction Frames with
  | nil => intro s; exact ⟨rfl, rfl, rfl⟩
  | cons F rest ih =>
    intro s
    unfold DrainRingBuffer
    lift_lets
    intro s1
    have h := ih (OnConsume eng s1 F)
    have h1 := OnConsume_fields eng s1 F
    exact ⟨h.1.trans h1.1, h.2.1.trans h1.2.1, h.2.2.trans h1.2.2⟩

theorem FlushRingBuffer_fields (eng : FEngine) (s : UOmniCaptureSubsystem) :
    (FlushRingBuffer eng s).bIsCapturing = s.bIsCapturing ∧
    (FlushRingBuffer eng s).bIsPaused = s.bIsPaused ∧
    (FlushRingBuffer eng s).CurrentSegmentIndex = s.CurrentSegmentIndex := by
  unfold FlushRingBuffer
  cases s.RingBuffer with
  | none => exact ⟨rfl, rfl, rfl⟩
  | some rb => exact DrainRingBuffer_fields eng _ s

theorem ShutdownAudioRecording_fields (eng : FEngine) (s : UOmniCaptureSubsystem) :
    (ShutdownAudioRecording eng s).bIsCapturing = s.bIsCapturing ∧
    (ShutdownAudioRecording eng s).bIsPaused = s.bIsPaused ∧
    (ShutdownAudioRecording eng s).CurrentSegmentIndex = s.CurrentSegmentIndex ∧
    (ShutdownAudioRecording eng s).RingBuffer = s.RingBuffer := by
  unfold ShutdownAudioRecording
  split_ifs <;> exact ⟨rfl, rfl, rfl, rfl⟩

theorem CompleteActiveSegment_fields (s : UOmniCaptureSubsystem) (b : Bool) :
    (CompleteActiveSegment s b).bIsCapturing = s.bIsCapturing ∧
    (CompleteActiveSegment s b).bIsPaused = s.bIsPaused ∧
    (CompleteActiveSegment s b).CurrentSegmentIndex = s.CurrentSegmentIndex := by
  unfold CompleteActiveSegment
  split_ifs <;> exact ⟨rfl, rfl, rfl⟩

theorem FinalizeOutputs_fields (eng : FEngine) (s : UOmniCaptureSubsystem) (b : Bool) :
    (FinalizeOutputs eng s b).2.bIsCapturing = s.bIsCapturing ∧
    (FinalizeOutputs eng s b).2.bIsPaused = s.bIsPaused := by
  unfold FinalizeOutputs
  lift_lets
  intro s1 Last
  have h1 : s1.bIsCapturing = s.bIsCapturing ∧ s1.bIsPaused = s.bIsPaused := by
    unfold s1
    split_ifs
    · exact ⟨(CompleteActiveSegment_fields s true).1, (CompleteActiveSegment_fields s true).2.1⟩
    · exact ⟨rfl, rfl⟩
  split_ifs
  · exact ⟨rfl, rfl⟩
  · exact h1
  · exact h1

theorem InitializeOutputWriters_index (eng : FEngine) (s : UOmniCaptureSubsystem) :
    (InitializeOutputWriters eng s).CurrentSegmentIndex = s.CurrentSegmentIndex ∧
    (InitializeOutputWriters eng s).OutputMuxer = s.OutputMuxer := by
  unfold InitializeOutputWriters
  lift_lets
  intro s1
  split
  · exact ⟨rfl, rfl⟩
  · split_ifs <;> exact ⟨rfl, rfl⟩

theorem InitializeAudioRecording_index (eng : FEngine) (s : UOmniCaptureSubsystem) :
    (InitializeAudioRecording eng s).CurrentSegmentIndex = s.CurrentSegmentIndex := by
  unfold InitializeAudioRecording
  split_ifs <;> rfl

/-- With a positive segment duration and the size limit disabled, the rotation decision
is the comparison of the elapsed segment time with the duration, and the state is not
touched by the decision. -/
theorem ShouldRotate_duration_only (eng : FEngine) (s : UOmniCaptureSubsystem)
    (hD : 0 < s.ActiveSettings.SegmentDurationSeconds)
    (hsize : s.ActiveSettings.SegmentSizeLimitMB ≤ 0) :
    ShouldRotate eng s =
      (decide (eng.Seconds 0 - s.CurrentSegmentStartTime ≥ s.ActiveSettings.SegmentDurationSeconds),
        s) := by
  unfold ShouldRotate
  lift_lets
  intro Now b s1 LimitBytes
  have hb : b = decide (Now - s.CurrentSegmentStartTime ≥ s.ActiveSettings.SegmentDurationSeconds) :=
    if_pos hD
  have hlim : decide (s.ActiveSettings.SegmentSizeLimitMB > 0) = false :=
    decide_eq_false (by omega)
  rw [hlim, Bool.and_false, if_neg Bool.false_ne_true, hb]

/-- `RotateSegmentIfNeeded` returns the state it was given unless the subsystem is
capturing, the decision is to rotate and the active segment has a captured frame. -/
theorem RotateSegmentIfNeeded_deferred (eng : FEngine) (s : UOmniCaptureSubsystem)
    (h : s.bIsCapturing = false ∨ (ShouldRotate eng s).1 = false ∨
      (ShouldRotate eng s).2.CapturedFrameMetadata = []) :
    RotateSegmentIfNeeded eng s = if s.bIsCapturing = true then (ShouldRotate eng s).2 else s := by
  unfold RotateSegmentIfNeeded
  cases hc : s.bIsCapturing with
  | false => rfl
  | true =>
    rw [if_neg (by decide), if_pos rfl]
    lift_lets
    intro d s1 s2 s3 s4 s5 s6 s7 s8 s9 m0 m1 s10 s11
    rcases h with h | h | h
    · rw [hc] at h; exact absurd h (by decide)
    · have hd : d.1 = false := h
      rw [if_pos (by rw [hd]; rfl)]
    · have hf : s1.CapturedFrameMetadata = [] := h
      rw [if_pos (by rw [hf]; simp)]

/-- When `RotateSegmentIfNeeded` rotates, the segment index grows by one. -/
theorem RotateSegmentIfNeeded_rotates (eng : FEngine) (s : UOmniCaptureSubsystem)
    (hc : s.bIsCapturing = true) (hd : (ShouldRotate eng s).1 = true)
    (hs : (ShouldRotate eng s).2.CurrentSegmentIndex = s.CurrentSegmentIndex)
    (hf : (ShouldRotate eng s).2.CapturedFrameMetadata ≠ []) :
    (RotateSegmentIfNeeded eng s).CurrentSegmentIndex = s.CurrentSegmentIndex + 1 := by
  unfold RotateSegmentIfNeeded
  rw [if_neg (by rw [hc]; decide)]
  lift_lets
  intro d s1 s2 s3 s4 s5 s6 s7 s8 s9 m0 m1 s10 s11
  have hd1 : d.1 = true := hd
  have hlen : s1.CapturedFrameMetadata.length ≠ 0 := fun h => hf (List.length_eq_zero.mp h)
  rw [if_neg (by rw [hd1]; simpa using hlen)]
  have e2 : s2.CurrentSegmentIndex = s1.CurrentSegmentIndex := (FlushRingBuffer_fields eng s1).2.2
  have e3 : s3.CurrentSegmentIndex = s2.CurrentSegmentIndex := rfl
  have e4 : s4.CurrentSegmentIndex = s3.CurrentSegmentIndex :=
    (ShutdownAudioRecording_fields eng s3).2.2.1
  have e5 : s5.CurrentSegmentIndex = s4.CurrentSegmentIndex := rfl
  have e6 : s6.CurrentSegmentIndex = s5.CurrentSegmentIndex :=
    (CompleteActiveSegment_fields s5 true).2.2
  have e7 : s7.CurrentSegmentIndex = s6.CurrentSegmentIndex + 1 := rfl
  have e8 : s8.CurrentSegmentIndex = s7.CurrentSegmentIndex := rfl
  have e9 : s9.CurrentSegmentIndex = s8.CurrentSegmentIndex := (InitializeOutputWriters_index eng s8).1
  have e10 : s10.CurrentSegmentIndex = s9.CurrentSegmentIndex := rfl
  have e11 : s11.CurrentSegmentIndex = s10.CurrentSegmentIndex :=
    InitializeAudioRecording_index eng s10
  show s11.CurrentSegmentIndex = _
  rw [e11, e10, e9, e8, e7, e6, e5, e4, e3, e2]
  exact congrArg (· + 1) hs

end UOmniCaptureSubsystem

open UOmniCaptureSubsystem in
/-- C8, the claim as stated fails: with a segment duration of 10 s, the size limit disabled
and one captured frame, a call of `RotateSegmentIfNeeded` exactly 10 s after the segment
start changes the segment index from 0 to 1, although not more than 10 s have elapsed. -/
theorem C8_counterexample :
    (recordingWithFrames 1).ActiveSettings.SegmentDurationSeconds = 10 ∧
    (recordingWithFrames 1).ActiveSettings.SegmentSizeLimitMB = 0 ∧
    (engineClock 10).Seconds 0 - (recordingWithFrames 1).CurrentSegmentStartTime = 10 ∧
    ¬ ((engineClock 10).Seconds 0 - (recordingWithFrames 1).CurrentSegmentStartTime >
      (recordingWithFrames 1).ActiveSettings.SegmentDurationSeconds) ∧
    (recordingWithFrames 1).CurrentSegmentIndex = 0 ∧
    (RotateSegmentIfNeeded (engineClock 10) (recordingWithFrames 1)).CurrentSegmentIndex = 1 := by
  have he : (engineClock 10).Seconds 0 - (recordingWithFrames 1).CurrentSegmentStartTime = 10 := by
    show (10 : ℚ) - 0 = 10
    norm_num
  have hD : (recordingWithFrames 1).ActiveSettings.SegmentDurationSeconds = 10 := rfl
  have hsr := ShouldRotate_duration_only (engineClock 10) (recordingWithFrames 1)
    (by rw [hD]; norm_num) (by decide)
  have hd : (ShouldRotate (engineClock 10) (recordingWithFrames 1)).1 = true := by
    rw [hsr]
    show decide (_ ≥ _) = true
    rw [he, hD]
    exact decide_eq_true (le_refl _)
  refine ⟨rfl, rfl, he, ?_, rfl, ?_⟩
  · rw [he, hD]
    exact lt_irrefl _
  · rw [RotateSegmentIfNeeded_rotates (engineClock 10) (recordingWithFrames 1) rfl hd
      (by rw [hsr]) (by rw [hsr]; decide)]
    rfl

open UOmniCaptureSubsystem in
/-- C8, amended: with a positive segment duration `D` and the size limit disabled, a call
of `RotateSegmentIfNeeded` changes the segment index only when at least `D` seconds have
elapsed since the start of the active segment (`elapsed >= D`), never before, and never
while the active segment has zero captured frames: before `D`, and with zero frames, the
call returns the state unchanged (segment index, completed-segment list and output paths
included). While capturing with at least one captured frame, the index grows by one as soon
as `elapsed >= D`. -/
theorem C8_rotation_never_early_never_empty (eng : FEngine) (s : UOmniCaptureSubsystem)
    (hD : 0 < s.ActiveSettings.SegmentDurationSeconds)
    (hsize : s.ActiveSettings.SegmentSizeLimitMB ≤ 0) :
    ((RotateSegmentIfNeeded eng s).CurrentSegmentIndex ≠ s.CurrentSegmentIndex →
      s.ActiveSettings.SegmentDurationSeconds ≤ eng.Seconds 0 - s.CurrentSegmentStartTime ∧
      s.CapturedFrameMetadata ≠ []) ∧
    (eng.Seconds 0 - s.CurrentSegmentStartTime < s.ActiveSettings.SegmentDurationSeconds →
      RotateSegmentIfNeeded eng s = s) ∧
    (s.CapturedFrameMetadata = [] → RotateSegmentIfNeeded eng s = s) ∧
    (s.bIsCapturing = true →
      s.ActiveSettings.SegmentDurationSeconds ≤ eng.Seconds 0 - s.CurrentSegmentStartTime →
      s.CapturedFrameMetadata ≠ [] →
      (RotateSegmentIfNeeded eng s).CurrentSegmentIndex = s.CurrentSegmentIndex + 1) := by
  have hsr := ShouldRotate_duration_only eng s hD hsize
  have hearly : eng.Seconds 0 - s.CurrentSegmentStartTime < s.ActiveSettings.SegmentDurationSeconds →
      RotateSegmentIfNeeded eng s = s := by
    intro hlt
    rw [RotateSegmentIfNeeded_deferred eng s
      (Or.inr (Or.inl (by rw [hsr]; exact decide_eq_false (not_le.mpr hlt)))), hsr]
    split_ifs <;> rfl
  have hempty : s.CapturedFrameMetadata = [] → RotateSegmentIfNeeded eng s = s := by
    intro hf
    rw [RotateSegmentIfNeeded_deferred eng s (Or.inr (Or.inr (by rw [hsr]; exact hf))), hsr]
    split_ifs <;> rfl
  refine ⟨fun hne => ⟨?_, ?_⟩, hearly, hempty, fun hc hge hf => ?_⟩
  · by_contra hlt
    exact hne (by rw [hearly (not_le.mp hlt)])
  · intro hf
    exact hne (by rw [hempty hf])
  · exact RotateSegmentIfNeeded_rotates eng s hc
      (by rw [hsr]; exact decide_eq_true hge) (by rw [hsr]) (by rw [hsr]; exact hf)

open UOmniCaptureSubsystem in
/-- C8 amended, at concrete inputs with `D = 10`: 5 s after the segment start nothing
changes, 12 s after it with no captured frame nothing changes, and 12 s after it with one
captured frame the index becomes 1. -/
theorem C8_rotation_never_early_never_empty_witness :
    RotateSegmentIfNeeded (engineClock 5) (recordingWithFrames 1) = recordingWithFrames 1 ∧
    RotateSegmentIfNeeded (engineClock 12) (recordingWithFrames 0) = recordingWithFrames 0 ∧
    (RotateSegmentIfNeeded (engineClock 12) (recordingWithFrames 1)).CurrentSegmentIndex = 1 := by
  have hD : ∀ n, (0 : ℚ) < (recordingWithFrames n).ActiveSettings.SegmentDurationSeconds := by
    intro n
    show (0 : ℚ) < 10
    norm_num
  refine ⟨(C8_rotation_never_early_never_empty (engineClock 5) (recordingWithFrames 1) (hD 1)
      (by decide)).2.1 ?_,
    (C8_rotation_never_early_never_empty (engineClock 12) (recordingWithFrames 0) (hD 0)
      (by decide)).2.2.1 rfl,
    ((C8_rotation_never_early_never_empty (engineClock 12) (recordingWithFrames 1) (hD 1)
      (by decide)).2.2.2 rfl ?_ (by decide)).trans rfl⟩
  · show (5 : ℚ) - 0 < 10
    norm_num
  · show (10 : ℚ) ≤ 12 - 0
    norm_num

open UOmniCaptureSubsystem in
/-- C10: `EndCapture` always returns to idle. From every state with `bIsCapturing` set
(recording, paused or dropped frames) and for both values of the finalize flag, after
`EndCapture` the state is `Idle`, `bIsCapturing` and `bIsPaused` are false, and the
published ring-buffer and audio-sync statistics are back at their defaults. -/
theorem C10_end_capture_returns_to_idle (eng : FEngine) (s : UOmniCaptureSubsystem)
    (bFinalize : Bool) (hc : s.bIsCapturing = true) :
    (EndCapture eng s bFinalize).State = .Idle ∧
    (EndCapture eng s bFinalize).bIsCapturing = false ∧
    (EndCapture eng s bFinalize).bIsPaused = false ∧
    (EndCapture eng s bFinalize).LatestRingBufferStats = {} ∧
    (EndCapture eng s bFinalize).AudioStats = {} := by
  unfold EndCapture
  rw [if_neg (by rw [hc]; decide)]
  lift_lets
  intro s1 s2 s3 s4 s5 s6 s7 s8
  have h3 := ShutdownAudioRecording_fields eng s2
  have h4 := FlushRingBuffer_fields eng s3
  have h5 : s5.bIsCapturing = s3.bIsCapturing ∧ s5.bIsPaused = s3.bIsPaused := by
    unfold s5
    cases s3.RingBuffer with
    | none => exact ⟨rfl, rfl⟩
    | some rb => exact ⟨h4.1, h4.2.1⟩
  have h8 := FinalizeOutputs_fields eng s7 bFinalize
  refine ⟨rfl, ?_, ?_, rfl, rfl⟩
  · show s8.bIsCapturing = false
    exact h8.1.trans (h5.1.trans h3.1)
  · show s8.bIsPaused = false
    exact h8.2.trans (h5.2.trans h3.2.1)

open UOmniCaptureSubsystem in
/-- C10 at a concrete input: a paused subsystem with pending frames and published
statistics, ended with and without finalization. -/
theorem C10_end_capture_returns_to_idle_witness :
    ((EndCapture (engineOn hostWindows) pausedBusy true).State = .Idle ∧
      (EndCapture (engineOn hostWindows) pausedBusy true).bIsCapturing = false ∧
      (EndCapture (engineOn hostWindows) pausedBusy true).bIsPaused = false ∧
      (EndCapture (engineOn hostWindows) pausedBusy true).LatestRingBufferStats = {} ∧
      (EndCapture (engineOn hostWindows) pausedBusy true).AudioStats = {}) ∧
    ((EndCapture (engineOn hostWindows) pausedBusy false).State = .Idle ∧
      (EndCapture (engineOn hostWindows) pausedBusy false).bIsCapturing = false ∧
      (EndCapture (engineOn hostWindows) pausedBusy false).bIsPaused = false ∧
      (EndCapture (engineOn hostWindows) pausedBusy false).LatestRingBufferStats = {} ∧
      (EndCapture (engineOn hostWindows) pausedBusy false).AudioStats = {}) :=
  ⟨C10_end_capture_returns_to_idle (engineOn hostWindows) pausedBusy true rfl,
    C10_end_capture_returns_to_idle (engineOn hostWindows) pausedBusy false rfl⟩

end OmniCapture

namespace OmniCapture

/-- One enqueue under drop-oldest keeps the buffer equal to the last `Capacity` frames of
the history, and the dropped count equal to the number of frames that no longer fit. -/
theorem Enqueue_dropOldest_step (rb : FOmniCaptureRingBuffer) (hist : List FOmniCaptureFrame)
    (F : FOmniCaptureFrame) (C : Nat) (hC : 1 ≤ C) (hcap : rb.Capacity = C)
    (hpol : rb.Policy = .DropOldest) (hp : rb.Pending = hist.drop (hist.length - C))
    (hd : rb.DroppedFrames = ((hist.length - C : Nat) : Int)) :
    (rb.Enqueue F).Capacity = C ∧ (rb.Enqueue F).Policy = .DropOldest ∧
    (rb.Enqueue F).Pending = (hist ++ [F]).drop ((hist ++ [F]).length - C) ∧
    (rb.Enqueue F).DroppedFrames = (((hist ++ [F]).length - C : Nat) : Int) ∧
    (rb.Enqueue F).BlockedPushes = rb.BlockedPushes := by
  have hlen : rb.Pending.length = hist.length - (hist.length - C) := by
    rw [hp, List.length_drop]
  unfold FOmniCaptureRingBuffer.Enqueue
  by_cases hlt : hist.length < C
  · have h0 : hist.length - C = 0 := by omega
    have h1 : (hist ++ [F]).length - C = 0 := by
      rw [List.length_append, List.length_singleton]; omega
    have hpl : (rb.Pending.length : Int) < rb.Capacity := by
      rw [hcap, hlen]; omega
    rw [if_pos hpl]
    refine ⟨hcap, hpol, ?_, ?_, rfl⟩
    · show rb.Pending ++ [F] = _
      rw [h1, hp, h0, List.drop_zero, List.drop_zero]
    · show rb.DroppedFrames = _
      rw [hd, h0, h1]
  · have hge : C ≤ hist.length := by omega
    have hpl : ¬ (rb.Pending.length : Int) < rb.Capacity := by
      rw [hcap, hlen]; omega
    rw [if_neg hpl]
    have h1 : (hist ++ [F]).length - C = (hist.length - C) + 1 := by
      rw [List.length_append, List.length_singleton]; omega
    split
    · refine ⟨hcap, hpol, ?_, ?_, rfl⟩
      · show rb.Pending.tail ++ [F] = _
        rw [h1, hp, List.tail_drop, List.drop_append_of_le_length (by omega)]
      · show rb.DroppedFrames + 1 = _
        rw [hd, h1]
        push_cast
        rfl
    · rename_i hb
      rw [hpol] at hb
      cases hb

/-- Enqueuing a sequence under drop-oldest, with no consume in between. -/
theorem EnqueueAll_dropOldest (C : Nat) (hC : 1 ≤ C) (Frames : List FOmniCaptureFrame) :
    ∀ (rb : FOmniCaptureRingBuffer) (hist : List FOmniCaptureFrame),
      rb.Capacity = C → rb.Policy = .DropOldest → rb.Pending = hist.drop (hist.length - C) →
      rb.DroppedFrames = ((hist.length - C : Nat) : Int) →
      (rb.EnqueueAll Frames).Capacity = C ∧ (rb.EnqueueAll Frames).Policy = .DropOldest ∧
      (rb.EnqueueAll Frames).Pending = (hist ++ Frames).drop ((hist ++ Frames).length - C) ∧
      (rb.EnqueueAll Frames).DroppedFrames = (((hist ++ Frames).length - C : Nat) : Int) ∧
      (rb.EnqueueAll Frames).BlockedPushes = rb.BlockedPushes := by
  induction Frames with
  | nil =>
    intro rb hist hcap hpol hp hd
    rw [List.append_nil]
    exact ⟨hcap, hpol, hp, hd, rfl⟩
  | cons F rest ih =>
    intro rb hist hcap hpol hp hd
    have hs := Enqueue_dropOldest_step rb hist F C hC hcap hpol hp hd
    have hr := ih (rb.Enqueue F) (hist ++ [F]) hs.1 hs.2.1 hs.2.2.1 hs.2.2.2.1
    rw [List.append_assoc, List.singleton_append] at hr
    exact ⟨hr.1, hr.2.1, hr.2.2.1, hr.2.2.2.1, hr.2.2.2.2.trans hs.2.2.2.2⟩

/-- C9: frame ring buffer under the drop-oldest policy. For every capacity `C >= 1` and
every `K`, enqueuing `C + K` frames with no consume in between, into a buffer initialised
from settings with that capacity and policy, yields `pending = C` and `dropped = K`; the
buffer holds exactly the `C` most recently enqueued frames in enqueue order; and after
every prefix of the enqueues the pending count is at most `C`. -/
theorem C9_drop_oldest_keeps_most_recent (Settings : FOmniCaptureSettings) (C K : Nat)
    (Frames : List FOmniCaptureFrame) (hC : 1 ≤ C) (hcap : Settings.RingBufferCapacity = C)
    (hpol : Settings.RingBufferPolicy = .DropOldest) (hlen : Frames.length = C + K) :
    ((FOmniCaptureRingBuffer.Initialize Settings).EnqueueAll Frames).GetStats.PendingFrames = C ∧
    ((FOmniCaptureRingBuffer.Initialize Settings).EnqueueAll Frames).GetStats.DroppedFrames = K ∧
    ((FOmniCaptureRingBuffer.Initialize Settings).EnqueueAll Frames).GetStats.BlockedPushes = 0 ∧
    ((FOmniCaptureRingBuffer.Initialize Settings).EnqueueAll Frames).Pending = Frames.drop K ∧
    (∀ n : Nat,
      ((FOmniCaptureRingBuffer.Initialize Settings).EnqueueAll
        (Frames.take n)).GetStats.PendingFrames ≤ C) := by
  have hall := fun (l : List FOmniCaptureFrame) =>
    EnqueueAll_dropOldest C hC l (FOmniCaptureRingBuffer.Initialize Settings) [] hcap hpol
      (by simp [FOmniCaptureRingBuffer.Initialize]) (by simp [FOmniCaptureRingBuffer.Initialize])
  have h := hall Frames
  rw [List.nil_append] at h
  have hk : Frames.length - C = K := by omega
  rw [hk] at h
  refine ⟨?_, ?_, ?_, h.2.2.1, ?_⟩
  · show ((((FOmniCaptureRingBuffer.Initialize Settings).EnqueueAll Frames).Pending.length : Nat)
      : Int) = C
    rw [h.2.2.1, List.length_drop, hlen]
    congr 1
    omega
  · exact h.2.2.2.1
  · exact h.2.2.2.2
  · intro n
    have hn := hall (Frames.take n)
    rw [List.nil_append] at hn
    show ((((FOmniCaptureRingBuffer.Initialize Settings).EnqueueAll (Frames.take n)).Pending.length
      : Nat) : Int) ≤ C
    rw [hn.2.2.1, List.length_drop]
    omega

/-- C9 at a concrete input: capacity 2 and three frames, so `K = 1`: two frames are
pending, one was dropped, and the buffer holds frames 1 and 2 in that order. -/
theorem C9_drop_oldest_keeps_most_recent_witness :
    ((FOmniCaptureRingBuffer.Initialize { RingBufferCapacity := 2 }).EnqueueAll
      [frameIdx 0, frameIdx 1, frameIdx 2]).GetStats.PendingFrames = 2 ∧
    ((FOmniCaptureRingBuffer.Initialize { RingBufferCapacity := 2 }).EnqueueAll
      [frameIdx 0, frameIdx 1, frameIdx 2]).GetStats.DroppedFrames = 1 ∧
    ((FOmniCaptureRingBuffer.Initialize { RingBufferCapacity := 2 }).EnqueueAll
      [frameIdx 0, frameIdx 1, frameIdx 2]).Pending = [frameIdx 1, frameIdx 2] := by
  have h := C9_drop_oldest_keeps_most_recent { RingBufferCapacity := 2 } 2 1
    [frameIdx 0, frameIdx 1, frameIdx 2] (by decide) rfl rfl rfl
  exact ⟨h.1, h.2.1, h.2.2.2.1⟩

end OmniCapture

namespace OmniCapture

/-- `FMath::Clamp` leaves a value inside the range unchanged. -/
theorem Clamp_of_mem (x lo hi : ℚ) (h0 : lo ≤ x) (h1 : x ≤ hi) : Clamp x lo hi = x := by
  unfold Clamp
  rw [if_neg (not_lt.mpr h0)]
  split_ifs with h
  · rfl
  · exact le_antisymm (not_lt.mp h) h1

/-- `FMath::Clamp` (with `Min ≤ Max`) always lands inside the range. -/
theorem Clamp_mem (x lo hi : ℚ) (h : lo ≤ hi) : lo ≤ Clamp x lo hi ∧ Clamp x lo hi ≤ hi := by
  unfold Clamp
  split_ifs with h1 h2
  · exact ⟨le_refl _, h⟩
  · exact ⟨not_lt.mp h1, le_of_lt h2⟩
  · exact ⟨h, le_refl _⟩

/-- The value before the clamp of the seam adjustment, as a contraction about the face
centre: `1/2 + (u - 1/2) * (1 - s / R)`. -/
theorem SeamAdjust_unclamped (R : Int) (s u : ℚ) (hR : 1 ≤ R) :
    u * Lerp 1 (((R : ℚ) - 1) / R) s + (1/2 / (R : ℚ)) * s
      = 1/2 + (u - 1/2) * (1 - s / R) := by
  have hR0 : (R : ℚ) ≠ 0 := by
    have : (1 : ℚ) ≤ R := by exact_mod_cast hR
    linarith
  unfold Lerp
  field_simp
  ring

/-- Inside the unit square of blend strengths the clamp of the seam adjustment never
acts. -/
theorem SeamAdjust_eq (R : Int) (s u : ℚ) (hR : 1 ≤ R) (hu0 : 0 ≤ u) (hu1 : u ≤ 1)
    (hs0 : 0 ≤ s) (hs1 : s ≤ 1) :
    SeamAdjust R s u = 1/2 + (u - 1/2) * (1 - s / R) := by
  have hRq : (1 : ℚ) ≤ R := by exact_mod_cast hR
  have hRpos : (0 : ℚ) < R := by linarith
  have hk0 : 0 ≤ 1 - s / (R : ℚ) := by
    have : s / (R : ℚ) ≤ 1 := by
      rw [div_le_one hRpos]; linarith
    linarith
  have hk1 : 1 - s / (R : ℚ) ≤ 1 := by
    have : 0 ≤ s / (R : ℚ) := div_nonneg hs0 (le_of_lt hRpos)
    linarith
  unfold SeamAdjust
  simp only [max_eq_right hR]
  rw [SeamAdjust_unclamped R s u hR]
  apply Clamp_of_mem
  · nlinarith
  · nlinarith

end OmniCapture

namespace OmniCapture

/-- C16: the seam adjustment that ends `DirectionToFaceUVCPU` is, per coordinate,
`clamp(u * lerp(1, (R-1)/R, s) + (0.5/R) * s, 0, 1)`; for a face resolution `R ≥ 1`,
a coordinate `u` in `[0, 1]` and blend strengths `0 ≤ s1 ≤ s2 ≤ 1` the adjusted
coordinate under `s2` is at least as close to the face centre `0.5` as under `s1`, and
strength `0` returns `u` itself. -/
theorem C16_seam_blend_contracts_toward_centre (R : Int) (u s1 s2 : ℚ) (hR : 1 ≤ R)
    (hu0 : 0 ≤ u) (hu1 : u ≤ 1) (h0 : 0 ≤ s1) (h12 : s1 ≤ s2) (h2 : s2 ≤ 1) :
    (∀ (d : FVector) (s : ℚ),
      DirectionToFaceUVCPU d R s
        = ((FaceUVBeforeSeam d).1,
            ⟨SeamAdjust R s (FaceUVBeforeSeam d).2.X, SeamAdjust R s (FaceUVBeforeSeam d).2.Y⟩)) ∧
    (∀ s : ℚ, SeamAdjust R s u
        = Clamp (u * Lerp 1 (((R : ℚ) - 1) / R) s + (1/2 / (R : ℚ)) * s) 0 1) ∧
    |SeamAdjust R s2 u - 1/2| ≤ |SeamAdjust R s1 u - 1/2| ∧
    SeamAdjust R 0 u = u := by
  have hRq : (1 : ℚ) ≤ R := by exact_mod_cast hR
  have hRpos : (0 : ℚ) < R := by linarith
  refine ⟨fun d s => rfl, ?_, ?_, ?_⟩
  · intro s
    unfold SeamAdjust
    simp only [max_eq_right hR]
  · rw [SeamAdjust_eq R s2 u hR hu0 hu1 (le_trans h0 h12) h2,
      SeamAdjust_eq R s1 u hR hu0 hu1 h0 (le_trans h12 h2)]
    have e : ∀ s : ℚ, 1/2 + (u - 1/2) * (1 - s / R) - 1/2 = (u - 1/2) * (1 - s / R) := by
      intro s; ring
    rw [e, e, abs_mul, abs_mul]
    have hd : s1 / (R : ℚ) ≤ s2 / (R : ℚ) := div_le_div_of_nonneg_right h12 (le_of_lt hRpos)
    have h2R : s2 / (R : ℚ) ≤ 1 := by rw [div_le_one hRpos]; linarith
    have h1R : s1 / (R : ℚ) ≤ 1 := le_trans hd h2R
    rw [abs_of_nonneg (by linarith : 0 ≤ 1 - s2 / (R : ℚ)),
      abs_of_nonneg (by linarith : 0 ≤ 1 - s1 / (R : ℚ))]
    exact mul_le_mul_of_nonneg_left (by linarith) (abs_nonneg _)
  · rw [SeamAdjust_eq R 0 u hR hu0 hu1 (le_refl _) (by norm_num)]
    simp

/-- C16 at a 4-texel face: the coordinate `1` under strengths `1/4` and `1/2`. -/
theorem C16_seam_blend_contracts_toward_centre_witness :
    ((1 : Int) ≤ 4 ∧ (0 : ℚ) ≤ 1 ∧ (1 : ℚ) ≤ 1 ∧ (0 : ℚ) ≤ 1/4 ∧ (1/4 : ℚ) ≤ 1/2 ∧
      (1/2 : ℚ) ≤ 1) ∧
    |SeamAdjust 4 (1/2) 1 - 1/2| ≤ |SeamAdjust 4 (1/4) 1 - 1/2| ∧ SeamAdjust 4 0 1 = 1 :=
  ⟨⟨by decide, by norm_num, by norm_num, by norm_num, by norm_num, by norm_num⟩,
    (C16_seam_blend_contracts_toward_centre 4 1 (1/4) (1/2) (by decide) (by norm_num)
      (by norm_num) (by norm_num) (by norm_num) (by norm_num)).2.2⟩

end OmniCapture

namespace OmniCapture

/-- A component divided by a dominating positive value and remapped by `(x + 1) / 2`
lies in `[0, 1]`. -/
theorem remap_unit (a m : ℚ) (hm : 0 < m) (h : |a| ≤ m) :
    0 ≤ (a / m + 1) * (1/2) ∧ (a / m + 1) * (1/2) ≤ 1 := by
  have h1 : -1 ≤ a / m := by
    rw [le_div_iff₀ hm]; linarith [neg_abs_le a]
  have h2 : a / m ≤ 1 := by
    rw [div_le_one hm]; exact le_trans (le_abs_self a) h
  constructor <;> linarith

/-- The same for the negated component. -/
theorem remap_unit_neg (a m : ℚ) (hm : 0 < m) (h : |a| ≤ m) :
    0 ≤ (-a / m + 1) * (1/2) ∧ (-a / m + 1) * (1/2) ≤ 1 :=
  remap_unit (-a) m hm (by rwa [abs_neg])

/-- What `SelectFace` returns for a non-zero direction: in each of the six cases the
sign of the dominant component and the domination of the two others. -/
theorem SelectFace_cases (d : FVector) (hd : d.X ≠ 0 ∨ d.Y ≠ 0 ∨ d.Z ≠ 0) :
    (0 < d.X ∧ |d.Y| ≤ |d.X| ∧ |d.Z| ≤ |d.X| ∧
        SelectFace d = (0, ⟨-d.Z / |d.X|, d.Y / |d.X|⟩)) ∨
    (d.X < 0 ∧ |d.Y| ≤ |d.X| ∧ |d.Z| ≤ |d.X| ∧
        SelectFace d = (1, ⟨d.Z / |d.X|, d.Y / |d.X|⟩)) ∨
    (0 < d.Y ∧ |d.X| ≤ |d.Y| ∧ |d.Z| ≤ |d.Y| ∧
        SelectFace d = (2, ⟨d.X / |d.Y|, -d.Z / |d.Y|⟩)) ∨
    (d.Y < 0 ∧ |d.X| ≤ |d.Y| ∧ |d.Z| ≤ |d.Y| ∧
        SelectFace d = (3, ⟨d.X / |d.Y|, d.Z / |d.Y|⟩)) ∨
    (0 < d.Z ∧ |d.X| ≤ |d.Z| ∧ |d.Y| ≤ |d.Z| ∧
        SelectFace d = (4, ⟨d.X / |d.Z|, d.Y / |d.Z|⟩)) ∨
    (d.Z < 0 ∧ |d.X| ≤ |d.Z| ∧ |d.Y| ≤ |d.Z| ∧
        SelectFace d = (5, ⟨-d.X / |d.Z|, d.Y / |d.Z|⟩)) := by
  obtain ⟨x, y, z⟩ := d
  simp only at hd ⊢
  have hpos : 0 < |x| ∨ 0 < |y| ∨ 0 < |z| := by
    rcases hd with h | h | h
    · exact Or.inl (abs_pos.mpr h)
    · exact Or.inr (Or.inl (abs_pos.mpr h))
    · exact Or.inr (Or.inr (abs_pos.mpr h))
  unfold SelectFace FVector.GetAbs
  simp only [ge_iff_le, gt_iff_lt]
  by_cases hX : |y| ≤ |x| ∧ |z| ≤ |x|
  · rw [if_pos hX]
    have hx : 0 < |x| := by
      rcases hpos with h | h | h
      · exact h
      · exact lt_of_lt_of_le h hX.1
      · exact lt_of_lt_of_le h hX.2
    by_cases hs : 0 < x
    · rw [if_pos hs]; exact Or.inl ⟨hs, hX.1, hX.2, rfl⟩
    · rw [if_neg hs]
      have : x < 0 := lt_of_le_of_ne (not_lt.mp hs) (abs_pos.mp hx)
      exact Or.inr (Or.inl ⟨this, hX.1, hX.2, rfl⟩)
  · rw [if_neg hX]
    by_cases hY : |x| ≤ |y| ∧ |z| ≤ |y|
    · rw [if_pos hY]
      have hy : 0 < |y| := by
        rcases hpos with h | h | h
        · exact lt_of_lt_of_le h hY.1
        · exact h
        · exact lt_of_lt_of_le h hY.2
      by_cases hs : 0 < y
      · rw [if_pos hs]; exact Or.inr (Or.inr (Or.inl ⟨hs, hY.1, hY.2, rfl⟩))
      · rw [if_neg hs]
        have : y < 0 := lt_of_le_of_ne (not_lt.mp hs) (abs_pos.mp hy)
        exact Or.inr (Or.inr (Or.inr (Or.inl ⟨this, hY.1, hY.2, rfl⟩)))
    · rw [if_neg hY]
      have hZ : |x| ≤ |z| ∧ |y| ≤ |z| := by
        rw [not_and_or, not_le, not_le] at hX hY
        rcases le_total (|x|) (|y|) with hxy | hxy
        · rcases hY with h | h
          · exact absurd hxy (not_le.mpr h)
          · exact ⟨le_trans hxy (le_of_lt h), le_of_lt h⟩
        · rcases hX with h | h
          · exact absurd hxy (not_le.mpr h)
          · exact ⟨le_of_lt h, le_trans hxy (le_of_lt h)⟩
      have hz : 0 < |z| := by
        rcases hpos with h | h | h
        · exact lt_of_lt_of_le h hZ.1
        · exact lt_of_lt_of_le h hZ.2
        · exact h
      by_cases hs : 0 < z
      · rw [if_pos hs]; exact Or.inr (Or.inr (Or.inr (Or.inr (Or.inl ⟨hs, hZ.1, hZ.2, rfl⟩))))
      · rw [if_neg hs]
        have : z < 0 := lt_of_le_of_ne (not_lt.mp hs) (abs_pos.mp hz)
        exact Or.inr (Or.inr (Or.inr (Or.inr (Or.inr ⟨this, hZ.1, hZ.2, rfl⟩))))

end OmniCapture

namespace OmniCapture

/-- C19: for every non-zero direction `d`, `DirectionToFaceUVCPU` selects a face whose
axis carries the largest absolute component of `d` and whose sign is the sign of that
component (0: +X, 1: -X, 2: +Y, 3: -Y, 4: +Z, 5: -Z); the face coordinates before the
seam adjustment are the two other components divided by that absolute value and mapped
by `(x + 1) / 2`, and they lie in the unit square. -/
theorem C19_face_selection_and_uv_range (d : FVector) (R : Int) (s : ℚ)
    (hd : d.X ≠ 0 ∨ d.Y ≠ 0 ∨ d.Z ≠ 0) :
    (DirectionToFaceUVCPU d R s).1 = (FaceUVBeforeSeam d).1 ∧
    ((0 < d.X ∧ |d.Y| ≤ |d.X| ∧ |d.Z| ≤ |d.X| ∧ FaceUVBeforeSeam d
        = (0, ⟨(-d.Z / |d.X| + 1) * (1/2), (d.Y / |d.X| + 1) * (1/2)⟩)) ∨
     (d.X < 0 ∧ |d.Y| ≤ |d.X| ∧ |d.Z| ≤ |d.X| ∧ FaceUVBeforeSeam d
        = (1, ⟨(d.Z / |d.X| + 1) * (1/2), (d.Y / |d.X| + 1) * (1/2)⟩)) ∨
     (0 < d.Y ∧ |d.X| ≤ |d.Y| ∧ |d.Z| ≤ |d.Y| ∧ FaceUVBeforeSeam d
        = (2, ⟨(d.X / |d.Y| + 1) * (1/2), (-d.Z / |d.Y| + 1) * (1/2)⟩)) ∨
     (d.Y < 0 ∧ |d.X| ≤ |d.Y| ∧ |d.Z| ≤ |d.Y| ∧ FaceUVBeforeSeam d
        = (3, ⟨(d.X / |d.Y| + 1) * (1/2), (d.Z / |d.Y| + 1) * (1/2)⟩)) ∨
     (0 < d.Z ∧ |d.X| ≤ |d.Z| ∧ |d.Y| ≤ |d.Z| ∧ FaceUVBeforeSeam d
        = (4, ⟨(d.X / |d.Z| + 1) * (1/2), (d.Y / |d.Z| + 1) * (1/2)⟩)) ∨
     (d.Z < 0 ∧ |d.X| ≤ |d.Z| ∧ |d.Y| ≤ |d.Z| ∧ FaceUVBeforeSeam d
        = (5, ⟨(-d.X / |d.Z| + 1) * (1/2), (d.Y / |d.Z| + 1) * (1/2)⟩))) ∧
    (0 ≤ (FaceUVBeforeSeam d).2.X ∧ (FaceUVBeforeSeam d).2.X ≤ 1) ∧
    (0 ≤ (FaceUVBeforeSeam d).2.Y ∧ (FaceUVBeforeSeam d).2.Y ≤ 1) := by
  have key : ∀ (i : Fin 6) (a b : ℚ), SelectFace d = (i, ⟨a, b⟩) →
      FaceUVBeforeSeam d = (i, ⟨(a + 1) * (1/2), (b + 1) * (1/2)⟩) := by
    intro i a b h
    unfold FaceUVBeforeSeam
    rw [h]
  refine ⟨rfl, ?_⟩
  rcases SelectFace_cases d hd with h | h | h | h | h | h
  · obtain ⟨hs, h1, h2, e⟩ := h
    have hm : 0 < |d.X| := abs_pos.mpr (ne_of_gt hs)
    have e2 := key _ _ _ e
    refine ⟨Or.inl ⟨hs, h1, h2, e2⟩, ?_, ?_⟩
    · rw [e2]; exact remap_unit_neg _ _ hm h2
    · rw [e2]; exact remap_unit _ _ hm h1
  · obtain ⟨hs, h1, h2, e⟩ := h
    have hm : 0 < |d.X| := abs_pos.mpr (ne_of_lt hs)
    have e2 := key _ _ _ e
    refine ⟨Or.inr (Or.inl ⟨hs, h1, h2, e2⟩), ?_, ?_⟩
    · rw [e2]; exact remap_unit _ _ hm h2
    · rw [e2]; exact remap_unit _ _ hm h1
  · obtain ⟨hs, h1, h2, e⟩ := h
    have hm : 0 < |d.Y| := abs_pos.mpr (ne_of_gt hs)
    have e2 := key _ _ _ e
    refine ⟨Or.inr (Or.inr (Or.inl ⟨hs, h1, h2, e2⟩)), ?_, ?_⟩
    · rw [e2]; exact remap_unit _ _ hm h1
    · rw [e2]; exact remap_unit_neg _ _ hm h2
  · obtain ⟨hs, h1, h2, e⟩ := h
    have hm : 0 < |d.Y| := abs_pos.mpr (ne_of_lt hs)
    have e2 := key _ _ _ e
    refine ⟨Or.inr (Or.inr (Or.inr (Or.inl ⟨hs, h1, h2, e2⟩))), ?_, ?_⟩
    · rw [e2]; exact remap_unit _ _ hm h1
    · rw [e2]; exact remap_unit _ _ hm h2
  · obtain ⟨hs, h1, h2, e⟩ := h
    have hm : 0 < |d.Z| := abs_pos.mpr (ne_of_gt hs)
    have e2 := key _ _ _ e
    refine ⟨Or.inr (Or.inr (Or.inr (Or.inr (Or.inl ⟨hs, h1, h2, e2⟩)))), ?_, ?_⟩
    · rw [e2]; exact remap_unit _ _ hm h1
    · rw [e2]; exact remap_unit _ _ hm h2
  · obtain ⟨hs, h1, h2, e⟩ := h
    have hm : 0 < |d.Z| := abs_pos.mpr (ne_of_lt hs)
    have e2 := key _ _ _ e
    refine ⟨Or.inr (Or.inr (Or.inr (Or.inr (Or.inr ⟨hs, h1, h2, e2⟩)))), ?_, ?_⟩
    · rw [e2]; exact remap_unit_neg _ _ hm h1
    · rw [e2]; exact remap_unit _ _ hm h2

/-- C19 at the direction `(1, -1/2, -1/2)`: face 0 (+X) is selected and the coordinates
before the seam adjustment lie in the unit square. -/
theorem C19_face_selection_and_uv_range_witness :
    ((1 : ℚ) ≠ 0 ∨ (-1/2 : ℚ) ≠ 0 ∨ (-1/2 : ℚ) ≠ 0) ∧
    (DirectionToFaceUVCPU ⟨1, -1/2, -1/2⟩ 2 0).1 = (FaceUVBeforeSeam ⟨1, -1/2, -1/2⟩).1 ∧
    (0 ≤ (FaceUVBeforeSeam ⟨1, -1/2, -1/2⟩).2.X ∧ (FaceUVBeforeSeam ⟨1, -1/2, -1/2⟩).2.X ≤ 1) ∧
    (0 ≤ (FaceUVBeforeSeam ⟨1, -1/2, -1/2⟩).2.Y ∧ (FaceUVBeforeSeam ⟨1, -1/2, -1/2⟩).2.Y ≤ 1) :=
  have h := C19_face_selection_and_uv_range ⟨1, -1/2, -1/2⟩ 2 0 (Or.inl one_ne_zero)
  ⟨Or.inl one_ne_zero, h.1, h.2.2⟩

end OmniCapture

namespace OmniCapture

/-- `DirectionToFaceUVCPU` always returns coordinates in the unit square. -/
theorem DirectionToFaceUVCPU_unit (d : FVector) (R : Int) (s : ℚ) :
    (0 ≤ (DirectionToFaceUVCPU d R s).2.X ∧ (DirectionToFaceUVCPU d R s).2.X ≤ 1) ∧
    (0 ≤ (DirectionToFaceUVCPU d R s).2.Y ∧ (DirectionToFaceUVCPU d R s).2.Y ≤ 1) := by
  unfold DirectionToFaceUVCPU SeamAdjust
  exact ⟨Clamp_mem _ 0 1 zero_le_one, Clamp_mem _ 0 1 zero_le_one⟩

/-- The direction `(1, -1/2, -1/2)` lands on face 0 at `(3/4, 1/4)` when the seam
strength is zero. -/
theorem DirectionToFaceUVCPU_dirThreeQuarter :
    DirectionToFaceUVCPU dirThreeQuarter 2 0 = (0, ⟨3/4, 1/4⟩) := by
  have a1 : |(1 : ℚ)| = 1 := abs_one
  have a2 : |(-1/2 : ℚ)| = 1/2 := by
    rw [show (-1/2 : ℚ) = -(1/2) by norm_num, abs_neg, abs_of_pos (by norm_num)]
  have hsel : SelectFace dirThreeQuarter = (0, ⟨1/2, -1/2⟩) := by
    unfold SelectFace FVector.GetAbs dirThreeQuarter
    simp only [a1, a2]
    rw [if_pos (by norm_num), if_pos (by norm_num)]
    norm_num
  unfold DirectionToFaceUVCPU FaceUVBeforeSeam
  rw [hsel]
  have hseam : ∀ u : ℚ, 0 ≤ u → u ≤ 1 → SeamAdjust 2 0 u = u := by
    intro u h0 h1
    rw [SeamAdjust_eq 2 0 u (by decide) h0 h1 (le_refl _) (by norm_num)]
    simp
  simp only
  rw [hseam _ (by norm_num) (by norm_num), hseam _ (by norm_num) (by norm_num)]
  norm_num

/-- Truncation of a non-negative value bounded by `n` stays in `0 .. n` and is the
floor. -/
theorem TruncToInt32_range (x : ℚ) (n : Int) (h0 : 0 ≤ x) (h1 : x ≤ n) :
    TruncToInt32 x = ⌊x⌋ ∧ 0 ≤ ⌊x⌋ ∧ ⌊x⌋ ≤ n := by
  refine ⟨by unfold TruncToInt32; rw [if_pos h0], Int.floor_nonneg.mpr h0, ?_⟩
  have : ⌊x⌋ ≤ ⌊(n : ℚ)⌋ := Int.floor_le_floor h1
  simpa using this

/-- Integer `FMath::Clamp` leaves a value inside the range unchanged. -/
theorem ClampInt_of_mem (x lo hi : Int) (h0 : lo ≤ x) (h1 : x ≤ hi) : Clamp x lo hi = x := by
  unfold Clamp
  rw [if_neg (not_lt.mpr h0)]
  split_ifs with h
  · rfl
  · exact le_antisymm (not_lt.mp h) h1

end OmniCapture

namespace OmniCapture

/-- The texel of `SampleTexel` on a valid face: both coordinates are the floor of the
face coordinate scaled by `Resolution - 1`, and the index is in range. -/
theorem SampleTexel_floor (Cubemap : FCPUCubemap) (d : FVector) (FaceResolution : Int)
    (s : ℚ) (f : Fin 6) (uv : FVector2D)
    (hfu : DirectionToFaceUVCPU d FaceResolution s = (f, uv))
    (hvalid : (Cubemap.Faces f).IsValid = true)
    (hfit : (Cubemap.Faces f).Resolution * (Cubemap.Faces f).Resolution ≤ maxI32) :
    (0 ≤ ⌊uv.X * (((Cubemap.Faces f).Resolution - 1 : Int) : ℚ)⌋ ∧
      ⌊uv.X * (((Cubemap.Faces f).Resolution - 1 : Int) : ℚ)⌋ ≤ (Cubemap.Faces f).Resolution - 1) ∧
    (0 ≤ ⌊uv.Y * (((Cubemap.Faces f).Resolution - 1 : Int) : ℚ)⌋ ∧
      ⌊uv.Y * (((Cubemap.Faces f).Resolution - 1 : Int) : ℚ)⌋ ≤ (Cubemap.Faces f).Resolution - 1) ∧
    SampleTexel Cubemap d FaceResolution s
      = (f, ⌊uv.X * (((Cubemap.Faces f).Resolution - 1 : Int) : ℚ)⌋,
          ⌊uv.Y * (((Cubemap.Faces f).Resolution - 1 : Int) : ℚ)⌋,
          ⌊uv.Y * (((Cubemap.Faces f).Resolution - 1 : Int) : ℚ)⌋ * (Cubemap.Faces f).Resolution
            + ⌊uv.X * (((Cubemap.Faces f).Resolution - 1 : Int) : ℚ)⌋) ∧
    (⌊uv.Y * (((Cubemap.Faces f).Resolution - 1 : Int) : ℚ)⌋ * (Cubemap.Faces f).Resolution
        + ⌊uv.X * (((Cubemap.Faces f).Resolution - 1 : Int) : ℚ)⌋
      < ((Cubemap.Faces f).Pixels.length : Int)) := by
  have hu := DirectionToFaceUVCPU_unit d FaceResolution s
  rw [hfu] at hu
  obtain ⟨⟨hx0, hx1⟩, ⟨hy0, hy1⟩⟩ := hu
  simp only at hx0 hx1 hy0 hy1
  generalize hR : (Cubemap.Faces f).Resolution = R at *
  unfold FCPUFaceData.IsValid at hvalid
  simp only [Bool.and_eq_true, decide_eq_true_eq, hR] at hvalid
  obtain ⟨hpos, hlen⟩ := hvalid
  have hRR : 0 ≤ R * R := mul_nonneg (le_of_lt hpos) (le_of_lt hpos)
  rw [mulI32_eq R R hRR hfit] at hlen
  have hn : (0 : ℚ) ≤ ((R - 1 : Int) : ℚ) := by
    have : (0 : Int) ≤ R - 1 := by omega
    exact_mod_cast this
  have bx := TruncToInt32_range (uv.X * ((R - 1 : Int) : ℚ)) (R - 1)
    (mul_nonneg hx0 hn) (by nlinarith)
  have by1 := TruncToInt32_range (uv.Y * ((R - 1 : Int) : ℚ)) (R - 1)
    (mul_nonneg hy0 hn) (by nlinarith)
  obtain ⟨ex, cx0, cx1⟩ := bx
  obtain ⟨ey, cy0, cy1⟩ := by1
  generalize ⌊uv.X * ((R - 1 : Int) : ℚ)⌋ = col at *
  generalize ⌊uv.Y * ((R - 1 : Int) : ℚ)⌋ = row at *
  have hidx0 : 0 ≤ row * R + col := by nlinarith
  have hidx1 : row * R + col < R * R := by nlinarith
  refine ⟨⟨cx0, cx1⟩, ⟨cy0, cy1⟩, ?_, by rw [hlen]; exact hidx1⟩
  unfold SampleTexel
  simp only [hfu, hR, ex, ey]
  rw [ClampInt_of_mem col 0 (R - 1) cx0 cx1, ClampInt_of_mem row 0 (R - 1) cy0 cy1]
  have hm : mulI32 row R = row * R :=
    mulI32_eq row R (mul_nonneg cy0 (le_of_lt hpos)) (by nlinarith)
  rw [hm, wrapI32_eq _ (by omega) (by omega)]

end OmniCapture

namespace OmniCapture

/-- The pixel `SampleCubemapCPU` returns when the texel index is in range. -/
theorem SampleCubemapCPU_of_texel (Cubemap : FCPUCubemap) (d : FVector)
    (FaceResolution : Int) (s : ℚ) (f : Fin 6) (x y i : Int)
    (ht : SampleTexel Cubemap d FaceResolution s = (f, x, y, i))
    (h0 : 0 ≤ i) (h1 : i < ((Cubemap.Faces f).Pixels.length : Int)) :
    SampleCubemapCPU Cubemap d FaceResolution s
      = (Cubemap.Faces f).Pixels.getD i.toNat FLinearColor.Black := by
  unfold SampleCubemapCPU
  simp only [ht]
  rw [if_pos ⟨h0, h1⟩]

/-- C18 (counterexample): on the valid 2 x 2 cubemap the direction `(1, -1/2, -1/2)`
has face coordinates `(3/4, 1/4)` on face 0; `round(3/4 * (2 - 1))` is column 1, but
`SampleCubemapCPU` reads column 0 of row 0, a different pixel. -/
theorem C18_counterexample :
    cubemapTwo.IsValid = true ∧
    DirectionToFaceUVCPU dirThreeQuarter 2 0 = (0, ⟨3/4, 1/4⟩) ∧
    round ((3/4 : ℚ) * (((cubemapTwo.Faces 0).Resolution - 1 : Int) : ℚ)) = 1 ∧
    round ((1/4 : ℚ) * (((cubemapTwo.Faces 0).Resolution - 1 : Int) : ℚ)) = 0 ∧
    SampleTexel cubemapTwo dirThreeQuarter 2 0 = (0, 0, 0, 0) ∧
    SampleCubemapCPU cubemapTwo dirThreeQuarter 2 0 = ⟨0, 0, 0, 1⟩ ∧
    (cubemapTwo.Faces 0).Pixels.getD (0 * 2 + 1) FLinearColor.Black = ⟨1, 0, 0, 1⟩ ∧
    SampleCubemapCPU cubemapTwo dirThreeQuarter 2 0
      ≠ (cubemapTwo.Faces 0).Pixels.getD (0 * 2 + 1) FLinearColor.Black := by
  have hv : cubemapTwo.IsValid = true := by decide
  have hR : (cubemapTwo.Faces 0).Resolution = 2 := rfl
  have hf := SampleTexel_floor cubemapTwo dirThreeQuarter 2 0 0 ⟨3/4, 1/4⟩
    DirectionToFaceUVCPU_dirThreeQuarter (by decide) (by decide)
  have fx : ⌊(3/4 : ℚ) * (((2 : Int) - 1 : Int) : ℚ)⌋ = 0 := by
    rw [Int.floor_eq_iff]; norm_num
  have fy : ⌊(1/4 : ℚ) * (((2 : Int) - 1 : Int) : ℚ)⌋ = 0 := by
    rw [Int.floor_eq_iff]; norm_num
  have ht : SampleTexel cubemapTwo dirThreeQuarter 2 0 = (0, 0, 0, 0) := by
    rw [hf.2.2.1]
    simp only [fx, fy, hR]
    rfl
  have hs : SampleCubemapCPU cubemapTwo dirThreeQuarter 2 0 = ⟨0, 0, 0, 1⟩ := by
    rw [SampleCubemapCPU_of_texel cubemapTwo dirThreeQuarter 2 0 0 0 0 0 ht (le_refl _)
      (by decide)]
    rfl
  refine ⟨hv, DirectionToFaceUVCPU_dirThreeQuarter, ?_, ?_, ht, hs, rfl, ?_⟩
  · rw [hR, round_eq, Int.floor_eq_iff]; norm_num
  · rw [hR, round_eq, Int.floor_eq_iff]; norm_num
  · rw [hs]
    show (⟨0, 0, 0, 1⟩ : FLinearColor) ≠ ⟨1, 0, 0, 1⟩
    intro h
    have := congrArg FLinearColor.R h
    norm_num at this

/-- C18 (amended): for a direction whose face coordinates are `(u, v)` on face `f`, a
valid face of resolution `R`, `SampleCubemapCPU` reads the face pixel at column
`floor(u * (R - 1))` and row `floor(v * (R - 1))` (the fraction is truncated, not
rounded); both already lie in `0 .. R - 1`, and the index `row * R + column` is in
range, so a face pixel and never the black default is returned. -/
theorem C18_sample_reads_truncated_texel (Cubemap : FCPUCubemap) (d : FVector)
    (FaceResolution : Int) (s : ℚ) (f : Fin 6) (uv : FVector2D)
    (hfu : DirectionToFaceUVCPU d FaceResolution s = (f, uv))
    (hvalid : (Cubemap.Faces f).IsValid = true)
    (hfit : (Cubemap.Faces f).Resolution * (Cubemap.Faces f).Resolution ≤ maxI32) :
    (0 ≤ uv.X ∧ uv.X ≤ 1 ∧ 0 ≤ uv.Y ∧ uv.Y ≤ 1) ∧
    (0 ≤ ⌊uv.X * (((Cubemap.Faces f).Resolution - 1 : Int) : ℚ)⌋ ∧
      ⌊uv.X * (((Cubemap.Faces f).Resolution - 1 : Int) : ℚ)⌋ ≤ (Cubemap.Faces f).Resolution - 1) ∧
    (0 ≤ ⌊uv.Y * (((Cubemap.Faces f).Resolution - 1 : Int) : ℚ)⌋ ∧
      ⌊uv.Y * (((Cubemap.Faces f).Resolution - 1 : Int) : ℚ)⌋ ≤ (Cubemap.Faces f).Resolution - 1) ∧
    (⌊uv.Y * (((Cubemap.Faces f).Resolution - 1 : Int) : ℚ)⌋ * (Cubemap.Faces f).Resolution
        + ⌊uv.X * (((Cubemap.Faces f).Resolution - 1 : Int) : ℚ)⌋).toNat
      < (Cubemap.Faces f).Pixels.length ∧
    SampleCubemapCPU Cubemap d FaceResolution s
      = (Cubemap.Faces f).Pixels.getD
          (⌊uv.Y * (((Cubemap.Faces f).Resolution - 1 : Int) : ℚ)⌋ * (Cubemap.Faces f).Resolution
            + ⌊uv.X * (((Cubemap.Faces f).Resolution - 1 : Int) : ℚ)⌋).toNat
          FLinearColor.Black := by
  obtain ⟨hx, hy, ht, hlt⟩ := SampleTexel_floor Cubemap d FaceResolution s f uv hfu hvalid hfit
  have hu := DirectionToFaceUVCPU_unit d FaceResolution s
  rw [hfu] at hu
  have hpos : 0 < (Cubemap.Faces f).Resolution := by
    unfold FCPUFaceData.IsValid at hvalid
    simp only [Bool.and_eq_true, decide_eq_true_eq] at hvalid
    exact hvalid.1
  have h0 : 0 ≤ ⌊uv.Y * (((Cubemap.Faces f).Resolution - 1 : Int) : ℚ)⌋
      * (Cubemap.Faces f).Resolution
      + ⌊uv.X * (((Cubemap.Faces f).Resolution - 1 : Int) : ℚ)⌋ :=
    add_nonneg (mul_nonneg hy.1 (le_of_lt hpos)) hx.1
  refine ⟨⟨hu.1.1, hu.1.2, hu.2.1, hu.2.2⟩, hx, hy, ?_, ?_⟩
  · omega
  · exact SampleCubemapCPU_of_texel Cubemap d FaceResolution s f _ _ _ ht h0 hlt

/-- C18 (amended) on the 2 x 2 cubemap at face coordinates `(3/4, 1/4)`. -/
theorem C18_sample_reads_truncated_texel_witness :
    (DirectionToFaceUVCPU dirThreeQuarter 2 0 = (0, ⟨3/4, 1/4⟩) ∧
      (cubemapTwo.Faces 0).IsValid = true ∧
      (cubemapTwo.Faces 0).Resolution * (cubemapTwo.Faces 0).Resolution ≤ maxI32) ∧
    SampleCubemapCPU cubemapTwo dirThreeQuarter 2 0
      = (cubemapTwo.Faces 0).Pixels.getD
          (⌊(1/4 : ℚ) * (((cubemapTwo.Faces 0).Resolution - 1 : Int) : ℚ)⌋
              * (cubemapTwo.Faces 0).Resolution
            + ⌊(3/4 : ℚ) * (((cubemapTwo.Faces 0).Resolution - 1 : Int) : ℚ)⌋).toNat
          FLinearColor.Black :=
  ⟨⟨DirectionToFaceUVCPU_dirThreeQuarter, by decide, by decide⟩,
    (C18_sample_reads_truncated_texel cubemapTwo dirThreeQuarter 2 0 0 ⟨3/4, 1/4⟩
      DirectionToFaceUVCPU_dirThreeQuarter (by decide) (by decide)).2.2.2.2⟩

end OmniCapture

namespace OmniCapture

/-- The sampling chain reads the settings only through `PolarDampening` and
`SeamBlend`. -/
theorem SamplePixel_settings (ops : FPixelOps) (S T : FOmniCaptureSettings)
    (hp : S.PolarDampening = T.PolarDampening) (hs : S.SeamBlend = T.SeamBlend)
    (c : FCPUCubemap) (p r : Int × Int) (R : Int) :
    ops.SamplePixel S c p r R = ops.SamplePixel T c p r R := by
  unfold FPixelOps.SamplePixel
  rw [hp, hs]

/-- The mono sample: the whole output is one eye, read from the left cubemap. -/
theorem CPUSample_mono (ops : FPixelOps) (S : FOmniCaptureSettings) (hm : S.Mode = .Mono)
    (c e : FCPUCubemap) (X Y : Int) :
    CPUSample ops S c e X Y
      = ops.SamplePixel S c (X, Y)
          (mulI32 (c.Faces 0).Resolution 2, (c.Faces 0).Resolution) (c.Faces 0).Resolution := by
  unfold CPUSample ProcessPixelAt
  simp [hm]

/-- The side-by-side sample: the eye is chosen by `X >= W / 2` and the pixel inside the
eye is `(X % (W / 2), Y)`. -/
theorem CPUSample_sideBySide (ops : FPixelOps) (S : FOmniCaptureSettings)
    (hm : S.Mode = .Stereo) (hl : S.StereoLayout = .SideBySide) (L Rt : FCPUCubemap)
    (R X Y : Int) (hL : (L.Faces 0).Resolution = R) (hR : 0 < R) (hfit : R * 4 ≤ maxI32)
    (hX : 0 ≤ X) :
    CPUSample ops S L Rt X Y
      = ops.SamplePixel S (if X < 2 * R then L else Rt) (X % (2 * R), Y) (2 * R, R) R := by
  have h4 : mulI32 R 4 = R * 4 := mulI32_eq R 4 (by omega) hfit
  have hd : Int.tdiv (R * 4) 2 = 2 * R := by
    rw [show R * 4 = 2 * R * 2 by ring]
    exact Int.mul_tdiv_cancel _ (by decide)
  have hmod : Int.tmod X (2 * R) = X % (2 * R) := Int.tmod_eq_emod hX (by omega)
  unfold CPUSample ProcessPixelAt
  simp only [hm, hl, hL, h4, hd, hmod, decide_True, Bool.and_self, if_true, Bool.true_and]
  by_cases hx : X < 2 * R
  · have : ¬ (X ≥ 2 * R) := by omega
    simp [hx, this]
  · have : X ≥ 2 * R := by omega
    simp [hx, this]

/-- The top-bottom sample: the eye is chosen by `Y >= H / 2` and the pixel inside the
eye is `(X, Y % (H / 2))`. -/
theorem CPUSample_topBottom (ops : FPixelOps) (S : FOmniCaptureSettings)
    (hm : S.Mode = .Stereo) (hl : S.StereoLayout = .TopBottom) (L Rt : FCPUCubemap)
    (R X Y : Int) (hL : (L.Faces 0).Resolution = R) (hR : 0 < R) (hfit : R * 4 ≤ maxI32)
    (hY : 0 ≤ Y) :
    CPUSample ops S L Rt X Y
      = ops.SamplePixel S (if Y < R then L else Rt) (X, Y % R) (2 * R, R) R := by
  have h2 : mulI32 R 2 = R * 2 := mulI32_eq R 2 (by omega) (by omega)
  have hd : Int.tdiv (R * 2) 2 = R := Int.mul_tdiv_cancel _ (by decide)
  have hmod : Int.tmod Y R = Y % R := Int.tmod_eq_emod hY (by omega)
  have hw : R * 2 = 2 * R := by ring
  unfold CPUSample ProcessPixelAt
  simp only [hm, hl, hL, h2, hd, hmod, hw, decide_True, Bool.true_and]
  by_cases hy : Y < R
  · have : ¬ (Y ≥ R) := by omega
    simp [hy, this, hmod]
  · have : Y ≥ R := by omega
    simp [hy, this, hmod]

end OmniCapture

namespace OmniCapture

/-- The sample list of `ConvertOnCPU` is the table of `CPUSample` in index order
`Y * OutputWidth + X`. -/
theorem ProcessPixel_eq_CPUSample (ops : FPixelOps) (S : FOmniCaptureSettings)
    (L Rt : FCPUCubemap) :
    ProcessPixel ops S L Rt (decide (S.Mode = .Stereo)) (decide (S.StereoLayout = .SideBySide))
        (L.Faces 0).Resolution
        (if decide (S.Mode = .Stereo) && decide (S.StereoLayout = .SideBySide)
          then mulI32 (L.Faces 0).Resolution 4 else mulI32 (L.Faces 0).Resolution 2)
        (if decide (S.Mode = .Stereo) && !decide (S.StereoLayout = .SideBySide)
          then mulI32 (L.Faces 0).Resolution 2 else (L.Faces 0).Resolution)
      = (List.range (if decide (S.Mode = .Stereo) && !decide (S.StereoLayout = .SideBySide)
          then mulI32 (L.Faces 0).Resolution 2 else (L.Faces 0).Resolution).toNat).flatMap
        fun Y =>
          (List.range (if decide (S.Mode = .Stereo) && decide (S.StereoLayout = .SideBySide)
            then mulI32 (L.Faces 0).Resolution 4
            else mulI32 (L.Faces 0).Resolution 2).toNat).map
          fun X => CPUSample ops S L Rt X Y :=
  rfl

/-- C20: in the CPU path with stereo mode and both eyes at face resolution `R`, the
sample at output pixel `(X, Y)` is the mono-mode sample (same seam and polar settings,
mode set to mono, output `2R x R`) of one eye's cubemap at the eye-local pixel: for
side-by-side the left cubemap at `(X, Y)` when `X < 2R` and the right cubemap at
`(X mod 2R, Y)` otherwise; for top-bottom the left cubemap at `(X, Y)` when `Y < R` and
the right cubemap at `(X, Y mod R)` otherwise. -/
theorem C20_stereo_halves_are_mono_projections (ops : FPixelOps)
    (S : FOmniCaptureSettings) (L Rt : FCPUCubemap) (R : Int)
    (hm : S.Mode = .Stereo) (hL : (L.Faces 0).Resolution = R)
    (hRt : (Rt.Faces 0).Resolution = R) (hR : 0 < R) (hfit : R * 4 ≤ maxI32) :
    (S.StereoLayout = .SideBySide → ∀ X Y : Int, 0 ≤ X →
      CPUSample ops S L Rt X Y
        = CPUSample ops { S with Mode := .Mono } (if X < 2 * R then L else Rt)
            { Faces := fun _ => {} } (X % (2 * R)) Y) ∧
    (S.StereoLayout = .TopBottom → ∀ X Y : Int, 0 ≤ Y →
      CPUSample ops S L Rt X Y
        = CPUSample ops { S with Mode := .Mono } (if Y < R then L else Rt)
            { Faces := fun _ => {} } X (Y % R)) := by
  have h2 : mulI32 R 2 = 2 * R := by
    rw [mulI32_eq R 2 (by omega) (by omega)]; ring
  have hres : ∀ b : Prop, [Decidable b] →
      ((if b then L else Rt).Faces 0).Resolution = R := by
    intro b _
    split_ifs
    · exact hL
    · exact hRt
  constructor
  · intro hl X Y hX
    rw [CPUSample_sideBySide ops S hm hl L Rt R X Y hL hR hfit hX,
      CPUSample_mono ops { S with Mode := .Mono } rfl, hres, h2]
    exact SamplePixel_settings ops _ _ rfl rfl _ _ _ _
  · intro hl X Y hY
    rw [CPUSample_topBottom ops S hm hl L Rt R X Y hL hR hfit hY,
      CPUSample_mono ops { S with Mode := .Mono } rfl, hres, h2]
    exact SamplePixel_settings ops _ _ rfl rfl _ _ _ _

/-- C20 on two 2 x 2 cubemaps, side by side (output 8 x 2): the pixel `(5, 1)` of the
stereo output is the mono pixel `(1, 1)` of the right eye. -/
theorem C20_stereo_halves_are_mono_projections_witness :
    (sSideBySide1.Mode = .Stereo ∧ (cubemapTwo.Faces 0).Resolution = 2 ∧
      (cubemapTwoRight.Faces 0).Resolution = 2 ∧
      (0 : Int) < 2 ∧ (2 : Int) * 4 ≤ maxI32 ∧ sSideBySide1.StereoLayout = .SideBySide ∧
      (0 : Int) ≤ 5) ∧
    CPUSample ops0 sSideBySide1 cubemapTwo cubemapTwoRight 5 1
      = CPUSample ops0 { sSideBySide1 with Mode := .Mono }
          (if (5 : Int) < 2 * 2 then cubemapTwo else cubemapTwoRight)
          { Faces := fun _ => {} } (5 % (2 * 2)) 1 :=
  ⟨⟨rfl, rfl, rfl, by decide, by decide, rfl, by decide⟩,
    (C20_stereo_halves_are_mono_projections ops0 sSideBySide1 cubemapTwo cubemapTwoRight 2
      rfl rfl rfl (by decide) (by decide)).1 rfl 5 1 (by decide)⟩

end OmniCapture

namespace OmniCapture

/-- One `PushFrame` in an active session raises the maximum to the new absolute drift
where that is larger. -/
theorem PushFrame_max (m : FOmniCaptureMuxer) (F : FOmniCaptureFrame)
    (h : m.bRealtimeSessionActive = true) :
    (m.PushFrame F).AudioStats.MaxObservedDriftMilliseconds
      = max m.AudioStats.MaxObservedDriftMilliseconds
          |(m.PushFrame F).AudioStats.DriftMilliseconds| := by
  unfold FOmniCaptureMuxer.PushFrame
  simp [h]

/-- Pushing a sequence and then one more frame. -/
theorem PushFrames_snoc (m : FOmniCaptureMuxer) (Frames : List FOmniCaptureFrame)
    (F : FOmniCaptureFrame) :
    m.PushFrames (Frames ++ [F]) = (m.PushFrames Frames).PushFrame F := by
  unfold FOmniCaptureMuxer.PushFrames
  rw [List.foldl_append]
  rfl

/-- The maximum after a sequence of pushes in an active session that started with
maximum zero: an upper bound of every absolute drift seen, zero for no push, and
attained by one of the pushes otherwise. -/
theorem PushFrames_max (m : FOmniCaptureMuxer) (h : m.bRealtimeSessionActive = true)
    (hz : m.AudioStats.MaxObservedDriftMilliseconds = 0) (Frames : List FOmniCaptureFrame) :
    (∀ k, k < Frames.length →
      |(m.PushFrames (Frames.take (k + 1))).AudioStats.DriftMilliseconds|
        ≤ (m.PushFrames Frames).AudioStats.MaxObservedDriftMilliseconds) ∧
    (Frames = [] → (m.PushFrames Frames).AudioStats.MaxObservedDriftMilliseconds = 0) ∧
    (Frames ≠ [] → ∃ k, k < Frames.length ∧
      (m.PushFrames Frames).AudioStats.MaxObservedDriftMilliseconds
        = |(m.PushFrames (Frames.take (k + 1))).AudioStats.DriftMilliseconds|) := by
  induction Frames using List.reverseRecOn with
  | nil =>
    refine ⟨fun k hk => absurd hk (Nat.not_lt_zero k), fun _ => hz, fun hne => absurd rfl hne⟩
  | append_singleton fs F ih =>
    obtain ⟨ihle, ihnil, ihatt⟩ := ih
    have hact := (PushFrames_session fs m h).1
    have hmax := PushFrame_max (m.PushFrames fs) F hact
    have hlen : (fs ++ [F]).length = fs.length + 1 := by simp
    have htake : ∀ k, k < fs.length → (fs ++ [F]).take (k + 1) = fs.take (k + 1) := by
      intro k hk
      exact List.take_append_of_le_length (by omega)
    have hfull : (fs ++ [F]).take (fs.length + 1) = fs ++ [F] :=
      List.take_of_length_le (by simp)
    rw [PushFrames_snoc, hmax]
    refine ⟨?_, fun hnil => absurd hnil (by simp), fun _ => ?_⟩
    · intro k hk
      rw [hlen] at hk
      by_cases hk2 : k < fs.length
      · rw [htake k hk2]
        exact le_trans (ihle k hk2) (le_max_left _ _)
      · have hke : k = fs.length := by omega
        rw [hke, hfull, PushFrames_snoc]
        exact le_max_right _ _
    · by_cases hc : (m.PushFrames fs).AudioStats.MaxObservedDriftMilliseconds
          ≤ |((m.PushFrames fs).PushFrame F).AudioStats.DriftMilliseconds|
      · refine ⟨fs.length, by omega, ?_⟩
        rw [hfull, PushFrames_snoc, max_eq_right hc]
      · have hne : fs ≠ [] := by
          intro hnil
          apply hc
          rw [ihnil hnil]
          exact abs_nonneg _
        obtain ⟨k, hk, hk2⟩ := ihatt hne
        refine ⟨k, by omega, ?_⟩
        rw [htake k hk, max_eq_left (le_of_lt (not_le.mp hc))]
        exact hk2

end OmniCapture

namespace OmniCapture

/-- C17: `BeginRealtimeSession` and `EndRealtimeSession` reset the maximum observed drift
to zero; in a session begun with settings `S`, after the frames `Frames` were pushed the
maximum is an upper bound of `|DriftMilliseconds|` after every one of those pushes and
is attained by one of them (so it is their maximum, and at least the current absolute
drift); one more `PushFrame` never lowers it and leaves it at least the new absolute
drift. -/
theorem C17_max_observed_drift_is_running_maximum (m : FOmniCaptureMuxer)
    (S : FOmniCaptureSettings) (Frames : List FOmniCaptureFrame) :
    (m.BeginRealtimeSession S).AudioStats.MaxObservedDriftMilliseconds = 0 ∧
    m.EndRealtimeSession.AudioStats.MaxObservedDriftMilliseconds = 0 ∧
    (∀ k, k < Frames.length →
      |((m.BeginRealtimeSession S).PushFrames (Frames.take (k + 1))).AudioStats.DriftMilliseconds|
        ≤ ((m.BeginRealtimeSession S).PushFrames Frames).AudioStats.MaxObservedDriftMilliseconds) ∧
    (Frames ≠ [] → ∃ k, k < Frames.length ∧
      ((m.BeginRealtimeSession S).PushFrames Frames).AudioStats.MaxObservedDriftMilliseconds
        = |((m.BeginRealtimeSession S).PushFrames
            (Frames.take (k + 1))).AudioStats.DriftMilliseconds|) ∧
    (∀ F : FOmniCaptureFrame,
      ((m.BeginRealtimeSession S).PushFrames Frames).AudioStats.MaxObservedDriftMilliseconds
        ≤ (((m.BeginRealtimeSession S).PushFrames Frames).PushFrame
            F).AudioStats.MaxObservedDriftMilliseconds ∧
      |(((m.BeginRealtimeSession S).PushFrames Frames).PushFrame F).AudioStats.DriftMilliseconds|
        ≤ (((m.BeginRealtimeSession S).PushFrames Frames).PushFrame
            F).AudioStats.MaxObservedDriftMilliseconds) := by
  have hmx := PushFrames_max (m.BeginRealtimeSession S) rfl rfl Frames
  refine ⟨rfl, rfl, hmx.1, hmx.2.2, fun F => ?_⟩
  have hact := (PushFrames_session Frames (m.BeginRealtimeSession S) rfl).1
  rw [PushFrame_max _ F hact]
  exact ⟨le_max_left _ _, le_max_right _ _⟩

/-- C17 for a session of two frames: the maximum bounds the drift after the first push,
and is the absolute drift after one of the two pushes. -/
theorem C17_max_observed_drift_is_running_maximum_witness :
    ([frameAt 1 (19 / 20), frameAt 2 (19 / 10)] ≠ [] ∧
      0 < [frameAt 1 (19 / 20), frameAt 2 (19 / 10)].length) ∧
    |((muxer35.EndRealtimeSession.BeginRealtimeSession {}).PushFrames
        ([frameAt 1 (19 / 20), frameAt 2 (19 / 10)].take (0 + 1))).AudioStats.DriftMilliseconds|
      ≤ ((muxer35.EndRealtimeSession.BeginRealtimeSession {}).PushFrames
        [frameAt 1 (19 / 20), frameAt 2 (19 / 10)]).AudioStats.MaxObservedDriftMilliseconds ∧
    (∃ k, k < [frameAt 1 (19 / 20), frameAt 2 (19 / 10)].length ∧
      ((muxer35.EndRealtimeSession.BeginRealtimeSession {}).PushFrames
        [frameAt 1 (19 / 20), frameAt 2 (19 / 10)]).AudioStats.MaxObservedDriftMilliseconds
        = |((muxer35.EndRealtimeSession.BeginRealtimeSession {}).PushFrames
            ([frameAt 1 (19 / 20), frameAt 2 (19 / 10)].take
              (k + 1))).AudioStats.DriftMilliseconds|) :=
  have h := C17_max_observed_drift_is_running_maximum muxer35.EndRealtimeSession {}
    [frameAt 1 (19 / 20), frameAt 2 (19 / 10)]
  ⟨⟨by simp, by simp⟩, h.2.2.1 0 (by simp), h.2.2.2.1 (by simp)⟩

end OmniCapture

namespace OmniCapture

/-- `TryInvokeFFmpeg` launches at most one process and has no other outward effect. -/
theorem TryInvokeFFmpeg_events (h : FMuxerHost) (m : FOmniCaptureMuxer)
    (S : FOmniCaptureSettings) (Frames : List FOmniCaptureFrameMetadata) (V : String) :
    (m.TryInvokeFFmpeg h S Frames V).2.1 = [] ∨
    ∃ b, (m.TryInvokeFFmpeg h S Frames V).2.1 = [.CreateProc b] := by
  unfold FOmniCaptureMuxer.TryInvokeFFmpeg
  lift_lets
  intro m1 Binary BitstreamPath bHaveInput
  split_ifs
  all_goals first
    | exact Or.inl rfl
    | exact Or.inr ⟨_, rfl⟩

/-- The outcomes in which `TryInvokeFFmpeg` reports failure. -/
theorem TryInvokeFFmpeg_failures (h : FMuxerHost) (m : FOmniCaptureMuxer)
    (S : FOmniCaptureSettings) (Frames : List FOmniCaptureFrameMetadata) (V : String) :
    (Frames = [] → (m.TryInvokeFFmpeg h S Frames V).1 = false) ∧
    (m.CachedFFmpegPath ≠ "" → UOmniCaptureSubsystem.EqualsIgnoreCase m.CachedFFmpegPath "ffmpeg" = false →
      h.FileExists m.CachedFFmpegPath = false → (m.TryInvokeFFmpeg h S Frames V).1 = false) ∧
    (S.OutputFormat = .NVENCHardware → (∀ p, h.FileExists p = false) →
      (m.TryInvokeFFmpeg h S Frames V).1 = false) ∧
    (h.bProcHandleValid = false → (m.TryInvokeFFmpeg h S Frames V).1 = false) ∧
    (h.ReturnCode ≠ 0 → (m.TryInvokeFFmpeg h S Frames V).1 = false) := by
  refine ⟨?_, ?_, ?_, ?_, ?_⟩
  · intro hF
    unfold FOmniCaptureMuxer.TryInvokeFFmpeg
    rw [if_pos (by rw [hF]; rfl)]
  · intro hp hne hfe
    unfold FOmniCaptureMuxer.TryInvokeFFmpeg
    lift_lets
    intro m1 Binary BitstreamPath bHaveInput
    have hm1 : m1 = m := if_neg hp
    have hB : Binary = m.CachedFFmpegPath := by
      show m1.CachedFFmpegPath = _
      rw [hm1]
    split_ifs with h1 h2 h3 h4 h5 h6
    all_goals first
      | rfl
      | (exfalso; rw [hB, hne, hfe] at h3; simp at h3)
  · intro hfmt hfe
    unfold FOmniCaptureMuxer.TryInvokeFFmpeg
    lift_lets
    intro m1 Binary BitstreamPath bHaveInput
    have hb : bHaveInput = false := by
      show (if S.OutputFormat = .PNGSequence then true else _) = false
      rw [hfmt, if_neg (by decide), if_pos rfl]
      exact hfe _
    split_ifs with h1 h2 h3 h4 h5 h6
    all_goals first
      | rfl
      | (exfalso; rw [hb] at h4; simp at h4)
  · intro hv
    unfold FOmniCaptureMuxer.TryInvokeFFmpeg
    lift_lets
    intro m1 Binary BitstreamPath bHaveInput
    split_ifs with h1 h2 h3 h4 h5 h6
    all_goals first
      | rfl
      | (exfalso; rw [hv] at h5; simp at h5)
  · intro hrc
    unfold FOmniCaptureMuxer.TryInvokeFFmpeg
    lift_lets
    intro m1 Binary BitstreamPath bHaveInput
    split_ifs <;> rfl

/-- C15: `FinalizeCapture` returns true exactly when the manifest was written (the JSON
serialised and `SaveStringToFile` succeeded). The manifest is saved before any FFmpeg
process is launched: on success the effects are the save followed by the effects of
`TryInvokeFFmpeg` (at most one process launch), and without a written manifest no
process is launched at all. Each muxing failure (no frames, binary missing, bitstream
missing, launch failure, non-zero exit code) makes `TryInvokeFFmpeg` report false
without changing the result of `FinalizeCapture`. -/
theorem C15_finalize_capture_true_iff_manifest_written (h : FMuxerHost)
    (m : FOmniCaptureMuxer) (S : FOmniCaptureSettings)
    (Frames : List FOmniCaptureFrameMetadata) (V : String) :
    ((m.FinalizeCapture h S Frames V).1 = true ↔
      (h.bSerialize = true ∧ h.bSaveStringToFile = true)) ∧
    ((m.FinalizeCapture h S Frames V).1 = true →
      (m.FinalizeCapture h S Frames V).2.1
        = FMuxEvent.SaveStringToFile
            (h.PathCombine m.OutputDirectory (m.BaseFileName ++ "_Manifest.json")) true
          :: (m.TryInvokeFFmpeg h S Frames V).2.1 ∧
      ((m.TryInvokeFFmpeg h S Frames V).2.1 = [] ∨
        ∃ b, (m.TryInvokeFFmpeg h S Frames V).2.1 = [.CreateProc b])) ∧
    ((m.FinalizeCapture h S Frames V).1 = false →
      ∀ b, FMuxEvent.CreateProc b ∉ (m.FinalizeCapture h S Frames V).2.1) ∧
    ((Frames = [] → (m.TryInvokeFFmpeg h S Frames V).1 = false) ∧
      (m.CachedFFmpegPath ≠ "" →
        UOmniCaptureSubsystem.EqualsIgnoreCase m.CachedFFmpegPath "ffmpeg" = false →
        h.FileExists m.CachedFFmpegPath = false → (m.TryInvokeFFmpeg h S Frames V).1 = false) ∧
      (S.OutputFormat = .NVENCHardware → (∀ p, h.FileExists p = false) →
        (m.TryInvokeFFmpeg h S Frames V).1 = false) ∧
      (h.bProcHandleValid = false → (m.TryInvokeFFmpeg h S Frames V).1 = false) ∧
      (h.ReturnCode ≠ 0 → (m.TryInvokeFFmpeg h S Frames V).1 = false)) := by
  refine ⟨?_, ?_, ?_, TryInvokeFFmpeg_failures h m S Frames V⟩
  · unfold FOmniCaptureMuxer.FinalizeCapture FOmniCaptureMuxer.WriteManifest
    cases hs : h.bSerialize <;> cases hw : h.bSaveStringToFile <;> simp
  · intro ht
    refine ⟨?_, TryInvokeFFmpeg_events h m S Frames V⟩
    revert ht
    unfold FOmniCaptureMuxer.FinalizeCapture FOmniCaptureMuxer.WriteManifest
    cases hs : h.bSerialize <;> cases hw : h.bSaveStringToFile <;> simp
  · intro hf b
    revert hf
    unfold FOmniCaptureMuxer.FinalizeCapture FOmniCaptureMuxer.WriteManifest
    cases hs : h.bSerialize <;> cases hw : h.bSaveStringToFile <;> simp

/-- C15 on a machine whose FFmpeg process exits with code 1: the mux reports failure,
the manifest was saved first, and `FinalizeCapture` returns true. -/
theorem C15_finalize_capture_true_iff_manifest_written_witness :
    (muxHostExitOne.bSerialize = true ∧ muxHostExitOne.bSaveStringToFile = true ∧
      muxHostExitOne.ReturnCode ≠ 0) ∧
    (muxerOut.FinalizeCapture muxHostExitOne {} [{}, {}] "").1 = true ∧
    (muxerOut.TryInvokeFFmpeg muxHostExitOne {} [{}, {}] "").1 = false ∧
    (muxerOut.FinalizeCapture muxHostExitOne {} [{}, {}] "").2.1
      = FMuxEvent.SaveStringToFile
          (muxHostExitOne.PathCombine muxerOut.OutputDirectory
            (muxerOut.BaseFileName ++ "_Manifest.json")) true
        :: (muxerOut.TryInvokeFFmpeg muxHostExitOne {} [{}, {}] "").2.1 :=
  have h := C15_finalize_capture_true_iff_manifest_written muxHostExitOne muxerOut {}
    [{}, {}] ""
  ⟨⟨rfl, rfl, by decide⟩, h.1.mpr ⟨rfl, rfl⟩, h.2.2.2.2.2.2.2 (by decide),
    (h.2.1 (h.1.mpr ⟨rfl, rfl⟩)).1⟩

end OmniCapture

namespace OmniCapture

namespace UOmniCaptureSubsystem

/-- `CompleteActiveSegment(true)` on a non-empty active segment appends its record and
empties the captured-frame metadata. -/
theorem CompleteActiveSegment_store (s : UOmniCaptureSubsystem)
    (hne : s.CapturedFrameMetadata ≠ []) :
    (CompleteActiveSegment s true).CompletedSegments
      = s.CompletedSegments ++
        [{ SegmentIndex := s.CurrentSegmentIndex
           Directory := s.ActiveSettings.OutputDirectory
           BaseFileName := s.ActiveSettings.OutputFileName
           AudioPath := s.RecordedAudioPath
           VideoPath := s.RecordedVideoPath
           Frames := s.CapturedFrameMetadata }] ∧
    (CompleteActiveSegment s true).CapturedFrameMetadata = [] := by
  have hlen : ¬ s.CapturedFrameMetadata.length = 0 := by
    intro h; exact hne (List.length_eq_zero.mp h)
  unfold CompleteActiveSegment
  rw [if_neg (by simp), if_neg hlen]
  exact ⟨rfl, rfl⟩

/-- After `FinalizeOutputs` the completed-segment list and the captured-frame metadata
are empty. -/
theorem FinalizeOutputs_empties (eng : FEngine) (s : UOmniCaptureSubsystem) (b : Bool) :
    (FinalizeOutputs eng s b).2.CompletedSegments = [] ∧
    (FinalizeOutputs eng s b).2.CapturedFrameMetadata = [] := by
  unfold FinalizeOutputs
  lift_lets
  intro s1 Last
  split_ifs with h1 h2
  · exact ⟨rfl, rfl⟩
  · have hc : s1.CompletedSegments = [] := List.length_eq_zero.mp h2
    refine ⟨hc, ?_⟩
    show s1.CapturedFrameMetadata = []
    by_cases hlen : s.CapturedFrameMetadata.length > 0
    · have hne : s.CapturedFrameMetadata ≠ [] := by
        intro h; rw [h] at hlen; exact absurd hlen (by decide)
      have e : s1 = CompleteActiveSegment s true := if_pos hlen
      rw [e]
      exact (CompleteActiveSegment_store s hne).2
    · have e : s1 = s := if_neg hlen
      rw [e]
      exact List.length_eq_zero.mp (by omega)
  · exact ⟨rfl, rfl⟩

/-- The segments `FinalizeOutputs(true)` hands to `FinalizeCapture` when the active
segment is not empty. -/
theorem FinalizeOutputs_handover (eng : FEngine) (s : UOmniCaptureSubsystem)
    (hne : s.CapturedFrameMetadata ≠ []) :
    (FinalizeOutputs eng s true).1 = (CompleteActiveSegment s true).CompletedSegments := by
  have hlen : s.CapturedFrameMetadata.length > 0 :=
    List.length_pos.mpr hne
  have hst := CompleteActiveSegment_store s hne
  unfold FinalizeOutputs
  lift_lets
  intro s1 Last
  have e : s1 = CompleteActiveSegment s true := if_pos hlen
  have hc : ¬ s1.CompletedSegments.length = 0 := by
    rw [e, hst.1]; simp
  rw [if_neg (by simp), if_neg hc, e]

end UOmniCaptureSubsystem

end OmniCapture

namespace OmniCapture

open UOmniCaptureSubsystem in
/-- C14: `FinalizeOutputs(true)` with completed segments `s1..sn` and a non-empty active
segment hands to `FinalizeCapture` exactly the records `s1, .., sn` followed by the
record of the just-closed active segment, each once and in that order;
`FinalizeOutputs(false)` hands over none; in both cases the completed-segment list and
the captured-frame metadata are empty afterwards. -/
theorem C14_finalize_outputs_hands_over_all_or_none (eng : FEngine)
    (s : UOmniCaptureSubsystem) (hne : s.CapturedFrameMetadata ≠ []) :
    (FinalizeOutputs eng s true).1
      = s.CompletedSegments ++
        [{ SegmentIndex := s.CurrentSegmentIndex
           Directory := s.ActiveSettings.OutputDirectory
           BaseFileName := s.ActiveSettings.OutputFileName
           AudioPath := s.RecordedAudioPath
           VideoPath := s.RecordedVideoPath
           Frames := s.CapturedFrameMetadata }] ∧
    (FinalizeOutputs eng s false).1 = [] ∧
    (∀ b : Bool, (FinalizeOutputs eng s b).2.CompletedSegments = [] ∧
      (FinalizeOutputs eng s b).2.CapturedFrameMetadata = []) := by
  refine ⟨?_, ?_, fun b => FinalizeOutputs_empties eng s b⟩
  · rw [FinalizeOutputs_handover eng s hne]
    exact (CompleteActiveSegment_store s hne).1
  · unfold FinalizeOutputs
    rw [if_pos (by simp)]

open UOmniCaptureSubsystem in
/-- C14 on a subsystem in its second segment: both records are handed over, the closed
active segment last. -/
theorem C14_finalize_outputs_hands_over_all_or_none_witness :
    recordingSecondSegment.CapturedFrameMetadata ≠ [] ∧
    (FinalizeOutputs (engineOn hostWindows) recordingSecondSegment true).1
      = [{ SegmentIndex := 0, Directory := "out", BaseFileName := "OmniCapture", AudioPath := ""
           VideoPath := "", Frames := [{ FrameIndex := 0 }] },
         { SegmentIndex := 1, Directory := "out/seg01", BaseFileName := "OmniCapture_seg01"
           AudioPath := "", VideoPath := "", Frames := [{ FrameIndex := 1 }] }] ∧
    (FinalizeOutputs (engineOn hostWindows) recordingSecondSegment false).1 = [] :=
  have h := C14_finalize_outputs_hands_over_all_or_none (engineOn hostWindows)
    recordingSecondSegment (by decide)
  ⟨by decide, h.1, h.2.1⟩

end OmniCapture

namespace OmniCapture

open UOmniCaptureSubsystem in
/-- C11: a lifecycle operation invoked outside its valid source state returns the
subsystem unchanged (so `State`, `bIsCapturing`, `bIsPaused`, `FrameCounter`,
`ActiveSettings`, `CompletedSegments` and `CapturedFrameMetadata` are what they were):
`BeginCapture` while a capture is running, `PauseCapture` while not capturing or already
paused, `ResumeCapture` while not capturing or not paused, `EndCapture` while not
capturing. -/
theorem C11_lifecycle_operation_outside_source_state_is_noop (eng : FEngine)
    (s : UOmniCaptureSubsystem) (InSettings : FOmniCaptureSettings) (bFinalize : Bool) :
    (s.bIsCapturing = true → BeginCapture eng s InSettings = s) ∧
    (s.bIsCapturing = false ∨ s.bIsPaused = true → PauseCapture eng s = s) ∧
    (s.bIsCapturing = false ∨ s.bIsPaused = false → ResumeCapture s = s) ∧
    (s.bIsCapturing = false → EndCapture eng s bFinalize = s) := by
  refine ⟨?_, ?_, ?_, ?_⟩
  · intro h
    unfold BeginCapture
    rw [if_pos h]
  · intro h
    unfold PauseCapture
    rw [if_pos (by rcases h with h | h <;> simp [h])]
  · intro h
    unfold ResumeCapture
    rw [if_pos (by rcases h with h | h <;> simp [h])]
  · intro h
    unfold EndCapture
    rw [if_pos (by simp [h])]

open UOmniCaptureSubsystem in
/-- C11 on a paused capture with pending frames (`BeginCapture` and `PauseCapture` change
nothing) and on an idle subsystem (`ResumeCapture` and `EndCapture` change nothing). -/
theorem C11_lifecycle_operation_outside_source_state_is_noop_witness :
    (pausedBusy.bIsCapturing = true ∧ pausedBusy.bIsPaused = true ∧
      recordingSecondSegment.bIsPaused = false ∧
      ({} : UOmniCaptureSubsystem).bIsCapturing = false) ∧
    BeginCapture (engineOn hostWindows) pausedBusy {} = pausedBusy ∧
    PauseCapture (engineOn hostWindows) pausedBusy = pausedBusy ∧
    ResumeCapture recordingSecondSegment = recordingSecondSegment ∧
    EndCapture (engineOn hostWindows) {} true = {} :=
  ⟨⟨rfl, rfl, rfl, rfl⟩,
    (C11_lifecycle_operation_outside_source_state_is_noop (engineOn hostWindows) pausedBusy {}
      true).1 rfl,
    (C11_lifecycle_operation_outside_source_state_is_noop (engineOn hostWindows) pausedBusy {}
      true).2.1 (Or.inr rfl),
    (C11_lifecycle_operation_outside_source_state_is_noop (engineOn hostWindows)
      recordingSecondSegment {} true).2.2.1 (Or.inr rfl),
    (C11_lifecycle_operation_outside_source_state_is_noop (engineOn hostWindows) {} {}
      true).2.2.2 rfl⟩

end OmniCapture

namespace OmniCapture

/-- `ConvertToEquirectangular` returns the empty result when fewer than six left-eye
faces have a render-target resource. -/
theorem ConvertToEquirectangular_few_faces (ops : FPixelOps) (eng : FRenderThreadEngine)
    (bSupportsCompute : Bool) (Settings : FOmniCaptureSettings)
    (LeftEye RightEye : FOmniEyeCapture) (h : FacesWithResource LeftEye < 6) :
    ConvertToEquirectangular ops eng bSupportsCompute Settings LeftEye RightEye = {} := by
  unfold ConvertToEquirectangular
  have hl : (CollectFaces LeftEye).length ≠ 6 := by rw [CollectFaces_length]; omega
  simp [hl]

namespace UOmniCaptureSubsystem

/-- What `HandleDroppedFrame` changes and what it keeps. -/
theorem HandleDroppedFrame_fields (s : UOmniCaptureSubsystem) :
    (HandleDroppedFrame s).bDroppedFrames = true ∧
    (HandleDroppedFrame s).State = .DroppedFrames ∧
    (HandleDroppedFrame s).DroppedFrameCount = s.DroppedFrameCount + 1 ∧
    (HandleDroppedFrame s).FrameCounter = s.FrameCounter ∧
    (HandleDroppedFrame s).CapturedFrameMetadata = s.CapturedFrameMetadata ∧
    (HandleDroppedFrame s).RingBuffer = s.RingBuffer ∧
    (HandleDroppedFrame s).bIsCapturing = s.bIsCapturing ∧
    (HandleDroppedFrame s).bIsPaused = s.bIsPaused := by
  unfold HandleDroppedFrame AddWarningUnique
  lift_lets
  intro s1
  split_ifs <;> exact ⟨rfl, rfl, rfl, rfl, rfl, rfl, rfl, rfl⟩

/-- `CaptureFrame` on a conversion result without pixel data, or without a texture when
the output is hardware-encoded, is `HandleDroppedFrame`. -/
theorem CaptureFrame_failure (eng : FEngine) (inp : FFrameInput) (s : UOmniCaptureSubsystem)
    (hfail :
      (ConvertToEquirectangular inp.ops inp.gpu inp.bSupportsCompute s.ActiveSettings
        inp.LeftEye inp.RightEye).PixelData = none ∨
      (s.ActiveSettings.OutputFormat = .NVENCHardware ∧
        (ConvertToEquirectangular inp.ops inp.gpu inp.bSupportsCompute s.ActiveSettings
          inp.LeftEye inp.RightEye).Texture = none)) :
    CaptureFrame eng inp s = some (HandleDroppedFrame s) := by
  unfold CaptureFrame
  lift_lets
  intro CR bReq
  by_cases h0 : (!s.RigActor || s.RingBuffer.isNone) = true
  · rw [if_pos h0]
  · rw [if_neg h0]
    by_cases h1 : CR.PixelData.isNone = true
    · rw [if_pos h1]
    · rw [if_neg h1]
      have h2 : (bReq && CR.Texture.isNone) = true := by
        rcases hfail with h | ⟨hf, ht⟩
        · exfalso; apply h1
          show (ConvertToEquirectangular inp.ops inp.gpu inp.bSupportsCompute s.ActiveSettings
            inp.LeftEye inp.RightEye).PixelData.isNone = true
          rw [h]; rfl
        · have hb : bReq = true := decide_eq_true hf
          have hn : CR.Texture.isNone = true := by
            show (ConvertToEquirectangular inp.ops inp.gpu inp.bSupportsCompute s.ActiveSettings
              inp.LeftEye inp.RightEye).Texture.isNone = true
            rw [ht]; rfl
          rw [hb, hn]; rfl
      rw [if_pos h2]

end UOmniCaptureSubsystem

end OmniCapture

namespace OmniCapture

open UOmniCaptureSubsystem in
/-- C12: in `CaptureFrame`, if the conversion result has no pixel data, or the active
output is hardware-encoded (`NVENCHardware`) and the result has no GPU texture, then the
call returns with `bDroppedFrames` set, `State = DroppedFrames` and `DroppedFrameCount`
one higher, while `FrameCounter`, `CapturedFrameMetadata` and the ring buffer (nothing
is enqueued) are unchanged and `bIsCapturing` is what it was. -/
theorem C12_projection_failure_is_dropped_frame (eng : FEngine) (inp : FFrameInput)
    (s : UOmniCaptureSubsystem)
    (hfail :
      (ConvertToEquirectangular inp.ops inp.gpu inp.bSupportsCompute s.ActiveSettings
        inp.LeftEye inp.RightEye).PixelData = none ∨
      (s.ActiveSettings.OutputFormat = .NVENCHardware ∧
        (ConvertToEquirectangular inp.ops inp.gpu inp.bSupportsCompute s.ActiveSettings
          inp.LeftEye inp.RightEye).Texture = none)) :
    ∃ t, CaptureFrame eng inp s = some t ∧
      t.bDroppedFrames = true ∧
      t.State = .DroppedFrames ∧
      t.DroppedFrameCount = s.DroppedFrameCount + 1 ∧
      t.FrameCounter = s.FrameCounter ∧
      t.CapturedFrameMetadata = s.CapturedFrameMetadata ∧
      t.RingBuffer = s.RingBuffer ∧
      t.bIsCapturing = s.bIsCapturing := by
  have hf := HandleDroppedFrame_fields s
  exact ⟨HandleDroppedFrame s, CaptureFrame_failure eng inp s hfail, hf.1, hf.2.1, hf.2.2.1,
    hf.2.2.2.1, hf.2.2.2.2.1, hf.2.2.2.2.2.1, hf.2.2.2.2.2.2.1⟩

open UOmniCaptureSubsystem in
/-- C12 on a live recording whose rig delivered no render targets: the frame is dropped,
the counter stays at 2, the two metadata entries and the one pending frame stay. -/
theorem C12_projection_failure_is_dropped_frame_witness :
    (ConvertToEquirectangular inputNothing.ops inputNothing.gpu inputNothing.bSupportsCompute
        recordingLive.ActiveSettings inputNothing.LeftEye inputNothing.RightEye).PixelData
      = none ∧
    ∃ t, CaptureFrame (engineOn hostWindows) inputNothing recordingLive = some t ∧
      t.bDroppedFrames = true ∧
      t.State = .DroppedFrames ∧
      t.DroppedFrameCount = recordingLive.DroppedFrameCount + 1 ∧
      t.FrameCounter = recordingLive.FrameCounter ∧
      t.CapturedFrameMetadata = recordingLive.CapturedFrameMetadata ∧
      t.RingBuffer = recordingLive.RingBuffer ∧
      t.bIsCapturing = recordingLive.bIsCapturing :=
  have h : (ConvertToEquirectangular inputNothing.ops inputNothing.gpu
      inputNothing.bSupportsCompute recordingLive.ActiveSettings inputNothing.LeftEye
      inputNothing.RightEye).PixelData = none := by
    rw [ConvertToEquirectangular_few_faces _ _ _ _ _ _ (by decide)]
  ⟨h, C12_projection_failure_is_dropped_frame (engineOn hostWindows) inputNothing
    recordingLive (Or.inl h)⟩

end OmniCapture

namespace OmniCapture

namespace UOmniCaptureSubsystem

theorem AddWarningUnique_dropped (s : UOmniCaptureSubsystem) (w : String) :
    (s.AddWarningUnique w).bDroppedFrames = s.bDroppedFrames := by
  unfold AddWarningUnique
  split_ifs <;> rfl

theorem RemoveWarning_dropped (s : UOmniCaptureSubsystem) (w : String) :
    (s.RemoveWarning w).bDroppedFrames = s.bDroppedFrames := by
  unfold RemoveWarning
  split_ifs <;> rfl

/-- The consumer callback never clears the dropped-frames flag. -/
theorem OnConsume_sticky (eng : FEngine) (s : UOmniCaptureSubsystem) (F : FOmniCaptureFrame)
    (h : s.bDroppedFrames = true) : (OnConsume eng s F).bDroppedFrames = true := by
  unfold OnConsume
  lift_lets
  intro s1
  have h1 : s1.bDroppedFrames = true := by
    unfold s1
    cases s.OutputMuxer with
    | none => exact h
    | some m => exact h
  cases hrb : s1.RingBuffer with
  | none => exact h1
  | some rb =>
    simp only []
    split_ifs
    · exact (HandleDroppedFrame_fields _).1
    · exact h1

theorem DrainRingBuffer_sticky (eng : FEngine) (Frames : List FOmniCaptureFrame) :
    ∀ s : UOmniCaptureSubsystem, s.bDroppedFrames = true →
      (DrainRingBuffer eng Frames s).bDroppedFrames = true := by
  induction Frames with
  | nil => intro s h; exact h
  | cons F rest ih =>
    intro s h
    unfold DrainRingBuffer
    lift_lets
    intro s1
    exact ih (OnConsume eng s1 F) (OnConsume_sticky eng s1 F h)

theorem FlushRingBuffer_sticky (eng : FEngine) (s : UOmniCaptureSubsystem)
    (h : s.bDroppedFrames = true) : (FlushRingBuffer eng s).bDroppedFrames = true := by
  unfold FlushRingBuffer
  cases s.RingBuffer with
  | none => exact h
  | some rb => exact DrainRingBuffer_sticky eng _ s h

theorem ShutdownAudioRecording_dropped (eng : FEngine) (s : UOmniCaptureSubsystem) :
    (ShutdownAudioRecording eng s).bDroppedFrames = s.bDroppedFrames := by
  unfold ShutdownAudioRecording
  split_ifs <;> rfl

theorem CompleteActiveSegment_dropped (s : UOmniCaptureSubsystem) (b : Bool) :
    (CompleteActiveSegment s b).bDroppedFrames = s.bDroppedFrames := by
  unfold CompleteActiveSegment
  split_ifs <;> rfl

theorem InitializeOutputWriters_dropped (eng : FEngine) (s : UOmniCaptureSubsystem) :
    (InitializeOutputWriters eng s).bDroppedFrames = s.bDroppedFrames := by
  unfold InitializeOutputWriters
  lift_lets
  intro s1
  split
  · rfl
  · split_ifs <;> rfl

theorem InitializeAudioRecording_dropped (eng : FEngine) (s : UOmniCaptureSubsystem) :
    (InitializeAudioRecording eng s).bDroppedFrames = s.bDroppedFrames := by
  unfold InitializeAudioRecording
  split_ifs <;> rfl

theorem ShouldRotate_dropped (eng : FEngine) (s : UOmniCaptureSubsystem) :
    (ShouldRotate eng s).2.bDroppedFrames = s.bDroppedFrames := by
  unfold ShouldRotate
  lift_lets
  intro Now b s1 Limit
  split_ifs <;> rfl

theorem FinalizeOutputs_dropped (eng : FEngine) (s : UOmniCaptureSubsystem) (b : Bool) :
    (FinalizeOutputs eng s b).2.bDroppedFrames = s.bDroppedFrames := by
  unfold FinalizeOutputs
  lift_lets
  intro s1 Last
  have h1 : s1.bDroppedFrames = s.bDroppedFrames := by
    unfold s1
    split_ifs
    · exact CompleteActiveSegment_dropped s true
    · rfl
  split_ifs
  · rfl
  · exact h1
  · exact h1

end UOmniCaptureSubsystem

end OmniCapture

namespace OmniCapture

namespace UOmniCaptureSubsystem

/-- A segment rotation (or its omission) never clears the dropped-frames flag. -/
theorem RotateSegmentIfNeeded_sticky (eng : FEngine) (s : UOmniCaptureSubsystem)
    (h : s.bDroppedFrames = true) : (RotateSegmentIfNeeded eng s).bDroppedFrames = true := by
  unfold RotateSegmentIfNeeded
  lift_lets
  intro d s1 s2 s3 s4 s5 s6 s7 s8 s9 m0 m1 s10 s11
  have e1 : s1.bDroppedFrames = true := (ShouldRotate_dropped eng s).trans h
  have e2 : s2.bDroppedFrames = true := FlushRingBuffer_sticky eng s1 e1
  have e3 : s3.bDroppedFrames = s2.bDroppedFrames := rfl
  have e4 : s4.bDroppedFrames = s3.bDroppedFrames := ShutdownAudioRecording_dropped eng s3
  have e5 : s5.bDroppedFrames = s4.bDroppedFrames := rfl
  have e6 : s6.bDroppedFrames = s5.bDroppedFrames := CompleteActiveSegment_dropped s5 true
  have e7 : s7.bDroppedFrames = s6.bDroppedFrames := rfl
  have e8 : s8.bDroppedFrames = s7.bDroppedFrames := rfl
  have e9 : s9.bDroppedFrames = s8.bDroppedFrames := InitializeOutputWriters_dropped eng s8
  have e10 : s10.bDroppedFrames = s9.bDroppedFrames := rfl
  have e11 : s11.bDroppedFrames = s10.bDroppedFrames := InitializeAudioRecording_dropped eng s10
  split_ifs
  · exact h
  · exact e1
  · show s11.bDroppedFrames = true
    rw [e11, e10, e9, e8, e7, e6, e5, e4, e3, e2]

theorem SampleFps_dropped (Now : ℚ) (s : UOmniCaptureSubsystem) :
    (SampleFps Now s).bDroppedFrames = s.bDroppedFrames := by
  unfold SampleFps
  lift_lets
  intro s1 s2 Elapsed Safe
  have e2 : s2.bDroppedFrames = s.bDroppedFrames := by
    unfold s2
    split_ifs <;> rfl
  split_ifs
  · exact e2
  · exact e2

theorem CaptureFrameAccept_dropped (eng : FEngine) (inp : FFrameInput)
    (s : UOmniCaptureSubsystem) (CR : FOmniCaptureEquirectResult) :
    (CaptureFrameAccept eng inp s CR).bDroppedFrames = s.bDroppedFrames := by
  unfold CaptureFrameAccept
  lift_lets
  intro Frame s1 s2 s3 s4 s5 Now
  have e2 : s2.bDroppedFrames = s.bDroppedFrames := SampleFps_dropped _ s1
  have e4 : s4.bDroppedFrames = s.bDroppedFrames := e2
  have e5 : s5.bDroppedFrames = s.bDroppedFrames := by
    unfold s5
    cases s4.RingBuffer with
    | none => exact e4
    | some rb => exact e4
  split_ifs
  · exact e5
  · exact e5
  · exact e5

/-- `CaptureFrame` never clears the dropped-frames flag, and returns whenever
`GOPLength` is not zero. -/
theorem CaptureFrame_sticky (eng : FEngine) (inp : FFrameInput) (s : UOmniCaptureSubsystem)
    (h : s.bDroppedFrames = true) :
    (∀ t, CaptureFrame eng inp s = some t → t.bDroppedFrames = true) ∧
    (s.ActiveSettings.Quality.GOPLength ≠ 0 → (CaptureFrame eng inp s).isSome = true) := by
  unfold CaptureFrame
  lift_lets
  intro CR bReq
  constructor
  · intro t ht
    split_ifs at ht
    all_goals first
      | (cases ht; exact (HandleDroppedFrame_fields s).1)
      | (cases ht; exact (CaptureFrameAccept_dropped eng inp s CR).trans h)
  · intro hg
    split_ifs <;> rfl

theorem UpdateDiskWarning_dropped (eng : FEngine) (s : UOmniCaptureSubsystem) :
    (UpdateDiskWarning eng s).bDroppedFrames = s.bDroppedFrames := by
  unfold UpdateDiskWarning
  lift_lets
  intro Threshold
  cases eng.Host.DiskFreeBytes with
  | none => split_ifs <;> rfl
  | some FreeBytes =>
    simp only []
    split_ifs
    · exact AddWarningUnique_dropped _ _
    · exact RemoveWarning_dropped _ _
    · rfl
    · rfl

theorem UpdateFpsWarning_dropped (s : UOmniCaptureSubsystem) :
    (UpdateFpsWarning s).bDroppedFrames = s.bDroppedFrames := by
  unfold UpdateFpsWarning
  lift_lets
  intro Threshold s1
  have e1 : s1.bDroppedFrames = s.bDroppedFrames := RemoveWarning_dropped _ _
  split_ifs
  · exact AddWarningUnique_dropped _ _
  · exact (RemoveWarning_dropped _ _).trans e1
  · exact e1
  · rfl

theorem UpdateRuntimeWarnings_dropped (eng : FEngine) (s : UOmniCaptureSubsystem) :
    (UpdateRuntimeWarnings eng s).bDroppedFrames = s.bDroppedFrames := by
  unfold UpdateRuntimeWarnings
  lift_lets
  intro Now s1
  split_ifs
  · rfl
  · exact (UpdateFpsWarning_dropped _).trans (UpdateDiskWarning_dropped eng s1)

end UOmniCaptureSubsystem

end OmniCapture

namespace OmniCapture

namespace UOmniCaptureSubsystem

/-- `TickCapture` never clears the dropped-frames flag, and returns whenever `GOPLength`
is not zero. -/
theorem TickCapture_sticky (eng : FEngine) (inp : FFrameInput) (s : UOmniCaptureSubsystem)
    (h : s.bDroppedFrames = true) :
    (∀ t, TickCapture eng inp s = some t → t.bDroppedFrames = true) ∧
    ((RotateSegmentIfNeeded eng s).ActiveSettings.Quality.GOPLength ≠ 0 →
      (TickCapture eng inp s).isSome = true) := by
  have hr := RotateSegmentIfNeeded_sticky eng s h
  have hc := CaptureFrame_sticky eng inp (RotateSegmentIfNeeded eng s) hr
  unfold TickCapture
  lift_lets
  intro r
  constructor
  · intro t ht
    split_ifs at ht with h1
    · cases ht; exact h
    · cases hr2 : r with
      | none => rw [hr2] at ht; cases ht
      | some u =>
        rw [hr2] at ht
        cases ht
        have hu : u.bDroppedFrames = true := by
          have hr3 : (if (!s.bIsPaused) = true then
              CaptureFrame eng inp (RotateSegmentIfNeeded eng s) else some s) = some u := hr2
          split_ifs at hr3
          · exact hc.1 u hr3
          · cases hr3; exact h
        exact (UpdateRuntimeWarnings_dropped eng u).trans hu
  · intro hg
    split_ifs
    · rfl
    · have hsome : r.isSome = true := by
        show (if (!s.bIsPaused) = true then
          CaptureFrame eng inp (RotateSegmentIfNeeded eng s) else some s).isSome = true
        split_ifs
        · exact hc.2 hg
        · rfl
      cases hr2 : r with
      | none => rw [hr2] at hsome; cases hsome
      | some u => rfl

theorem PauseCapture_sticky (eng : FEngine) (s : UOmniCaptureSubsystem)
    (h : s.bDroppedFrames = true) : (PauseCapture eng s).bDroppedFrames = true := by
  unfold PauseCapture
  lift_lets
  intro s1 s2
  split_ifs
  · exact h
  · exact FlushRingBuffer_sticky eng s1 h

theorem ResumeCapture_dropped (s : UOmniCaptureSubsystem) :
    (ResumeCapture s).bDroppedFrames = s.bDroppedFrames ∧
    (s.bIsCapturing = true → s.bIsPaused = true → s.bDroppedFrames = true →
      (ResumeCapture s).State = .DroppedFrames) := by
  unfold ResumeCapture
  constructor
  · split_ifs <;> rfl
  · intro hc hp hd
    rw [if_neg (by simp [hc, hp])]
    show (if s.bDroppedFrames = true then EOmniCaptureState.DroppedFrames else .Recording) = _
    rw [if_pos hd]

theorem EndCapture_sticky (eng : FEngine) (s : UOmniCaptureSubsystem) (b : Bool)
    (h : s.bDroppedFrames = true) : (EndCapture eng s b).bDroppedFrames = true := by
  unfold EndCapture
  lift_lets
  intro s1 s2 s3 s4 s5 s6 s7 s8
  have e3 : s3.bDroppedFrames = true := (ShutdownAudioRecording_dropped eng s2).trans h
  have e5 : s5.bDroppedFrames = true := by
    unfold s5
    cases s3.RingBuffer with
    | none => exact e3
    | some rb => exact FlushRingBuffer_sticky eng s3 e3
  have e8 : s8.bDroppedFrames = true := (FinalizeOutputs_dropped eng s7 b).trans e5
  split_ifs
  · exact h
  · exact e8

end UOmniCaptureSubsystem

end OmniCapture

namespace OmniCapture

namespace UOmniCaptureSubsystem

theorem FailIf_dropped (c : Bool) (w : String) (acc : Bool × UOmniCaptureSubsystem) :
    (FailIf c w acc).2.bDroppedFrames = acc.2.bDroppedFrames := by
  unfold FailIf
  split_ifs <;> rfl

theorem NoteIf_dropped (c : Bool) (w : String) (acc : Bool × UOmniCaptureSubsystem) :
    (NoteIf c w acc).2.bDroppedFrames = acc.2.bDroppedFrames := by
  unfold NoteIf
  split_ifs <;> rfl

theorem ValidateRHI_dropped (host : FHost) (S : FOmniCaptureSettings)
    (acc : Bool × UOmniCaptureSubsystem) :
    (ValidateRHI host S acc).2.bDroppedFrames = acc.2.bDroppedFrames := by
  unfold ValidateRHI
  split_ifs
  · split <;> exact FailIf_dropped _ _ _
  · exact NoteIf_dropped _ _ _
  · exact NoteIf_dropped _ _ _

theorem ValidateNVENC_dropped (host : FHost) (S : FOmniCaptureSettings)
    (acc : Bool × UOmniCaptureSubsystem) :
    (ValidateNVENC host S acc).2.bDroppedFrames = acc.2.bDroppedFrames := by
  unfold ValidateNVENC
  have h7 := fun (a : Bool × UOmniCaptureSubsystem) c1 w1 c2 w2 c3 w3 c4 w4 c5 w5 c6 w6 c7 w7 =>
    (FailIf_dropped c7 w7 _).trans ((FailIf_dropped c6 w6 _).trans ((FailIf_dropped c5 w5 _).trans
      ((FailIf_dropped c4 w4 _).trans ((FailIf_dropped c3 w3 _).trans
        ((NoteIf_dropped c2 w2 _).trans (NoteIf_dropped c1 w1 a))))))
  simp only []
  split_ifs
  · exact (FailIf_dropped _ _ _).trans (h7 acc _ _ _ _ _ _ _ _ _ _ _ _ _ _)
  · exact (FailIf_dropped _ _ _).trans (h7 acc _ _ _ _ _ _ _ _ _ _ _ _ _ _)
  · exact h7 acc _ _ _ _ _ _ _ _ _ _ _ _ _ _

theorem ValidateFFmpeg_dropped (host : FHost) (S : FOmniCaptureSettings)
    (acc : Bool × UOmniCaptureSubsystem) :
    (ValidateFFmpeg host S acc).2.bDroppedFrames = acc.2.bDroppedFrames := by
  unfold ValidateFFmpeg
  simp only []
  split_ifs <;> exact NoteIf_dropped _ _ _

theorem ValidateDisk_dropped (host : FHost) (S : FOmniCaptureSettings)
    (acc : Bool × UOmniCaptureSubsystem) :
    (ValidateDisk host S acc).2.bDroppedFrames = acc.2.bDroppedFrames := by
  unfold ValidateDisk
  split
  · simp only []
    split_ifs
    · exact AddWarningUnique_dropped _ _
    · rfl
  · exact AddWarningUnique_dropped _ _

theorem ValidateEnvironment_dropped (eng : FEngine) (s : UOmniCaptureSubsystem) :
    (ValidateEnvironment eng s).2.bDroppedFrames = s.bDroppedFrames := by
  unfold ValidateEnvironment
  simp only []
  refine (ValidateDisk_dropped _ _ _).trans ((ValidateFFmpeg_dropped _ _ _).trans ?_)
  split_ifs
  · exact (ValidateNVENC_dropped _ _ _).trans
      ((ValidateRHI_dropped _ _ _).trans (NoteIf_dropped _ _ _))
  · exact (ValidateRHI_dropped _ _ _).trans (NoteIf_dropped _ _ _)

theorem ApplyFallbacks_dropped (eng : FEngine) (s : UOmniCaptureSubsystem) :
    (ApplyFallbacks eng s).2.bDroppedFrames = s.bDroppedFrames := by
  unfold ApplyFallbacks
  lift_lets
  intro host Caps s1 s2 s3 s4 s5
  have e1 : s1.bDroppedFrames = s.bDroppedFrames := by
    unfold s1; split_ifs <;> rfl
  have e2 : s2.bDroppedFrames = s1.bDroppedFrames := by
    unfold s2; split_ifs <;> rfl
  have e3 : s3.bDroppedFrames = s2.bDroppedFrames := by
    unfold s3; split_ifs <;> rfl
  have e4 : s4.bDroppedFrames = s3.bDroppedFrames := by
    unfold s4; split_ifs <;> rfl
  have e5 : s5.bDroppedFrames = s4.bDroppedFrames := by
    unfold s5; split_ifs <;> rfl
  split_ifs
  all_goals first
    | rfl
    | exact e5.trans (e4.trans (e3.trans (e2.trans e1)))

/-- The last part of `BeginCapture` leaves a cleared dropped-frames flag cleared. -/
theorem BeginCaptureStart_clears (eng : FEngine) (s : UOmniCaptureSubsystem)
    (h : s.bDroppedFrames = false) : (BeginCaptureStart eng s).bDroppedFrames = false := by
  unfold BeginCaptureStart
  lift_lets
  intro s1 s2 s3 s4 s5 m0 m1 s6 s7 s8
  have e1 : s1.bDroppedFrames = false := h
  split_ifs <;>
    first
    | exact e1
    | rfl

/-- A `BeginCapture` that passes its two guards leaves the dropped-frames flag cleared,
whatever it was. -/
theorem BeginCapture_clears (eng : FEngine) (s : UOmniCaptureSubsystem)
    (In : FOmniCaptureSettings) (hs : s.bIsCapturing = false) (hres : 0 < In.Resolution) :
    (BeginCapture eng s In).bDroppedFrames = false := by
  rw [BeginCapture_eq eng s In hs hres]
  have h0 : (BeginCaptureReset eng s In).bDroppedFrames = false := rfl
  have h1 := (ValidateEnvironment_dropped eng (BeginCaptureReset eng s In)).trans h0
  have h2 := (ApplyFallbacks_dropped eng
    (ValidateEnvironment eng (BeginCaptureReset eng s In)).2).trans h1
  split_ifs
  · exact BeginCaptureStart_clears eng _ h2
  · exact h2

end UOmniCaptureSubsystem

end OmniCapture

namespace OmniCapture

open UOmniCaptureSubsystem in
/-- C13: once the dropped-frames flag is set it stays set across `TickCapture` (which
returns whenever `GOPLength` is not zero), `PauseCapture`, `ResumeCapture`, a segment
rotation and `EndCapture`; `ResumeCapture` of a paused capture returns to state
`DroppedFrames`; a `BeginCapture` that passes its guards (no capture running, positive
resolution) leaves the flag cleared. -/
theorem C13_dropped_frames_flag_is_sticky (eng : FEngine) (inp : FFrameInput)
    (s : UOmniCaptureSubsystem) (h : s.bDroppedFrames = true) :
    (∀ t, TickCapture eng inp s = some t → t.bDroppedFrames = true) ∧
    ((RotateSegmentIfNeeded eng s).ActiveSettings.Quality.GOPLength ≠ 0 →
      (TickCapture eng inp s).isSome = true) ∧
    (PauseCapture eng s).bDroppedFrames = true ∧
    (ResumeCapture s).bDroppedFrames = true ∧
    (s.bIsCapturing = true → s.bIsPaused = true → (ResumeCapture s).State = .DroppedFrames) ∧
    (RotateSegmentIfNeeded eng s).bDroppedFrames = true ∧
    (∀ b : Bool, (EndCapture eng s b).bDroppedFrames = true) ∧
    (∀ (s0 : UOmniCaptureSubsystem) (In : FOmniCaptureSettings),
      s0.bIsCapturing = false → 0 < In.Resolution →
        (BeginCapture eng s0 In).bDroppedFrames = false) := by
  have ht := TickCapture_sticky eng inp s h
  have hr := ResumeCapture_dropped s
  exact ⟨ht.1, ht.2, PauseCapture_sticky eng s h, hr.1.trans h,
    fun hc hp => hr.2 hc hp h, RotateSegmentIfNeeded_sticky eng s h,
    fun b => EndCapture_sticky eng s b h,
    fun s0 In hs hres => BeginCapture_clears eng s0 In hs hres⟩

open UOmniCaptureSubsystem in
/-- C13 on a paused capture with a recorded drop: the flag survives a tick, resuming
returns to `DroppedFrames`, ending keeps the flag, and the next `BeginCapture` clears
it. -/
theorem C13_dropped_frames_flag_is_sticky_witness :
    (droppedPaused.bDroppedFrames = true ∧ droppedPaused.bIsCapturing = true ∧
      droppedPaused.bIsPaused = true) ∧
    (∀ t, TickCapture (engineOn hostWindows) inputNothing droppedPaused = some t →
      t.bDroppedFrames = true) ∧
    (ResumeCapture droppedPaused).bDroppedFrames = true ∧
    (ResumeCapture droppedPaused).State = .DroppedFrames ∧
    (EndCapture (engineOn hostWindows) droppedPaused true).bDroppedFrames = true ∧
    (BeginCapture (engineOn hostWindows)
      { droppedPaused with bIsCapturing := false } {}).bDroppedFrames = false :=
  have h := C13_dropped_frames_flag_is_sticky (engineOn hostWindows) inputNothing
    droppedPaused rfl
  ⟨⟨rfl, rfl, rfl⟩, h.1, h.2.2.2.1, h.2.2.2.2.1 rfl rfl, h.2.2.2.2.2.2.1 true,
    h.2.2.2.2.2.2.2 _ {} rfl (by decide)⟩

end OmniCapture

namespace OmniCapture

namespace UOmniCaptureSubsystem

/-- `ApplyFallbacks` on a request for the image sequence returns true and the state it
was given. -/
theorem ApplyFallbacks_png (eng : FEngine) (s : UOmniCaptureSubsystem)
    (h : s.ActiveSettings.OutputFormat = .PNGSequence) : ApplyFallbacks eng s = (true, s) := by
  have hne : ¬ s.ActiveSettings.OutputFormat = .NVENCHardware := by rw [h]; decide
  unfold ApplyFallbacks
  lift_lets
  intro host Caps s1 s2 s3 s4 s5
  rw [if_neg (fun hc => hne hc.1), if_neg hne]

/-- Where `ApplyFallbacks` returns true and leaves the output hardware-encoded, the
colour format it leaves is BGRA or one that `SupportsColorFormat` accepts. -/
theorem ApplyFallbacks_encodable (eng : FEngine) (s : UOmniCaptureSubsystem)
    (ht : (ApplyFallbacks eng s).1 = true)
    (ho : (ApplyFallbacks eng s).2.ActiveSettings.OutputFormat = .NVENCHardware) :
    (ApplyFallbacks eng s).2.ActiveSettings.NVENCColorFormat = .BGRA ∨
    SupportsColorFormat eng.Host (ApplyFallbacks eng s).2.ActiveSettings.NVENCColorFormat
      = true := by
  revert ht ho
  unfold ApplyFallbacks
  lift_lets
  intro host Caps s1 s2 s3 s4 s5
  have h4 : s4.ActiveSettings.NVENCColorFormat = .BGRA ∨
      SupportsColorFormat host s4.ActiveSettings.NVENCColorFormat = true := by
    by_cases hc : SupportsColorFormat host s3.ActiveSettings.NVENCColorFormat = false
    · left
      have e : s4 = (s3.AddWarning
          "Requested NVENC color format unavailable - switching to BGRA").SetColorFormat
          .BGRA := if_pos hc
      rw [e]; rfl
    · right
      have e : s4 = s3 := if_neg hc
      rw [e]
      cases hv : SupportsColorFormat host s3.ActiveSettings.NVENCColorFormat with
      | true => rfl
      | false => exact absurd hv hc
  have hz := ZeroCopy_step host s4 "Zero-copy not supported on this RHI - disabling zero-copy"
    "Zero-copy NVENC disabled on this platform"
  have h5 : s5.ActiveSettings.NVENCColorFormat = s4.ActiveSettings.NVENCColorFormat := hz.2.1
  split_ifs with c1 c2 c3 c4
  · intro _ ho
    have e : EOmniOutputFormat.PNGSequence = .NVENCHardware := ho
    cases e
  · intro ht
    cases ht
  · intro _ ho
    have e : EOmniOutputFormat.PNGSequence = .NVENCHardware := ho
    cases e
  · intro _ _
    show s5.ActiveSettings.NVENCColorFormat = .BGRA ∨
      SupportsColorFormat host s5.ActiveSettings.NVENCColorFormat = true
    rw [h5]; exact h4
  · intro _ ho
    exact absurd ho c3

end UOmniCaptureSubsystem

end OmniCapture

namespace OmniCapture

open UOmniCaptureSubsystem in
/-- C30: whenever `ApplyFallbacks` returns true with the active output format still
`NVENCHardware`, the active NVENC colour format is BGRA or one for which
`SupportsColorFormat` returns true; and when the requested output format is
`PNGSequence`, `ApplyFallbacks` returns true and the state it was given (no setting
changed, no warning added). -/
theorem C30_fallback_chain_ends_on_encodable_format (eng : FEngine)
    (s : UOmniCaptureSubsystem) :
    ((ApplyFallbacks eng s).1 = true →
      (ApplyFallbacks eng s).2.ActiveSettings.OutputFormat = .NVENCHardware →
      ((ApplyFallbacks eng s).2.ActiveSettings.NVENCColorFormat = .BGRA ∨
        SupportsColorFormat eng.Host (ApplyFallbacks eng s).2.ActiveSettings.NVENCColorFormat
          = true)) ∧
    (s.ActiveSettings.OutputFormat = .PNGSequence → ApplyFallbacks eng s = (true, s)) :=
  ⟨ApplyFallbacks_encodable eng s, ApplyFallbacks_png eng s⟩

open UOmniCaptureSubsystem in
/-- C30 on the Windows host (NV12 and BGRA supported, P010 not): a request for HEVC and
P010 ends hardware-encoded on a supported format, and a request for the image sequence
is returned unchanged. -/
theorem C30_fallback_chain_ends_on_encodable_format_witness :
    ((ApplyFallbacks (engineOn hostWindows) { ActiveSettings := sHEVCP010 }).1 = true ∧
      (ApplyFallbacks (engineOn hostWindows)
        { ActiveSettings := sHEVCP010 }).2.ActiveSettings.OutputFormat = .NVENCHardware ∧
      ({} : UOmniCaptureSubsystem).ActiveSettings.OutputFormat = .PNGSequence) ∧
    ((ApplyFallbacks (engineOn hostWindows)
        { ActiveSettings := sHEVCP010 }).2.ActiveSettings.NVENCColorFormat = .BGRA ∨
      SupportsColorFormat (engineOn hostWindows).Host
        (ApplyFallbacks (engineOn hostWindows)
          { ActiveSettings := sHEVCP010 }).2.ActiveSettings.NVENCColorFormat = true) ∧
    ApplyFallbacks (engineOn hostWindows) {} = (true, {}) :=
  have h := ApplyFallbacks_hevc_p010 (engineOn hostWindows) { ActiveSettings := sHEVCP010 }
    rfl rfl rfl (by decide) (by decide) (by decide)
  ⟨⟨h.1, h.2.2.2.1, rfl⟩,
    (C30_fallback_chain_ends_on_encodable_format (engineOn hostWindows)
      { ActiveSettings := sHEVCP010 }).1 h.1 h.2.2.2.1,
    (C30_fallback_chain_ends_on_encodable_format (engineOn hostWindows) {}).2 rfl⟩

end OmniCapture

namespace OmniCapture

/-- A face of positive resolution `R` holding exactly `R * R` pixels, with `R * R` in the
`int32` range, passes `FCPUFaceData::IsValid`. -/
theorem FCPUFaceData.IsValid_of_exact (f : FCPUFaceData) (hpos : 0 < f.Resolution)
    (hlen : (f.Pixels.length : Int) = f.Resolution * f.Resolution)
    (hfit : f.Resolution * f.Resolution ≤ maxI32) : f.IsValid = true := by
  unfold FCPUFaceData.IsValid
  rw [mulI32_eq _ _ (mul_nonneg (le_of_lt hpos) (le_of_lt hpos)) hfit]
  simp [hpos, hlen]

/-- C29: for every cubemap whose faces have a positive resolution `R` and hold exactly
`R * R` pixels (an array length, so within `int32`), every direction, every
`FaceResolution` and every seam strength, the face coordinates of `DirectionToFaceUVCPU`
lie in the unit square, the sample index `SampleY * R + SampleX` of `SampleCubemapCPU`
lies in `[0, R * R)` for the `R` of the selected face, and the colour returned is the
pixel of that face at that index, never the black fallback of an invalid index. -/
theorem C29_cpu_sampling_stays_inside_face (Cubemap : FCPUCubemap) (d : FVector)
    (FaceResolution : Int) (s : ℚ)
    (hpos : ∀ i, 0 < (Cubemap.Faces i).Resolution)
    (hlen : ∀ i, ((Cubemap.Faces i).Pixels.length : Int)
      = (Cubemap.Faces i).Resolution * (Cubemap.Faces i).Resolution)
    (hfit : ∀ i, (Cubemap.Faces i).Resolution * (Cubemap.Faces i).Resolution ≤ maxI32) :
    ((0 ≤ (DirectionToFaceUVCPU d FaceResolution s).2.X ∧
        (DirectionToFaceUVCPU d FaceResolution s).2.X ≤ 1) ∧
      (0 ≤ (DirectionToFaceUVCPU d FaceResolution s).2.Y ∧
        (DirectionToFaceUVCPU d FaceResolution s).2.Y ≤ 1)) ∧
    (SampleTexel Cubemap d FaceResolution s).1 = (DirectionToFaceUVCPU d FaceResolution s).1 ∧
    (SampleTexel Cubemap d FaceResolution s).2.2.2
      = (SampleTexel Cubemap d FaceResolution s).2.2.1
          * (Cubemap.Faces (SampleTexel Cubemap d FaceResolution s).1).Resolution
        + (SampleTexel Cubemap d FaceResolution s).2.1 ∧
    0 ≤ (SampleTexel Cubemap d FaceResolution s).2.2.2 ∧
    (SampleTexel Cubemap d FaceResolution s).2.2.2
      < (Cubemap.Faces (SampleTexel Cubemap d FaceResolution s).1).Resolution
        * (Cubemap.Faces (SampleTexel Cubemap d FaceResolution s).1).Resolution ∧
    ∃ (i : Nat) (h : i < (Cubemap.Faces (SampleTexel Cubemap d FaceResolution s).1).Pixels.length),
      ((i : Int) = (SampleTexel Cubemap d FaceResolution s).2.2.2) ∧
      SampleCubemapCPU Cubemap d FaceResolution s
        = (Cubemap.Faces (SampleTexel Cubemap d FaceResolution s).1).Pixels.get ⟨i, h⟩ := by
  have hu := DirectionToFaceUVCPU_unit d FaceResolution s
  rcases hfu : DirectionToFaceUVCPU d FaceResolution s with ⟨f, uv⟩
  have hv := FCPUFaceData.IsValid_of_exact (Cubemap.Faces f) (hpos f) (hlen f) (hfit f)
  obtain ⟨hx, hy, ht, hlt⟩ := SampleTexel_floor Cubemap d FaceResolution s f uv hfu hv (hfit f)
  rw [hfu] at hu
  have h0 : 0 ≤ ⌊uv.Y * (((Cubemap.Faces f).Resolution - 1 : Int) : ℚ)⌋
      * (Cubemap.Faces f).Resolution
      + ⌊uv.X * (((Cubemap.Faces f).Resolution - 1 : Int) : ℚ)⌋ :=
    add_nonneg (mul_nonneg hy.1 (le_of_lt (hpos f))) hx.1
  have hs := SampleCubemapCPU_of_texel Cubemap d FaceResolution s f _ _ _ ht h0 hlt
  rw [ht]
  refine ⟨hu, rfl, rfl, h0, ?_, ?_⟩
  · show _ < (Cubemap.Faces f).Resolution * (Cubemap.Faces f).Resolution
    rw [← hlen f]; exact hlt
  · have hn : (⌊uv.Y * (((Cubemap.Faces f).Resolution - 1 : Int) : ℚ)⌋
        * (Cubemap.Faces f).Resolution
        + ⌊uv.X * (((Cubemap.Faces f).Resolution - 1 : Int) : ℚ)⌋).toNat
        < (Cubemap.Faces f).Pixels.length := by omega
    refine ⟨_, hn, Int.toNat_of_nonneg h0, ?_⟩
    rw [hs, List.getD_eq_getElem _ _ hn]
    rfl

/-- C29 on the 2 x 2 cubemap for the direction `(1, -1/2, -1/2)`: a face pixel is
returned. -/
theorem C29_cpu_sampling_stays_inside_face_witness :
    ((∀ i, 0 < (cubemapTwo.Faces i).Resolution) ∧
      (∀ i, ((cubemapTwo.Faces i).Pixels.length : Int)
        = (cubemapTwo.Faces i).Resolution * (cubemapTwo.Faces i).Resolution) ∧
      (∀ i, (cubemapTwo.Faces i).Resolution * (cubemapTwo.Faces i).Resolution ≤ maxI32)) ∧
    0 ≤ (SampleTexel cubemapTwo dirThreeQuarter 2 (1/4)).2.2.2 ∧
    (SampleTexel cubemapTwo dirThreeQuarter 2 (1/4)).2.2.2
      < (cubemapTwo.Faces (SampleTexel cubemapTwo dirThreeQuarter 2 (1/4)).1).Resolution
        * (cubemapTwo.Faces (SampleTexel cubemapTwo dirThreeQuarter 2 (1/4)).1).Resolution :=
  have h1 : ∀ i, 0 < (cubemapTwo.Faces i).Resolution :=
    fun _ => show (0 : Int) < 2 by decide
  have h2 : ∀ i, ((cubemapTwo.Faces i).Pixels.length : Int)
      = (cubemapTwo.Faces i).Resolution * (cubemapTwo.Faces i).Resolution :=
    fun _ => show ((4 : Nat) : Int) = 2 * 2 by decide
  have h3 : ∀ i, (cubemapTwo.Faces i).Resolution * (cubemapTwo.Faces i).Resolution ≤ maxI32 :=
    fun _ => show (2 : Int) * 2 ≤ maxI32 by decide
  have h := C29_cpu_sampling_stays_inside_face cubemapTwo dirThreeQuarter 2 (1/4) h1 h2 h3
  ⟨⟨h1, h2, h3⟩, h.2.2.2.1, h.2.2.2.2.1⟩

end OmniCapture

namespace OmniCapture

/-- `FMath::Clamp` to `[0, 1]` raised to the fourth power and scaled by a strength in
`(0, 1]` stays in `[0, 1]`. -/
theorem PoleFactor_blend_range (x s : ℚ) (hs0 : 0 < s) (hs1 : s ≤ 1) :
    0 ≤ Clamp x 0 1 ^ 4 * s ∧ Clamp x 0 1 ^ 4 * s ≤ 1 := by
  obtain ⟨h0, h1⟩ := Clamp_mem x 0 1 zero_le_one
  have hp0 : 0 ≤ Clamp x 0 1 ^ 4 := pow_nonneg h0 4
  have hp1 : Clamp x 0 1 ^ 4 ≤ 1 := pow_le_one₀ h0 h1
  exact ⟨mul_nonneg hp0 (le_of_lt hs0), by nlinarith⟩

/-- `ApplyPolarMitigation` for a positive strength, in terms of the blend factor. -/
theorem ApplyPolarMitigation_pos (ops : FPixelOps) (s lat : ℚ) (d : FVector) (hs : 0 < s) :
    ApplyPolarMitigation ops s lat d
      = if Clamp (|lat| / (ops.PI * (1/2))) 0 1 ^ 4 * s ≤ 0 then d
        else ops.Normalize
          ⟨Lerp d.X 0 (Clamp (|lat| / (ops.PI * (1/2))) 0 1 ^ 4 * s),
            Lerp d.Y (if lat ≥ 0 then 1 else -1) (Clamp (|lat| / (ops.PI * (1/2))) 0 1 ^ 4 * s),
            Lerp d.Z 0 (Clamp (|lat| / (ops.PI * (1/2))) 0 1 ^ 4 * s)⟩ := by
  unfold ApplyPolarMitigation
  rw [if_neg (not_le.mpr hs)]

end OmniCapture

namespace OmniCapture

/-- C21 (counterexample): strength 2 at latitude `PI / 2` for the direction `(3, -2, 0)`.
The blend factor of the code is 2, not clamped to 1, so the blended vector is
`(-3, 4, 0)` and the result `(-3/5, 4/5, 0)`; with the blend factor clamped to `[0, 1]`
the result would be the pole vector `(0, 1, 0)`. -/
theorem C21_counterexample :
    (355 / 226 : ℚ) = opsPole.PI / 2 ∧
    Clamp (|(355 / 226 : ℚ)| / (opsPole.PI * (1/2))) 0 1 ^ 4 * 2 = 2 ∧
    ApplyPolarMitigation opsPole 2 (355 / 226) ⟨3, -2, 0⟩ = ⟨-3/5, 4/5, 0⟩ ∧
    opsPole.Normalize
        ⟨Lerp 3 0 (Clamp (2 * (|(355 / 226 : ℚ)| / (opsPole.PI / 2)) ^ 4) 0 1),
          Lerp (-2) 1 (Clamp (2 * (|(355 / 226 : ℚ)| / (opsPole.PI / 2)) ^ 4) 0 1),
          Lerp 0 0 (Clamp (2 * (|(355 / 226 : ℚ)| / (opsPole.PI / 2)) ^ 4) 0 1)⟩
      = ⟨0, 1, 0⟩ ∧
    ApplyPolarMitigation opsPole 2 (355 / 226) ⟨3, -2, 0⟩ ≠ ⟨0, 1, 0⟩ := by
  have hpi : opsPole.PI = 355 / 113 := rfl
  have habs : |(355 / 226 : ℚ)| = 355 / 226 := abs_of_pos (by norm_num)
  have hr : |(355 / 226 : ℚ)| / (opsPole.PI * (1/2)) = 1 := by
    rw [habs, hpi]; norm_num
  have hr2 : |(355 / 226 : ℚ)| / (opsPole.PI / 2) = 1 := by
    rw [habs, hpi]; norm_num
  have hc1 : Clamp (1 : ℚ) 0 1 = 1 := Clamp_of_mem 1 0 1 zero_le_one (le_refl _)
  have hc2 : Clamp (2 * (1 : ℚ) ^ 4) 0 1 = 1 := by
    unfold Clamp
    rw [if_neg (by norm_num), if_neg (by norm_num)]
  have hb : Clamp (|(355 / 226 : ℚ)| / (opsPole.PI * (1/2))) 0 1 ^ 4 * 2 = 2 := by
    rw [hr, hc1]; norm_num
  have hn : ∀ v : FVector, opsPole.Normalize v
      = if v.X ^ 2 + v.Y ^ 2 + v.Z ^ 2 = 25 then ⟨v.X / 5, v.Y / 5, v.Z / 5⟩ else v :=
    fun _ => rfl
  have hres : ApplyPolarMitigation opsPole 2 (355 / 226) ⟨3, -2, 0⟩ = ⟨-3/5, 4/5, 0⟩ := by
    rw [ApplyPolarMitigation_pos opsPole 2 _ _ (by norm_num), hb,
      if_neg (by norm_num), if_pos (by norm_num), hn]
    unfold Lerp
    norm_num
  refine ⟨by rw [hpi]; norm_num, hb, hres, ?_, ?_⟩
  · rw [hr2, hc2, hn]
    unfold Lerp
    norm_num
  · rw [hres]
    intro h
    have := congrArg FVector.X h
    norm_num at this

end OmniCapture

namespace OmniCapture

/-- C21 (amended): `ApplyPolarMitigation` returns `d` unchanged when the strength is not
positive (in particular `0`). For a positive strength `s` the blend factor is
`b = clamp(|lat| / (PI/2), 0, 1)^4 * s`: the ratio is clamped, the product is not. The
call returns `d` unchanged when `b <= 0` and otherwise the normalisation of
`lerp(d, (0, ±1, 0), b)`, with `+1` for `lat >= 0`. For `0 < s <= 1` the blend factor
lies in `[0, 1]`; for `|lat| <= PI/2` the clamp of the ratio does not act; with `s = 1`
and `|lat| = PI/2` the blended vector is exactly the pole vector. -/
theorem C21_polar_mitigation_blend (ops : FPixelOps) (s lat : ℚ) (d : FVector) :
    (s ≤ 0 → ApplyPolarMitigation ops s lat d = d) ∧
    (0 < s → ApplyPolarMitigation ops s lat d
      = if Clamp (|lat| / (ops.PI * (1/2))) 0 1 ^ 4 * s ≤ 0 then d
        else ops.Normalize
          ⟨Lerp d.X 0 (Clamp (|lat| / (ops.PI * (1/2))) 0 1 ^ 4 * s),
            Lerp d.Y (if lat ≥ 0 then 1 else -1) (Clamp (|lat| / (ops.PI * (1/2))) 0 1 ^ 4 * s),
            Lerp d.Z 0 (Clamp (|lat| / (ops.PI * (1/2))) 0 1 ^ 4 * s)⟩) ∧
    (0 < s → s ≤ 1 →
      0 ≤ Clamp (|lat| / (ops.PI * (1/2))) 0 1 ^ 4 * s ∧
      Clamp (|lat| / (ops.PI * (1/2))) 0 1 ^ 4 * s ≤ 1) ∧
    (0 < ops.PI → |lat| ≤ ops.PI / 2 →
      Clamp (|lat| / (ops.PI * (1/2))) 0 1 ^ 4 * s = s * (|lat| / (ops.PI / 2)) ^ 4) ∧
    (0 < ops.PI → |lat| = ops.PI / 2 →
      ApplyPolarMitigation ops 1 lat d
        = ops.Normalize ⟨0, if lat ≥ 0 then 1 else -1, 0⟩) := by
  have hclamp : 0 < ops.PI → |lat| ≤ ops.PI / 2 →
      Clamp (|lat| / (ops.PI * (1/2))) 0 1 = |lat| / (ops.PI / 2) := by
    intro hpi hl
    have hden : ops.PI * (1/2) = ops.PI / 2 := by ring
    rw [hden]
    have hpos : 0 < ops.PI / 2 := by linarith
    exact Clamp_of_mem _ 0 1 (div_nonneg (abs_nonneg _) (le_of_lt hpos))
      ((div_le_one hpos).mpr hl)
  refine ⟨?_, ApplyPolarMitigation_pos ops s lat d, PoleFactor_blend_range _ s, ?_, ?_⟩
  · intro h
    unfold ApplyPolarMitigation
    rw [if_pos h]
  · intro hpi hl
    rw [hclamp hpi hl]; ring
  · intro hpi hl
    have hpos : 0 < ops.PI / 2 := by linarith
    have hb : Clamp (|lat| / (ops.PI * (1/2))) 0 1 ^ 4 * 1 = 1 := by
      rw [hclamp hpi (le_of_eq hl), hl, div_self (ne_of_gt hpos)]; norm_num
    rw [ApplyPolarMitigation_pos ops 1 lat d one_pos, hb, if_neg (by norm_num)]
    unfold Lerp
    congr 1
    simp

/-- C21 (amended) at strength 1 and latitude `PI / 2`, for the direction `(3, -2, 0)`:
the vector handed to the normalisation is the pole vector `(0, 1, 0)`. -/
theorem C21_polar_mitigation_blend_witness :
    ((0 : ℚ) < ops0.PI ∧ |(355 / 226 : ℚ)| = ops0.PI / 2) ∧
    ApplyPolarMitigation ops0 1 (355 / 226) ⟨3, -2, 0⟩
      = ops0.Normalize ⟨0, if (355 / 226 : ℚ) ≥ 0 then 1 else -1, 0⟩ :=
  have hpi : ops0.PI = 355 / 113 := rfl
  have h1 : (0 : ℚ) < ops0.PI := by rw [hpi]; norm_num
  have h2 : |(355 / 226 : ℚ)| = ops0.PI / 2 := by
    rw [hpi, abs_of_pos (by norm_num)]; norm_num
  ⟨⟨h1, h2⟩, (C21_polar_mitigation_blend ops0 1 (355 / 226) ⟨3, -2, 0⟩).2.2.2.2 h1 h2⟩

end OmniCapture

namespace OmniCapture

end OmniCapture

namespace OmniCapture

/-- The parameters `FOmniCaptureNVENCEncoder::Initialize` hands to `CreateForRHI` on a
Windows build with NVENC: `2R` wide, and `2R` high in stereo, `R` high in mono. -/
theorem NVENCInitialize_parameters (e : FOmniCaptureNVENCEncoder) (h : FEncoderHost)
    (Settings : FOmniCaptureSettings) (Dir : String)
    (hav : (h.Host.bWithOmniNVENC && h.Host.bPlatformWindows) = true) :
    (e.Initialize h Settings Dir).CreateParameters
      = some
        { Width := mulI32 Settings.Resolution 2
          Height :=
            if Settings.Mode = .Stereo then mulI32 Settings.Resolution 2 else Settings.Resolution
          MaxBufferDimensions :=
            (mulI32 Settings.Resolution 2,
              if Settings.Mode = .Stereo then mulI32 Settings.Resolution 2
              else Settings.Resolution)
          bAutoCopy := !Settings.bZeroCopy } ∧
    (h.bEncoderInputValid = true →
      ∃ lc, (e.Initialize h Settings Dir).LayerConfig = some lc ∧
        lc.Width = mulI32 Settings.Resolution 2 ∧
        lc.Height =
          if Settings.Mode = .Stereo then mulI32 Settings.Resolution 2
          else Settings.Resolution) := by
  unfold FOmniCaptureNVENCEncoder.Initialize
  lift_lets
  intro D1 D2 bUseHEVC e1 W H e2 TB e3
  rw [if_pos hav]
  constructor
  · by_cases hi : (!h.bEncoderInputValid) = true
    · rw [if_pos hi]
    · rw [if_neg hi]
      by_cases hv : (!h.bVideoEncoderValid) = true
      · rw [if_pos hv]
      · rw [if_neg hv]
  · intro hin
    rw [if_neg (by rw [hin]; decide)]
    by_cases hv : (!h.bVideoEncoderValid) = true
    · rw [if_pos hv]; exact ⟨_, rfl, rfl, rfl⟩
    · rw [if_neg hv]; exact ⟨_, rfl, rfl, rfl⟩

/-- C26: on a Windows build with NVENC, for a face resolution `R > 0` (with `4R` an
`int32`), `FOmniCaptureNVENCEncoder::Initialize` creates the encoder input and the layer
`2R` wide and, in stereo, `2R` high (`R` high in mono), whatever the stereo layout. In
mono and in stereo top-bottom this is the size the projection computes; in stereo
side-by-side the projection computes `4R x R`, so the encoder is configured `2R x 2R`
for frames that are `4R x R`. -/
theorem C26_encoder_size_against_projection_size (e : FOmniCaptureNVENCEncoder)
    (h : FEncoderHost) (Settings : FOmniCaptureSettings) (Dir : String) (ops : FPixelOps)
    (eng : FRenderThreadEngine) (LeftFaces RightFaces : List (Option Handle))
    (Out : FOmniCaptureEquirectResult)
    (hav : (h.Host.bWithOmniNVENC && h.Host.bPlatformWindows) = true)
    (hin : h.bEncoderInputValid = true)
    (hRes : 0 < Settings.Resolution) (hfit : 4 * Settings.Resolution ≤ maxI32)
    (hFaces : LeftFaces.length ≠ 0) (hOut : eng.ExtractedOutput.isSome = true) :
    ∃ cp lc, (e.Initialize h Settings Dir).CreateParameters = some cp ∧
      (e.Initialize h Settings Dir).LayerConfig = some lc ∧
      lc.Width = cp.Width ∧ lc.Height = cp.Height ∧
      cp.Width = 2 * Settings.Resolution ∧
      cp.Height = (if Settings.Mode = .Stereo then 2 * Settings.Resolution
        else Settings.Resolution) ∧
      (Settings.Mode = .Mono →
        (cp.Width, cp.Height)
          = (ConvertOnRenderThread ops eng Settings LeftFaces RightFaces Out).Size) ∧
      (Settings.Mode = .Stereo → Settings.StereoLayout = .TopBottom →
        (cp.Width, cp.Height)
          = (ConvertOnRenderThread ops eng Settings LeftFaces RightFaces Out).Size) ∧
      (Settings.Mode = .Stereo → Settings.StereoLayout = .SideBySide →
        (ConvertOnRenderThread ops eng Settings LeftFaces RightFaces Out).Size
          = (4 * Settings.Resolution, Settings.Resolution) ∧
        (cp.Width, cp.Height) = (2 * Settings.Resolution, 2 * Settings.Resolution) ∧
        cp.Width ≠ (ConvertOnRenderThread ops eng Settings LeftFaces RightFaces Out).Size.1 ∧
        cp.Height ≠ (ConvertOnRenderThread ops eng Settings LeftFaces RightFaces Out).Size.2) := by
  obtain ⟨hcp, hlc⟩ := NVENCInitialize_parameters e h Settings Dir hav
  obtain ⟨lc, hlc1, hlw, hlh⟩ := hlc hin
  have hg := ConvertOnRenderThread_size ops eng Settings LeftFaces RightFaces Out hFaces hOut
  have e2 : mulI32 Settings.Resolution 2 = 2 * Settings.Resolution := by
    rw [mulI32_eq Settings.Resolution 2 (by omega) (by omega)]; ring
  have e4 : mulI32 Settings.Resolution 4 = 4 * Settings.Resolution := by
    rw [mulI32_eq Settings.Resolution 4 (by omega) (by omega)]; ring
  refine ⟨_, lc, hcp, hlc1, hlw, hlh, e2, ?_, ?_, ?_, ?_⟩
  · show (if Settings.Mode = .Stereo then mulI32 Settings.Resolution 2
      else Settings.Resolution) = _
    rw [e2]
  · intro hm
    rw [hg]
    simp [hm, e2]
  · intro hm hl
    rw [hg]
    simp [hm, hl, e2]
  · intro hm hl
    have hsize : (ConvertOnRenderThread ops eng Settings LeftFaces RightFaces Out).Size
        = (4 * Settings.Resolution, Settings.Resolution) := by
      rw [hg]
      simp [hm, hl, e4]
    have hh : (if Settings.Mode = .Stereo then mulI32 Settings.Resolution 2
        else Settings.Resolution) = 2 * Settings.Resolution := by
      rw [if_pos hm, e2]
    refine ⟨hsize, Prod.ext e2 hh, ?_, ?_⟩
    · rw [hsize]
      show mulI32 Settings.Resolution 2 ≠ 4 * Settings.Resolution
      rw [e2]; omega
    · rw [hsize]
      show (if Settings.Mode = .Stereo then mulI32 Settings.Resolution 2
        else Settings.Resolution) ≠ Settings.Resolution
      rw [hh]; omega

/-- C26 at stereo side-by-side, `R = 1024`: the encoder is created 2048 x 2048 while the
projection produces 4096 x 1024. -/
theorem C26_encoder_size_against_projection_size_witness :
    ((encoderHostWindows.Host.bWithOmniNVENC && encoderHostWindows.Host.bPlatformWindows) = true ∧
      encoderHostWindows.bEncoderInputValid = true ∧ 0 < sSideBySideNVENC.Resolution ∧
      4 * sSideBySideNVENC.Resolution ≤ maxI32 ∧ (CollectFaces eye1).length ≠ 0 ∧
      engNoReadback.ExtractedOutput.isSome = true) ∧
    ∃ cp, (FOmniCaptureNVENCEncoder.Initialize {} encoderHostWindows sSideBySideNVENC
        "out").CreateParameters = some cp ∧
      (cp.Width, cp.Height) = (2 * 1024, 2 * 1024) ∧
      (ConvertOnRenderThread ops0 engNoReadback sSideBySideNVENC (CollectFaces eye1)
        (CollectFaces eye1) {}).Size = (4 * 1024, 1024) :=
  have hf : (CollectFaces eye1).length ≠ 0 := by decide
  have ho : engNoReadback.ExtractedOutput.isSome = true := by decide
  ⟨⟨by decide, rfl, by decide, by decide, hf, ho⟩,
    (C26_encoder_size_against_projection_size {} encoderHostWindows sSideBySideNVENC "out"
      ops0 engNoReadback (CollectFaces eye1) (CollectFaces eye1) {} (by decide) rfl
      (by decide) (by decide) hf ho).elim
      fun cp hc => hc.elim fun _ hx =>
        ⟨cp, hx.1, (hx.2.2.2.2.2.2.2.2 rfl rfl).2.1, (hx.2.2.2.2.2.2.2.2 rfl rfl).1⟩⟩

end OmniCapture

namespace OmniCapture

namespace UOmniCaptureSubsystem

/-- The consumer callback when the ring buffer reports more dropped frames than the
subsystem has counted: the count is set to the ring buffer's and then incremented by
`HandleDroppedFrame`. -/
theorem OnConsume_detects (eng : FEngine) (s : UOmniCaptureSubsystem) (F : FOmniCaptureFrame)
    (rb : FOmniCaptureRingBuffer) (hrb : s.RingBuffer = some rb)
    (hd : rb.DroppedFrames > s.DroppedFrameCount) :
    (OnConsume eng s F).DroppedFrameCount = rb.DroppedFrames + 1 ∧
    (OnConsume eng s F).bDroppedFrames = true ∧
    (OnConsume eng s F).State = .DroppedFrames := by
  unfold OnConsume
  lift_lets
  intro s1
  have h1 : s1.RingBuffer = some rb ∧ s1.DroppedFrameCount = s.DroppedFrameCount := by
    unfold s1
    cases s.OutputMuxer with
    | none => exact ⟨hrb, rfl⟩
    | some m => exact ⟨hrb, rfl⟩
  rw [h1.1]
  simp only []
  have hgt : (rb.GetStats).DroppedFrames > s1.DroppedFrameCount := by
    rw [h1.2]; exact hd
  rw [if_pos hgt]
  exact ⟨(HandleDroppedFrame_fields _).2.2.1.trans rfl, (HandleDroppedFrame_fields _).1,
    (HandleDroppedFrame_fields _).2.1⟩

/-- The consumer callback when the ring buffer's dropped count does not exceed the
subsystem's: no drop is marked. -/
theorem OnConsume_silent (eng : FEngine) (s : UOmniCaptureSubsystem) (F : FOmniCaptureFrame)
    (rb : FOmniCaptureRingBuffer) (hrb : s.RingBuffer = some rb)
    (hd : rb.DroppedFrames ≤ s.DroppedFrameCount) :
    (OnConsume eng s F).DroppedFrameCount = s.DroppedFrameCount ∧
    (OnConsume eng s F).bDroppedFrames = s.bDroppedFrames ∧
    (OnConsume eng s F).State = s.State := by
  unfold OnConsume
  lift_lets
  intro s1
  have h1 : s1.RingBuffer = some rb ∧ s1.DroppedFrameCount = s.DroppedFrameCount ∧
      s1.bDroppedFrames = s.bDroppedFrames ∧ s1.State = s.State := by
    unfold s1
    cases s.OutputMuxer with
    | none => exact ⟨hrb, rfl, rfl, rfl⟩
    | some m => exact ⟨hrb, rfl, rfl, rfl⟩
  rw [h1.1]
  simp only []
  have hle : ¬ (rb.GetStats).DroppedFrames > s1.DroppedFrameCount := by
    rw [h1.2.1]; exact not_lt.mpr hd
  rw [if_neg hle]
  exact ⟨h1.2.1, h1.2.2.1, h1.2.2.2⟩

end UOmniCaptureSubsystem

end OmniCapture

namespace OmniCapture

open UOmniCaptureSubsystem in
/-- C28: when the consumer callback observes a ring-buffer dropped count `d` greater than
`DroppedFrameCount`, it sets the count to `d` and then calls `HandleDroppedFrame`, which
increments it: afterwards `DroppedFrameCount = d + 1`, not `d`. A later callback that
finds the ring buffer's count risen to `d + 1`, in a state that still has the count the
first callback left, sees no excess and marks no dropped frame. -/
theorem C28_consumer_callback_counts_one_too_many (eng : FEngine)
    (s : UOmniCaptureSubsystem) (F : FOmniCaptureFrame) (rb : FOmniCaptureRingBuffer)
    (hrb : s.RingBuffer = some rb) (hd : rb.DroppedFrames > s.DroppedFrameCount) :
    (OnConsume eng s F).DroppedFrameCount = rb.DroppedFrames + 1 ∧
    (OnConsume eng s F).DroppedFrameCount ≠ rb.DroppedFrames ∧
    (∀ (t : UOmniCaptureSubsystem) (G : FOmniCaptureFrame) (rb2 : FOmniCaptureRingBuffer),
      t.RingBuffer = some rb2 →
      t.DroppedFrameCount = (OnConsume eng s F).DroppedFrameCount →
      rb2.DroppedFrames = rb.DroppedFrames + 1 →
        (OnConsume eng t G).DroppedFrameCount = t.DroppedFrameCount ∧
        (OnConsume eng t G).bDroppedFrames = t.bDroppedFrames ∧
        (OnConsume eng t G).State = t.State) := by
  have h := OnConsume_detects eng s F rb hrb hd
  refine ⟨h.1, by rw [h.1]; omega, ?_⟩
  intro t G rb2 ht hc hr
  exact OnConsume_silent eng t G rb2 ht (by rw [hc, h.1, hr])

open UOmniCaptureSubsystem in
/-- C28 on a capture whose ring buffer has dropped 3 frames while the subsystem has
counted none: after the callback the subsystem counts 4. -/
theorem C28_consumer_callback_counts_one_too_many_witness :
    (pausedBusy.RingBuffer
        = some { Capacity := 2, Pending := [frameIdx 3, frameIdx 4], DroppedFrames := 3 } ∧
      (3 : Int) > pausedBusy.DroppedFrameCount) ∧
    (OnConsume (engineOn hostWindows) pausedBusy (frameIdx 3)).DroppedFrameCount = 3 + 1 ∧
    (OnConsume (engineOn hostWindows) pausedBusy (frameIdx 3)).DroppedFrameCount ≠ 3 :=
  have h := C28_consumer_callback_counts_one_too_many (engineOn hostWindows) pausedBusy
    (frameIdx 3) { Capacity := 2, Pending := [frameIdx 3, frameIdx 4], DroppedFrames := 3 }
    rfl (by decide)
  ⟨⟨rfl, by decide⟩, h.1, h.2.1⟩

end OmniCapture

namespace OmniCapture

namespace UOmniCaptureSubsystem

theorem KeepsRun.same (a : UOmniCaptureSubsystem) : KeepsRun a a :=
  ⟨rfl, rfl, rfl, rfl, rfl, rfl, rfl, rfl, rfl, Or.inl rfl⟩

theorem KeepsRun.after {a b c : UOmniCaptureSubsystem} (h1 : KeepsRun a b)
    (h2 : KeepsRun b c) : KeepsRun a c :=
  ⟨h1.settings.trans h2.settings, h1.capturing.trans h2.capturing, h1.paused.trans h2.paused,
    h1.counter.trans h2.counter, h1.completed.trans h2.completed,
    h1.captured.trans h2.captured, h1.index.trans h2.index, h1.baseName.trans h2.baseName,
    h1.baseDir.trans h2.baseDir,
    h1.state.elim (fun e => h2.state.elim (fun e2 => Or.inl (e.trans e2))
      (fun e2 => Or.inr (e.trans e2))) Or.inr⟩

theorem AddWarningUnique_run (s : UOmniCaptureSubsystem) (w : String) :
    KeepsRun (s.AddWarningUnique w) s := by
  unfold AddWarningUnique
  split_ifs <;> exact ⟨rfl, rfl, rfl, rfl, rfl, rfl, rfl, rfl, rfl, Or.inl rfl⟩

theorem RemoveWarning_run (s : UOmniCaptureSubsystem) (w : String) :
    KeepsRun (s.RemoveWarning w) s := by
  unfold RemoveWarning
  split_ifs <;> exact ⟨rfl, rfl, rfl, rfl, rfl, rfl, rfl, rfl, rfl, Or.inl rfl⟩

theorem HandleDroppedFrame_run (s : UOmniCaptureSubsystem) :
    KeepsRun (HandleDroppedFrame s) s := by
  unfold HandleDroppedFrame AddWarningUnique
  lift_lets
  intro s1
  split_ifs <;> exact ⟨rfl, rfl, rfl, rfl, rfl, rfl, rfl, rfl, rfl, Or.inr rfl⟩

theorem OnConsume_run (eng : FEngine) (s : UOmniCaptureSubsystem) (F : FOmniCaptureFrame) :
    KeepsRun (OnConsume eng s F) s := by
  unfold OnConsume
  lift_lets
  intro s1
  have h1 : KeepsRun s1 s := by
    unfold s1
    cases s.OutputMuxer with
    | none => exact KeepsRun.same s
    | some m => exact ⟨rfl, rfl, rfl, rfl, rfl, rfl, rfl, rfl, rfl, Or.inl rfl⟩
  cases hrb : s1.RingBuffer with
  | none => exact h1
  | some rb =>
    simp only []
    split_ifs
    · exact (HandleDroppedFrame_run _).after
        (@KeepsRun.after _ s1 s ⟨rfl, rfl, rfl, rfl, rfl, rfl, rfl, rfl, rfl, Or.inl rfl⟩ h1)
    · exact @KeepsRun.after _ s1 s ⟨rfl, rfl, rfl, rfl, rfl, rfl, rfl, rfl, rfl, Or.inl rfl⟩ h1

theorem DrainRingBuffer_run (eng : FEngine) (Frames : List FOmniCaptureFrame) :
    ∀ s : UOmniCaptureSubsystem, KeepsRun (DrainRingBuffer eng Frames s) s := by
  induction Frames with
  | nil => intro s; exact KeepsRun.same s
  | cons F rest ih =>
    intro s
    unfold DrainRingBuffer
    lift_lets
    intro s1
    have h1 : KeepsRun s1 s := ⟨rfl, rfl, rfl, rfl, rfl, rfl, rfl, rfl, rfl, Or.inl rfl⟩
    exact (ih (OnConsume eng s1 F)).after ((OnConsume_run eng s1 F).after h1)

theorem FlushRingBuffer_run (eng : FEngine) (s : UOmniCaptureSubsystem) :
    KeepsRun (FlushRingBuffer eng s) s := by
  unfold FlushRingBuffer
  cases s.RingBuffer with
  | none => exact KeepsRun.same s
  | some rb => exact DrainRingBuffer_run eng _ s

theorem ShutdownAudioRecording_run (eng : FEngine) (s : UOmniCaptureSubsystem) :
    KeepsRun (ShutdownAudioRecording eng s) s := by
  unfold ShutdownAudioRecording
  split_ifs <;> exact ⟨rfl, rfl, rfl, rfl, rfl, rfl, rfl, rfl, rfl, Or.inl rfl⟩

theorem InitializeOutputWriters_run (eng : FEngine) (s : UOmniCaptureSubsystem) :
    KeepsRun (InitializeOutputWriters eng s) s := by
  unfold InitializeOutputWriters
  lift_lets
  intro s1
  split
  · exact ⟨rfl, rfl, rfl, rfl, rfl, rfl, rfl, rfl, rfl, Or.inl rfl⟩
  · split_ifs <;> exact ⟨rfl, rfl, rfl, rfl, rfl, rfl, rfl, rfl, rfl, Or.inl rfl⟩

theorem InitializeAudioRecording_run (eng : FEngine) (s : UOmniCaptureSubsystem) :
    KeepsRun (InitializeAudioRecording eng s) s := by
  unfold InitializeAudioRecording
  split_ifs <;> exact ⟨rfl, rfl, rfl, rfl, rfl, rfl, rfl, rfl, rfl, Or.inl rfl⟩

theorem ShouldRotate_run (eng : FEngine) (s : UOmniCaptureSubsystem) :
    KeepsRun (ShouldRotate eng s).2 s := by
  unfold ShouldRotate
  lift_lets
  intro Now b s1 Limit
  split_ifs <;> exact ⟨rfl, rfl, rfl, rfl, rfl, rfl, rfl, rfl, rfl, Or.inl rfl⟩

theorem SampleFps_run (Now : ℚ) (s : UOmniCaptureSubsystem) :
    KeepsRun (SampleFps Now s) s := by
  unfold SampleFps
  lift_lets
  intro s1 s2 Elapsed Safe
  have e2 : KeepsRun s2 s := by
    unfold s2
    split_ifs <;> exact ⟨rfl, rfl, rfl, rfl, rfl, rfl, rfl, rfl, rfl, Or.inl rfl⟩
  split_ifs
  · exact @KeepsRun.after _ s2 s ⟨rfl, rfl, rfl, rfl, rfl, rfl, rfl, rfl, rfl, Or.inl rfl⟩ e2
  · exact e2

theorem UpdateDiskWarning_run (eng : FEngine) (s : UOmniCaptureSubsystem) :
    KeepsRun (UpdateDiskWarning eng s) s := by
  unfold UpdateDiskWarning
  lift_lets
  intro Threshold
  cases eng.Host.DiskFreeBytes with
  | none => split_ifs <;> exact KeepsRun.same s
  | some FreeBytes =>
    simp only []
    split_ifs
    · exact AddWarningUnique_run _ _
    · exact RemoveWarning_run _ _
    · exact KeepsRun.same s
    · exact KeepsRun.same s

theorem UpdateFpsWarning_run (s : UOmniCaptureSubsystem) :
    KeepsRun (UpdateFpsWarning s) s := by
  unfold UpdateFpsWarning
  lift_lets
  intro Threshold s1
  have e1 : KeepsRun s1 s := RemoveWarning_run _ _
  split_ifs
  · exact AddWarningUnique_run _ _
  · exact (RemoveWarning_run _ _).after e1
  · exact e1
  · exact KeepsRun.same s

/-- `UpdateRuntimeWarnings` only edits the warning list and its timer; the state label is
kept. -/
theorem UpdateRuntimeWarnings_run (eng : FEngine) (s : UOmniCaptureSubsystem) :
    KeepsRun (UpdateRuntimeWarnings eng s) s := by
  unfold UpdateRuntimeWarnings
  lift_lets
  intro Now s1
  split_ifs
  · exact KeepsRun.same s
  · have h1 : KeepsRun s1 s := ⟨rfl, rfl, rfl, rfl, rfl, rfl, rfl, rfl, rfl, Or.inl rfl⟩
    exact (UpdateFpsWarning_run _).after ((UpdateDiskWarning_run eng s1).after h1)

end UOmniCaptureSubsystem

end OmniCapture

namespace OmniCapture

namespace UOmniCaptureSubsystem

/-- What `CompleteActiveSegment` leaves alone. -/
theorem CompleteActiveSegment_rest (s : UOmniCaptureSubsystem) (b : Bool) :
    (CompleteActiveSegment s b).ActiveSettings = s.ActiveSettings ∧
    (CompleteActiveSegment s b).bIsCapturing = s.bIsCapturing ∧
    (CompleteActiveSegment s b).bIsPaused = s.bIsPaused ∧
    (CompleteActiveSegment s b).FrameCounter = s.FrameCounter ∧
    (CompleteActiveSegment s b).CurrentSegmentIndex = s.CurrentSegmentIndex ∧
    (CompleteActiveSegment s b).BaseOutputFileName = s.BaseOutputFileName ∧
    (CompleteActiveSegment s b).BaseOutputDirectory = s.BaseOutputDirectory ∧
    (CompleteActiveSegment s b).State = s.State := by
  unfold CompleteActiveSegment
  split_ifs <;> exact ⟨rfl, rfl, rfl, rfl, rfl, rfl, rfl, rfl⟩

/-- A rotation that is not due, or falls on an empty active segment, changes none of the
session members. -/
theorem RotateSegmentIfNeeded_run_deferred (eng : FEngine) (s : UOmniCaptureSubsystem)
    (h : s.bIsCapturing = false ∨ (ShouldRotate eng s).1 = false ∨
      s.CapturedFrameMetadata = []) :
    KeepsRun (RotateSegmentIfNeeded eng s) s := by
  unfold RotateSegmentIfNeeded
  lift_lets
  intro d s1 s2 s3 s4 s5 s6 s7 s8 s9 m0 m1 s10 s11
  have h1 : KeepsRun s1 s := ShouldRotate_run eng s
  by_cases hc : (!s.bIsCapturing) = true
  · rw [if_pos hc]; exact KeepsRun.same s
  · rw [if_neg hc]
    have hcap : s.bIsCapturing = true := by simpa using hc
    have hcond : (!d.1 || decide (s1.CapturedFrameMetadata.length = 0)) = true := by
      rcases h with h | h | h
      · rw [hcap] at h; cases h
      · have : d.1 = false := h
        rw [this]; rfl
      · have : s1.CapturedFrameMetadata = [] := h1.captured.trans h
        rw [this]; simp
    rw [if_pos hcond]
    exact h1

/-- The effect of a rotation that fires: the active segment is closed into a record, the
segment index is incremented and the output names are recomputed. -/
theorem RotateSegmentIfNeeded_fires (eng : FEngine) (s : UOmniCaptureSubsystem)
    (hc : s.bIsCapturing = true) (hd : (ShouldRotate eng s).1 = true)
    (hne : s.CapturedFrameMetadata ≠ []) :
    (∃ Segment : FOmniCaptureSegmentRecord,
      (RotateSegmentIfNeeded eng s).CompletedSegments = s.CompletedSegments ++ [Segment] ∧
      Segment.SegmentIndex = s.CurrentSegmentIndex ∧
      Segment.Directory = s.ActiveSettings.OutputDirectory ∧
      Segment.BaseFileName = s.ActiveSettings.OutputFileName ∧
      Segment.Frames = s.CapturedFrameMetadata) ∧
    (RotateSegmentIfNeeded eng s).CurrentSegmentIndex = s.CurrentSegmentIndex + 1 ∧
    (RotateSegmentIfNeeded eng s).CapturedFrameMetadata = [] ∧
    (RotateSegmentIfNeeded eng s).ActiveSettings.OutputFileName
      = s.BaseOutputFileName ++
        (if s.CurrentSegmentIndex + 1 = 0 then ""
          else "_seg" ++ eng.Printf02d (s.CurrentSegmentIndex + 1)) ∧
    (RotateSegmentIfNeeded eng s).ActiveSettings.Quality = s.ActiveSettings.Quality ∧
    (RotateSegmentIfNeeded eng s).FrameCounter = s.FrameCounter ∧
    (RotateSegmentIfNeeded eng s).bIsCapturing = s.bIsCapturing ∧
    (RotateSegmentIfNeeded eng s).bIsPaused = s.bIsPaused ∧
    (RotateSegmentIfNeeded eng s).BaseOutputFileName = s.BaseOutputFileName ∧
    ((RotateSegmentIfNeeded eng s).State = s.State ∨
      (RotateSegmentIfNeeded eng s).State = .DroppedFrames) := by
  unfold RotateSegmentIfNeeded
  rw [if_neg (by rw [hc]; decide)]
  lift_lets
  intro d s1 s2 s3 s4 s5 s6 s7 s8 s9 m0 m1 s10 s11
  have h1 : KeepsRun s1 s := ShouldRotate_run eng s
  have h2 : KeepsRun s2 s1 := FlushRingBuffer_run eng s1
  have h3 : KeepsRun s3 s2 := ⟨rfl, rfl, rfl, rfl, rfl, rfl, rfl, rfl, rfl, Or.inl rfl⟩
  have h4 : KeepsRun s4 s3 := ShutdownAudioRecording_run eng s3
  have h5 : KeepsRun s5 s4 := ⟨rfl, rfl, rfl, rfl, rfl, rfl, rfl, rfl, rfl, Or.inl rfl⟩
  have k5 : KeepsRun s5 s := h5.after (h4.after (h3.after (h2.after h1)))
  have hne5 : s5.CapturedFrameMetadata ≠ [] := by rw [k5.captured]; exact hne
  have hst := CompleteActiveSegment_store s5 hne5
  have hrest := CompleteActiveSegment_rest s5 true
  have h9 : KeepsRun s9 s8 := InitializeOutputWriters_run eng s8
  have h10 : KeepsRun s10 s9 := ⟨rfl, rfl, rfl, rfl, rfl, rfl, rfl, rfl, rfl, Or.inl rfl⟩
  have h11 : KeepsRun s11 s10 := InitializeAudioRecording_run eng s10
  have k11 : KeepsRun s11 s8 := h11.after (h10.after h9)
  have hd1 : d.1 = true := hd
  have hlen : s1.CapturedFrameMetadata.length ≠ 0 := by
    rw [h1.captured]
    exact fun h => hne (List.length_eq_zero.mp h)
  rw [if_neg (by rw [hd1]; simpa using hlen)]
  have e6c := hst.1
  have e8c : s8.CompletedSegments = s6.CompletedSegments := rfl
  have e7i : s7.CurrentSegmentIndex = s.CurrentSegmentIndex + 1 := by
    show s6.CurrentSegmentIndex + 1 = _
    rw [hrest.2.2.2.2.1, k5.index]
  have e7b : s7.BaseOutputFileName = s.BaseOutputFileName := by
    show s6.BaseOutputFileName = _
    rw [hrest.2.2.2.2.2.1, k5.baseName]
  have e8i : s8.CurrentSegmentIndex = s7.CurrentSegmentIndex := rfl
  have e8n : s8.ActiveSettings.OutputFileName
      = s7.BaseOutputFileName ++
        (if s7.CurrentSegmentIndex = 0 then ""
          else "_seg" ++ eng.Printf02d s7.CurrentSegmentIndex) := rfl
  have e8q : s8.ActiveSettings.Quality = s7.ActiveSettings.Quality := rfl
  have e7q : s7.ActiveSettings.Quality = s.ActiveSettings.Quality := by
    show s6.ActiveSettings.Quality = _
    rw [hrest.1, k5.settings]
  have e8s : s8.State = s6.State := rfl
  refine ⟨⟨{ SegmentIndex := s5.CurrentSegmentIndex
             Directory := s5.ActiveSettings.OutputDirectory
             BaseFileName := s5.ActiveSettings.OutputFileName
             AudioPath := s5.RecordedAudioPath
             VideoPath := s5.RecordedVideoPath
             Frames := s5.CapturedFrameMetadata }, ?_, ?_, ?_, ?_, ?_⟩,
    ?_, ?_, ?_, ?_, ?_, ?_, ?_, ?_, ?_⟩
  · show s11.CompletedSegments = _
    rw [k11.completed, e8c]
    show s6.CompletedSegments = _
    rw [e6c, k5.completed]
  · exact k5.index
  · show s5.ActiveSettings.OutputDirectory = _
    rw [k5.settings]
  · show s5.ActiveSettings.OutputFileName = _
    rw [k5.settings]
  · exact k5.captured
  · show s11.CurrentSegmentIndex = _
    rw [k11.index, e8i, e7i]
  · show s11.CapturedFrameMetadata = []
    rw [k11.captured]; rfl
  · show s11.ActiveSettings.OutputFileName = _
    rw [k11.settings, e8n, e7b, e7i]
  · show s11.ActiveSettings.Quality = _
    rw [k11.settings, e8q, e7q]
  · show s11.FrameCounter = _
    rw [k11.counter]
    show s6.FrameCounter = _
    rw [hrest.2.2.2.1, k5.counter]
  · show s11.bIsCapturing = _
    rw [k11.capturing]
    show s6.bIsCapturing = _
    rw [hrest.2.1, k5.capturing]
  · show s11.bIsPaused = _
    rw [k11.paused]
    show s6.bIsPaused = _
    rw [hrest.2.2.1, k5.paused]
  · show s11.BaseOutputFileName = _
    rw [k11.baseName]
    exact e7b
  · show s11.State = s.State ∨ s11.State = .DroppedFrames
    have e6s : s6.State = s5.State := hrest.2.2.2.2.2.2.2
    rcases k11.state with h | h
    · rw [h, e8s, e6s]; exact k5.state
    · exact Or.inr h

end UOmniCaptureSubsystem

end OmniCapture

namespace OmniCapture

open UOmniCaptureSubsystem in
/-- C24: when `RotateSegmentIfNeeded` fires (the subsystem is capturing, the decision is
to rotate, and the active segment of index `i >= 0` has at least one captured frame),
`CompletedSegments` grows by exactly one record whose `SegmentIndex` is `i`, whose
directory and base file name are the active ones of segment `i`, and whose `Frames` are
the captured metadata in capture order; afterwards `CurrentSegmentIndex = i + 1`,
`CapturedFrameMetadata` is empty, and the active output file name is
`BaseOutputFileName` followed by `_seg` and the new index printed with `%02d`. -/
theorem C24_rotation_closes_segment_and_renames (eng : FEngine) (s : UOmniCaptureSubsystem)
    (hc : s.bIsCapturing = true) (hd : (ShouldRotate eng s).1 = true)
    (hne : s.CapturedFrameMetadata ≠ []) (hi : 0 ≤ s.CurrentSegmentIndex) :
    (∃ Segment : FOmniCaptureSegmentRecord,
      (RotateSegmentIfNeeded eng s).CompletedSegments = s.CompletedSegments ++ [Segment] ∧
      Segment.SegmentIndex = s.CurrentSegmentIndex ∧
      Segment.Directory = s.ActiveSettings.OutputDirectory ∧
      Segment.BaseFileName = s.ActiveSettings.OutputFileName ∧
      Segment.Frames = s.CapturedFrameMetadata) ∧
    (RotateSegmentIfNeeded eng s).CurrentSegmentIndex = s.CurrentSegmentIndex + 1 ∧
    (RotateSegmentIfNeeded eng s).CapturedFrameMetadata = [] ∧
    (RotateSegmentIfNeeded eng s).ActiveSettings.OutputFileName
      = s.BaseOutputFileName ++ ("_seg" ++ eng.Printf02d (s.CurrentSegmentIndex + 1)) := by
  have h := RotateSegmentIfNeeded_fires eng s hc hd hne
  refine ⟨h.1, h.2.1, h.2.2.1, ?_⟩
  rw [h.2.2.2.1, if_neg (by omega)]

open UOmniCaptureSubsystem in
/-- C24 on the recording with two frames in segment 0, 12 s after the segment start: the
record of segment 0 holds the two frames, the index becomes 1 and the file name
`Take_seg01`. -/
theorem C24_rotation_closes_segment_and_renames_witness :
    (recordingDue.bIsCapturing = true ∧ (ShouldRotate (engineClock 12) recordingDue).1 = true ∧
      recordingDue.CapturedFrameMetadata ≠ [] ∧ 0 ≤ recordingDue.CurrentSegmentIndex) ∧
    (∃ Segment : FOmniCaptureSegmentRecord,
      (RotateSegmentIfNeeded (engineClock 12) recordingDue).CompletedSegments = [Segment] ∧
      Segment.SegmentIndex = 0 ∧ Segment.Directory = "out/Segment_00" ∧
      Segment.BaseFileName = "Take" ∧
      Segment.Frames = [{ FrameIndex := 0, bKeyFrame := true }, { FrameIndex := 1 }]) ∧
    (RotateSegmentIfNeeded (engineClock 12) recordingDue).CurrentSegmentIndex = 1 ∧
    (RotateSegmentIfNeeded (engineClock 12) recordingDue).CapturedFrameMetadata = [] ∧
    (RotateSegmentIfNeeded (engineClock 12) recordingDue).ActiveSettings.OutputFileName
      = "Take_seg01" := by
  have hD : (0 : ℚ) < recordingDue.ActiveSettings.SegmentDurationSeconds := by
    show (0 : ℚ) < 10
    norm_num
  have hd : (ShouldRotate (engineClock 12) recordingDue).1 = true := by
    rw [ShouldRotate_duration_only (engineClock 12) recordingDue hD (by decide)]
    show decide ((12 : ℚ) - 0 ≥ 10) = true
    rw [decide_eq_true_eq]
    norm_num
  have hne : recordingDue.CapturedFrameMetadata ≠ [] := by decide
  have h := C24_rotation_closes_segment_and_renames (engineClock 12) recordingDue rfl hd hne
    (by decide)
  exact ⟨⟨rfl, hd, hne, by decide⟩, h.1, h.2.1, h.2.2.1, h.2.2.2.trans (by decide)⟩

end OmniCapture

namespace OmniCapture

namespace UOmniCaptureSubsystem

theorem KeepsSession.self (a : UOmniCaptureSubsystem) : KeepsSession a a :=
  ⟨rfl, rfl, rfl, rfl, rfl, rfl, rfl⟩

theorem KeepsSession.onto {a b c : UOmniCaptureSubsystem} (h1 : KeepsSession a b)
    (h2 : KeepsSession b c) : KeepsSession a c :=
  ⟨h1.capturing.trans h2.capturing, h1.paused.trans h2.paused, h1.state.trans h2.state,
    h1.counter.trans h2.counter, h1.completed.trans h2.completed,
    h1.captured.trans h2.captured, h1.quality.trans h2.quality⟩

theorem AddWarning_session (s : UOmniCaptureSubsystem) (w : String) :
    KeepsSession (s.AddWarning w) s := ⟨rfl, rfl, rfl, rfl, rfl, rfl, rfl⟩

theorem AddWarningUnique_session (s : UOmniCaptureSubsystem) (w : String) :
    KeepsSession (s.AddWarningUnique w) s := by
  unfold AddWarningUnique
  split_ifs <;> exact ⟨rfl, rfl, rfl, rfl, rfl, rfl, rfl⟩

theorem FailIf_session (c : Bool) (w : String) (acc : Bool × UOmniCaptureSubsystem) :
    KeepsSession (FailIf c w acc).2 acc.2 := by
  unfold FailIf
  split_ifs
  · exact AddWarning_session _ _
  · exact KeepsSession.self _

theorem NoteIf_session (c : Bool) (w : String) (acc : Bool × UOmniCaptureSubsystem) :
    KeepsSession (NoteIf c w acc).2 acc.2 := by
  unfold NoteIf
  split_ifs
  · exact AddWarning_session _ _
  · exact KeepsSession.self _

theorem ValidateRHI_session (host : FHost) (S : FOmniCaptureSettings)
    (acc : Bool × UOmniCaptureSubsystem) : KeepsSession (ValidateRHI host S acc).2 acc.2 := by
  unfold ValidateRHI
  split_ifs
  · split <;> exact FailIf_session _ _ _
  · exact NoteIf_session _ _ _
  · exact NoteIf_session _ _ _

theorem ValidateNVENC_session (host : FHost) (S : FOmniCaptureSettings)
    (acc : Bool × UOmniCaptureSubsystem) : KeepsSession (ValidateNVENC host S acc).2 acc.2 := by
  unfold ValidateNVENC
  have h7 := fun (a : Bool × UOmniCaptureSubsystem) c1 w1 c2 w2 c3 w3 c4 w4 c5 w5 c6 w6 c7 w7 =>
    (FailIf_session c7 w7 _).onto ((FailIf_session c6 w6 _).onto ((FailIf_session c5 w5 _).onto
      ((FailIf_session c4 w4 _).onto ((FailIf_session c3 w3 _).onto
        ((NoteIf_session c2 w2 _).onto (NoteIf_session c1 w1 a))))))
  simp only []
  split_ifs
  · exact (FailIf_session _ _ _).onto (h7 acc _ _ _ _ _ _ _ _ _ _ _ _ _ _)
  · exact (FailIf_session _ _ _).onto (h7 acc _ _ _ _ _ _ _ _ _ _ _ _ _ _)
  · exact h7 acc _ _ _ _ _ _ _ _ _ _ _ _ _ _

theorem ValidateFFmpeg_session (host : FHost) (S : FOmniCaptureSettings)
    (acc : Bool × UOmniCaptureSubsystem) : KeepsSession (ValidateFFmpeg host S acc).2 acc.2 := by
  unfold ValidateFFmpeg
  simp only []
  split_ifs <;> exact NoteIf_session _ _ _

theorem ValidateDisk_session (host : FHost) (S : FOmniCaptureSettings)
    (acc : Bool × UOmniCaptureSubsystem) : KeepsSession (ValidateDisk host S acc).2 acc.2 := by
  unfold ValidateDisk
  split
  · simp only []
    split_ifs
    · exact AddWarningUnique_session acc.2 WarningLowDisk
    · exact KeepsSession.self _
  · exact AddWarningUnique_session acc.2 "Unable to query disk space for capture output"

/-- `ValidateEnvironment` keeps the flags, the state label, the frame counter, the
segment lists and the quality settings. -/
theorem ValidateEnvironment_session (eng : FEngine) (s : UOmniCaptureSubsystem) :
    KeepsSession (ValidateEnvironment eng s).2 s := by
  unfold ValidateEnvironment
  simp only []
  refine (ValidateDisk_session _ _ _).onto ((ValidateFFmpeg_session _ _ _).onto ?_)
  split_ifs
  · exact (ValidateNVENC_session _ _ _).onto
      ((ValidateRHI_session _ _ _).onto (NoteIf_session _ _ _))
  · exact (ValidateRHI_session _ _ _).onto (NoteIf_session _ _ _)

/-- `ApplyFallbacks` keeps the flags, the state label, the frame counter, the segment
lists and the quality settings. -/
theorem ApplyFallbacks_session (eng : FEngine) (s : UOmniCaptureSubsystem) :
    KeepsSession (ApplyFallbacks eng s).2 s := by
  have hw : ∀ (t : UOmniCaptureSubsystem) (w : String) (f : EOmniCaptureColorFormat),
      KeepsSession ((t.AddWarning w).SetColorFormat f) t :=
    fun _ _ _ => ⟨rfl, rfl, rfl, rfl, rfl, rfl, rfl⟩
  have hcodec : ∀ (t : UOmniCaptureSubsystem) (w : String) (c : EOmniCaptureCodec),
      KeepsSession ((t.AddWarning w).SetCodec c) t :=
    fun _ _ _ => ⟨rfl, rfl, rfl, rfl, rfl, rfl, rfl⟩
  have hzero : ∀ (t : UOmniCaptureSubsystem) (w : String) (b : Bool),
      KeepsSession ((t.AddWarning w).SetZeroCopy b) t :=
    fun _ _ _ => ⟨rfl, rfl, rfl, rfl, rfl, rfl, rfl⟩
  have hout : ∀ (t : UOmniCaptureSubsystem) (w : String) (f : EOmniOutputFormat),
      KeepsSession ((t.AddWarning w).SetOutputFormat f) t :=
    fun _ _ _ => ⟨rfl, rfl, rfl, rfl, rfl, rfl, rfl⟩
  unfold ApplyFallbacks
  lift_lets
  intro host Caps s1 s2 s3 s4 s5
  have e1 : KeepsSession s1 s := by
    unfold s1; split_ifs
    · exact hcodec _ _ _
    · exact KeepsSession.self _
  have e2 : KeepsSession s2 s1 := by
    unfold s2; split_ifs
    · exact hw _ _ _
    · exact KeepsSession.self _
  have e3 : KeepsSession s3 s2 := by
    unfold s3; split_ifs
    · exact hw _ _ _
    · exact KeepsSession.self _
  have e4 : KeepsSession s4 s3 := by
    unfold s4; split_ifs
    · exact hw _ _ _
    · exact KeepsSession.self _
  have e5 : KeepsSession s5 s4 := by
    unfold s5; split_ifs
    · exact hzero _ _ _
    · exact KeepsSession.self _
    · exact hzero _ _ _
    · exact KeepsSession.self _
  split_ifs
  all_goals first
    | exact hout _ _ _
    | exact AddWarning_session _ _
    | exact KeepsSession.self _
    | exact e5.onto (e4.onto (e3.onto (e2.onto e1)))

theorem InitializeOutputWriters_actors (eng : FEngine) (s : UOmniCaptureSubsystem) :
    (InitializeOutputWriters eng s).RigActor = s.RigActor ∧
    (InitializeOutputWriters eng s).RingBuffer = s.RingBuffer := by
  unfold InitializeOutputWriters
  lift_lets
  intro s1
  split
  · exact ⟨rfl, rfl⟩
  · split_ifs <;> exact ⟨rfl, rfl⟩

theorem InitializeAudioRecording_actors (eng : FEngine) (s : UOmniCaptureSubsystem) :
    (InitializeAudioRecording eng s).RigActor = s.RigActor ∧
    (InitializeAudioRecording eng s).RingBuffer = s.RingBuffer := by
  unfold InitializeAudioRecording
  split_ifs <;> exact ⟨rfl, rfl⟩

/-- The last part of `BeginCapture` from a state that is not capturing: either it gives
up early and leaves the flags and the state label as they were, or it ends recording
with the frame counter at zero, no captured frame, a rig and a ring buffer. -/
theorem BeginCaptureStart_session (eng : FEngine) (s : UOmniCaptureSubsystem)
    (hc : s.bIsCapturing = false) :
    ((BeginCaptureStart eng s).bIsCapturing = false ∧
      (BeginCaptureStart eng s).State = s.State ∧
      (BeginCaptureStart eng s).bIsPaused = s.bIsPaused) ∨
    ((eng.bWorld = true ∧ eng.bSpawnRig = true ∧ eng.bSpawnDirector = true) ∧
      (BeginCaptureStart eng s).bIsCapturing = true ∧
      (BeginCaptureStart eng s).State = .Recording ∧
      (BeginCaptureStart eng s).bIsPaused = s.bIsPaused ∧
      (BeginCaptureStart eng s).FrameCounter = 0 ∧
      (BeginCaptureStart eng s).CompletedSegments = s.CompletedSegments ∧
      (BeginCaptureStart eng s).CapturedFrameMetadata = [] ∧
      (BeginCaptureStart eng s).ActiveSettings.Quality = s.ActiveSettings.Quality ∧
      (BeginCaptureStart eng s).RigActor = true ∧
      (BeginCaptureStart eng s).RingBuffer.isSome = true) := by
  unfold BeginCaptureStart
  lift_lets
  intro s1 s2 s3 s4 s5 m0 m1 s6 s7 s8
  have h5 : KeepsRun s5 s4 := InitializeOutputWriters_run eng s4
  have h7 : KeepsRun s7 s5 := ⟨rfl, rfl, rfl, rfl, rfl, rfl, rfl, rfl, rfl, Or.inl rfl⟩
  have h8 : KeepsRun s8 s7 := InitializeAudioRecording_run eng s7
  have k8 : KeepsRun s8 s4 := h8.after (h7.after h5)
  by_cases hw : (!eng.bWorld) = true
  · rw [if_pos hw]; exact Or.inl ⟨hc, rfl, rfl⟩
  rw [if_neg hw]
  by_cases hr : (!s2.RigActor) = true
  · rw [if_pos hr]; exact Or.inl ⟨hc, rfl, rfl⟩
  rw [if_neg hr]
  by_cases ht : (!s3.TickActor) = true
  · rw [if_pos ht]; exact Or.inl ⟨hc, rfl, rfl⟩
  rw [if_neg ht]
  have hr2 : s2.RigActor = true := by simpa using hr
  refine Or.inr ⟨⟨by simpa using hw, hr2, by simpa using ht⟩, rfl, rfl, ?_, rfl, ?_, ?_, ?_, ?_, ?_⟩
  · show s8.bIsPaused = _
    rw [k8.paused]; rfl
  · show s8.CompletedSegments = _
    rw [k8.completed]; rfl
  · show s8.CapturedFrameMetadata = _
    rw [k8.captured]; rfl
  · show s8.ActiveSettings.Quality = _
    rw [k8.settings]; rfl
  · show s8.RigActor = true
    rw [(InitializeAudioRecording_actors eng s7).1]
    show s5.RigActor = true
    rw [(InitializeOutputWriters_actors eng s4).1]
    exact hr2
  · show s8.RingBuffer.isSome = true
    rw [(InitializeAudioRecording_actors eng s7).2]
    rfl

/-- The three outcomes of `BeginCapture`: nothing happens (a capture is running or the
resolution is not positive); the request is given up after the reset, with the state
label as before and the pause flag cleared; or the capture is recording with the frame
counter at zero, no frame in either list, the requested quality settings, a rig and a
ring buffer. -/
theorem BeginCapture_outcomes (eng : FEngine) (s : UOmniCaptureSubsystem)
    (In : FOmniCaptureSettings) :
    BeginCapture eng s In = s ∨
    (s.bIsCapturing = false ∧ (BeginCapture eng s In).bIsCapturing = false ∧
      (BeginCapture eng s In).State = s.State ∧
      (BeginCapture eng s In).bIsPaused = false) ∨
    (s.bIsCapturing = false ∧ 0 < In.Resolution ∧
      (eng.bWorld = true ∧ eng.bSpawnRig = true ∧ eng.bSpawnDirector = true) ∧
      (BeginCapture eng s In).bIsCapturing = true ∧
      (BeginCapture eng s In).State = .Recording ∧
      (BeginCapture eng s In).bIsPaused = false ∧
      (BeginCapture eng s In).FrameCounter = 0 ∧
      (BeginCapture eng s In).CompletedSegments = [] ∧
      (BeginCapture eng s In).CapturedFrameMetadata = [] ∧
      (BeginCapture eng s In).ActiveSettings.Quality = In.Quality ∧
      (BeginCapture eng s In).RigActor = true ∧
      (BeginCapture eng s In).RingBuffer.isSome = true) := by
  by_cases hs : s.bIsCapturing = true
  · left
    unfold BeginCapture
    rw [if_pos hs]
  have hs0 : s.bIsCapturing = false := by simpa using hs
  by_cases hres : 0 < In.Resolution
  swap
  · left
    unfold BeginCapture
    rw [if_neg hs, if_pos (by omega)]
  right
  rw [BeginCapture_eq eng s In hs0 hres]
  have k1 := ValidateEnvironment_session eng (BeginCaptureReset eng s In)
  have k2 := (ApplyFallbacks_session eng
    (ValidateEnvironment eng (BeginCaptureReset eng s In)).2).onto k1
  have c0 : (BeginCaptureReset eng s In).bIsCapturing = false := hs0
  have hcap := k2.capturing.trans c0
  have hpa : (ApplyFallbacks eng (ValidateEnvironment eng (BeginCaptureReset eng s In)).2).2.bIsPaused
      = false := k2.paused.trans rfl
  have hstate : (ApplyFallbacks eng
      (ValidateEnvironment eng (BeginCaptureReset eng s In)).2).2.State = s.State :=
    k2.state.trans rfl
  split_ifs
  · rcases BeginCaptureStart_session eng _ hcap with h | h
    · exact Or.inl ⟨hs0, h.1, h.2.1.trans hstate, h.2.2.trans hpa⟩
    · obtain ⟨he, h1, h2, h3, h4, h5, h6, h7, h8, h9⟩ := h
      exact Or.inr ⟨hs0, hres, he, h1, h2, h3.trans hpa, h4, h5.trans (k2.completed.trans rfl),
        h6, h7.trans (k2.quality.trans rfl), h8, h9⟩
  · exact Or.inl ⟨hs0, hcap, hstate, hpa⟩

end UOmniCaptureSubsystem

end OmniCapture

namespace OmniCapture

namespace UOmniCaptureSubsystem

/-- `CaptureFrame` on a state with a rig, a ring buffer and a zero `GOPLength`, for a
frame whose conversion is usable: the key-frame computation divides by zero. -/
theorem CaptureFrame_zero_gop (eng : FEngine) (inp : FFrameInput) (s : UOmniCaptureSubsystem)
    (hrig : s.RigActor = true) (hring : s.RingBuffer.isSome = true)
    (hG : s.ActiveSettings.Quality.GOPLength = 0)
    (hpix : (ConvertToEquirectangular inp.ops inp.gpu inp.bSupportsCompute s.ActiveSettings
      inp.LeftEye inp.RightEye).PixelData.isSome = true)
    (htex : s.ActiveSettings.OutputFormat = .NVENCHardware →
      (ConvertToEquirectangular inp.ops inp.gpu inp.bSupportsCompute s.ActiveSettings
        inp.LeftEye inp.RightEye).Texture.isSome = true) :
    CaptureFrame eng inp s = none := by
  unfold CaptureFrame
  have hnone : s.RingBuffer.isNone = false := by
    cases h : s.RingBuffer with
    | none => rw [h] at hring; cases hring
    | some rb => rfl
  rw [if_neg (by rw [hrig, hnone]; decide)]
  lift_lets
  intro R bReq
  have hp : R.PixelData.isNone = false := by
    have : R.PixelData.isSome = true := hpix
    cases h : R.PixelData with
    | none => rw [h] at this; cases this
    | some p => rfl
  rw [if_neg (by rw [hp]; decide)]
  have ht : (bReq && R.Texture.isNone) = false := by
    by_cases ho : s.ActiveSettings.OutputFormat = .NVENCHardware
    · have : R.Texture.isSome = true := htex ho
      cases h : R.Texture with
      | none => rw [h] at this; cases this
      | some p => simp
    · have : bReq = false := decide_eq_false ho
      rw [this]; rfl
  rw [if_neg (by rw [ht]; decide), if_pos hG]

end UOmniCaptureSubsystem

open UOmniCaptureSubsystem in
/-- C27, the divergence: `BeginCapture` has no guard on `Quality.GOPLength`. Whenever
it accepts settings with `GOPLength = 0` (from a state that is not capturing, it ends
capturing), the state is `Recording` with `GOPLength = 0` in the active settings, and
the first `CaptureFrame` whose conversion is usable reaches `FrameIndex % GOPLength`
with a zero divisor (`none` in the model). -/
theorem C27_zero_gop_accepted_then_divides_by_zero (eng eng2 : FEngine) (inp : FFrameInput)
    (s : UOmniCaptureSubsystem) (In : FOmniCaptureSettings)
    (hs : s.bIsCapturing = false) (hacc : (BeginCapture eng s In).bIsCapturing = true)
    (hG : In.Quality.GOPLength = 0)
    (hpix : (ConvertToEquirectangular inp.ops inp.gpu inp.bSupportsCompute
      (BeginCapture eng s In).ActiveSettings inp.LeftEye inp.RightEye).PixelData.isSome = true)
    (htex : (BeginCapture eng s In).ActiveSettings.OutputFormat = .NVENCHardware →
      (ConvertToEquirectangular inp.ops inp.gpu inp.bSupportsCompute
        (BeginCapture eng s In).ActiveSettings inp.LeftEye inp.RightEye).Texture.isSome = true) :
    (BeginCapture eng s In).State = .Recording ∧
    (BeginCapture eng s In).ActiveSettings.Quality.GOPLength = 0 ∧
    CaptureFrame eng2 inp (BeginCapture eng s In) = none := by
  rcases BeginCapture_outcomes eng s In with h | h | h
  · rw [h, hs] at hacc; cases hacc
  · rw [h.2.1] at hacc; cases hacc
  · obtain ⟨_, _, _, _, hst, _, _, _, _, hq, hrig, hring⟩ := h
    have hG2 : (BeginCapture eng s In).ActiveSettings.Quality.GOPLength = 0 := by
      rw [hq]; exact hG
    exact ⟨hst, hG2, CaptureFrame_zero_gop eng2 inp _ hrig hring hG2 hpix htex⟩

open UOmniCaptureSubsystem in
/-- C27 at a concrete input: from the initial state, on an engine where every actor
spawns, `BeginCapture` with `GOPLength = 0` (image-sequence output) moves to `Recording`,
and the first tick with readable faces divides by zero. -/
theorem C27_zero_gop_accepted_then_divides_by_zero_witness :
    (sZeroGOP.Quality.GOPLength = 0 ∧ 0 < sZeroGOP.Resolution ∧
      (BeginCapture (engineOn hostWindows) {} sZeroGOP).bIsCapturing = true) ∧
    ((BeginCapture (engineOn hostWindows) {} sZeroGOP).State = .Recording ∧
      (BeginCapture (engineOn hostWindows) {} sZeroGOP).ActiveSettings.Quality.GOPLength = 0 ∧
      CaptureFrame (engineOn hostWindows) inputOne
        (BeginCapture (engineOn hostWindows) {} sZeroGOP) = none) ∧
    Run [.BeginCapture (engineOn hostWindows) sZeroGOP,
      .TickCapture (engineOn hostWindows) inputOne] {} = none ∧
    (Run [.BeginCapture (engineOn hostWindows) sMono1,
      .TickCapture (engineOn hostWindows) inputOne] {}).isSome = true :=
  ⟨⟨rfl, by decide, by decide⟩,
    C27_zero_gop_accepted_then_divides_by_zero (engineOn hostWindows) (engineOn hostWindows)
      inputOne {} sZeroGOP rfl (by decide) rfl (by decide) (by decide),
    by decide, by decide⟩

end OmniCapture

namespace OmniCapture

namespace UOmniCaptureSubsystem

theorem FramesNumbered_append (G : Int) (l : List FOmniCaptureFrameMetadata)
    (m : FOmniCaptureFrameMetadata) (hl : FramesNumbered G l)
    (hi : m.FrameIndex = (l.length : Int))
    (hk : m.bKeyFrame = true ↔ (l.length : Int) % G = 0) : FramesNumbered G (l ++ [m]) := by
  intro k h
  by_cases hlt : k < l.length
  · have e : (l ++ [m]).get ⟨k, h⟩ = l.get ⟨k, hlt⟩ := by
      simp [List.getElem_append_left, hlt]
    rw [e]
    exact hl k hlt
  · have hk2 : k = l.length := by
      simp at h
      omega
    subst hk2
    have e : (l ++ [m]).get ⟨l.length, h⟩ = m := by simp
    rw [e]
    exact ⟨hi, hk⟩

theorem Numbered_of_same {a b : UOmniCaptureSubsystem} (hc : a.bIsCapturing = b.bIsCapturing)
    (hq : a.ActiveSettings.Quality = b.ActiveSettings.Quality)
    (hn : a.FrameCounter = b.FrameCounter) (hf : a.SessionFrames = b.SessionFrames)
    (hb : Numbered b) : Numbered a := by
  intro h1 h2
  rw [hq, hn, hf]
  exact hb (hc ▸ h1) (hq ▸ h2)

theorem KeepsRun.frames {a b : UOmniCaptureSubsystem} (h : KeepsRun a b) :
    a.SessionFrames = b.SessionFrames := by
  unfold SessionFrames
  rw [h.completed, h.captured]

theorem KeepsRun.quality {a b : UOmniCaptureSubsystem} (h : KeepsRun a b) :
    a.ActiveSettings.Quality = b.ActiveSettings.Quality := by
  rw [h.settings]

/-- A rotation, due or not, keeps the flags, the quality settings, the frame counter and
the frames of the session. -/
theorem RotateSegmentIfNeeded_session (eng : FEngine) (s : UOmniCaptureSubsystem)
    (hc : s.bIsCapturing = true) :
    (RotateSegmentIfNeeded eng s).bIsCapturing = s.bIsCapturing ∧
    (RotateSegmentIfNeeded eng s).bIsPaused = s.bIsPaused ∧
    ((RotateSegmentIfNeeded eng s).State = s.State ∨
      (RotateSegmentIfNeeded eng s).State = .DroppedFrames) ∧
    (RotateSegmentIfNeeded eng s).ActiveSettings.Quality = s.ActiveSettings.Quality ∧
    (RotateSegmentIfNeeded eng s).FrameCounter = s.FrameCounter ∧
    (RotateSegmentIfNeeded eng s).SessionFrames = s.SessionFrames := by
  by_cases hd : (ShouldRotate eng s).1 = true
  · by_cases hne : s.CapturedFrameMetadata = []
    · have k := RotateSegmentIfNeeded_run_deferred eng s (Or.inr (Or.inr hne))
      exact ⟨k.capturing, k.paused, k.state, k.quality, k.counter, k.frames⟩
    · obtain ⟨⟨Segment, h1, _, _, _, h5⟩, _, h7, _, h9, h10, h11, h12, _, h14⟩ :=
        RotateSegmentIfNeeded_fires eng s hc hd hne
      refine ⟨h11, h12, h14, h9, h10, ?_⟩
      unfold SessionFrames
      rw [h1, h7, List.flatMap_append, ← h5]
      simp [List.flatMap]
  · have hd2 : (ShouldRotate eng s).1 = false := by simpa using hd
    have k := RotateSegmentIfNeeded_run_deferred eng s (Or.inr (Or.inl hd2))
    exact ⟨k.capturing, k.paused, k.state, k.quality, k.counter, k.frames⟩

/-- The effect of an accepted frame on the session: the frame counter is incremented and
one metadata entry, with the old counter as index and the key-frame flag of the modulus,
is appended to the active segment; the flags, the state label, the settings and the
completed segments are kept. -/
theorem CaptureFrameAccept_session (eng : FEngine) (inp : FFrameInput)
    (s : UOmniCaptureSubsystem) (R : FOmniCaptureEquirectResult) :
    (CaptureFrameAccept eng inp s R).bIsCapturing = s.bIsCapturing ∧
    (CaptureFrameAccept eng inp s R).bIsPaused = s.bIsPaused ∧
    (CaptureFrameAccept eng inp s R).State = s.State ∧
    (CaptureFrameAccept eng inp s R).ActiveSettings = s.ActiveSettings ∧
    (CaptureFrameAccept eng inp s R).CompletedSegments = s.CompletedSegments ∧
    (CaptureFrameAccept eng inp s R).FrameCounter = s.FrameCounter + 1 ∧
    ∃ m : FOmniCaptureFrameMetadata,
      (CaptureFrameAccept eng inp s R).CapturedFrameMetadata = s.CapturedFrameMetadata ++ [m] ∧
      m.FrameIndex = s.FrameCounter ∧
      m.bKeyFrame = decide (Int.tmod s.FrameCounter s.ActiveSettings.Quality.GOPLength = 0) := by
  unfold CaptureFrameAccept
  lift_lets
  intro Frame s1 s2 s3 s4 s5 Now
  have h2 : KeepsRun s2 s1 := SampleFps_run _ s1
  have h5 : s5.bIsCapturing = s4.bIsCapturing ∧ s5.bIsPaused = s4.bIsPaused ∧
      s5.State = s4.State ∧ s5.ActiveSettings = s4.ActiveSettings ∧
      s5.CompletedSegments = s4.CompletedSegments ∧ s5.FrameCounter = s4.FrameCounter ∧
      s5.CapturedFrameMetadata = s4.CapturedFrameMetadata := by
    unfold s5
    cases s4.RingBuffer with
    | none => exact ⟨rfl, rfl, rfl, rfl, rfl, rfl, rfl⟩
    | some rb => exact ⟨rfl, rfl, rfl, rfl, rfl, rfl, rfl⟩
  have hstate : s2.State = s1.State := by
    unfold s2 SampleFps
    lift_lets
    intro t1 t2 Elapsed Safe
    have e2 : t2.State = s1.State := by
      unfold t2
      split_ifs <;> rfl
    split_ifs
    · exact e2
    · exact e2
  have key : s5.bIsCapturing = s.bIsCapturing ∧ s5.bIsPaused = s.bIsPaused ∧
      s5.State = s.State ∧ s5.ActiveSettings = s.ActiveSettings ∧
      s5.CompletedSegments = s.CompletedSegments ∧ s5.FrameCounter = s.FrameCounter + 1 ∧
      ∃ m : FOmniCaptureFrameMetadata,
        s5.CapturedFrameMetadata = s.CapturedFrameMetadata ++ [m] ∧
        m.FrameIndex = s.FrameCounter ∧
        m.bKeyFrame = decide (Int.tmod s.FrameCounter s.ActiveSettings.Quality.GOPLength = 0) := by
    refine ⟨h5.1.trans (h2.capturing.trans rfl), h5.2.1.trans (h2.paused.trans rfl),
      h5.2.2.1.trans (hstate.trans rfl), h5.2.2.2.1.trans (h2.settings.trans rfl),
      h5.2.2.2.2.1.trans (h2.completed.trans rfl), h5.2.2.2.2.2.1.trans (h2.counter.trans rfl),
      Frame.Metadata, ?_, rfl, rfl⟩
    rw [h5.2.2.2.2.2.2]
    show s2.CapturedFrameMetadata ++ [Frame.Metadata] = _
    rw [h2.captured]
  split_ifs <;> exact key

theorem Numbered_accept {s t : UOmniCaptureSubsystem} (hs : Numbered s)
    (hc : t.bIsCapturing = s.bIsCapturing)
    (hq : t.ActiveSettings = s.ActiveSettings)
    (hcs : t.CompletedSegments = s.CompletedSegments)
    (hn : t.FrameCounter = s.FrameCounter + 1)
    (hm : ∃ m : FOmniCaptureFrameMetadata,
      t.CapturedFrameMetadata = s.CapturedFrameMetadata ++ [m] ∧
      m.FrameIndex = s.FrameCounter ∧
      m.bKeyFrame = decide (Int.tmod s.FrameCounter s.ActiveSettings.Quality.GOPLength = 0)) :
    Numbered t := by
  intro h1 h2
  obtain ⟨m, hm1, hm2, hm3⟩ := hm
  rw [hq] at h2 ⊢
  obtain ⟨hlen, hnum⟩ := hs (hc ▸ h1) h2
  have hf : t.SessionFrames = s.SessionFrames ++ [m] := by
    unfold SessionFrames
    rw [hcs, hm1, List.append_assoc]
  rw [hf, hn]
  refine ⟨by rw [hlen]; simp, FramesNumbered_append _ _ m hnum (hm2.trans hlen) ?_⟩
  rw [hm3, decide_eq_true_eq, hlen, Int.tmod_eq_emod (by omega) (by omega)]

end UOmniCaptureSubsystem

end OmniCapture

namespace OmniCapture

namespace UOmniCaptureSubsystem

/-- The three ways out of `CaptureFrame`: the frame is dropped, the key-frame
computation divides by zero, or the frame is accepted. -/
theorem CaptureFrame_cases (eng : FEngine) (inp : FFrameInput) (s : UOmniCaptureSubsystem) :
    CaptureFrame eng inp s = some (HandleDroppedFrame s) ∨ CaptureFrame eng inp s = none ∨
    ∃ R : FOmniCaptureEquirectResult,
      CaptureFrame eng inp s = some (CaptureFrameAccept eng inp s R) := by
  unfold CaptureFrame
  lift_lets
  intro R bReq
  split_ifs
  · exact Or.inl rfl
  · exact Or.inl rfl
  · exact Or.inl rfl
  · exact Or.inr (Or.inl rfl)
  · exact Or.inr (Or.inr ⟨R, rfl⟩)

theorem TickCapture_eq (eng : FEngine) (inp : FFrameInput) (s : UOmniCaptureSubsystem)
    (hc : s.bIsCapturing = true) :
    TickCapture eng inp s =
      (if (!s.bIsPaused) = true then CaptureFrame eng inp (RotateSegmentIfNeeded eng s)
        else some s).map (UpdateRuntimeWarnings eng) := by
  unfold TickCapture
  rw [if_neg (by rw [hc]; decide)]

/-- What one `CaptureFrame` that returns does to the session. -/
theorem CaptureFrame_session (eng : FEngine) (inp : FFrameInput)
    (s t : UOmniCaptureSubsystem) (h : CaptureFrame eng inp s = some t) :
    t.bIsCapturing = s.bIsCapturing ∧ t.bIsPaused = s.bIsPaused ∧
    (t.State = s.State ∨ t.State = .DroppedFrames) ∧
    t.ActiveSettings.Quality = s.ActiveSettings.Quality ∧
    (Numbered s → Numbered t) := by
  have hdrop : ∀ u : UOmniCaptureSubsystem, some (HandleDroppedFrame s) = some u →
      u.bIsCapturing = s.bIsCapturing ∧ u.bIsPaused = s.bIsPaused ∧
      (u.State = s.State ∨ u.State = .DroppedFrames) ∧
      u.ActiveSettings.Quality = s.ActiveSettings.Quality ∧
      (Numbered s → Numbered u) := by
    intro u hu
    have e : HandleDroppedFrame s = u := Option.some.inj hu
    have k : KeepsRun u s := e ▸ HandleDroppedFrame_run s
    exact ⟨k.capturing, k.paused, k.state, k.quality,
      fun hn => Numbered_of_same k.capturing k.quality k.counter k.frames hn⟩
  rcases CaptureFrame_cases eng inp s with c | c | ⟨R, c⟩
  · rw [c] at h
    exact hdrop t h
  · rw [c] at h
    cases h
  · rw [c] at h
    have e : CaptureFrameAccept eng inp s R = t := Option.some.inj h
    obtain ⟨a1, a2, a3, a4, a5, a6, a7⟩ := CaptureFrameAccept_session eng inp s R
    rw [e] at a1 a2 a3 a4 a5 a6 a7
    exact ⟨a1, a2, Or.inl a3, by rw [a4], fun hn => Numbered_accept hn a1 a4 a5 a6 a7⟩

/-- What one `TickCapture` that returns does to the session. -/
theorem TickCapture_session (eng : FEngine) (inp : FFrameInput)
    (s t : UOmniCaptureSubsystem) (h : TickCapture eng inp s = some t) :
    t.bIsCapturing = s.bIsCapturing ∧ t.bIsPaused = s.bIsPaused ∧
    (t.State = s.State ∨ (s.bIsCapturing = true ∧ t.State = .DroppedFrames)) ∧
    t.ActiveSettings.Quality = s.ActiveSettings.Quality ∧
    (Numbered s → Numbered t) := by
  by_cases hc : (!s.bIsCapturing) = true
  · unfold TickCapture at h
    rw [if_pos hc] at h
    have e : s = t := Option.some.inj h
    subst e
    exact ⟨rfl, rfl, Or.inl rfl, rfl, fun hn => hn⟩
  have hcap : s.bIsCapturing = true := by simpa using hc
  rw [TickCapture_eq eng inp s hcap] at h
  cases hr : (if (!s.bIsPaused) = true then CaptureFrame eng inp (RotateSegmentIfNeeded eng s)
      else some s) with
  | none => rw [hr] at h; cases h
  | some u =>
    rw [hr] at h
    have e : UpdateRuntimeWarnings eng u = t := Option.some.inj h
    have k : KeepsRun t u := e ▸ UpdateRuntimeWarnings_run eng u
    have hu : u.bIsCapturing = s.bIsCapturing ∧ u.bIsPaused = s.bIsPaused ∧
        (u.State = s.State ∨ u.State = .DroppedFrames) ∧
        u.ActiveSettings.Quality = s.ActiveSettings.Quality ∧
        (Numbered s → Numbered u) := by
      by_cases hp : (!s.bIsPaused) = true
      · have hr2 : CaptureFrame eng inp (RotateSegmentIfNeeded eng s) = some u := by
          rw [← hr]
          exact (if_pos hp).symm
        obtain ⟨c1, c2, c3, c4, c5⟩ := CaptureFrame_session eng inp _ u hr2
        obtain ⟨r1, r2, r3, r4, r5, r6⟩ := RotateSegmentIfNeeded_session eng s hcap
        refine ⟨c1.trans r1, c2.trans r2, ?_, c4.trans r4,
          fun hn => c5 (Numbered_of_same r1 r4 r5 r6 hn)⟩
        rcases c3 with c3 | c3
        · rcases r3 with r3 | r3
          · exact Or.inl (c3.trans r3)
          · exact Or.inr (c3.trans r3)
        · exact Or.inr c3
      · have hr2 : some s = some u := by
          rw [← hr]
          exact (if_neg hp).symm
        have e2 : s = u := Option.some.inj hr2
        subst e2
        exact ⟨rfl, rfl, Or.inl rfl, rfl, fun hn => hn⟩
    obtain ⟨u1, u2, u3, u4, u5⟩ := hu
    refine ⟨k.capturing.trans u1, k.paused.trans u2, ?_, k.quality.trans u4,
      fun hn => Numbered_of_same k.capturing k.quality k.counter k.frames (u5 hn)⟩
    rcases k.state with ks | ks
    · rcases u3 with u3 | u3
      · exact Or.inl (ks.trans u3)
      · exact Or.inr ⟨hcap, ks.trans u3⟩
    · exact Or.inr ⟨hcap, ks⟩

/-- `PauseCapture` does nothing, or pauses a running capture and keeps the session. -/
theorem PauseCapture_session (eng : FEngine) (s : UOmniCaptureSubsystem) :
    PauseCapture eng s = s ∨
    (s.bIsCapturing = true ∧ (PauseCapture eng s).bIsCapturing = true ∧
      (PauseCapture eng s).bIsPaused = true ∧
      ((PauseCapture eng s).State = .Paused ∨ (PauseCapture eng s).State = .DroppedFrames) ∧
      (PauseCapture eng s).ActiveSettings.Quality = s.ActiveSettings.Quality ∧
      (PauseCapture eng s).FrameCounter = s.FrameCounter ∧
      (PauseCapture eng s).SessionFrames = s.SessionFrames) := by
  unfold PauseCapture
  by_cases hg : (!s.bIsCapturing || s.bIsPaused) = true
  · rw [if_pos hg]; exact Or.inl rfl
  rw [if_neg hg]
  have hcap : s.bIsCapturing = true := by
    cases h : s.bIsCapturing with
    | true => rfl
    | false => rw [h] at hg; exact absurd rfl hg
  right
  lift_lets
  intro s1 s2
  have k : KeepsRun s2 s1 := FlushRingBuffer_run eng s1
  refine ⟨hcap, ?_, ?_, ?_, ?_, ?_, ?_⟩
  · show s2.bIsCapturing = true
    rw [k.capturing]; exact hcap
  · show s2.bIsPaused = true
    rw [k.paused]
  · show s2.State = .Paused ∨ s2.State = .DroppedFrames
    exact k.state
  · show s2.ActiveSettings.Quality = _
    rw [k.settings]
  · show s2.FrameCounter = _
    rw [k.counter]
  · unfold SessionFrames
    show s2.CompletedSegments.flatMap _ ++ s2.CapturedFrameMetadata = _
    rw [k.completed, k.captured]

/-- `ResumeCapture` does nothing, or resumes a paused capture and keeps the session. -/
theorem ResumeCapture_session (s : UOmniCaptureSubsystem) :
    ResumeCapture s = s ∨
    (s.bIsCapturing = true ∧ (ResumeCapture s).bIsCapturing = true ∧
      (ResumeCapture s).bIsPaused = false ∧
      ((ResumeCapture s).State = .Recording ∨ (ResumeCapture s).State = .DroppedFrames) ∧
      (ResumeCapture s).ActiveSettings.Quality = s.ActiveSettings.Quality ∧
      (ResumeCapture s).FrameCounter = s.FrameCounter ∧
      (ResumeCapture s).SessionFrames = s.SessionFrames) := by
  unfold ResumeCapture
  by_cases hg : (!s.bIsCapturing || !s.bIsPaused) = true
  · rw [if_pos hg]; exact Or.inl rfl
  rw [if_neg hg]
  have hcap : s.bIsCapturing = true := by
    cases h : s.bIsCapturing with
    | true => rfl
    | false => rw [h] at hg; exact absurd rfl hg
  right
  refine ⟨hcap, hcap, rfl, ?_, rfl, rfl, rfl⟩
  show (if s.bDroppedFrames = true then EOmniCaptureState.DroppedFrames else .Recording) = _ ∨
    (if s.bDroppedFrames = true then EOmniCaptureState.DroppedFrames else .Recording) = _
  split_ifs
  · exact Or.inr rfl
  · exact Or.inl rfl

/-- `EndCapture` does nothing, or ends idle with both flags cleared. -/
theorem EndCapture_session (eng : FEngine) (s : UOmniCaptureSubsystem) (bFinalize : Bool) :
    EndCapture eng s bFinalize = s ∨
    ((EndCapture eng s bFinalize).bIsCapturing = false ∧
      (EndCapture eng s bFinalize).bIsPaused = false ∧
      (EndCapture eng s bFinalize).State = .Idle) := by
  unfold EndCapture
  by_cases hg : (!s.bIsCapturing) = true
  · rw [if_pos hg]; exact Or.inl rfl
  rw [if_neg hg]
  right
  lift_lets
  intro s1 s2 s3 s4 s5 s6 s7 s8
  have h3 := ShutdownAudioRecording_fields eng s2
  have h4 := FlushRingBuffer_fields eng s3
  have h5 : s5.bIsCapturing = s3.bIsCapturing ∧ s5.bIsPaused = s3.bIsPaused := by
    unfold s5
    cases s3.RingBuffer with
    | none => exact ⟨rfl, rfl⟩
    | some rb => exact ⟨h4.1, h4.2.1⟩
  have h8 := FinalizeOutputs_fields eng s7 bFinalize
  refine ⟨?_, ?_, rfl⟩
  · show s8.bIsCapturing = false
    exact h8.1.trans (h5.1.trans h3.1)
  · show s8.bIsPaused = false
    exact h8.2.trans (h5.2.trans h3.2.1)

/-- Every call keeps the numbering of the running session. -/
theorem Step_numbered (s t : UOmniCaptureSubsystem) (c : FCall) (h : s.Step c = some t)
    (hs : Numbered s) : Numbered t := by
  cases c with
  | BeginCapture eng In =>
    have e : BeginCapture eng s In = t := Option.some.inj h
    subst e
    rcases BeginCapture_outcomes eng s In with o | o | o
    · rw [o]; exact hs
    · intro hc
      rw [o.2.1] at hc
      cases hc
    · obtain ⟨_, _, _, _, _, _, hn, hcs, hcm, _, _, _⟩ := o
      intro _ _
      have hf : (BeginCapture eng s In).SessionFrames = [] := by
        unfold SessionFrames
        rw [hcs, hcm]
        rfl
      rw [hf, hn]
      exact ⟨rfl, fun k hk => absurd hk (Nat.not_lt_zero k)⟩
  | TickCapture eng inp => exact (TickCapture_session eng inp s t h).2.2.2.2 hs
  | PauseCapture eng =>
    have e : PauseCapture eng s = t := Option.some.inj h
    subst e
    rcases PauseCapture_session eng s with o | o
    · rw [o]; exact hs
    · exact Numbered_of_same (o.2.1.trans o.1.symm) o.2.2.2.2.1 o.2.2.2.2.2.1 o.2.2.2.2.2.2 hs
  | ResumeCapture =>
    have e : ResumeCapture s = t := Option.some.inj h
    subst e
    rcases ResumeCapture_session s with o | o
    · rw [o]; exact hs
    · exact Numbered_of_same (o.2.1.trans o.1.symm) o.2.2.2.2.1 o.2.2.2.2.2.1 o.2.2.2.2.2.2 hs
  | EndCapture eng b =>
    have e : EndCapture eng s b = t := Option.some.inj h
    subst e
    rcases EndCapture_session eng s b with o | o
    · rw [o]; exact hs
    · intro hc
      rw [o.1] at hc
      cases hc

/-- Every call keeps the flags and the state label consistent. -/
theorem Step_consistent (s t : UOmniCaptureSubsystem) (c : FCall) (h : s.Step c = some t)
    (hs : Consistent s) : Consistent t := by
  obtain ⟨i1, i2, i3, i4⟩ := hs
  have active : ∀ u : UOmniCaptureSubsystem, u.bIsCapturing = true →
      (u.State = .Paused → u.bIsPaused = true) → u.State ≠ .Idle → u.State ≠ .Finalizing →
      Consistent u := fun u h1 h2 h3 h4 =>
    ⟨fun _ => h1, ⟨fun e => absurd e h3, fun e => by rw [h1] at e; cases e⟩, h2, h4⟩
  cases c with
  | BeginCapture eng In =>
    have e : BeginCapture eng s In = t := Option.some.inj h
    subst e
    rcases BeginCapture_outcomes eng s In with o | o | o
    · rw [o]; exact ⟨i1, i2, i3, i4⟩
    · obtain ⟨o1, o2, o3, o4⟩ := o
      have hidle : s.State = .Idle := i2.mpr o1
      refine ⟨fun e => ?_, ⟨fun _ => o2, fun _ => o3.trans hidle⟩, fun e => ?_, fun e => ?_⟩
      · rw [o4] at e; cases e
      · rw [o3, hidle] at e; cases e
      · rw [o3, hidle] at e; cases e
    · obtain ⟨_, _, _, o1, o2, _⟩ := o
      exact active _ o1 (fun e => by rw [o2] at e; cases e) (by rw [o2]; decide)
        (by rw [o2]; decide)
  | TickCapture eng inp =>
    obtain ⟨t1, t2, t3, _, _⟩ := TickCapture_session eng inp s t h
    rcases t3 with t3 | ⟨hc, t3⟩
    · exact ⟨fun e => t1.trans (i1 (t2 ▸ e)), ⟨fun e => t1.trans (i2.mp (t3 ▸ e)),
        fun e => t3.trans (i2.mpr (t1 ▸ e))⟩, fun e => t2.trans (i3 (t3 ▸ e)),
        fun e => i4 (t3 ▸ e)⟩
    · exact active t (t1.trans hc) (fun e => by rw [t3] at e; cases e) (by rw [t3]; decide)
        (by rw [t3]; decide)
  | PauseCapture eng =>
    have e : PauseCapture eng s = t := Option.some.inj h
    subst e
    rcases PauseCapture_session eng s with o | o
    · rw [o]; exact ⟨i1, i2, i3, i4⟩
    · obtain ⟨_, o1, o2, o3, _⟩ := o
      rcases o3 with o3 | o3
      · exact active _ o1 (fun _ => o2) (by rw [o3]; decide) (by rw [o3]; decide)
      · exact active _ o1 (fun _ => o2) (by rw [o3]; decide) (by rw [o3]; decide)
  | ResumeCapture =>
    have e : ResumeCapture s = t := Option.some.inj h
    subst e
    rcases ResumeCapture_session s with o | o
    · rw [o]; exact ⟨i1, i2, i3, i4⟩
    · obtain ⟨_, o1, o2, o3, _⟩ := o
      rcases o3 with o3 | o3
      · exact active _ o1 (fun e => by rw [o3] at e; cases e) (by rw [o3]; decide)
          (by rw [o3]; decide)
      · exact active _ o1 (fun e => by rw [o3] at e; cases e) (by rw [o3]; decide)
          (by rw [o3]; decide)
  | EndCapture eng b =>
    have e : EndCapture eng s b = t := Option.some.inj h
    subst e
    rcases EndCapture_session eng s b with o | o
    · rw [o]; exact ⟨i1, i2, i3, i4⟩
    · obtain ⟨o1, o2, o3⟩ := o
      refine ⟨fun e => ?_, ⟨fun _ => o1, fun _ => o3⟩, fun e => ?_, ?_⟩
      · rw [o2] at e; cases e
      · rw [o3] at e; cases e
      · rw [o3]; decide

theorem Run_numbered (calls : List FCall) :
    ∀ s t : UOmniCaptureSubsystem, Run calls s = some t → Numbered s → Numbered t := by
  induction calls with
  | nil =>
    intro s t h hs
    have e : s = t := Option.some.inj h
    exact e ▸ hs
  | cons c rest ih =>
    intro s t h hs
    unfold Run at h
    cases hc : s.Step c with
    | none => rw [hc] at h; cases h
    | some u =>
      rw [hc] at h
      exact ih u t h (Step_numbered s u c hc hs)

theorem Run_consistent (calls : List FCall) :
    ∀ s t : UOmniCaptureSubsystem, Run calls s = some t → Consistent s → Consistent t := by
  induction calls with
  | nil =>
    intro s t h hs
    have e : s = t := Option.some.inj h
    exact e ▸ hs
  | cons c rest ih =>
    intro s t h hs
    unfold Run at h
    cases hc : s.Step c with
    | none => rw [hc] at h; cases h
    | some u =>
      rw [hc] at h
      exact ih u t h (Step_consistent s u c hc hs)

end UOmniCaptureSubsystem

end OmniCapture

namespace OmniCapture

open UOmniCaptureSubsystem in
/-- C23: in every state reached from a state that is not capturing by any sequence of
`BeginCapture`, `TickCapture`, `PauseCapture`, `ResumeCapture` and `EndCapture` calls,
while a capture is running with `GOPLength > 0`: the frame counter is the number of
frames captured in the session so far (dropped frames add none), and the `k`-th of them
in capture order, across the completed segments and the active one, has `FrameIndex = k`
and is a key frame if and only if `k mod GOPLength = 0`. -/
theorem C23_frame_index_and_key_frame_flag (calls : List FCall)
    (s0 s : UOmniCaptureSubsystem) (h0 : s0.bIsCapturing = false)
    (h : Run calls s0 = some s) (hc : s.bIsCapturing = true)
    (hG : 0 < s.ActiveSettings.Quality.GOPLength) :
    s.FrameCounter = (s.SessionFrames.length : Int) ∧
    ∀ (k : Nat) (hk : k < s.SessionFrames.length),
      (s.SessionFrames.get ⟨k, hk⟩).FrameIndex = (k : Int) ∧
      ((s.SessionFrames.get ⟨k, hk⟩).bKeyFrame = true ↔
        (k : Int) % s.ActiveSettings.Quality.GOPLength = 0) :=
  Run_numbered calls s0 s h (fun e => by rw [h0] at e; cases e) hc hG

open UOmniCaptureSubsystem in
/-- C23 on a session of three frames with `GOPLength = 2`, a rotation after the first
frame and a pause before the third: the run returns a capturing state with one completed
segment, and the frames of the session have the indices 0, 1, 2 and the key-frame flags
true, false, true. -/
theorem C23_frame_index_and_key_frame_flag_witness :
    ∃ s : UOmniCaptureSubsystem, Run callsThreeFrames {} = some s ∧
      (s.bIsCapturing = true ∧ s.ActiveSettings.Quality.GOPLength = 2 ∧
        s.CompletedSegments.length = 1 ∧
        s.SessionFrames.map (fun m => (m.FrameIndex, m.bKeyFrame))
          = [(0, true), (1, false), (2, true)]) ∧
      s.FrameCounter = (s.SessionFrames.length : Int) ∧
      ∀ (k : Nat) (hk : k < s.SessionFrames.length),
        (s.SessionFrames.get ⟨k, hk⟩).FrameIndex = (k : Int) ∧
        ((s.SessionFrames.get ⟨k, hk⟩).bKeyFrame = true ↔
          (k : Int) % s.ActiveSettings.Quality.GOPLength = 0) := by
  have hsome : (Run callsThreeFrames {}).isSome = true := by decide!
  obtain ⟨s, hs⟩ := Option.isSome_iff_exists.mp hsome
  have hf : (Run callsThreeFrames {}).map (fun s =>
      (s.bIsCapturing, s.ActiveSettings.Quality.GOPLength, s.CompletedSegments.length,
        s.SessionFrames.map (fun m => (m.FrameIndex, m.bKeyFrame))))
      = some (true, 2, 1, [(0, true), (1, false), (2, true)]) := by decide!
  rw [hs] at hf
  have hf2 := Option.some.inj hf
  have e1 : s.bIsCapturing = true := congrArg (fun p => p.1) hf2
  have e2 : s.ActiveSettings.Quality.GOPLength = 2 := congrArg (fun p => p.2.1) hf2
  have e3 : s.CompletedSegments.length = 1 := congrArg (fun p => p.2.2.1) hf2
  have e4 : s.SessionFrames.map (fun m => (m.FrameIndex, m.bKeyFrame))
      = [(0, true), (1, false), (2, true)] := congrArg (fun p => p.2.2.2) hf2
  exact ⟨s, hs, ⟨e1, e2, e3, e4⟩,
    C23_frame_index_and_key_frame_flag callsThreeFrames {} s rfl hs e1 (by rw [e2]; decide)⟩

open UOmniCaptureSubsystem in
/-- C25: in every state reached from the initial state by any sequence of
`BeginCapture`, `TickCapture`, `PauseCapture`, `ResumeCapture` and `EndCapture` calls,
observed between calls, `bIsPaused` implies `bIsCapturing`, `State = Idle` if and only
if `bIsCapturing` is false, `State = Paused` implies `bIsPaused`, and the state is not
`Finalizing`. -/
theorem C25_flags_and_state_label_stay_consistent (calls : List FCall)
    (s : UOmniCaptureSubsystem) (h : Run calls {} = some s) :
    (s.bIsPaused = true → s.bIsCapturing = true) ∧
    (s.State = .Idle ↔ s.bIsCapturing = false) ∧
    (s.State = .Paused → s.bIsPaused = true) ∧
    s.State ≠ .Finalizing :=
  Run_consistent calls {} s h ⟨by decide, by decide, by decide, by decide⟩

open UOmniCaptureSubsystem in
/-- C25 on two runs: a session paused after one frame returns a state labelled `Paused`
with both flags set, the same session ended afterwards returns an idle state with both
flags cleared, and both states are consistent. -/
theorem C25_flags_and_state_label_stay_consistent_witness :
    (∃ s : UOmniCaptureSubsystem, Run callsPaused {} = some s ∧
      (s.State = .Paused ∧ s.bIsPaused = true ∧ s.bIsCapturing = true) ∧
      (s.bIsPaused = true → s.bIsCapturing = true) ∧
      (s.State = .Idle ↔ s.bIsCapturing = false) ∧
      (s.State = .Paused → s.bIsPaused = true) ∧
      s.State ≠ .Finalizing) ∧
    (∃ s : UOmniCaptureSubsystem,
      Run (callsPaused ++ [.EndCapture (engineOn hostWindows) true]) {} = some s ∧
      (s.State = .Idle ∧ s.bIsPaused = false ∧ s.bIsCapturing = false) ∧
      (s.bIsPaused = true → s.bIsCapturing = true) ∧
      (s.State = .Idle ↔ s.bIsCapturing = false) ∧
      (s.State = .Paused → s.bIsPaused = true) ∧
      s.State ≠ .Finalizing) := by
  have h1 : (Run callsPaused {}).isSome = true := by decide!
  obtain ⟨s, hs⟩ := Option.isSome_iff_exists.mp h1
  have f1 : (Run callsPaused {}).map (fun s => (s.State, s.bIsPaused, s.bIsCapturing))
      = some (.Paused, true, true) := by decide!
  rw [hs] at f1
  have f1b := Option.some.inj f1
  have h2 : (Run (callsPaused ++ [.EndCapture (engineOn hostWindows) true]) {}).isSome = true := by
    decide!
  obtain ⟨t, ht⟩ := Option.isSome_iff_exists.mp h2
  have f2 : (Run (callsPaused ++ [.EndCapture (engineOn hostWindows) true]) {}).map
      (fun s => (s.State, s.bIsPaused, s.bIsCapturing)) = some (.Idle, false, false) := by decide!
  rw [ht] at f2
  have f2b := Option.some.inj f2
  exact ⟨⟨s, hs, ⟨congrArg (fun p => p.1) f1b, congrArg (fun p => p.2.1) f1b,
      congrArg (fun p => p.2.2) f1b⟩, C25_flags_and_state_label_stay_consistent callsPaused s hs⟩,
    ⟨t, ht, ⟨congrArg (fun p => p.1) f2b, congrArg (fun p => p.2.1) f2b,
      congrArg (fun p => p.2.2) f2b⟩,
      C25_flags_and_state_label_stay_consistent _ t ht⟩⟩

end OmniCapture

namespace OmniCapture

namespace UOmniCaptureSubsystem

/-- Wherever `IsNVENCAvailable` is true, `QueryCapabilities` reports HEVC support: the
field is a copy of `bHardwareAvailable`. -/
theorem QueryCapabilities_hevc (host : FHost) (h : IsNVENCAvailable host = true) :
    (QueryCapabilities host).bSupportsHEVC = true := by
  unfold QueryCapabilities IsNVENCAvailable at *
  cases h1 : host.bWithOmniNVENC <;> cases h2 : host.bPlatformWindows <;>
    simp_all

/-- `ApplyFallbacks` never replaces the codec and never records the warning of the
HEVC to H.264 substitution: the step that would do both is guarded by
`!Caps.bSupportsHEVC`, which is false wherever the step is reached. -/
theorem ApplyFallbacks_codec (eng : FEngine) (t : UOmniCaptureSubsystem) :
    (ApplyFallbacks eng t).2.ActiveSettings.Codec = t.ActiveSettings.Codec ∧
    ("HEVC unsupported - falling back to H.264" ∈ (ApplyFallbacks eng t).2.ActiveWarnings →
      "HEVC unsupported - falling back to H.264" ∈ t.ActiveWarnings) := by
  have hmem : ∀ (l : List String) (w : String),
      w ≠ "HEVC unsupported - falling back to H.264" →
      "HEVC unsupported - falling back to H.264" ∈ l ++ [w] →
      "HEVC unsupported - falling back to H.264" ∈ l := by
    intro l w hw h
    rcases List.mem_append.mp h with h | h
    · exact h
    · exact absurd (List.mem_singleton.mp h).symm hw
  have hfmt : ∀ (u : UOmniCaptureSubsystem) (w : String) (f : EOmniCaptureColorFormat),
      w ≠ "HEVC unsupported - falling back to H.264" →
      ((u.AddWarning w).SetColorFormat f).ActiveSettings.Codec = u.ActiveSettings.Codec ∧
      ("HEVC unsupported - falling back to H.264" ∈
          ((u.AddWarning w).SetColorFormat f).ActiveWarnings →
        "HEVC unsupported - falling back to H.264" ∈ u.ActiveWarnings) :=
    fun u w f hw => ⟨rfl, hmem u.ActiveWarnings w hw⟩
  have hzero : ∀ (u : UOmniCaptureSubsystem) (w : String) (b : Bool),
      w ≠ "HEVC unsupported - falling back to H.264" →
      ((u.AddWarning w).SetZeroCopy b).ActiveSettings.Codec = u.ActiveSettings.Codec ∧
      ("HEVC unsupported - falling back to H.264" ∈
          ((u.AddWarning w).SetZeroCopy b).ActiveWarnings →
        "HEVC unsupported - falling back to H.264" ∈ u.ActiveWarnings) :=
    fun u w b hw => ⟨rfl, hmem u.ActiveWarnings w hw⟩
  have hout : ∀ (u : UOmniCaptureSubsystem) (w : String) (f : EOmniOutputFormat),
      w ≠ "HEVC unsupported - falling back to H.264" →
      ((u.AddWarning w).SetOutputFormat f).ActiveSettings.Codec = u.ActiveSettings.Codec ∧
      ("HEVC unsupported - falling back to H.264" ∈
          ((u.AddWarning w).SetOutputFormat f).ActiveWarnings →
        "HEVC unsupported - falling back to H.264" ∈ u.ActiveWarnings) :=
    fun u w f hw => ⟨rfl, hmem u.ActiveWarnings w hw⟩
  have hadd : ∀ (u : UOmniCaptureSubsystem) (w : String),
      w ≠ "HEVC unsupported - falling back to H.264" →
      (u.AddWarning w).ActiveSettings.Codec = u.ActiveSettings.Codec ∧
      ("HEVC unsupported - falling back to H.264" ∈ (u.AddWarning w).ActiveWarnings →
        "HEVC unsupported - falling back to H.264" ∈ u.ActiveWarnings) :=
    fun u w hw => ⟨rfl, hmem u.ActiveWarnings w hw⟩
  have hrefl : ∀ u : UOmniCaptureSubsystem,
      u.ActiveSettings.Codec = u.ActiveSettings.Codec ∧
      ("HEVC unsupported - falling back to H.264" ∈ u.ActiveWarnings →
        "HEVC unsupported - falling back to H.264" ∈ u.ActiveWarnings) :=
    fun _ => ⟨rfl, fun h => h⟩
  have htrans : ∀ a b c : UOmniCaptureSubsystem,
      (a.ActiveSettings.Codec = b.ActiveSettings.Codec ∧
        ("HEVC unsupported - falling back to H.264" ∈ a.ActiveWarnings →
          "HEVC unsupported - falling back to H.264" ∈ b.ActiveWarnings)) →
      (b.ActiveSettings.Codec = c.ActiveSettings.Codec ∧
        ("HEVC unsupported - falling back to H.264" ∈ b.ActiveWarnings →
          "HEVC unsupported - falling back to H.264" ∈ c.ActiveWarnings)) →
      (a.ActiveSettings.Codec = c.ActiveSettings.Codec ∧
        ("HEVC unsupported - falling back to H.264" ∈ a.ActiveWarnings →
          "HEVC unsupported - falling back to H.264" ∈ c.ActiveWarnings)) :=
    fun _ _ _ h1 h2 => ⟨h1.1.trans h2.1, fun h => h2.2 (h1.2 h)⟩
  unfold ApplyFallbacks
  lift_lets
  intro host Caps s1 s2 s3 s4 s5
  by_cases hfirst : t.ActiveSettings.OutputFormat = .NVENCHardware ∧ IsNVENCAvailable host = false
  · rw [if_pos hfirst]
    split_ifs
    · exact hout t _ _ (by decide)
    · exact hadd t _ (by decide)
  rw [if_neg hfirst]
  by_cases ho : t.ActiveSettings.OutputFormat = .NVENCHardware
  swap
  · rw [if_neg ho]
    exact hrefl t
  rw [if_pos ho]
  have hav : IsNVENCAvailable host = true := by
    cases h : IsNVENCAvailable host with
    | true => rfl
    | false => exact absurd ⟨ho, h⟩ hfirst
  have hhevc : Caps.bSupportsHEVC = true := QueryCapabilities_hevc host hav
  have e1 : s1 = t := if_neg (fun h => absurd (hhevc.symm.trans h.2) (by decide))
  have k2 : s2.ActiveSettings.Codec = s1.ActiveSettings.Codec ∧
      ("HEVC unsupported - falling back to H.264" ∈ s2.ActiveWarnings →
        "HEVC unsupported - falling back to H.264" ∈ s1.ActiveWarnings) := by
    unfold s2
    split_ifs
    · exact hfmt _ _ _ (by decide)
    · exact hrefl _
  have k3 : s3.ActiveSettings.Codec = s2.ActiveSettings.Codec ∧
      ("HEVC unsupported - falling back to H.264" ∈ s3.ActiveWarnings →
        "HEVC unsupported - falling back to H.264" ∈ s2.ActiveWarnings) := by
    unfold s3
    split_ifs
    · exact hfmt _ _ _ (by decide)
    · exact hrefl _
  have k4 : s4.ActiveSettings.Codec = s3.ActiveSettings.Codec ∧
      ("HEVC unsupported - falling back to H.264" ∈ s4.ActiveWarnings →
        "HEVC unsupported - falling back to H.264" ∈ s3.ActiveWarnings) := by
    unfold s4
    split_ifs
    · exact hfmt _ _ _ (by decide)
    · exact hrefl _
  have k5 : s5.ActiveSettings.Codec = s4.ActiveSettings.Codec ∧
      ("HEVC unsupported - falling back to H.264" ∈ s5.ActiveWarnings →
        "HEVC unsupported - falling back to H.264" ∈ s4.ActiveWarnings) := by
    unfold s5
    split_ifs
    · exact hzero _ _ _ (by decide)
    · exact hrefl _
    · exact hzero _ _ _ (by decide)
    · exact hrefl _
  have k51 := htrans s5 s4 s1 k5 (htrans s4 s3 s1 k4 (htrans s3 s2 s1 k3 k2))
  rw [e1] at k51
  split_ifs
  · exact hout t _ _ (by decide)
  · exact k51

end UOmniCaptureSubsystem

open UOmniCaptureSubsystem in
/-- C6, the divergence: `QueryCapabilities` copies `bSupportsHEVC` from
`bHardwareAvailable`, so a host whose hardware encoder is available always reports HEVC
support, and for every host and every state `ApplyFallbacks` leaves the codec as it was
and never records the warning of the HEVC to H.264 substitution. When `BeginCapture` is
given, in a state that is not capturing, settings requesting HEVC, P010 and
hardware-encoded output on a host where the hardware encoder is available, reports no
10-bit support and supports NV12, the active configuration has `Codec = HEVC`, not
`H264`, with `NVENCColorFormat = NV12`, output still hardware-encoded and the warning of
the colour-format substitution recorded. -/
theorem C6_hevc_to_h264_fallback_never_fires (eng : FEngine) (s : UOmniCaptureSubsystem)
    (In : FOmniCaptureSettings) (hs : s.bIsCapturing = false) (hres : 0 < In.Resolution)
    (hcodec : In.Codec = .HEVC) (hfmt : In.NVENCColorFormat = .P010)
    (hout : In.OutputFormat = .NVENCHardware)
    (havail : (QueryCapabilities eng.Host).bHardwareAvailable = true)
    (h10 : (QueryCapabilities eng.Host).bSupports10Bit = false)
    (hnv12 : (QueryCapabilities eng.Host).bSupportsNV12 = true) :
    (∀ host : FHost, (QueryCapabilities host).bHardwareAvailable = true →
      (QueryCapabilities host).bSupportsHEVC = true) ∧
    (∀ (e : FEngine) (t : UOmniCaptureSubsystem),
      (ApplyFallbacks e t).2.ActiveSettings.Codec = t.ActiveSettings.Codec ∧
      ("HEVC unsupported - falling back to H.264" ∈ (ApplyFallbacks e t).2.ActiveWarnings →
        "HEVC unsupported - falling back to H.264" ∈ t.ActiveWarnings)) ∧
    (BeginCapture eng s In).ActiveSettings.Codec = .HEVC ∧
    (BeginCapture eng s In).ActiveSettings.Codec ≠ .H264 ∧
    (BeginCapture eng s In).ActiveSettings.NVENCColorFormat = .NV12 ∧
    (BeginCapture eng s In).ActiveSettings.OutputFormat = .NVENCHardware ∧
    "P010 unsupported - switching to NV12" ∈ (BeginCapture eng s In).ActiveWarnings := by
  have h := BeginCapture_hevc_p010 eng s In hs hres hcodec hfmt hout havail h10 hnv12
  refine ⟨fun host hh => (QueryCapabilities_available host hh).2.2.1,
    fun e t => ApplyFallbacks_codec e t, h.2.1, ?_, h.2.2.1, h.2.2.2.1, h.2.2.2.2⟩
  rw [h.2.1]
  decide

open UOmniCaptureSubsystem in
/-- C6 at a concrete input: on a Windows host with the NVENC build, NV12 supported and
P010 not, `BeginCapture` with HEVC, P010 and hardware-encoded output moves to
`Recording` with `Codec = HEVC`; the only substitution warning recorded is the one of
the colour format. -/
theorem C6_hevc_to_h264_fallback_never_fires_witness :
    ((QueryCapabilities hostWindows).bHardwareAvailable = true ∧
      (QueryCapabilities hostWindows).bSupports10Bit = false ∧
      (QueryCapabilities hostWindows).bSupportsNV12 = true) ∧
    (sHEVCP010.Codec = .HEVC ∧ sHEVCP010.NVENCColorFormat = .P010 ∧
      sHEVCP010.OutputFormat = .NVENCHardware) ∧
    (BeginCapture (engineOn hostWindows) {} sHEVCP010).State = .Recording ∧
    ((BeginCapture (engineOn hostWindows) {} sHEVCP010).ActiveSettings.Codec = .HEVC ∧
      (BeginCapture (engineOn hostWindows) {} sHEVCP010).ActiveSettings.Codec ≠ .H264 ∧
      (BeginCapture (engineOn hostWindows) {} sHEVCP010).ActiveSettings.NVENCColorFormat
        = .NV12 ∧
      (BeginCapture (engineOn hostWindows) {} sHEVCP010).ActiveSettings.OutputFormat
        = .NVENCHardware ∧
      "P010 unsupported - switching to NV12" ∈
        (BeginCapture (engineOn hostWindows) {} sHEVCP010).ActiveWarnings) ∧
    "HEVC unsupported - falling back to H.264" ∉
      (BeginCapture (engineOn hostWindows) {} sHEVCP010).ActiveWarnings :=
  ⟨⟨by decide, by decide, by decide⟩, ⟨rfl, rfl, rfl⟩, by decide,
    (C6_hevc_to_h264_fallback_never_fires (engineOn hostWindows) {} sHEVCP010 rfl (by decide)
      rfl rfl rfl (by decide) (by decide) (by decide)).2.2, by decide⟩

end OmniCapture

namespace OmniCapture

end OmniCapture

namespace OmniCapture

end OmniCapture

namespace OmniCapture

end OmniCapture
